import Mathlib

/-! krypt-core-c: the generic ASN.1 value layer (krypt_asn1.c), the template parser
(krypt_asn1_template_parser.c) and the hex codec (krypt_hex.c)

A shallow embedding of `ext/krypt/core/krypt_asn1.c`, of the matching, parsing and
decoding functions of `ext/krypt/core/krypt_asn1_template_parser.c` and of
`ext/krypt/core/krypt_hex.c`.

* Octet streams are lists of naturals (every octet the code produces is below 256).
* A Ruby `VALUE` is a term of the inductive type `VALUE`; an ASN1Data instance carries its
  class, its instance variables and the wrapped `krypt_asn1_data` struct.
* A `rb_raise`, and a fault of the C program (a call through a pointer that was never
  assigned, a dereference of NULL), is an `Except.error` carrying a `Fault`.
* In-place mutation is explicit state passing: a function that mutates `self` returns the
  updated `self`.
* The header codec (`krypt_asn1_next_header`, `krypt_asn1_get_value`,
  `krypt_asn1_header_encode`, `krypt_asn1_object_encode`) lives in files that are not part
  of the sources at hand; those definitions are modelled from the specification and are
  marked as such. The universal codec table is a parameter `T` of every function that
  reads it; `krypt_asn1_codecs` is the instance the concrete evaluations use.
-/

namespace Krypt

/-! ## Data model -/

/-- An octet string. -/
abbrev Bytes := List Nat

/-- The four tag classes (`TAG_CLASS_*`). -/
inductive TagClass where
  | UNIVERSAL
  | APPLICATION
  | CONTEXT_SPECIFIC
  | PRIVATE
deriving DecidableEq, Repr

/-- Ruby symbol ids: the four interned tag class names (`sTC_*`) and any other symbol. -/
inductive ID where
  | sTC_UNIVERSAL
  | sTC_APPLICATION
  | sTC_CONTEXT_SPECIFIC
  | sTC_PRIVATE
  | other (n : Nat)
deriving DecidableEq, Repr

/-- The Ruby classes defined by `Init_krypt_asn1`. -/
inductive Klass where
  | cKryptASN1Data
  | cKryptASN1Primitive
  | cKryptASN1Constructive
  | cKryptASN1EndOfContents
  | cKryptASN1Boolean
  | cKryptASN1Integer
  | cKryptASN1Enumerated
  | cKryptASN1BitString
  | cKryptASN1OctetString
  | cKryptASN1UTF8String
  | cKryptASN1NumericString
  | cKryptASN1PrintableString
  | cKryptASN1T61String
  | cKryptASN1VideotexString
  | cKryptASN1IA5String
  | cKryptASN1GraphicString
  | cKryptASN1ISO64String
  | cKryptASN1GeneralString
  | cKryptASN1UniversalString
  | cKryptASN1BMPString
  | cKryptASN1Null
  | cKryptASN1ObjectId
  | cKryptASN1UTCTime
  | cKryptASN1GeneralizedTime
  | cKryptASN1Sequence
  | cKryptASN1Set
deriving DecidableEq, Repr

/-- Everything that ends a call abnormally: the exceptions raised with `rb_raise` and the
faults of the C program itself. -/
inductive Fault where
  /-- Raised as `eKryptParseError`, "Premature EOF detected" (by `krypt_asn1_decode`). -/
  | ParseError_premature_eof
  /-- Raised as `eKryptParseError`, "Universal tag too large: %d". -/
  | ParseError_universal_tag_too_large (tag : Int)
  /-- Raised as `eKryptParseError` inside the header codec: the stream ends inside a TLV. -/
  | ParseError_truncated
  /-- Raised as `eKryptParseError` inside the header codec: a malformed tag or length. -/
  | ParseError_malformed
  /-- Raised as `eKryptParseError`: indefinite length on a primitive encoding. -/
  | ParseError_infinite_primitive
  /-- Raised as `eKryptASN1Error`, "tag_class must be a Symbol". -/
  | ASN1Error_tag_class_must_be_symbol
  /-- Raised as `eKryptASN1Error`, "Tag too large for UNIVERSAL tag class". -/
  | ASN1Error_tag_too_large_for_universal
  /-- Raised as `eKryptASN1Error`, "ASN1Data already initialized". -/
  | ASN1Error_already_initialized
  /-- Raised as `eKryptASN1Error`: a symbol that names no tag class. -/
  | ASN1Error_unknown_tag_class
  /-- Raised as `eKryptError`, "Uninitialized krypt_asn1_data". -/
  | KryptError_uninitialized_data
  /-- Raised as `rb_eArgError`, "Uninitialized header". -/
  | ArgError_uninitialized_header
  /-- Raised as `rb_eArgError`, "Tag must be specified if tag class is". -/
  | ArgError_tag_must_be_specified
  /-- Raised as `rb_eArgError`, "Value for ASN.1 NULL must be nil". -/
  | ArgError_null_value_must_be_nil
  /-- Raised as `rb_eArgError` of `rb_scan_args`: wrong number of arguments. -/
  | ArgError_wrong_number_of_arguments
  /-- Raised as `rb_eTypeError`: `NUM2INT` of something that is not an integer, or a struct access
  on something that is not a wrapped struct. -/
  | TypeError
  /-- An exception raised by a value codec. -/
  | CodecError
  /-- Fault: a call through a function pointer that was never assigned. -/
  | fault_unassigned_callback
  /-- Fault: a dereference of a NULL pointer. -/
  | fault_null_dereference
  /-- Fault: an array access outside the array. -/
  | fault_out_of_bounds
  /-- Fault: an array macro applied to a VALUE that is not an Array. -/
  | fault_not_an_array
  /-- Raised by the macro `get_or_raise`: "'type is missing in ASN.1 definition". -/
  | Error_type_missing_in_definition
  /-- Raised by the macro `get_or_raise`: "'name' is missing in ASN.1 definition". -/
  | Error_name_missing_in_definition
  /-- Raised by the macro `get_or_raise`: "'layout' missing in ASN.1 definition". -/
  | Error_layout_missing_in_definition
  /-- Raised by the macro `get_or_raise`: "'min_size' is missing in ASN.1 definition". -/
  | Error_min_size_missing_in_definition
  /-- Raised as `rb_eNotImpError`, "Not implemented yet". -/
  | NotImpError
  /-- The recursion budget of the model ran out (never happens at the budgets used). -/
  | out_of_fuel
deriving DecidableEq, Repr

/-- The struct `krypt_asn1_header`, with the fields `krypt_asn1.c` reads and writes. The
cached tag and length octets are `none` when the C pointer is NULL. -/
structure krypt_asn1_header where
  tag : Int
  tag_class : TagClass
  is_constructed : Bool
  is_infinite : Bool
  length : Nat
  tag_bytes : Option Bytes
  tag_len : Nat
  length_bytes : Option Bytes
  length_len : Nat
  header_length : Nat
deriving DecidableEq, Repr

/-- The struct `krypt_asn1_object`: a header and the cached value octets (NULL = `none`). -/
structure krypt_asn1_object where
  header : krypt_asn1_header
  bytes : Option Bytes
  bytes_len : Nat
deriving DecidableEq, Repr

/-- The three decode callbacks a `krypt_asn1_data` can point to. -/
inductive int_asn1_decode_cb where
  | int_asn1_data_value_decode
  | int_asn1_cons_value_decode
  | int_asn1_prim_value_decode
deriving DecidableEq, Repr

/-- The three encode callbacks a `krypt_asn1_data` can point to. -/
inductive int_asn1_encode_cb where
  | int_asn1_data_encode_to
  | int_asn1_cons_encode_to
  | int_asn1_prim_encode_to
deriving DecidableEq, Repr

/-- The struct `krypt_asn1_data_st`. The struct is obtained with `ALLOC`, which does not
clear memory: a callback that no statement assigns stays `none`, and calling it is a fault.
`codec` points into the table `krypt_asn1_codecs`; the pointer is modelled by the index. -/
structure krypt_asn1_data where
  object : krypt_asn1_object
  decode_cb : Option int_asn1_decode_cb
  encode_cb : Option int_asn1_encode_cb
  codec : Option Int
deriving DecidableEq, Repr

/-- Ruby values. `asn1` is an instance of ASN1Data or of one of its subclasses: its class,
the instance variables `@tag`, `@tag_class`, `@infinite_length`, `@value`, `@unused_bits`
and the wrapped struct (`DATA_PTR`, `none` right after allocation). `object` stands for
any other Ruby object; all the code asks of it is whether it responds to `each`.
`asn1_class` is one of the classes of `Krypt::ASN1` itself, `template_class` a class that
includes `Krypt::ASN1::Template`, known by a number. -/
inductive VALUE where
  | qnil
  | qtrue
  | qfalse
  | fixnum (n : Int)
  | symbol (id : ID)
  | string (b : Bytes)
  | array (elems : List VALUE)
  | object (responds_to_each : Bool)
  | asn1 (klass : Klass) (iv_tag iv_tag_class iv_inf_len iv_value iv_unused_bits : VALUE)
      (data : Option krypt_asn1_data)
  | asn1_class (klass : Klass)
  | template_class (n : Nat)

/-- One entry of the table `krypt_asn1_codecs`: an encoder and a decoder, either of which
may be NULL. Both receive `self`. -/
structure krypt_asn1_codec where
  encoder : Option (VALUE → VALUE → Except Fault Bytes)
  decoder : Option (VALUE → Bytes → Except Fault VALUE)

/-- The table `krypt_asn1_codecs` (defined outside the sources at hand). It is indexed by
an `int`; what a read outside `0..30` yields is whatever the function returns there. -/
abbrev CodecTable := Int → krypt_asn1_codec

/-! ## Constants -/

def TAGS_END_OF_CONTENTS : Int := 0
def TAGS_BOOLEAN : Int := 1
def TAGS_INTEGER : Int := 2
def TAGS_BIT_STRING : Int := 3
def TAGS_OCTET_STRING : Int := 4
def TAGS_NULL : Int := 5
def TAGS_OBJECT_ID : Int := 6
def TAGS_ENUMERATED : Int := 10
def TAGS_UTF8_STRING : Int := 12
def TAGS_SEQUENCE : Int := 16
def TAGS_SET : Int := 17
def TAGS_NUMERIC_STRING : Int := 18
def TAGS_PRINTABLE_STRING : Int := 19
def TAGS_T61_STRING : Int := 20
def TAGS_VIDEOTEX_STRING : Int := 21
def TAGS_IA5_STRING : Int := 22
def TAGS_UTC_TIME : Int := 23
def TAGS_GENERALIZED_TIME : Int := 24
def TAGS_GRAPHIC_STRING : Int := 25
def TAGS_ISO64_STRING : Int := 26
def TAGS_GENERAL_STRING : Int := 27
def TAGS_UNIVERSAL_STRING : Int := 28
def TAGS_BMP_STRING : Int := 30

/-- The class column of the table `krypt_asn1_infos`: entry `i` is the class registered
for universal tag `i`, `none` where the table holds a NULL pointer. -/
def krypt_asn1_infos : List (Option Klass) :=
  [ some .cKryptASN1EndOfContents,   --  0
    some .cKryptASN1Boolean,         --  1
    some .cKryptASN1Integer,         --  2
    some .cKryptASN1BitString,       --  3
    some .cKryptASN1OctetString,     --  4
    some .cKryptASN1Null,            --  5
    some .cKryptASN1ObjectId,        --  6
    none,                            --  7
    none,                            --  8
    none,                            --  9
    some .cKryptASN1Enumerated,      -- 10
    none,                            -- 11
    some .cKryptASN1UTF8String,      -- 12
    none,                            -- 13
    none,                            -- 14
    none,                            -- 15
    some .cKryptASN1Sequence,        -- 16
    some .cKryptASN1Set,             -- 17
    some .cKryptASN1NumericString,   -- 18
    some .cKryptASN1PrintableString, -- 19
    some .cKryptASN1T61String,       -- 20
    some .cKryptASN1VideotexString,  -- 21
    some .cKryptASN1IA5String,       -- 22
    some .cKryptASN1UTCTime,         -- 23
    some .cKryptASN1GeneralizedTime, -- 24
    some .cKryptASN1GraphicString,   -- 25
    some .cKryptASN1ISO64String,     -- 26
    some .cKryptASN1GeneralString,   -- 27
    some .cKryptASN1UniversalString, -- 28
    none,                            -- 29
    some .cKryptASN1BMPString ]      -- 30

/-- The expression `*(krypt_asn1_infos[tag].klass)`: an index outside the table and a NULL
class pointer are faults. -/
def krypt_asn1_infos_klass (tag : Int) : Except Fault Klass :=
  if tag < 0 then .error .fault_out_of_bounds
  else
    match krypt_asn1_infos.get? tag.toNat with
    | none => .error .fault_out_of_bounds
    | some none => .error .fault_null_dereference
    | some (some k) => .ok k


/-! ## Header codec

The functions of this section are called by `krypt_asn1.c` but defined in
`krypt_asn1_parser.c`, which is not among the sources at hand. -/

/-- The value of `INT_MAX` for a 32 bit `int`. -/
def INT_MAX : Nat := 2147483647

/-- The largest number of length octets of the long form that the header codec accepts. -/
def KRYPT_LENGTH_OCTETS_MAX : Nat := 8

/-- The tag class held in bits 8 and 7 of the first tag octet. -/
def TagClass.ofBits (n : Nat) : TagClass :=
  match n % 4 with
  | 0 => .UNIVERSAL
  | 1 => .APPLICATION
  | 2 => .CONTEXT_SPECIFIC
  | _ => .PRIVATE

/-- The two class bits of a tag class. -/
def TagClass.bits : TagClass → Nat
  | .UNIVERSAL => 0
  | .APPLICATION => 1
  | .CONTEXT_SPECIFIC => 2
  | .PRIVATE => 3

/-- Modelled from the spec: `krypt_asn1_tag_class_for_int` is missing from the sources; the
symbol naming a tag class ("tag_class: one of UNIVERSAL, APPLICATION, CONTEXT_SPECIFIC,
PRIVATE"). -/
def krypt_asn1_tag_class_for_int : TagClass → ID
  | .UNIVERSAL => .sTC_UNIVERSAL
  | .APPLICATION => .sTC_APPLICATION
  | .CONTEXT_SPECIFIC => .sTC_CONTEXT_SPECIFIC
  | .PRIVATE => .sTC_PRIVATE

/-- Modelled from the spec: `krypt_asn1_tag_class_for_id` is missing from the sources; the
tag class named by a symbol. A symbol that names no tag class is rejected. -/
def krypt_asn1_tag_class_for_id : ID → Except Fault TagClass
  | .sTC_UNIVERSAL => .ok .UNIVERSAL
  | .sTC_APPLICATION => .ok .APPLICATION
  | .sTC_CONTEXT_SPECIFIC => .ok .CONTEXT_SPECIFIC
  | .sTC_PRIVATE => .ok .PRIVATE
  | .other _ => .error .ASN1Error_unknown_tag_class

/-- Modelled from the spec: the multi-octet tag form of section 4.2, missing from the
sources: "the tag is encoded in subsequent octets as a high-bit-continuation base-128
integer (most-significant-first); accumulate until an octet with bit 8 clear. Reject tag
numbers that would exceed the integer bound". Returns the tag, the octets read and the
rest of the stream. -/
def int_parse_complex_tag : Nat → Bytes → Except Fault (Nat × Bytes × Bytes)
  | _, [] => .error .ParseError_truncated
  | acc, b :: rest =>
    if INT_MAX < acc * 128 + b % 128 then .error .ParseError_malformed
    else if 128 ≤ b then
      match int_parse_complex_tag (acc * 128 + b % 128) rest with
      | .ok (t, used, r) => .ok (t, b :: used, r)
      | .error e => .error e
    else .ok (acc * 128 + b % 128, [b], rest)

/-- Modelled from the spec: tag decoding of section 4.2, missing from the sources: "bits
1-5 give tag. If all low five bits are set (value 31), the tag is encoded in subsequent
octets". `b` is the first octet. Returns the tag, the tag octets and the rest. -/
def int_parse_tag (b : Nat) (rest : Bytes) : Except Fault (Nat × Bytes × Bytes) :=
  if b % 32 = 31 then
    match int_parse_complex_tag 0 rest with
    | .ok (t, used, r) => .ok (t, b :: used, r)
    | .error e => .error e
  else .ok (b % 32, [b], rest)

/-- Modelled from the spec: the long form of section 4.2, missing from the sources: "read
n octets big-endian as length". Returns the length, the octets read and the rest; `none`
when the stream ends early. -/
def int_parse_length_octets : Nat → Nat → Bytes → Option (Nat × Bytes × Bytes)
  | 0, acc, inp => some (acc, [], inp)
  | _ + 1, _, [] => none
  | n + 1, acc, b :: rest =>
    match int_parse_length_octets n (acc * 256 + b) rest with
    | some (len, used, r) => some (len, b :: used, r)
    | none => none

/-- Modelled from the spec: length decoding of section 4.2, missing from the sources: "L =
0x80: indefinite length; L and 0x80 = 0: short form; otherwise long form, n = L and 0x7F
(must be > 0 and at most the integer size)", with the boundary behaviour of section 8
("long-form length with leading zero or n = 0 octets of length is rejected"). Returns the
length, the indefinite flag, the length octets and the rest. -/
def int_parse_length : Bytes → Except Fault (Nat × Bool × Bytes × Bytes)
  | [] => .error .ParseError_truncated
  | l :: rest =>
    if l = 128 then .ok (0, true, [l], rest)
    else if l < 128 then .ok (l, false, [l], rest)
    else if l % 128 = 0 ∨ KRYPT_LENGTH_OCTETS_MAX < l % 128 then .error .ParseError_malformed
    else
      match int_parse_length_octets (l % 128) 0 rest with
      | none => .error .ParseError_truncated
      | some (len, used, r) =>
        if used.head? = some 0 then .error .ParseError_malformed
        else .ok (len, false, l :: used, r)

/-- Modelled from the spec: `krypt_asn1_next_header` is missing from the sources; section
4.2. The result is `none` (the C function returns 0) when the stream is at its end, and
otherwise the parsed header, which caches the tag and length octets exactly as read,
together with the rest of the stream. "Premature EOF in the middle of a tag, length, or
multi-octet length: ParseError; indefinite length on a primitive encoding: ParseError". -/
def krypt_asn1_next_header (inp : Bytes) : Except Fault (Option (krypt_asn1_header × Bytes)) :=
  match inp with
  | [] => .ok none
  | b :: rest =>
    match int_parse_tag b rest with
    | .error e => .error e
    | .ok (tag, tag_bytes, rest1) =>
      match int_parse_length rest1 with
      | .error e => .error e
      | .ok (len, inf, length_bytes, rest2) =>
        if inf = true ∧ ¬ (b / 32 % 2 = 1) then .error .ParseError_infinite_primitive
        else
          .ok (some ({ tag := (tag : Int),
                       tag_class := TagClass.ofBits (b / 64),
                       is_constructed := decide (b / 32 % 2 = 1),
                       is_infinite := inf,
                       length := len,
                       tag_bytes := some tag_bytes,
                       tag_len := tag_bytes.length,
                       length_bytes := some length_bytes,
                       length_len := length_bytes.length,
                       header_length := tag_bytes.length + length_bytes.length }, rest2))

/-- Modelled from the spec: the End-Of-Contents marker, "universal tag 0, zero length". -/
def krypt_asn1_header_is_eoc (h : krypt_asn1_header) : Bool :=
  decide (h.tag = 0) && decide (h.tag_class = .UNIVERSAL) && !h.is_infinite && decide (h.length = 0)

/-- The octets a parsed header was read from. -/
def krypt_asn1_header_octets (h : krypt_asn1_header) : Bytes :=
  h.tag_bytes.getD [] ++ h.length_bytes.getD []

/-- Modelled from the spec: the value of an indefinite length TLV, read by the missing
`krypt_asn1_get_value`: "for indefinite length, read until an End-Of-Contents marker is
encountered at the current nesting level". `depth` counts the indefinite length values
that are open inside the one being read. The closing marker belongs to the octets
returned: `int_parse_cons` reads it from the value octets of the object, and
`int_asn1_cons_encode_to` writes none of its own. Returns the value and the rest. -/
def int_consume_indefinite : Nat → Nat → Bytes → Except Fault (Bytes × Bytes)
  | 0, _, _ => .error .out_of_fuel
  | fuel + 1, depth, inp =>
    match krypt_asn1_next_header inp with
    | .error e => .error e
    | .ok none => .error .ParseError_truncated
    | .ok (some (h, rest)) =>
      if krypt_asn1_header_is_eoc h = true then
        match depth with
        | 0 => .ok (krypt_asn1_header_octets h, rest)
        | d + 1 =>
          match int_consume_indefinite fuel d rest with
          | .error e => .error e
          | .ok (v, r) => .ok (krypt_asn1_header_octets h ++ v, r)
      else if h.is_infinite = true then
        match int_consume_indefinite fuel (depth + 1) rest with
        | .error e => .error e
        | .ok (v, r) => .ok (krypt_asn1_header_octets h ++ v, r)
      else if rest.length < h.length then .error .ParseError_truncated
      else
        match int_consume_indefinite fuel depth (rest.drop h.length) with
        | .error e => .error e
        | .ok (v, r) => .ok (krypt_asn1_header_octets h ++ rest.take h.length ++ v, r)

/-- Modelled from the spec: `krypt_asn1_get_value` is missing from the sources; section
4.4, step 2: "Read exactly header.length value octets for definite length; for indefinite
length, read until an End-Of-Contents marker is encountered at the current nesting level".
Returns the value octets and the rest of the stream; a stream that ends early is a
ParseError ("EOF mid-TLV is a ParseError"). -/
def krypt_asn1_get_value (inp : Bytes) (h : krypt_asn1_header) : Except Fault (Bytes × Bytes) :=
  if h.is_infinite = true then int_consume_indefinite (inp.length + 1) 0 inp
  else if inp.length < h.length then .error .ParseError_truncated
  else .ok (inp.take h.length, inp.drop h.length)

/-- Modelled from the spec: `krypt_asn1_header_new` is missing from the sources; a header
with every field zero and no cached octets. -/
def krypt_asn1_header_new : krypt_asn1_header :=
  { tag := 0, tag_class := .UNIVERSAL, is_constructed := false, is_infinite := false,
    length := 0, tag_bytes := none, tag_len := 0, length_bytes := none, length_len := 0,
    header_length := 0 }

/-- Modelled from the spec: `krypt_asn1_object_new` is missing from the sources; "Object:
pair (header, bytes) where bytes may be null for objects constructed from sub-elements
whose serialisation is deferred". -/
def krypt_asn1_object_new (header : krypt_asn1_header) : krypt_asn1_object :=
  { header := header, bytes := none, bytes_len := 0 }

/-- Modelled from the spec: `krypt_asn1_object_new_value` is missing from the sources;
"Object: pair (header, bytes) where bytes is the raw content octets". A parsed object
holds the value octets that were read, also when there are none of them. -/
def krypt_asn1_object_new_value (header : krypt_asn1_header) (value : Bytes) (len : Nat) :
    krypt_asn1_object :=
  { header := header, bytes := some value, bytes_len := len }

/-- The digits of `n` in base `base`, most significant first (`fuel` bounds their number). -/
def int_digits (base : Nat) : Nat → Nat → List Nat
  | 0, _ => []
  | fuel + 1, n => if n < base then [n] else int_digits base fuel (n / base) ++ [n % base]

/-- Modelled from the spec: the tag octets of a header, computed by the missing
`krypt_asn1_header_encode` ("Encoding is the inverse" of tag decoding, section 4.2): class
bits, constructed bit and the tag, in the multi-octet form from 31 on. -/
def int_compute_tag (h : krypt_asn1_header) : Bytes :=
  if h.tag < 31 then
    [h.tag_class.bits * 64 + (if h.is_constructed then 32 else 0) + h.tag.toNat]
  else
    (h.tag_class.bits * 64 + (if h.is_constructed then 32 else 0) + 31) ::
      ((int_digits 128 (h.tag.toNat + 1) h.tag.toNat).dropLast.map (fun d => d + 128) ++
        [h.tag.toNat % 128])

/-- Modelled from the spec: the length octets of a header, computed by the missing
`krypt_asn1_header_encode` ("Encoding is the inverse" of length decoding; "header length
encodes canonically under short form iff length < 128"). -/
def int_compute_length (h : krypt_asn1_header) : Bytes :=
  if h.is_infinite then [128]
  else if h.length < 128 then [h.length]
  else
    (128 + (int_digits 256 (h.length + 1) h.length).length) ::
      int_digits 256 (h.length + 1) h.length

/-- Modelled from the spec: `krypt_asn1_header_encode` is missing from the sources; section
4.2: "The header codec caches the produced tag and length byte sequences on the Header so
that reserialisation is byte-identical to the original when no field has been mutated";
section 8: "Mutating any header field clears the cached header/length bytes; subsequent
encode re-derives them". Returns the octets written and the header with its caches. -/
def krypt_asn1_header_encode (h : krypt_asn1_header) : Bytes × krypt_asn1_header :=
  let tag_bytes := h.tag_bytes.getD (int_compute_tag h)
  let length_bytes := h.length_bytes.getD (int_compute_length h)
  (tag_bytes ++ length_bytes,
   { h with tag_bytes := some tag_bytes, tag_len := tag_bytes.length,
            length_bytes := some length_bytes, length_len := length_bytes.length,
            header_length := tag_bytes.length + length_bytes.length })

/-- Modelled from the spec: `krypt_asn1_object_encode` is missing from the sources; section
4.5: "If the cached raw header bytes and value bytes are present, write them verbatim":
the header as encoded by `krypt_asn1_header_encode`, then the `bytes_len` value octets.
Returns the octets written and the object with its header caches. -/
def krypt_asn1_object_encode (o : krypt_asn1_object) : Bytes × krypt_asn1_object :=
  ((krypt_asn1_header_encode o.header).1 ++ (o.bytes.getD []).take o.bytes_len,
   { o with header := (krypt_asn1_header_encode o.header).2 })

/-- Modelled from the spec: `krypt_asn1_decode_default` is missing from the sources; section
4.3: "the generic decoder falls back to an identity byte-sequence representation". -/
def krypt_asn1_decode_default (_self : VALUE) (bytes : Bytes) : Except Fault VALUE :=
  .ok (.string bytes)

/-- Modelled from the spec: `krypt_asn1_encode_default` is missing from the sources; the
inverse of the identity representation: the octets of a String. Anything else is not
a byte sequence and is rejected. -/
def krypt_asn1_encode_default (_self : VALUE) (value : VALUE) : Except Fault Bytes :=
  match value with
  | .string b => .ok b
  | _ => .error .TypeError

/-! ## krypt_asn1.c -/

/-- The call `rb_respond_to(value, sID_EACH)`: Arrays respond to `each`, as do the
instances of Constructive and its subclasses (`Init_krypt_asn1` defines `each` on
Constructive); for any other object the flag it carries answers. -/
def rb_respond_to_each : VALUE → Bool
  | .array _ => true
  | .object r => r
  | .asn1 .cKryptASN1Constructive _ _ _ _ _ _ => true
  | .asn1 .cKryptASN1Sequence _ _ _ _ _ _ => true
  | .asn1 .cKryptASN1Set _ _ _ _ _ _ => true
  | _ => false

/-- The macro `NIL_P`. -/
def NIL_P : VALUE → Bool
  | .qnil => true
  | _ => false

/-- The macro `NUM2INT`: the `int` held by an Integer; anything else raises a TypeError.
The Integer is taken to fit an `int`: for one that does not, Ruby raises a RangeError,
which the model leaves out, so what is stated of a tag is stated of a tag within
`-INT_MAX - 1 .. INT_MAX`. -/
def NUM2INT : VALUE → Except Fault Int
  | .fixnum n => .ok n
  | _ => .error .TypeError

/-- The function `int_codec_for`. The index it reads the table at is `tag`. -/
def int_codec_for (T : CodecTable) (object : krypt_asn1_object) : Option Int :=
  if object.header.tag < 31 ∧ object.header.tag_class = .UNIVERSAL then
    if (T object.header.tag).encoder.isNone then none else some object.header.tag
  else none

/-- The function `int_asn1_data_new`: `ALLOC` leaves both callbacks unassigned. -/
def int_asn1_data_new (T : CodecTable) (object : krypt_asn1_object) : krypt_asn1_data :=
  { object := object, decode_cb := none, encode_cb := none, codec := int_codec_for T object }

/-- The function `krypt_asn1_data_new`, the initializer of freshly parsed values. `inp` is
the stream right after the header; the result is the new object and the stream after the
value. -/
def krypt_asn1_data_new (T : CodecTable) (inp : Bytes) (header : Option krypt_asn1_header) :
    Except Fault (VALUE × Bytes) :=
  match header with
  | none => .error .ArgError_uninitialized_header
  | some header =>
    match krypt_asn1_get_value inp header with
    | .error e => .error e
    | .ok (value, rest) =>
      match
        (if header.tag_class = .UNIVERSAL then
          if header.tag > 30 then
            .error (.ParseError_universal_tag_too_large header.tag)
          else if header.is_constructed = true then
            .ok (.cKryptASN1Constructive,
              { int_asn1_data_new T (krypt_asn1_object_new_value header value value.length) with
                decode_cb := some .int_asn1_cons_value_decode,
                encode_cb := some .int_asn1_cons_encode_to })
          else
            match krypt_asn1_infos_klass header.tag with
            | .error e => .error e
            | .ok klass =>
              .ok (klass,
                { int_asn1_data_new T (krypt_asn1_object_new_value header value value.length) with
                  decode_cb := some .int_asn1_prim_value_decode,
                  encode_cb := some .int_asn1_prim_encode_to })
        else
          .ok (.cKryptASN1Data,
            { int_asn1_data_new T (krypt_asn1_object_new_value header value value.length) with
              decode_cb := some .int_asn1_data_value_decode }) :
          Except Fault (Klass × krypt_asn1_data)) with
      | .error e => .error e
      | .ok (klass, data) =>
        .ok (.asn1 klass (.fixnum header.tag)
              (.symbol (krypt_asn1_tag_class_for_int header.tag_class))
              (if header.is_infinite = true then .qtrue else .qfalse) .qnil .qnil (some data),
             rest)

/-- The function `krypt_asn1_decode` (`ASN1.decode`): `obj` is the octet stream read from
the argument. Returns the decoded value and the stream behind it. -/
def krypt_asn1_decode (T : CodecTable) (obj : Bytes) : Except Fault (VALUE × Bytes) :=
  match krypt_asn1_next_header obj with
  | .error e => .error e
  | .ok none => .error .ParseError_premature_eof
  | .ok (some (header, rest)) => krypt_asn1_data_new T rest (some header)

/-- The macro `int_invalidate_tag`. -/
def int_invalidate_tag (h : krypt_asn1_header) : krypt_asn1_header :=
  { h with tag_bytes := none, tag_len := 0, header_length := 0 }

/-- The macro `int_invalidate_length`. -/
def int_invalidate_length (h : krypt_asn1_header) : krypt_asn1_header :=
  { h with length_bytes := none, length_len := 0, length := 0, header_length := 0 }

/-- The macro `int_invalidate_value`. -/
def int_invalidate_value (o : krypt_asn1_object) : krypt_asn1_object :=
  { o with bytes := none, bytes_len := 0, header := int_invalidate_length o.header }

/-- The function `int_asn1_prim_encode_to`: returns the octets written and the updated
struct. A codec whose encoder is NULL cannot be called. -/
def int_asn1_prim_encode_to (T : CodecTable) (self value : VALUE) (data : krypt_asn1_data) :
    Except Fault (Bytes × krypt_asn1_data) :=
  match
    (match data.codec with
     | some i =>
       match (T i).encoder with
       | some encoder => encoder self value
       | none => .error .fault_null_dereference
     | none => krypt_asn1_encode_default self value : Except Fault Bytes) with
  | .error e => .error e
  | .ok bytes =>
    .ok ((krypt_asn1_object_encode
            { header := { data.object.header with length := bytes.length },
              bytes := some bytes, bytes_len := bytes.length }).1,
         { data with object := (krypt_asn1_object_encode
            { header := { data.object.header with length := bytes.length },
              bytes := some bytes, bytes_len := bytes.length }).2 })

mutual
/-- The function `int_asn1_encode_to`: returns the octets written to `out` and the updated
`self`. The call through `data->encode_cb` is a fault when the callback was never
assigned; `int_asn1_data_encode_to` dispatches on the constructed flag of the header. -/
def int_asn1_encode_to (T : CodecTable) : VALUE → Except Fault (Bytes × VALUE)
  | .asn1 klass iv_tag iv_tag_class iv_inf_len iv_value iv_unused_bits (some data) =>
    match data.object.bytes with
    | none =>
      match data.encode_cb with
      | none => .error .fault_unassigned_callback
      | some cb =>
        if cb = .int_asn1_cons_encode_to ∨
            (cb = .int_asn1_data_encode_to ∧ data.object.header.is_constructed = true) then
          match int_asn1_cons_encode_to T iv_value data with
          | .error e => .error e
          | .ok (out, ary, data2) =>
            .ok (out, .asn1 klass iv_tag iv_tag_class iv_inf_len ary iv_unused_bits (some data2))
        else
          match int_asn1_prim_encode_to T
              (.asn1 klass iv_tag iv_tag_class iv_inf_len iv_value iv_unused_bits (some data))
              iv_value data with
          | .error e => .error e
          | .ok (out, data2) =>
            .ok (out,
              .asn1 klass iv_tag iv_tag_class iv_inf_len iv_value iv_unused_bits (some data2))
    | some _ =>
      .ok ((krypt_asn1_object_encode data.object).1,
           .asn1 klass iv_tag iv_tag_class iv_inf_len iv_value iv_unused_bits
             (some { data with object := (krypt_asn1_object_encode data.object).2 }))
  | .asn1 _ _ _ _ _ _ none => .error .KryptError_uninitialized_data
  | _ => .error .TypeError
/-- The function `int_asn1_cons_encode_to`: returns the octets written, the array with its
updated elements and the updated struct. -/
def int_asn1_cons_encode_to (T : CodecTable) :
    VALUE → krypt_asn1_data → Except Fault (Bytes × VALUE × krypt_asn1_data)
  | .array elems, data =>
    if data.object.header.length_bytes.isNone = true ∧ data.object.header.is_infinite = false then
      match int_cons_encode_sub_elems T elems with
      | .error e => .error e
      | .ok (bytes, elems2) =>
        .ok ((krypt_asn1_header_encode { data.object.header with length := bytes.length }).1 ++
               bytes.take bytes.length,
             .array elems2,
             { data with object := { data.object with header :=
                 (krypt_asn1_header_encode
                   { data.object.header with length := bytes.length }).2 } })
    else
      match int_cons_encode_sub_elems T elems with
      | .error e => .error e
      | .ok (bytes, elems2) =>
        .ok ((krypt_asn1_header_encode data.object.header).1 ++ bytes,
             .array elems2,
             { data with object := { data.object with header :=
                 (krypt_asn1_header_encode data.object.header).2 } })
  | _, _ => .error .fault_not_an_array
/-- The function `int_cons_encode_sub_elems`: the elements are encoded in array order. -/
def int_cons_encode_sub_elems (T : CodecTable) : List VALUE → Except Fault (Bytes × List VALUE)
  | [] => .ok ([], [])
  | cur :: more =>
    match int_asn1_encode_to T cur with
    | .error e => .error e
    | .ok (out, cur2) =>
      match int_cons_encode_sub_elems T more with
      | .error e => .error e
      | .ok (outs, more2) => .ok (out ++ outs, cur2 :: more2)
end

/-- The function `krypt_asn1_data_to_der`: the encoding and the updated `self`. -/
def krypt_asn1_data_to_der (T : CodecTable) (self : VALUE) : Except Fault (Bytes × VALUE) :=
  int_asn1_encode_to T self

/-- The function `krypt_asn1_data_encode_to`: `io` is what the sink holds already; returns
the sink after the write and the updated `self`. -/
def krypt_asn1_data_encode_to (T : CodecTable) (self : VALUE) (io : Bytes) :
    Except Fault (Bytes × VALUE) :=
  match int_asn1_encode_to T self with
  | .error e => .error e
  | .ok (out, self2) => .ok (io ++ out, self2)

/-- The loop of `int_asn1_cons_value_decode`: headers are read until the stream is at its
end, and every header is handed to `krypt_asn1_data_new`. -/
def int_asn1_cons_value_decode_loop (T : CodecTable) : Nat → Bytes → Except Fault (List VALUE)
  | 0, _ => .error .out_of_fuel
  | fuel + 1, inp =>
    match krypt_asn1_next_header inp with
    | .error e => .error e
    | .ok none => .ok []
    | .ok (some (header, rest)) =>
      match krypt_asn1_data_new T rest (some header) with
      | .error e => .error e
      | .ok (cur, rest2) =>
        match int_asn1_cons_value_decode_loop T fuel rest2 with
        | .error e => .error e
        | .ok more => .ok (cur :: more)

/-- The function `int_asn1_cons_value_decode`: returns the array of the children and the
struct, whose cached value octets are deleted. -/
def int_asn1_cons_value_decode (T : CodecTable) (data : krypt_asn1_data) :
    Except Fault (VALUE × krypt_asn1_data) :=
  match int_asn1_cons_value_decode_loop T ((data.object.bytes.getD []).length + 1)
      ((data.object.bytes.getD []).take data.object.bytes_len) with
  | .error e => .error e
  | .ok ary =>
    .ok (.array ary, { data with object := { data.object with bytes := none, bytes_len := 0 } })

/-- The function `int_asn1_prim_value_decode`. A codec whose decoder is NULL cannot be
called. -/
def int_asn1_prim_value_decode (T : CodecTable) (self : VALUE) (data : krypt_asn1_data) :
    Except Fault VALUE :=
  match data.codec with
  | some i =>
    match (T i).decoder with
    | some decoder => decoder self ((data.object.bytes.getD []).take data.object.bytes_len)
    | none => .error .fault_null_dereference
  | none =>
    krypt_asn1_decode_default self ((data.object.bytes.getD []).take data.object.bytes_len)

/-- The call `data->decode_cb(self, data)`, with `int_asn1_data_value_decode` dispatching
on the constructed flag. Returns the value and the updated struct. -/
def int_asn1_decode_cb_call (T : CodecTable) (self : VALUE) (data : krypt_asn1_data) :
    Except Fault (VALUE × krypt_asn1_data) :=
  match data.decode_cb with
  | none => .error .fault_unassigned_callback
  | some cb =>
    if cb = .int_asn1_cons_value_decode ∨
        (cb = .int_asn1_data_value_decode ∧ data.object.header.is_constructed = true) then
      int_asn1_cons_value_decode T data
    else
      match int_asn1_prim_value_decode T self data with
      | .error e => .error e
      | .ok value => .ok (value, data)

/-- The function `krypt_asn1_data_get_value` (the reader `value`): returns the value and
the updated `self`. -/
def krypt_asn1_data_get_value (T : CodecTable) (self : VALUE) : Except Fault (VALUE × VALUE) :=
  match self with
  | .asn1 klass iv_tag iv_tag_class iv_inf_len iv_value iv_unused_bits data =>
    if NIL_P iv_value = true then
      match data with
      | none => .error .KryptError_uninitialized_data
      | some data =>
        match data.object.bytes with
        | some _ =>
          match int_asn1_decode_cb_call T self data with
          | .error e => .error e
          | .ok (value, data2) =>
            .ok (value,
              .asn1 klass iv_tag iv_tag_class iv_inf_len value iv_unused_bits (some data2))
        | none => .ok (iv_value, self)
    else .ok (iv_value, self)
  | _ => .error .TypeError

/-- The function `krypt_asn1_data_set_tag` (the writer `tag=`): returns the result and the
updated `self`. -/
def krypt_asn1_data_set_tag (T : CodecTable) (self tag : VALUE) : Except Fault (VALUE × VALUE) :=
  match self with
  | .asn1 klass _ iv_tag_class iv_inf_len iv_value iv_unused_bits (some data) =>
    match NUM2INT tag with
    | .error e => .error e
    | .ok new_tag =>
      if data.object.header.tag = new_tag then .ok (tag, self)
      else
        .ok (tag,
          .asn1 klass tag iv_tag_class iv_inf_len iv_value iv_unused_bits
            (some { data with
              object := { data.object with
                header := int_invalidate_tag { data.object.header with tag := new_tag } },
              codec := int_codec_for T { data.object with
                header := int_invalidate_tag { data.object.header with tag := new_tag } } }))
  | .asn1 _ _ _ _ _ _ none => .error .KryptError_uninitialized_data
  | _ => .error .TypeError

/-- The macro `SYM2ID`. It checks nothing: applied to something that is not a Symbol it
yields an id that names no tag class. -/
def SYM2ID : VALUE → ID
  | .symbol id => id
  | _ => .other 0

/-- The macro `SYMBOL_P`. -/
def SYMBOL_P : VALUE → Bool
  | .symbol _ => true
  | _ => false

/-- The function `krypt_asn1_data_set_tag_class` (the writer `tag_class=`): returns the
result and the updated `self`. -/
def krypt_asn1_data_set_tag_class (self tag_class : VALUE) : Except Fault (VALUE × VALUE) :=
  match self with
  | .asn1 klass iv_tag _ iv_inf_len iv_value iv_unused_bits (some data) =>
    match krypt_asn1_tag_class_for_id (SYM2ID tag_class) with
    | .error e => .error e
    | .ok new_tag_class =>
      if data.object.header.tag_class = new_tag_class then .ok (tag_class, self)
      else
        .ok (tag_class,
          .asn1 klass iv_tag tag_class iv_inf_len iv_value iv_unused_bits
            (some { data with
              object := { data.object with
                header := int_invalidate_tag
                  { data.object.header with tag_class := new_tag_class } } }))
  | .asn1 _ _ _ _ _ _ none => .error .KryptError_uninitialized_data
  | _ => .error .TypeError

/-- The expression `!(inf_length == Qfalse)`. -/
def int_new_inf : VALUE → Bool
  | .qfalse => false
  | _ => true

/-- The function `krypt_asn1_data_set_inf_length` (the writer `infinite_length=`): returns
the result and the updated `self`. -/
def krypt_asn1_data_set_inf_length (self inf_length : VALUE) : Except Fault (VALUE × VALUE) :=
  match self with
  | .asn1 klass iv_tag iv_tag_class _ iv_value iv_unused_bits (some data) =>
    if data.object.header.is_infinite = int_new_inf inf_length then .ok (inf_length, self)
    else
      .ok (inf_length,
        .asn1 klass iv_tag iv_tag_class inf_length iv_value iv_unused_bits
          (some { data with
            object := { data.object with
              header := int_invalidate_length
                { data.object.header with is_infinite := int_new_inf inf_length } } }))
  | .asn1 _ _ _ _ _ _ none => .error .KryptError_uninitialized_data
  | _ => .error .TypeError

/-- The function `krypt_asn1_data_set_value` (the writer `value=`): returns the result and
the updated `self`. -/
def krypt_asn1_data_set_value (self value : VALUE) : Except Fault (VALUE × VALUE) :=
  match self with
  | .asn1 klass iv_tag iv_tag_class iv_inf_len _ iv_unused_bits (some data) =>
    if (int_invalidate_value data.object).header.is_constructed ≠ rb_respond_to_each value then
      .ok (value,
        .asn1 klass iv_tag iv_tag_class iv_inf_len value iv_unused_bits
          (some { data with
            object := { int_invalidate_value data.object with
              header := int_invalidate_tag
                { (int_invalidate_value data.object).header with
                  is_constructed := rb_respond_to_each value } } }))
    else
      .ok (value,
        .asn1 klass iv_tag iv_tag_class iv_inf_len value iv_unused_bits
          (some { data with object := int_invalidate_value data.object }))
  | .asn1 _ _ _ _ _ _ none => .error .KryptError_uninitialized_data
  | _ => .error .TypeError

/-! ### Initializers of values created from scratch -/

/-- The function `krypt_asn1_data_alloc`: a wrapped struct pointer that is still NULL. -/
def krypt_asn1_data_alloc (klass : Klass) : VALUE :=
  .asn1 klass .qnil .qnil .qnil .qnil .qnil none

/-- The function `int_asn1_data_initialize`, the generic helper. No statement assigns
the decode callback. `DATA_PTR(self)` reads the struct of `self` without a check of its
type: on `Qfalse`, the word 0, the read goes through a NULL pointer. -/
def int_asn1_data_initialize (T : CodecTable) (self : VALUE) (tag : Int) (tag_class : TagClass)
    (is_constructed is_infinite : Bool) (cb : int_asn1_encode_cb) : Except Fault VALUE :=
  match self with
  | .asn1 klass iv_tag iv_tag_class iv_inf_len iv_value iv_unused_bits none =>
    .ok (.asn1 klass iv_tag iv_tag_class iv_inf_len iv_value iv_unused_bits
      (some
        { int_asn1_data_new T (krypt_asn1_object_new
            { krypt_asn1_header_new with
              tag := tag, tag_class := tag_class, is_constructed := is_constructed,
              is_infinite := is_infinite }) with
          codec :=
            if tag_class = .UNIVERSAL then
              int_codec_for T (krypt_asn1_object_new
                { krypt_asn1_header_new with
                  tag := tag, tag_class := tag_class, is_constructed := is_constructed,
                  is_infinite := is_infinite })
            else
              (int_asn1_data_new T (krypt_asn1_object_new
                { krypt_asn1_header_new with
                  tag := tag, tag_class := tag_class, is_constructed := is_constructed,
                  is_infinite := is_infinite })).codec,
          encode_cb := some cb }))
  | .asn1 _ _ _ _ _ _ (some _) => .error .ASN1Error_already_initialized
  | .qfalse => .error .fault_null_dereference
  | _ => .error .TypeError

/-- The value of the constant `Qtrue` as an integer (ruby.h); `rb_respond_to` returns the
`int` 1 or 0. -/
def Qtrue_as_int : Nat := 2

/-- The instance variables written at the end of the initializers. -/
def int_asn1_data_set_ivars (self vtag vtag_class value : VALUE) : VALUE :=
  match self with
  | .asn1 klass _ _ _ _ iv_unused_bits data =>
    .asn1 klass vtag vtag_class .qfalse value iv_unused_bits data
  | other => other

/-- The function `krypt_asn1_data_initialize`, used by the values that are not UNIVERSAL,
with the four parameters it declares. The constructed flag is
`rb_respond_to(value, sID_EACH) == Qtrue`, an `int` compared with the constant `Qtrue`.
What the parameters hold when Ruby calls the function is another matter: see
`krypt_asn1_data_initialize_registered`. -/
def krypt_asn1_data_initialize (T : CodecTable) (self value vtag vtag_class : VALUE) :
    Except Fault VALUE :=
  if SYMBOL_P vtag_class = false then .error .ASN1Error_tag_class_must_be_symbol
  else
    match NUM2INT vtag with
    | .error e => .error e
    | .ok tag =>
      if SYM2ID vtag_class = .sTC_UNIVERSAL ∧ tag > 30 then
        .error .ASN1Error_tag_too_large_for_universal
      else
        match krypt_asn1_tag_class_for_id (SYM2ID vtag_class) with
        | .error e => .error e
        | .ok tag_class =>
          match int_asn1_data_initialize T self tag tag_class
              (decide ((if rb_respond_to_each value = true then 1 else 0) = Qtrue_as_int))
              false .int_asn1_data_encode_to with
          | .error e => .error e
          | .ok self2 => .ok ( int_asn1_data_set_ivars self2 vtag vtag_class value)

/-- The code `data->codec = &krypt_asn1_codecs[default_tag]` of the default helper. -/
def int_asn1_data_override_codec (self : VALUE) (default_tag : Int) : VALUE :=
  match self with
  | .asn1 klass iv_tag iv_tag_class iv_inf_len iv_value iv_unused_bits (some data) =>
    .asn1 klass iv_tag iv_tag_class iv_inf_len iv_value iv_unused_bits
      (some { data with codec := some default_tag })
  | other => other

/-- The function `int_asn1_default_initialize`, the default helper of all UNIVERSAL
values. -/
def int_asn1_default_initialize (T : CodecTable) (self value vtag : VALUE) (default_tag : Int)
    (vtag_class : VALUE) (is_constructed : Bool) (cb : int_asn1_encode_cb) : Except Fault VALUE :=
  if SYMBOL_P vtag_class = false then .error .ASN1Error_tag_class_must_be_symbol
  else
    match NUM2INT vtag with
    | .error e => .error e
    | .ok tag =>
      if SYM2ID vtag_class = .sTC_UNIVERSAL ∧ tag > 30 then
        .error .ASN1Error_tag_too_large_for_universal
      else
        match krypt_asn1_tag_class_for_id (SYM2ID vtag_class) with
        | .error e => .error e
        | .ok tag_class =>
          match int_asn1_data_initialize T self tag tag_class is_constructed false cb with
          | .error e => .error e
          | .ok self2 =>
            .ok ( int_asn1_data_set_ivars
              (if default_tag ≤ 30 then int_asn1_data_override_codec self2 default_tag else self2)
              vtag vtag_class value)

/-- The function `krypt_asn1_end_of_contents_initialize`, with the one parameter it
declares. What the parameter holds when Ruby calls the function is another matter: see
`krypt_asn1_end_of_contents_initialize_registered`. -/
def krypt_asn1_end_of_contents_initialize (T : CodecTable) (self : VALUE) : Except Fault VALUE :=
  int_asn1_default_initialize T self .qnil (.fixnum TAGS_END_OF_CONTENTS) TAGS_END_OF_CONTENTS
    (.symbol .sTC_UNIVERSAL) false .int_asn1_prim_encode_to

/-- The call `rb_scan_args(argc, argv, "12", ...)`: one mandatory and two optional
arguments; an optional argument that is not given is nil. -/
def rb_scan_args_12 : List VALUE → Except Fault (VALUE × VALUE × VALUE)
  | [value] => .ok (value, .qnil, .qnil)
  | [value, tag] => .ok (value, tag, .qnil)
  | [value, tag, tag_class] => .ok (value, tag, tag_class)
  | _ => .error .ArgError_wrong_number_of_arguments

/-- The function `krypt_asn1_null_initialize`. -/
def krypt_asn1_null_initialize (T : CodecTable) (argv : List VALUE) (self : VALUE) :
    Except Fault VALUE :=
  if argv.length = 0 then
    int_asn1_default_initialize T self .qnil (.fixnum TAGS_NULL) TAGS_NULL
      (.symbol .sTC_UNIVERSAL) false .int_asn1_prim_encode_to
  else
    match rb_scan_args_12 argv with
    | .error e => .error e
    | .ok (value, tag, tag_class) =>
      if NIL_P tag_class = false ∧ NIL_P tag = true then .error .ArgError_tag_must_be_specified
      else if NIL_P value = false then .error .ArgError_null_value_must_be_nil
      else
        int_asn1_default_initialize T self value
          (if NIL_P tag = true then .fixnum TAGS_NULL else tag) TAGS_NULL
          (if NIL_P tag_class = true then .symbol .sTC_UNIVERSAL else tag_class)
          false .int_asn1_prim_encode_to

/-- The instance variable `@unused_bits` written by the BIT STRING initializer. -/
def int_asn1_set_unused_bits (self unused_bits : VALUE) : VALUE :=
  match self with
  | .asn1 klass iv_tag iv_tag_class iv_inf_len iv_value _ data =>
    .asn1 klass iv_tag iv_tag_class iv_inf_len iv_value unused_bits data
  | other => other

/-- The function `krypt_asn1_bit_string_initialize`. -/
def krypt_asn1_bit_string_initialize (T : CodecTable) (argv : List VALUE) (self : VALUE) :
    Except Fault VALUE :=
  match rb_scan_args_12 argv with
  | .error e => .error e
  | .ok (value, tag, tag_class) =>
    if NIL_P tag_class = false ∧ NIL_P tag = true then .error .ArgError_tag_must_be_specified
    else
      match int_asn1_default_initialize T self value
          (if NIL_P tag = true then .fixnum TAGS_BIT_STRING else tag) TAGS_BIT_STRING
          (if NIL_P tag_class = true then .symbol .sTC_UNIVERSAL else tag_class)
          false .int_asn1_prim_encode_to with
      | .error e => .error e
      | .ok self2 => .ok (int_asn1_set_unused_bits self2 (.fixnum 0))

/-- The macro `KRYPT_ASN1_DEFINE_CTOR(klass, t, cons, cb)`: the body of the initializer it
defines. Only when there is at most one argument is the tag set to `t`. -/
def KRYPT_ASN1_DEFINE_CTOR (T : CodecTable) (t : Int) (cons : Bool) (cb : int_asn1_encode_cb)
    (argv : List VALUE) (self : VALUE) : Except Fault VALUE :=
  match rb_scan_args_12 argv with
  | .error e => .error e
  | .ok (value, tag, tag_class) =>
    if argv.length > 1 then
      if NIL_P tag_class = false ∧ NIL_P tag = true then .error .ArgError_tag_must_be_specified
      else
        int_asn1_default_initialize T self value tag t
          (if NIL_P tag_class = true then .symbol .sTC_UNIVERSAL else tag_class) cons cb
    else
      int_asn1_default_initialize T self value (.fixnum t) t (.symbol .sTC_UNIVERSAL) cons cb

/-! ### The initializers as `Init_krypt_asn1` registers them

Every `initialize` is registered with the arity -1: `rb_define_method(cKryptASN1Data,
"initialize", krypt_asn1_data_initialize, -1)`, the same for Primitive and Constructive,
and `rb_define_method(cKryptASN1##name, "initialize", krypt_asn1_##init##_initialize, -1)`
in `KRYPT_ASN1_DEFINE_CLASS` for EndOfContents and every UNIVERSAL type. With the arity -1
Ruby calls the function as `f(argc, argv, self)`. The initializers generated by
`KRYPT_ASN1_DEFINE_CTOR` and those of BIT STRING and NULL declare these three parameters.
`krypt_asn1_data_initialize` and `krypt_asn1_end_of_contents_initialize` declare others,
and find the three arguments in the place of their own first parameters. -/

/-- The method `initialize` of ASN1Data, Primitive and Constructive:
`krypt_asn1_data_initialize` entered with `(argc, argv, self)`. Its parameter `self` holds
the count, its `value` the pointer `argv`, its `vtag` the instance, and no argument is
passed for `vtag_class`. `argc_word` and `argv_word` are the count and the pointer read as
a VALUE, `unpassed` is what the function finds in the parameter without argument, whatever
value that is. -/
def krypt_asn1_data_initialize_registered (T : CodecTable)
    (argc_word argv_word self unpassed : VALUE) : Except Fault VALUE :=
  krypt_asn1_data_initialize T argc_word argv_word self unpassed

/-- The method `initialize` of EndOfContents: `krypt_asn1_end_of_contents_initialize`
entered with `(argc, argv, self)`. Its only parameter holds the count; `argc_word` is the
count read as a VALUE, which for a call without arguments is the word 0, `Qfalse`. -/
def krypt_asn1_end_of_contents_initialize_registered (T : CodecTable) (argc_word : VALUE) :
    Except Fault VALUE :=
  krypt_asn1_end_of_contents_initialize T argc_word

/-! ### A codec table to evaluate the definitions with

The statements below hold for every codec table. To run the definitions on concrete octets
a table is needed; this one follows section 4.3 of the specification for the types whose
codec is elementary, and holds codecs that reject every call for the others. -/

/-- Modelled from the spec: section 4.3, "OCTET STRING: byte sequence, identity" and
"string variants: identity; alphabet validation is optional, off by default". -/
def krypt_asn1_codec_octets : krypt_asn1_codec :=
  { encoder := some (fun _ value =>
      match value with
      | .string b => .ok b
      | _ => .error .CodecError),
    decoder := some (fun _ bytes => .ok (.string bytes)) }

/-- Modelled from the spec: section 4.3, "NULL: unit, zero-length value; reject
non-empty". -/
def krypt_asn1_codec_null : krypt_asn1_codec :=
  { encoder := some (fun _ value =>
      match value with
      | .qnil => .ok []
      | _ => .error .CodecError),
    decoder := some (fun _ bytes =>
      match bytes with
      | [] => .ok .qnil
      | _ => .error .CodecError) }

/-- Modelled from the spec: section 4.3, "BOOLEAN: single octet 0x00 (false) or 0xFF (true
when produced; any non-zero accepted on parse)". -/
def krypt_asn1_codec_boolean : krypt_asn1_codec :=
  { encoder := some (fun _ value =>
      match value with
      | .qtrue => .ok [255]
      | .qfalse => .ok [0]
      | _ => .error .CodecError),
    decoder := some (fun _ bytes =>
      match bytes with
      | [b] => .ok (if b = 0 then .qfalse else .qtrue)
      | _ => .error .CodecError) }

/-- A codec whose functions are present and reject every call: it stands in for the
codecs this development does not evaluate (INTEGER, BIT STRING, OBJECT IDENTIFIER, the time
types, SEQUENCE and SET). -/
def krypt_asn1_codec_rejecting : krypt_asn1_codec :=
  { encoder := some (fun _ _ => .error .CodecError),
    decoder := some (fun _ _ => .error .CodecError) }

/-- An entry whose encoder and decoder are both NULL. -/
def krypt_asn1_codec_absent : krypt_asn1_codec :=
  { encoder := none, decoder := none }

/-- Modelled from the spec: the table `krypt_asn1_codecs` is missing from the sources;
section 4.3: "The codec table returns null for tags reserved but not defined (7, 8, 9,
11, 13, 14, 15, 29)". Outside `0..30` there is no entry. -/
def krypt_asn1_codecs : CodecTable := fun tag =>
  if tag < 0 ∨ 30 < tag then krypt_asn1_codec_absent
  else if tag ∈ [7, 8, 9, 11, 13, 14, 15, 29] then krypt_asn1_codec_absent
  else if tag = 0 ∨ tag = 5 then krypt_asn1_codec_null
  else if tag = 1 then krypt_asn1_codec_boolean
  else if tag ∈ [4, 12, 18, 19, 20, 21, 22, 25, 26, 27, 28, 30] then krypt_asn1_codec_octets
  else krypt_asn1_codec_rejecting

/-- The octets written by a successful encoding. -/
def encoded_octets (r : Except Fault (Bytes × VALUE)) : Option Bytes :=
  match r with
  | .ok (out, _) => some out
  | .error _ => none

/-- The fault or exception that ended a call. -/
def raised {α : Type} (r : Except Fault α) : Option Fault :=
  match r with
  | .ok _ => none
  | .error e => some e

/-! ## Values and predicates the statements refer to -/

/-- The value `decode` returns for the octets `02 01 01` (INTEGER 1). -/
def parsed_integer_one : VALUE :=
  .asn1 .cKryptASN1Integer (.fixnum 2) (.symbol .sTC_UNIVERSAL) .qfalse .qnil .qnil
    (some
      { object :=
          { header :=
              { tag := 2, tag_class := .UNIVERSAL, is_constructed := false,
                is_infinite := false, length := 1, tag_bytes := some [2], tag_len := 1,
                length_bytes := some [1], length_len := 1, header_length := 2 },
            bytes := some [1], bytes_len := 1 },
        decode_cb := some .int_asn1_prim_value_decode,
        encode_cb := some .int_asn1_prim_encode_to,
        codec := some 2 })

/-- The value `decode` returns for the octets `80 00`: context specific, tag 0, primitive,
no content octets. -/
def parsed_context_empty : VALUE :=
  .asn1 .cKryptASN1Data (.fixnum 0) (.symbol .sTC_CONTEXT_SPECIFIC) .qfalse .qnil .qnil
    (some
      { object :=
          { header :=
              { tag := 0, tag_class := .CONTEXT_SPECIFIC, is_constructed := false,
                is_infinite := false, length := 0, tag_bytes := some [128], tag_len := 1,
                length_bytes := some [0], length_len := 1, header_length := 2 },
            bytes := some [], bytes_len := 0 },
        decode_cb := some .int_asn1_data_value_decode,
        encode_cb := none,
        codec := none })

/-- The value `decode` returns for the octets `24 80 04 02 AA BB 04 02 CC DD 00 00`, an
OCTET STRING in the constructed form of indefinite length. -/
def parsed_indefinite_octets : VALUE :=
  .asn1 .cKryptASN1Constructive (.fixnum 4) (.symbol .sTC_UNIVERSAL) .qtrue .qnil .qnil
    (some
      { object :=
          { header :=
              { tag := 4, tag_class := .UNIVERSAL, is_constructed := true,
                is_infinite := true, length := 0, tag_bytes := some [36], tag_len := 1,
                length_bytes := some [128], length_len := 1, header_length := 2 },
            bytes := some [4, 2, 170, 187, 4, 2, 204, 221, 0, 0], bytes_len := 10 },
        decode_cb := some .int_asn1_cons_value_decode,
        encode_cb := some .int_asn1_cons_encode_to,
        codec := some 4 })

/-- The value `decode` returns for the octets `A0 03 02 01 01`, an INTEGER 1 under an
explicit context specific tag 0. -/
def parsed_explicit_integer : VALUE :=
  .asn1 .cKryptASN1Data (.fixnum 0) (.symbol .sTC_CONTEXT_SPECIFIC) .qfalse .qnil .qnil
    (some
      { object :=
          { header :=
              { tag := 0, tag_class := .CONTEXT_SPECIFIC, is_constructed := true,
                is_infinite := false, length := 3, tag_bytes := some [160], tag_len := 1,
                length_bytes := some [3], length_len := 1, header_length := 2 },
            bytes := some [2, 1, 1], bytes_len := 3 },
        decode_cb := some .int_asn1_data_value_decode,
        encode_cb := none,
        codec := none })

/-- The same value after its `value` was read: the children are materialised and the
cached value octets are gone. -/
def parsed_explicit_integer_read : VALUE :=
  .asn1 .cKryptASN1Data (.fixnum 0) (.symbol .sTC_CONTEXT_SPECIFIC) .qfalse
    (.array [parsed_integer_one]) .qnil
    (some
      { object :=
          { header :=
              { tag := 0, tag_class := .CONTEXT_SPECIFIC, is_constructed := true,
                is_infinite := false, length := 3, tag_bytes := some [160], tag_len := 1,
                length_bytes := some [3], length_len := 1, header_length := 2 },
            bytes := none, bytes_len := 0 },
        decode_cb := some .int_asn1_data_value_decode,
        encode_cb := none,
        codec := none })

/-- The header read from the octets `3F 1F 00`: UNIVERSAL, constructed, tag 31. -/
def header_universal_constructed_31 : krypt_asn1_header :=
  { tag := 31, tag_class := .UNIVERSAL, is_constructed := true, is_infinite := false,
    length := 0, tag_bytes := some [63, 31], tag_len := 2, length_bytes := some [0],
    length_len := 1, header_length := 3 }

/-- The header read from the octets `02 01`: UNIVERSAL, primitive, tag 2, length 1. -/
def header_integer_one : krypt_asn1_header :=
  { tag := 2, tag_class := .UNIVERSAL, is_constructed := false, is_infinite := false,
    length := 1, tag_bytes := some [2], tag_len := 1, length_bytes := some [1],
    length_len := 1, header_length := 2 }

/-- The header of the object an ASN1Data instance wraps (`data->object->header`). -/
def int_asn1_header_of : VALUE → Option krypt_asn1_header
  | .asn1 _ _ _ _ _ _ (some data) => some data.object.header
  | _ => none

/-- The header of the instance an initializer returns, if it returns one. -/
def int_asn1_result_header (r : Except Fault VALUE) : Option krypt_asn1_header :=
  match r with
  | .ok v => int_asn1_header_of v
  | .error _ => none

/-- What C7 says of the result `r` of an initializer called with the tag `tag` and a
symbol naming the tag class `tc`: it is the error "Tag too large for UNIVERSAL tag class"
exactly when the class is UNIVERSAL and the tag above 30; otherwise it is an instance
whose header has that tag, that class and `is_infinite` clear. -/
def ctor_tag_contract (r : Except Fault VALUE) (tag : Int) (tc : TagClass) : Prop :=
  (r = .error .ASN1Error_tag_too_large_for_universal ↔ (tc = .UNIVERSAL ∧ tag > 30)) ∧
  (¬ (tc = .UNIVERSAL ∧ tag > 30) →
    ∃ v h, r = .ok v ∧ int_asn1_header_of v = some h ∧
      h.tag = tag ∧ h.tag_class = tc ∧ h.is_infinite = false)

/-- The instance `Integer.new(1, 5, :CONTEXT_SPECIFIC)` ends with. -/
def integer_context_5 : VALUE :=
  .asn1 .cKryptASN1Integer (.fixnum 5) (.symbol .sTC_CONTEXT_SPECIFIC) .qfalse (.fixnum 1) .qnil
    (some
      { object :=
          { header :=
              { tag := 5, tag_class := .CONTEXT_SPECIFIC, is_constructed := false,
                is_infinite := false, length := 0, tag_bytes := none, tag_len := 0,
                length_bytes := none, length_len := 0, header_length := 0 },
            bytes := none, bytes_len := 0 },
        decode_cb := none,
        encode_cb := some .int_asn1_prim_encode_to,
        codec := some 2 })

/-- The value `decode` returns for the octets `80 01 01`: context specific, tag 0,
primitive, one content octet. -/
def parsed_context_one : VALUE :=
  .asn1 .cKryptASN1Data (.fixnum 0) (.symbol .sTC_CONTEXT_SPECIFIC) .qfalse .qnil .qnil
    (some
      { object :=
          { header :=
              { tag := 0, tag_class := .CONTEXT_SPECIFIC, is_constructed := false,
                is_infinite := false, length := 1, tag_bytes := some [128], tag_len := 1,
                length_bytes := some [1], length_len := 1, header_length := 2 },
            bytes := some [1], bytes_len := 1 },
        decode_cb := some .int_asn1_data_value_decode,
        encode_cb := none,
        codec := none })

/-- The same value after `value=` was called with the String of the one octet 02. -/
def parsed_context_one_set : VALUE :=
  .asn1 .cKryptASN1Data (.fixnum 0) (.symbol .sTC_CONTEXT_SPECIFIC) .qfalse (.string [2]) .qnil
    (some
      { object :=
          { header :=
              { tag := 0, tag_class := .CONTEXT_SPECIFIC, is_constructed := false,
                is_infinite := false, length := 0, tag_bytes := some [128], tag_len := 1,
                length_bytes := none, length_len := 0, header_length := 0 },
            bytes := none, bytes_len := 0 },
        decode_cb := some .int_asn1_data_value_decode,
        encode_cb := none,
        codec := none })

/-! ### Classes and the writers they respond to -/

/-- The superclass given to `rb_define_class_under` in `Init_krypt_asn1`: whether a class
is `Primitive` or descends from it. -/
def Klass.inherits_primitive : Klass → Bool
  | .cKryptASN1Data => false
  | .cKryptASN1Constructive => false
  | .cKryptASN1Sequence => false
  | .cKryptASN1Set => false
  | _ => true

/-- Whether the instances of a class respond to `infinite_length=`: the writer is defined
on `ASN1Data` and removed from `Primitive` with `rb_undef_method`. -/
def rb_respond_to_infinite_length_writer (klass : Klass) : Bool :=
  !klass.inherits_primitive

/-- The class of an instance. -/
def int_asn1_klass_of : VALUE → Option Klass
  | .asn1 klass _ _ _ _ _ _ => some klass
  | _ => none

/-- The invariant on the header of an instance: a header that is infinite is
constructed. -/
def infinite_implies_constructed (self : VALUE) : Prop :=
  ∀ h, int_asn1_header_of self = some h → h.is_infinite = true → h.is_constructed = true

/-! ### Instances created from scratch -/

/-- The struct of the instance `OctetString.new` ends with: the caches are empty. -/
def octet_string_scratch_data : krypt_asn1_data :=
  { object :=
      { header :=
          { tag := 4, tag_class := .UNIVERSAL, is_constructed := false, is_infinite := false,
            length := 0, tag_bytes := none, tag_len := 0, length_bytes := none,
            length_len := 0, header_length := 0 },
        bytes := none, bytes_len := 0 },
    decode_cb := none,
    encode_cb := some .int_asn1_prim_encode_to,
    codec := some 4 }

/-- The instance `OctetString.new` ends with, for the String of the octets 01 02. -/
def octet_string_one_two : VALUE :=
  .asn1 .cKryptASN1OctetString (.fixnum 4) (.symbol .sTC_UNIVERSAL) .qfalse (.string [1, 2])
    .qnil (some octet_string_scratch_data)

/-- The instance `Null.new` ends with. -/
def null_scratch : VALUE :=
  .asn1 .cKryptASN1Null (.fixnum 5) (.symbol .sTC_UNIVERSAL) .qfalse .qnil .qnil
    (some
      { object :=
          { header :=
              { tag := 5, tag_class := .UNIVERSAL, is_constructed := false,
                is_infinite := false, length := 0, tag_bytes := none, tag_len := 0,
                length_bytes := none, length_len := 0, header_length := 0 },
            bytes := none, bytes_len := 0 },
        decode_cb := none,
        encode_cb := some .int_asn1_prim_encode_to,
        codec := some 5 })

/-- The instance `EndOfContents.new` ends with. -/
def end_of_contents_scratch : VALUE :=
  .asn1 .cKryptASN1EndOfContents (.fixnum 0) (.symbol .sTC_UNIVERSAL) .qfalse .qnil .qnil
    (some
      { object :=
          { header :=
              { tag := 0, tag_class := .UNIVERSAL, is_constructed := false,
                is_infinite := false, length := 0, tag_bytes := none, tag_len := 0,
                length_bytes := none, length_len := 0, header_length := 0 },
            bytes := none, bytes_len := 0 },
        decode_cb := none,
        encode_cb := some .int_asn1_prim_encode_to,
        codec := some 0 })

/-- The struct of the instance `Sequence.new` ends with: the caches are empty. -/
def sequence_scratch_data : krypt_asn1_data :=
  { object :=
      { header :=
          { tag := 16, tag_class := .UNIVERSAL, is_constructed := true, is_infinite := false,
            length := 0, tag_bytes := none, tag_len := 0, length_bytes := none,
            length_len := 0, header_length := 0 },
        bytes := none, bytes_len := 0 },
    decode_cb := none,
    encode_cb := some .int_asn1_cons_encode_to,
    codec := some 16 }

/-- The instance `Sequence.new` ends with, for the Array of the given elements. -/
def sequence_scratch (elems : List VALUE) : VALUE :=
  .asn1 .cKryptASN1Sequence (.fixnum 16) (.symbol .sTC_UNIVERSAL) .qfalse (.array elems)
    .qnil (some sequence_scratch_data)

/-- The same instance after `infinite_length = true`. -/
def sequence_scratch_infinite (elems : List VALUE) : VALUE :=
  .asn1 .cKryptASN1Sequence (.fixnum 16) (.symbol .sTC_UNIVERSAL) .qtrue (.array elems)
    .qnil
    (some { sequence_scratch_data with
      object := { sequence_scratch_data.object with
        header := { sequence_scratch_data.object.header with is_infinite := true } } })

/-- The Ruby statement `self.value[i].value = v` on an instance whose value is an Array:
the array holds references, so the element written is the one the instance encodes
later. -/
def krypt_asn1_child_set_value (self : VALUE) (i : Nat) (v : VALUE) : Except Fault VALUE :=
  match self with
  | .asn1 klass iv_tag iv_tag_class iv_inf_len (.array elems) iv_unused_bits data =>
    match elems.get? i with
    | none => .error .fault_out_of_bounds
    | some child =>
      match krypt_asn1_data_set_value child v with
      | .error e => .error e
      | .ok (_, child2) =>
        .ok (.asn1 klass iv_tag iv_tag_class iv_inf_len (.array (elems.set i child2))
          iv_unused_bits data)
  | _ => .error .TypeError

/-! ## krypt_asn1_template_parser.c

The matching functions of the template parser. The structs `krypt_asn1_definition` and
`krypt_asn1_template`, their accessors, the error chain (`krypt_error_add`) and the macro
`get_or_raise` are declared in files that are not among the sources; they are modelled
below and marked as such. This file calls a `krypt_asn1_tag_class_for_id` that returns -1
for a symbol naming no tag class; the class it derives from a symbol is the parameter `F`
of every function that reads it (`none` stands for -1). -/

/-- The id `sKrypt_TC_EXPLICIT` of the symbol `:EXPLICIT`. -/
def sKrypt_TC_EXPLICIT : ID := .other 1

/-- The id `sKrypt_TC_IMPLICIT` of the symbol `:IMPLICIT`. -/
def sKrypt_TC_IMPLICIT : ID := .other 2

/-- The id `sKrypt_ID_PRIMITIVE` of the codec `:PRIMITIVE`. -/
def sKrypt_ID_PRIMITIVE : ID := .other 10

/-- The id `sKrypt_ID_SEQUENCE` of the codec `:SEQUENCE`. -/
def sKrypt_ID_SEQUENCE : ID := .other 11

/-- The id `sKrypt_ID_TEMPLATE` of the codec `:TEMPLATE`. -/
def sKrypt_ID_TEMPLATE : ID := .other 12

/-- The id `sKrypt_ID_SET` of the codec `:SET`. -/
def sKrypt_ID_SET : ID := .other 13

/-- The id `sKrypt_ID_SEQUENCE_OF` of the codec `:SEQUENCE_OF`. -/
def sKrypt_ID_SEQUENCE_OF : ID := .other 14

/-- The id `sKrypt_ID_SET_OF` of the codec `:SET_OF`. -/
def sKrypt_ID_SET_OF : ID := .other 15

/-- The id `sKrypt_ID_ANY` of the codec `:ANY`. -/
def sKrypt_ID_ANY : ID := .other 16

/-- The id `sKrypt_ID_CHOICE` of the codec `:CHOICE`. -/
def sKrypt_ID_CHOICE : ID := .other 17

/-- Modelled from the spec: the struct `krypt_asn1_definition` is declared in
`krypt_asn1_template-internal.h`, which is missing from the sources. Section 3, "Template
definition: a record with fields type, tag, tagging, name, optional, default, layout,
min_size". The fields hold what the accessors return for the definition at hand (the
layout apart); a field that is not given is nil. -/
structure krypt_asn1_definition where
  type : VALUE := .qnil
  name : VALUE := .qnil
  min_size : VALUE := .qnil
  tag : VALUE := .qnil
  tagging : VALUE := .qnil
  optional : Bool := false
  default_value : Option VALUE := none

/-- Modelled from the spec: the accessor `krypt_definition_get_type`, missing from the
sources. -/
def krypt_definition_get_type (d : krypt_asn1_definition) : VALUE := d.type

/-- Modelled from the spec: the accessor `krypt_definition_get_name`, missing from the
sources. -/
def krypt_definition_get_name (d : krypt_asn1_definition) : VALUE := d.name

/-- Modelled from the spec: the accessor `krypt_definition_get_tag`, missing from the
sources. -/
def krypt_definition_get_tag (d : krypt_asn1_definition) : VALUE := d.tag

/-- Modelled from the spec: the accessor `krypt_definition_get_tagging`, missing from the
sources. -/
def krypt_definition_get_tagging (d : krypt_asn1_definition) : VALUE := d.tagging

/-- Modelled from the spec: the accessor `krypt_definition_is_optional`, missing from the
sources. -/
def krypt_definition_is_optional (d : krypt_asn1_definition) : Bool := d.optional

/-- Modelled from the spec: the accessor `krypt_definition_has_default`, missing from the
sources. -/
def krypt_definition_has_default (d : krypt_asn1_definition) : Bool := d.default_value.isSome

/-- Modelled from the spec: the accessor `krypt_definition_get_default_value`, missing from
the sources. -/
def krypt_definition_get_default_value (d : krypt_asn1_definition) : VALUE :=
  d.default_value.getD .qnil

/-- Modelled from the spec: the options hash of a definition (`krypt_hash_get_options`,
missing from the sources). Section 3: "tag, tagging: optional explicit override and tagging
discipline", "optional: boolean; default: optional literal". Options that are nil read as
the record with every field at its default. -/
structure krypt_asn1_options where
  tag : VALUE := .qnil
  tagging : VALUE := .qnil
  optional : Bool := false
  default_value : Option VALUE := none

/-- Modelled from the spec: a definition hash as the parser reads it with
`krypt_hash_get_codec`, `krypt_hash_get_options` and `krypt_definition_get_layout` (all
missing from the sources). Section 3: "codec: one of PRIMITIVE, SEQUENCE, ...", "layout: for
SEQUENCE/SET, an ordered list of sub-definitions". `d` holds the other entries of the hash
together with its own options; `layout` is `none` when the hash has none. -/
inductive krypt_definition_hash where
  | mk (codec : ID) (d : krypt_asn1_definition) (layout : Option (List krypt_definition_hash))

/-- Modelled from the spec: the accessor `krypt_hash_get_codec`, missing from the sources,
followed by `SYM2ID`. -/
def krypt_hash_get_codec : krypt_definition_hash → ID
  | .mk codec _ _ => codec

/-- The entries of a definition hash other than codec and layout. -/
def krypt_definition_hash.d : krypt_definition_hash → krypt_asn1_definition
  | .mk _ d _ => d

/-- Modelled from the spec: the accessor `krypt_definition_get_layout`, missing from the
sources, read off the hash a definition was set up with. -/
def krypt_definition_hash.layout : krypt_definition_hash → Option (List krypt_definition_hash)
  | .mk _ _ layout => layout

/-- Modelled from the spec: the accessor `krypt_hash_get_options`, missing from the
sources. -/
def krypt_hash_get_options (h : krypt_definition_hash) : krypt_asn1_options :=
  { tag := h.d.tag, tagging := h.d.tagging, optional := h.d.optional,
    default_value := h.d.default_value }

/-- Modelled from the spec: the accessor `krypt_definition_get_options`, missing from the
sources. -/
def krypt_definition_get_options (d : krypt_asn1_definition) : krypt_asn1_options :=
  { tag := d.tag, tagging := d.tagging, optional := d.optional,
    default_value := d.default_value }

/-- Modelled from the spec: `krypt_definition_init(&def, definition, options)`, missing
from the sources: the struct reads type, name and min_size from the hash and tag, tagging,
optional and default from the options. -/
def krypt_definition_init (definition : krypt_definition_hash) (options : krypt_asn1_options) :
    krypt_asn1_definition :=
  { type := definition.d.type, name := definition.d.name, min_size := definition.d.min_size,
    tag := options.tag, tagging := options.tagging, optional := options.optional,
    default_value := options.default_value }

/-- Modelled from the spec: the accessor `krypt_definition_get_min_size`, missing from the
sources. -/
def krypt_definition_get_min_size (d : krypt_asn1_definition) : VALUE := d.min_size

mutual
/-- Modelled from the spec: the struct `krypt_asn1_template` is declared in
`krypt_asn1_template-internal.h`, which is missing from the sources. Section 3, "Template
value: (object, definition, options, parsed?, decoded?)"; the fields are the ones this
file reads and writes through `t->object` and the accessors `krypt_asn1_template_*`. A
definition that is nil is `none`. -/
inductive krypt_asn1_template where
  | mk (object : Option krypt_asn1_object) (definition : Option krypt_definition_hash)
      (options : krypt_asn1_options) (value : TVALUE) (is_parsed is_decoded : Bool)
/-- A Ruby object as the template parser sees it: a plain value, an Array, an instance of
`cKryptASN1TemplateValue` wrapping a template, or an instance of a class with a
definition, which has instance variables and may wrap a template. -/
inductive TVALUE where
  | plain (v : VALUE)
  | ary (elems : List TVALUE)
  | template_value (t : krypt_asn1_template)
  | template_instance (klass : Nat) (ivars : List (ID × TVALUE))
      (t : Option krypt_asn1_template)
end

/-- The field `t->object`. -/
def krypt_asn1_template.object : krypt_asn1_template → Option krypt_asn1_object
  | .mk object _ _ _ _ _ => object

/-- Modelled from the spec: `krypt_asn1_template_new_value` is missing from the sources; a
template without object that holds a value and needs no parsing and no decoding
(section 4.6, "Decoded has semantic values"). -/
def krypt_asn1_template_new_value (value : VALUE) : krypt_asn1_template :=
  .mk none none {} (.plain value) true true

/-- The function `rb_ivar_set` of the Ruby API on the hosts of the parser: the binding of
the name is added, or replaced. -/
def rb_ivar_set (self : TVALUE) (id : ID) (obj : TVALUE) : TVALUE :=
  match self with
  | .template_instance klass ivars t =>
    .template_instance klass ((id, obj) :: ivars.filter (fun p => p.1 ≠ id)) t
  | other => other

/-- The function `rb_ivar_get` of the Ruby API on the hosts of the parser: nil when the
name is not bound. -/
def rb_ivar_get (self : TVALUE) (id : ID) : TVALUE :=
  match self with
  | .template_instance _ ivars _ =>
    match ivars.find? (fun p => p.1 = id) with
    | some p => p.2
    | none => .plain .qnil
  | _ => .plain .qnil

/-- The name an error message is formatted with: the name of a symbol, or the literal
"Constructive". -/
inductive krypt_error_name where
  | of_id (id : ID)
  | Constructive

/-- Modelled from the spec: the error chain is kept by `krypt_error_add`, which is missing
from the sources (section 4.7, "a push_error(fmt, args) sink"). An entry is a message this
file adds, with its arguments. -/
inductive krypt_error_message where
  /-- "Could not parse %s". -/
  | could_not_parse (name : krypt_error_name)
  /-- "Tag mismatch. Expected: %d Got: %d". -/
  | tag_mismatch (expected got : Int)
  /-- "Tag class mismatch. Expected: %s Got: %s" (the expected class is `none` for -1). -/
  | tag_class_mismatch (expected : Option TagClass) (got : TagClass)
  /-- "Constructive bit not set". -/
  | constructive_bit_not_set
  /-- "Mandatory value %s is missing". -/
  | mandatory_value_missing (name : ID)
  /-- "Mandatory sequence value not found". -/
  | mandatory_sequence_value_not_found
  /-- "Unknown codec: %s". -/
  | unknown_codec (codec : ID)
  /-- "Could not unpack explicitly tagged value". -/
  | could_not_unpack_explicit
  /-- "Error while trying to read next value". -/
  | error_reading_next_value
  /-- "Data left that could not be parsed". -/
  | data_left
  /-- "Mandatory value %s not found", or "Mandatory value not found" without name. -/
  | mandatory_value_not_found (name : Option ID)
  /-- "Expected %d..%d values. Got: %d". -/
  | expected_values (min_size layout_size num_parsed : Int)
  /-- "No closing END OF CONTENTS found for constructive value". -/
  | no_closing_eoc
  /-- "No closing END OF CONTENTS found for %s". -/
  | no_closing_eoc_for (name : ID)
  /-- "Type %s has no ASN.1 definition". -/
  | type_has_no_definition (type : VALUE)
  /-- "Constructive bit not set for explicitly tagged value". -/
  | constructive_bit_not_set_explicit
  /-- "Constructive bit set". -/
  | constructive_bit_set
  /-- "No codec available for default tag %d". -/
  | no_codec_for_default_tag (default_tag : Int)
  /-- "Error while decoding value %s", or "Error while decoding value" without name. -/
  | error_while_decoding (name : Option ID)
  /-- "Expected %s but got %s instead". -/
  | expected_kind (type : VALUE) (got : Option Klass)
  /-- "Mandatory value %s could not be parsed. Sequence is empty". -/
  | mandatory_sequence_empty (name : ID)
  /-- "Error while reading data". -/
  | error_reading_data
  /-- "Illegal hex character detected: %x or %x" (krypt_hex.c). -/
  | illegal_hex_characters (c d : Nat)
  /-- "Illegal hex character detected: %x" (krypt_hex.c). -/
  | illegal_hex_character (c : Nat)
  /-- "Buffer too large: %ld" (krypt_hex.c). -/
  | buffer_too_large (len : Nat)
  /-- "Buffer length must be a multiple of 2" (krypt_hex.c). -/
  | buffer_length_not_multiple_of_2

/-- The error chain: the messages added so far, oldest first. -/
abbrev krypt_errors := List krypt_error_message

/-- What a function of a codec context returns: the `int` result, the host, the template
and the error chain, each as the call leaves it. -/
abbrev krypt_ctx_result := Except Fault (Int × TVALUE × krypt_asn1_template × krypt_errors)

/-- The function `int_expected_tag`. -/
def int_expected_tag (tag : VALUE) (default_tag : Int) : Except Fault Int :=
  if NIL_P tag = true then .ok default_tag else NUM2INT tag

/-- The function `int_expected_tag_class`; `none` is the result -1. -/
def int_expected_tag_class (F : ID → Option TagClass) (tag_class : VALUE) : Option TagClass :=
  if NIL_P tag_class = true then some .UNIVERSAL else F (SYM2ID tag_class)

/-- The function `int_match_tag`. -/
def int_match_tag (header : krypt_asn1_header) (tag : VALUE) (default_tag : Int) :
    Except Fault Bool :=
  match int_expected_tag tag default_tag with
  | .error e => .error e
  | .ok expected => .ok (decide (header.tag = expected))

/-- The function `int_match_class`. -/
def int_match_class (F : ID → Option TagClass) (header : krypt_asn1_header)
    (tag_class : VALUE) : Bool :=
  match int_expected_tag_class F tag_class with
  | none => false
  | some expected_tc => decide (header.tag_class = expected_tc)

/-- The function `int_tag_and_class_mismatch`: returns 0 and the error chain. -/
def int_tag_and_class_mismatch (F : ID → Option TagClass) (header : krypt_asn1_header)
    (tag tagging : VALUE) (default_tag : Int) (name : Option krypt_error_name)
    (errors : krypt_errors) : Except Fault (Int × krypt_errors) :=
  match int_expected_tag tag default_tag with
  | .error e => .error e
  | .ok expected_tag =>
    .ok (0,
      errors ++
        (match name with
         | some n => [.could_not_parse n]
         | none => []) ++
        (if header.tag ≠ expected_tag then [.tag_mismatch expected_tag header.tag] else []) ++
        (if some header.tag_class ≠ int_expected_tag_class F tagging then
           [.tag_class_mismatch (int_expected_tag_class F tagging) header.tag_class]
         else []))

/-- The function `int_match_tag_and_class`: the class is compared only when the tag
matches. -/
def int_match_tag_and_class (F : ID → Option TagClass) (header : krypt_asn1_header)
    (tag tagging : VALUE) (default_tag : Int) : Except Fault Bool :=
  match int_match_tag header tag default_tag with
  | .error e => .error e
  | .ok false => .ok false
  | .ok true => .ok (int_match_class F header tagging)

/-- The function `int_try_match_cons`: returns the result and the error chain. The tag and
the class are compared only when the header is constructed. -/
def int_try_match_cons (F : ID → Option TagClass) (t : krypt_asn1_template)
    (d : krypt_asn1_definition) (default_tag : Int) (errors : krypt_errors) :
    Except Fault (Int × krypt_errors) :=
  match t.object with
  | none => .error .fault_null_dereference
  | some object =>
    match
      (if object.header.is_constructed = true then
        int_match_tag_and_class F object.header (krypt_definition_get_tag d)
          (krypt_definition_get_tagging d) default_tag
       else .ok false : Except Fault Bool) with
    | .error e => .error e
    | .ok true => .ok (1, errors)
    | .ok false =>
      if object.header.is_constructed = false ∧ krypt_definition_is_optional d = false then
        .ok (0, errors ++ [.constructive_bit_not_set])
      else .ok (-1, errors)

/-- The function `int_set_default_value`: returns 1 and the host, on which the name of the
definition is bound to a template value holding the default. The macro `get_or_raise` is
missing from the sources: it raises when the value is nil. -/
def int_set_default_value (self : TVALUE) (d : krypt_asn1_definition) :
    Except Fault (Int × TVALUE) :=
  if NIL_P (krypt_definition_get_name d) = true then .error .Error_name_missing_in_definition
  else
    .ok (1,
      rb_ivar_set self (SYM2ID (krypt_definition_get_name d))
        (.template_value
          (krypt_asn1_template_new_value (krypt_definition_get_default_value d))))

/-- The function `int_check_optional_or_default`. -/
def int_check_optional_or_default (F : ID → Option TagClass) (self : TVALUE)
    (t : krypt_asn1_template) (d : krypt_asn1_definition) (default_tag : Int)
    (errors : krypt_errors) : krypt_ctx_result :=
  match t.object with
  | none => .error .fault_null_dereference
  | some object =>
    if krypt_definition_is_optional d = false then
      if NIL_P (krypt_definition_get_name d) = true then
        .error .Error_name_missing_in_definition
      else
        match int_tag_and_class_mismatch F object.header (krypt_definition_get_tag d)
            (krypt_definition_get_tagging d) default_tag
            (some (.of_id (SYM2ID (krypt_definition_get_name d))))
            (errors ++ [.mandatory_value_missing (SYM2ID (krypt_definition_get_name d))]) with
        | .error e => .error e
        | .ok (r, errors2) => .ok (r, self, t, errors2)
    else if krypt_definition_has_default d = true then
      match int_set_default_value self d with
      | .error e => .error e
      | .ok (r, self2) => if r = 0 then .ok (0, self2, t, errors) else .ok (-2, self2, t, errors)
    else .ok (-1, self, t, errors)

/-- The function `int_match_prim`. -/
def int_match_prim (F : ID → Option TagClass) (self : TVALUE) (t : krypt_asn1_template)
    (d : krypt_asn1_definition) (errors : krypt_errors) : krypt_ctx_result :=
  match t.object with
  | none => .error .fault_null_dereference
  | some object =>
    if NIL_P (krypt_definition_get_type d) = true then .error .Error_type_missing_in_definition
    else
      match NUM2INT (krypt_definition_get_type d) with
      | .error e => .error e
      | .ok default_tag =>
        match int_match_tag_and_class F object.header (krypt_definition_get_tag d)
            (krypt_definition_get_tagging d) default_tag with
        | .error e => .error e
        | .ok true => .ok (1, self, t, errors)
        | .ok false => int_check_optional_or_default F self t d default_tag errors

/-- The function `int_match_cons`. -/
def int_match_cons (F : ID → Option TagClass) (self : TVALUE) (t : krypt_asn1_template)
    (d : krypt_asn1_definition) (default_tag : Int) (errors : krypt_errors) :
    krypt_ctx_result :=
  match int_try_match_cons F t d default_tag errors with
  | .error e => .error e
  | .ok (m, errors2) =>
    if m = 1 ∨ m = 0 then .ok (m, self, t, errors2)
    else if krypt_definition_is_optional d = false then
      match t.object with
      | none => .error .fault_null_dereference
      | some object =>
        match int_tag_and_class_mismatch F object.header (krypt_definition_get_tag d)
            (krypt_definition_get_tagging d) default_tag (some .Constructive)
            (errors2 ++ [.mandatory_sequence_value_not_found]) with
        | .error e => .error e
        | .ok (r, errors3) => .ok (r, self, t, errors3)
    else .ok (-1, self, t, errors2)

/-- The function `int_match_sequence`. -/
def int_match_sequence (F : ID → Option TagClass) (self : TVALUE) (t : krypt_asn1_template)
    (d : krypt_asn1_definition) (errors : krypt_errors) : krypt_ctx_result :=
  int_match_cons F self t d TAGS_SEQUENCE errors

/-- The function `int_match_set`. -/
def int_match_set (F : ID → Option TagClass) (self : TVALUE) (t : krypt_asn1_template)
    (d : krypt_asn1_definition) (errors : krypt_errors) : krypt_ctx_result :=
  int_match_cons F self t d TAGS_SET errors

/-- The function `int_match_any`: the body is `return 0`. -/
def int_match_any (self : TVALUE) (t : krypt_asn1_template) (_d : krypt_asn1_definition)
    (errors : krypt_errors) : krypt_ctx_result :=
  .ok (0, self, t, errors)

/-- The function `int_parse_any`: the body is `return 0`. -/
def int_parse_any (self : TVALUE) (t : krypt_asn1_template) (_d : krypt_asn1_definition)
    (errors : krypt_errors) : krypt_ctx_result :=
  .ok (0, self, t, errors)

/-- The function `int_decode_any`: the body is `return 0`. -/
def int_decode_any (self : TVALUE) (t : krypt_asn1_template) (_d : krypt_asn1_definition)
    (errors : krypt_errors) : krypt_ctx_result :=
  .ok (0, self, t, errors)

/-- The functions a codec context can hold in its slot `match`. -/
inductive krypt_asn1_template_match_cb where
  | int_match_prim
  | int_match_sequence
  | int_match_set
  | int_match_template
  | int_match_seq_of
  | int_match_set_of
  | int_match_any
  | int_match_choice
deriving DecidableEq, Repr

/-- The functions a codec context can hold in its slot `parse`. -/
inductive krypt_asn1_template_parse_cb where
  | int_parse_assign
  | int_parse_cons
  | int_parse_template
  | int_parse_any
  | int_parse_choice
deriving DecidableEq, Repr

/-- The functions a codec context can hold in its slot `decode`. -/
inductive krypt_asn1_template_decode_cb where
  | int_decode_prim
  | int_decode_cons_of
  | int_decode_any
  | int_decode_choice
deriving DecidableEq, Repr

/-- The struct `krypt_asn1_template_ctx`: the three functions of a codec, by name; the
slot `decode` is `none` where the initializer has NULL. -/
structure krypt_asn1_template_ctx where
  match_cb : krypt_asn1_template_match_cb
  parse_cb : krypt_asn1_template_parse_cb
  decode_cb : Option krypt_asn1_template_decode_cb
deriving DecidableEq, Repr

/-- The context `krypt_template_primitive_ctx`. -/
def krypt_template_primitive_ctx : krypt_asn1_template_ctx :=
  { match_cb := .int_match_prim, parse_cb := .int_parse_assign,
    decode_cb := some .int_decode_prim }

/-- The context `krypt_template_sequence_ctx`. -/
def krypt_template_sequence_ctx : krypt_asn1_template_ctx :=
  { match_cb := .int_match_sequence, parse_cb := .int_parse_cons, decode_cb := none }

/-- The context `krypt_template_set_ctx`. -/
def krypt_template_set_ctx : krypt_asn1_template_ctx :=
  { match_cb := .int_match_set, parse_cb := .int_parse_cons, decode_cb := none }

/-- The context `krypt_template_template_ctx`. -/
def krypt_template_template_ctx : krypt_asn1_template_ctx :=
  { match_cb := .int_match_template, parse_cb := .int_parse_template, decode_cb := none }

/-- The context `krypt_template_seq_of_ctx`. -/
def krypt_template_seq_of_ctx : krypt_asn1_template_ctx :=
  { match_cb := .int_match_seq_of, parse_cb := .int_parse_assign,
    decode_cb := some .int_decode_cons_of }

/-- The context `krypt_template_set_of_ctx`. -/
def krypt_template_set_of_ctx : krypt_asn1_template_ctx :=
  { match_cb := .int_match_set_of, parse_cb := .int_parse_assign,
    decode_cb := some .int_decode_cons_of }

/-- The context `krypt_template_any_ctx`. -/
def krypt_template_any_ctx : krypt_asn1_template_ctx :=
  { match_cb := .int_match_any, parse_cb := .int_parse_any,
    decode_cb := some .int_decode_any }

/-- The context `krypt_template_choice_ctx`. -/
def krypt_template_choice_ctx : krypt_asn1_template_ctx :=
  { match_cb := .int_match_choice, parse_cb := .int_parse_choice,
    decode_cb := some .int_decode_choice }

/-- The function `krypt_asn1_template_get_ctx_for_codec`: the context of a codec, or NULL
and the error "Unknown codec". -/
def krypt_asn1_template_get_ctx_for_codec (codec : ID) (errors : krypt_errors) :
    Option krypt_asn1_template_ctx × krypt_errors :=
  if codec = sKrypt_ID_PRIMITIVE then (some krypt_template_primitive_ctx, errors)
  else if codec = sKrypt_ID_SEQUENCE then (some krypt_template_sequence_ctx, errors)
  else if codec = sKrypt_ID_TEMPLATE then (some krypt_template_template_ctx, errors)
  else if codec = sKrypt_ID_SET then (some krypt_template_set_ctx, errors)
  else if codec = sKrypt_ID_SEQUENCE_OF then (some krypt_template_seq_of_ctx, errors)
  else if codec = sKrypt_ID_SET_OF then (some krypt_template_set_of_ctx, errors)
  else if codec = sKrypt_ID_ANY then (some krypt_template_any_ctx, errors)
  else if codec = sKrypt_ID_CHOICE then (some krypt_template_choice_ctx, errors)
  else (none, errors ++ [.unknown_codec codec])

/-! ### Values to evaluate the matching functions with -/

/-- Modelled from the spec: the `krypt_asn1_tag_class_for_id` this file calls is missing
from the sources. Section 7, scenario 3: a schema tagged EXPLICIT with the tag 0 matches
the octets A0 03 02 01 01, tagged IMPLICIT the octets 80 01 01, so both symbols give the
context specific class; a symbol naming a tag class gives that class; any other gives
-1. -/
def krypt_asn1_tag_class_for_id_or_none (id : ID) : Option TagClass :=
  if id = sKrypt_TC_EXPLICIT ∨ id = sKrypt_TC_IMPLICIT then some .CONTEXT_SPECIFIC
  else
    match krypt_asn1_tag_class_for_id id with
    | .ok tc => some tc
    | .error _ => none

/-- The template `int_next_template` returns for the octets 02 01 01 (INTEGER 1). -/
def template_integer_one : krypt_asn1_template :=
  .mk (some { header := header_integer_one, bytes := some [1], bytes_len := 1 })
    none {} (.plain .qnil) false false

/-- The template `int_next_template` returns for the octets 30 03 02 01 01, a SEQUENCE of
one INTEGER. -/
def template_sequence_of_integer : krypt_asn1_template :=
  .mk (some
      { header :=
          { tag := 16, tag_class := .UNIVERSAL, is_constructed := true, is_infinite := false,
            length := 3, tag_bytes := some [48], tag_len := 1, length_bytes := some [3],
            length_len := 1, header_length := 2 },
        bytes := some [2, 1, 1], bytes_len := 3 })
    none {} (.plain .qnil) false false

/-- A host without instance variables. -/
def template_host : TVALUE := .template_instance 0 [] none

/-- The id of the symbol `:version`. -/
def sID_version : ID := .other 100

/-- What C19 says of the result `r` of a SEQUENCE or SET match called with the host `self`,
the template `t` and the error chain `errors`, where `is_match` says that the header is
constructed and carries the expected tag and class: the result is 1 exactly when
`is_match` holds, and then nothing has changed; otherwise it is 0, with a longer error
chain, if the definition is not optional, and -1, with nothing changed, if it is. -/
def match_cons_contract (r : krypt_ctx_result) (self : TVALUE) (t : krypt_asn1_template)
    (errors : krypt_errors) (is_match : Prop) (optional : Bool) : Prop :=
  ((∃ self2 t2 errors2, r = .ok (1, self2, t2, errors2)) ↔ is_match) ∧
  (is_match → r = .ok (1, self, t, errors)) ∧
  (¬ is_match → optional = false →
    ∃ added, added ≠ [] ∧ r = .ok (0, self, t, errors ++ added)) ∧
  (¬ is_match → optional = true → r = .ok (-1, self, t, errors))

/-! ### The parsing functions of the template parser

The stream `in` over the value octets is the list of the octets not read yet. The header
codec this file calls returns 1, 0 (end of the stream) or -1 (error) where the one
`krypt_asn1.c` calls raises; the model above is used for both, an error of it being the
result -1. What the header codec itself adds to the error chain is not modelled. -/

/-- The accessor `krypt_asn1_template_get_definition` (modelled with the struct). -/
def krypt_asn1_template_get_definition : krypt_asn1_template → Option krypt_definition_hash
  | .mk _ definition _ _ _ _ => definition

/-- The accessor `krypt_asn1_template_get_options` (modelled with the struct). -/
def krypt_asn1_template_get_options : krypt_asn1_template → krypt_asn1_options
  | .mk _ _ options _ _ _ => options

/-- The accessor `krypt_asn1_template_get_value` (modelled with the struct). -/
def krypt_asn1_template_get_value : krypt_asn1_template → TVALUE
  | .mk _ _ _ value _ _ => value

/-- The accessor `krypt_asn1_template_is_parsed` (modelled with the struct). -/
def krypt_asn1_template_is_parsed : krypt_asn1_template → Bool
  | .mk _ _ _ _ is_parsed _ => is_parsed

/-- The accessor `krypt_asn1_template_is_decoded` (modelled with the struct). -/
def krypt_asn1_template_is_decoded : krypt_asn1_template → Bool
  | .mk _ _ _ _ _ is_decoded => is_decoded

/-- The accessor `krypt_asn1_template_set_definition` (modelled with the struct). -/
def krypt_asn1_template_set_definition (t : krypt_asn1_template)
    (definition : Option krypt_definition_hash) : krypt_asn1_template :=
  match t with
  | .mk object _ options value is_parsed is_decoded =>
    .mk object definition options value is_parsed is_decoded

/-- The accessor `krypt_asn1_template_set_options` (modelled with the struct). -/
def krypt_asn1_template_set_options (t : krypt_asn1_template) (options : krypt_asn1_options) :
    krypt_asn1_template :=
  match t with
  | .mk object definition _ value is_parsed is_decoded =>
    .mk object definition options value is_parsed is_decoded

/-- The accessor `krypt_asn1_template_set_value` (modelled with the struct). -/
def krypt_asn1_template_set_value (t : krypt_asn1_template) (value : TVALUE) :
    krypt_asn1_template :=
  match t with
  | .mk object definition options _ is_parsed is_decoded =>
    .mk object definition options value is_parsed is_decoded

/-- The accessor `krypt_asn1_template_set_parsed` (modelled with the struct). -/
def krypt_asn1_template_set_parsed (t : krypt_asn1_template) (b : Bool) : krypt_asn1_template :=
  match t with
  | .mk object definition options value _ is_decoded =>
    .mk object definition options value b is_decoded

/-- The accessor `krypt_asn1_template_set_decoded` (modelled with the struct). -/
def krypt_asn1_template_set_decoded (t : krypt_asn1_template) (b : Bool) :
    krypt_asn1_template :=
  match t with
  | .mk object definition options value is_parsed _ =>
    .mk object definition options value is_parsed b

/-- The statements `xfree(object->bytes); object->bytes = NULL; object->bytes_len = 0`. -/
def int_template_free_bytes (t : krypt_asn1_template) : krypt_asn1_template :=
  match t with
  | .mk (some object) definition options value is_parsed is_decoded =>
    .mk (some { object with bytes := none, bytes_len := 0 }) definition options value
      is_parsed is_decoded
  | other => other

/-- Modelled from the spec: `krypt_asn1_template_new(object, Qnil, Qnil)` is missing from
the sources; section 4.6: a template starts as "Fresh", which "holds only raw bytes". -/
def krypt_asn1_template_new (object : krypt_asn1_object) : krypt_asn1_template :=
  .mk (some object) none {} (.plain .qnil) false false

/-- Modelled from the spec: `krypt_asn1_template_new_value` applied to an instance (see
`krypt_asn1_template_new_value`). -/
def krypt_asn1_template_new_value_of (value : TVALUE) : krypt_asn1_template :=
  .mk none none {} value true true

/-- The octets a stream made with `krypt_instream_new_bytes(bytes, bytes_len)` reads; a
NULL pointer comes with the length 0. -/
def krypt_instream_new_bytes (bytes : Option Bytes) (bytes_len : Nat) : Bytes :=
  (bytes.getD []).take bytes_len

/-- The function `int_parse_explicit_header`: the header at the start of the value octets,
or NULL and the error "Could not unpack explicitly tagged value". -/
def int_parse_explicit_header (object : krypt_asn1_object) (errors : krypt_errors) :
    Option krypt_asn1_header × krypt_errors :=
  match krypt_asn1_next_header (krypt_instream_new_bytes object.bytes object.bytes_len) with
  | .ok (some (header, _)) => (some header, errors)
  | _ => (none, errors ++ [.could_not_unpack_explicit])

/-- The function `int_unpack_explicit`: the inner header and the octets `*pp` of length
`*len`, which are the value octets of the object behind the inner header. -/
def int_unpack_explicit (object : krypt_asn1_object) (errors : krypt_errors) :
    Option (krypt_asn1_header × Bytes) × krypt_errors :=
  match int_parse_explicit_header object errors with
  | (none, errors2) => (none, errors2)
  | (some header, errors2) =>
    (some (header,
       ((object.bytes.getD []).drop (header.tag_len + header.length_len)).take
         (object.bytes_len - (header.tag_len + header.length_len))),
     errors2)

/-- The function `int_next_template`: the result (1, 0 at the end of the stream, -1), the
template read, the stream behind it and the error chain. -/
def int_next_template (inp : Bytes) (errors : krypt_errors) :
    Int × Option krypt_asn1_template × Bytes × krypt_errors :=
  match krypt_asn1_next_header inp with
  | .error _ => (-1, none, inp, errors ++ [.error_reading_next_value])
  | .ok none => (0, none, inp, errors)
  | .ok (some (next, rest)) =>
    match krypt_asn1_get_value rest next with
    | .error _ => (-1, none, rest, errors ++ [.error_reading_next_value])
    | .ok (value, rest2) =>
      (1, some (krypt_asn1_template_new (krypt_asn1_object_new_value next value value.length)),
       rest2, errors)

/-- The function `int_parse_eoc`: the result and the stream behind the header read. -/
def int_parse_eoc (inp : Bytes) : Int × Bytes :=
  match krypt_asn1_next_header inp with
  | .ok (some (next, rest)) =>
    (if next.tag = TAGS_END_OF_CONTENTS ∧ next.tag_class = .UNIVERSAL then 1 else 0, rest)
  | _ => (0, inp)

/-- The function `int_ensure_stream_is_consumed`. Reading one octet yields 1 when there is
one and -1 at the end of the stream (`krypt_instream_read` is missing from the sources). -/
def int_ensure_stream_is_consumed (inp : Bytes) (errors : krypt_errors) : Int × krypt_errors :=
  match inp with
  | [] => (1, errors)
  | _ :: _ => (0, errors ++ [.data_left])

/-- The function `int_rest_is_optional` from the index of the first entry of `layout` on:
the result, the host and the error chain. -/
def int_rest_is_optional (self : TVALUE) :
    List krypt_definition_hash → krypt_errors → Except Fault (Int × TVALUE × krypt_errors)
  | [], errors => .ok (1, self, errors)
  | cur_def :: more, errors =>
    if krypt_definition_is_optional
        (krypt_definition_init cur_def (krypt_hash_get_options cur_def)) = false then
      .ok (0, self,
        errors ++ [.mandatory_value_not_found
          (if NIL_P (krypt_definition_get_name
              (krypt_definition_init cur_def (krypt_hash_get_options cur_def))) = true
           then none
           else some (SYM2ID (krypt_definition_get_name
              (krypt_definition_init cur_def (krypt_hash_get_options cur_def)))))])
    else if krypt_definition_has_default
        (krypt_definition_init cur_def (krypt_hash_get_options cur_def)) = true then
      match int_set_default_value self
          (krypt_definition_init cur_def (krypt_hash_get_options cur_def)) with
      | .error e => .error e
      | .ok (r, self2) =>
        if r = 0 then .ok (0, self2, errors) else int_rest_is_optional self2 more errors
    else int_rest_is_optional self more errors

/-- The function `int_parse_assign`: the template, with its parsed flag set, is bound to
the name of the definition on the host. The object bound wraps the pointer `t`: the host
holds the struct as this call leaves it, and a later write to `t` reaches the host through
the caller that makes it (`krypt_asn1_template_get_parse_decode` returns the host with the
decoded template). -/
def int_parse_assign (self : TVALUE) (t : krypt_asn1_template) (d : krypt_asn1_definition)
    (errors : krypt_errors) : krypt_ctx_result :=
  if NIL_P (krypt_definition_get_name d) = true then .error .Error_name_missing_in_definition
  else
    .ok (1,
      rb_ivar_set self (SYM2ID (krypt_definition_get_name d))
        (.template_value (krypt_asn1_template_set_parsed t true)),
      krypt_asn1_template_set_parsed t true, errors)

/-- The type of the three functions of a codec context: host, template, definition (with
the layout its hash holds) and error chain in, `krypt_ctx_result` out. -/
abbrev krypt_ctx_fn :=
  TVALUE → krypt_asn1_template → krypt_asn1_definition → Option (List krypt_definition_hash) →
    krypt_errors → krypt_ctx_result

/-- The function `int_match_cons_of`. -/
def int_match_cons_of (F : ID → Option TagClass) (self : TVALUE) (t : krypt_asn1_template)
    (d : krypt_asn1_definition) (default_tag : Int) (errors : krypt_errors) :
    krypt_ctx_result :=
  match int_try_match_cons F t d default_tag errors with
  | .error e => .error e
  | .ok (m, errors2) =>
    if m = 1 ∨ m = 0 then .ok (m, self, t, errors2)
    else int_check_optional_or_default F self t d default_tag errors2

/-- The function `int_match_seq_of`. -/
def int_match_seq_of (F : ID → Option TagClass) (self : TVALUE) (t : krypt_asn1_template)
    (d : krypt_asn1_definition) (errors : krypt_errors) : krypt_ctx_result :=
  int_match_cons_of F self t d TAGS_SEQUENCE errors

/-- The function `int_match_set_of`. -/
def int_match_set_of (F : ID → Option TagClass) (self : TVALUE) (t : krypt_asn1_template)
    (d : krypt_asn1_definition) (errors : krypt_errors) : krypt_ctx_result :=
  int_match_cons_of F self t d TAGS_SET errors

/-- The function `int_match_choice`: the body is `return 0`. -/
def int_match_choice (self : TVALUE) (t : krypt_asn1_template) (_d : krypt_asn1_definition)
    (errors : krypt_errors) : krypt_ctx_result :=
  .ok (0, self, t, errors)

/-- The function `int_parse_choice`: the body is `return 0`. -/
def int_parse_choice (self : TVALUE) (t : krypt_asn1_template) (_d : krypt_asn1_definition)
    (errors : krypt_errors) : krypt_ctx_result :=
  .ok (0, self, t, errors)

/-- The function `int_decode_choice`: the body is `return 0`. -/
def int_decode_choice (self : TVALUE) (t : krypt_asn1_template) (_d : krypt_asn1_definition)
    (errors : krypt_errors) : krypt_ctx_result :=
  .ok (0, self, t, errors)

/-- The function `int_match_template`. `M` is the call `ctx->match` through the context of
the inner codec; `G` is `krypt_definition_get`, the definition registered for a class (it
is missing from the sources), `none` being nil. -/
def int_match_template (M : krypt_asn1_template_match_cb → krypt_ctx_fn)
    (G : VALUE → Option krypt_definition_hash) (self : TVALUE) (t : krypt_asn1_template)
    (d : krypt_asn1_definition) (errors : krypt_errors) : krypt_ctx_result :=
  if NIL_P (krypt_definition_get_type d) = true then .error .Error_type_missing_in_definition
  else
    match G (krypt_definition_get_type d) with
    | none => .ok (0, self, t, errors ++ [.type_has_no_definition (krypt_definition_get_type d)])
    | some type_def =>
      match krypt_asn1_template_get_ctx_for_codec (krypt_hash_get_codec type_def) errors with
      | (none, _) => .error .fault_null_dereference
      | (some ctx, errors2) =>
        match M ctx.match_cb self t
            (krypt_definition_init type_def (krypt_definition_get_options d)) type_def.layout
            errors2 with
        | .error e => .error e
        | .ok (m, self2, t2, errors3) =>
          if m = -1 ∧ krypt_definition_has_default d = true then
            match int_set_default_value self2 d with
            | .error e => .error e
            | .ok (r, self3) =>
              if r = 0 then .ok (0, self3, t2, errors3) else .ok (-2, self3, t2, errors3)
          else .ok (m, self2, t2, errors3)

/-- The call `ctx->match(self, t, &def)` for each function a context can hold. The budget
bounds the chain of classes `int_match_template` follows through `G`. -/
def krypt_asn1_template_ctx_match (F : ID → Option TagClass)
    (G : VALUE → Option krypt_definition_hash) :
    Nat → krypt_asn1_template_match_cb → krypt_ctx_fn
  | 0, _ => fun _ _ _ _ _ => .error .out_of_fuel
  | fuel + 1, cb => fun self t d _layout errors =>
    match cb with
    | .int_match_prim => int_match_prim F self t d errors
    | .int_match_sequence => int_match_sequence F self t d errors
    | .int_match_set => int_match_set F self t d errors
    | .int_match_template =>
      int_match_template (krypt_asn1_template_ctx_match F G fuel) G self t d errors
    | .int_match_seq_of => int_match_seq_of F self t d errors
    | .int_match_set_of => int_match_set_of F self t d errors
    | .int_match_any => int_match_any self t d errors
    | .int_match_choice => int_match_choice self t d errors

/-- The calls `rb_obj_alloc(type)` and `krypt_asn1_template_set(type, instance, t)`: a new
instance of the class that wraps the template. -/
def int_template_instance_new (type : VALUE) (t : krypt_asn1_template) : Except Fault TVALUE :=
  match type with
  | .template_class n => .ok (.template_instance n [] (some t))
  | _ => .error .TypeError

/-- The function `int_parse_template`: the host gets a template value holding a new
instance, which wraps `t`; `t` gets the definition of the class, its parsed flag is
cleared and its decoded flag is set. -/
def int_parse_template (G : VALUE → Option krypt_definition_hash) (self : TVALUE)
    (t : krypt_asn1_template) (d : krypt_asn1_definition) (errors : krypt_errors) :
    krypt_ctx_result :=
  if NIL_P (krypt_definition_get_type d) = true then .error .Error_type_missing_in_definition
  else if NIL_P (krypt_definition_get_name d) = true then
    .error .Error_name_missing_in_definition
  else
    match G (krypt_definition_get_type d) with
    | none => .ok (0, self, t, errors ++ [.type_has_no_definition (krypt_definition_get_type d)])
    | some type_def =>
      match int_template_instance_new (krypt_definition_get_type d)
          (krypt_asn1_template_set_decoded
            (krypt_asn1_template_set_parsed
              (krypt_asn1_template_set_definition t (some type_def)) false) true) with
      | .error e => .error e
      | .ok inst =>
        .ok (1,
          rb_ivar_set self (SYM2ID (krypt_definition_get_name d))
            (.template_value
              (krypt_asn1_template_set_options
                (krypt_asn1_template_set_definition (krypt_asn1_template_new_value_of inst)
                  (krypt_asn1_template_get_definition t))
                (krypt_asn1_template_get_options t))),
          krypt_asn1_template_set_decoded
            (krypt_asn1_template_set_parsed
              (krypt_asn1_template_set_definition t (some type_def)) false) true,
          errors)

/-- The macro `NUM2LONG`: the `long` held by an Integer (taken to fit); anything else
raises a TypeError. -/
def NUM2LONG : VALUE → Except Fault Int
  | .fixnum n => .ok n
  | _ => .error .TypeError

/-- The variables of the layout loop of `int_parse_cons`: the host, the stream `in`, the
current template, the count of parsed entries and the error chain. `match_results` records the
results of `ctx->match` in layout order; the code keeps no such list, the statements
refer to it. -/
structure int_parse_cons_vars where
  self : TVALUE
  inp : Bytes
  cur_template : krypt_asn1_template
  num_parsed : Int
  errors : krypt_errors
  match_results : List Int

/-- The layout loop of `int_parse_cons` from the entry `cur_def` on, `more` being the
entries behind it: the result is 1 when the loop is left at its end or with `break`, 0
when it is left with `goto error`. `M` and `P` are the calls `ctx->match` and
`ctx->parse`. -/
def int_parse_cons_loop (M : krypt_asn1_template_match_cb → krypt_ctx_fn)
    (P : krypt_asn1_template_parse_cb → krypt_ctx_fn) :
    List krypt_definition_hash → int_parse_cons_vars → Except Fault (Int × int_parse_cons_vars)
  | [], v => .ok (1, v)
  | cur_def :: more, v =>
    match krypt_asn1_template_get_ctx_for_codec (krypt_hash_get_codec cur_def) [] with
    | (none, _) => .error .fault_null_dereference
    | (some ctx, errors0) =>
      match M ctx.match_cb v.self
          (krypt_asn1_template_set_options
            (krypt_asn1_template_set_definition v.cur_template (some cur_def))
            (krypt_hash_get_options cur_def))
          (krypt_definition_init cur_def (krypt_hash_get_options cur_def)) cur_def.layout
          errors0 with
      | .error e => .error e
      | .ok (result, self2, t2, errors2) =>
        if result = 0 then
          .ok (0, { v with self := self2, cur_template := t2, errors := errors2,
                           match_results := v.match_results ++ [result] })
        else if result = 1 then
          match P ctx.parse_cb self2 t2
              (krypt_definition_init cur_def (krypt_hash_get_options cur_def)) cur_def.layout
              errors2 with
          | .error e => .error e
          | .ok (r, self3, t3, errors3) =>
            if r = 0 then
              .ok (0, { v with self := self3, cur_template := t3, errors := errors3,
                               match_results := v.match_results ++ [result] })
            else
              match more with
              | [] =>
                .ok (1, { v with self := self3, cur_template := t3, errors := errors3,
                                 num_parsed := v.num_parsed + 1,
                                 match_results := v.match_results ++ [result] })
              | _ :: _ =>
                match int_next_template v.inp errors3 with
                | (has_more, next, inp2, errors4) =>
                  if has_more = -1 then
                    .ok (0, { v with self := self3, inp := inp2, cur_template := t3,
                                     errors := errors4, num_parsed := v.num_parsed + 1,
                                     match_results := v.match_results ++ [result] })
                  else if has_more = 0 then
                    match int_rest_is_optional self3 more errors4 with
                    | .error e => .error e
                    | .ok (rest_ok, self4, errors5) =>
                      .ok (if rest_ok = 0 then 0 else 1,
                        { v with self := self4, inp := inp2, cur_template := t3,
                                 errors := errors5, num_parsed := v.num_parsed + 1,
                                 match_results := v.match_results ++ [result] })
                  else
                    match next with
                    | none => .error .fault_null_dereference
                    | some cur_template2 =>
                      int_parse_cons_loop M P more
                        { v with self := self3, inp := inp2, cur_template := cur_template2,
                                 errors := errors4, num_parsed := v.num_parsed + 1,
                                 match_results := v.match_results ++ [result] }
        else
          int_parse_cons_loop M P more
            { v with self := self2, cur_template := t2, errors := errors2,
                     match_results := v.match_results ++ [result] }

/-- The part of `int_parse_cons` behind the layout loop: the checks of the count, of the
closing END OF CONTENTS and of the stream, and the update of the template. -/
def int_parse_cons_finish (t : krypt_asn1_template) (header : krypt_asn1_header)
    (min_size layout_size : Int) (v : int_parse_cons_vars) : krypt_ctx_result :=
  if v.num_parsed < min_size then
    .ok (0, v.self, t, v.errors ++ [.expected_values min_size layout_size v.num_parsed])
  else if header.is_infinite = true ∧ (int_parse_eoc v.inp).1 = 0 then
    .ok (0, v.self, t, v.errors ++ [.no_closing_eoc])
  else
    match int_ensure_stream_is_consumed
        (if header.is_infinite = true then (int_parse_eoc v.inp).2 else v.inp) v.errors with
    | (consumed, errors2) =>
      if consumed = 0 then .ok (0, v.self, t, errors2)
      else
        .ok (1, v.self,
          int_template_free_bytes
            (krypt_asn1_template_set_decoded (krypt_asn1_template_set_parsed t true) true),
          errors2)

/-- The function `int_parse_cons`. `M` and `P` are the calls `ctx->match` and `ctx->parse`
of the layout loop. -/
def int_parse_cons (M : krypt_asn1_template_match_cb → krypt_ctx_fn)
    (P : krypt_asn1_template_parse_cb → krypt_ctx_fn) : krypt_ctx_fn :=
  fun self t d layout errors =>
  match t.object with
  | none => .error .fault_null_dereference
  | some object =>
    match layout with
    | none => .error .Error_layout_missing_in_definition
    | some layout =>
      if NIL_P (krypt_definition_get_min_size d) = true then
        .error .Error_min_size_missing_in_definition
      else
        match NUM2LONG (krypt_definition_get_min_size d) with
        | .error e => .error e
        | .ok min_size =>
          match
            (if NIL_P (krypt_definition_get_tagging d) = false ∧
                SYM2ID (krypt_definition_get_tagging d) = sKrypt_TC_EXPLICIT then
              int_unpack_explicit object errors
             else
              (some (object.header, krypt_instream_new_bytes object.bytes object.bytes_len),
               errors) : Option (krypt_asn1_header × Bytes) × krypt_errors) with
          | (none, errors2) => .ok (0, self, t, errors2)
          | (some (header, p), errors2) =>
            match int_next_template p errors2 with
            | (has_first, first, inp, errors3) =>
              if has_first ≠ 1 then .ok (0, self, t, errors3)
              else
                match first with
                | none => .error .fault_null_dereference
                | some cur_template =>
                  match int_parse_cons_loop M P layout
                      { self := self, inp := inp, cur_template := cur_template,
                        num_parsed := 0, errors := errors3, match_results := [] } with
                  | .error e => .error e
                  | .ok (loop_ok, v) =>
                    if loop_ok = 0 then .ok (0, v.self, t, v.errors)
                    else int_parse_cons_finish t header min_size layout.length v

/-- The call `ctx->parse(self, t, &def)` for each function a context can hold. The budget
bounds the nesting of the layouts `int_parse_cons` descends into. -/
def krypt_asn1_template_ctx_parse (F : ID → Option TagClass)
    (G : VALUE → Option krypt_definition_hash) :
    Nat → krypt_asn1_template_parse_cb → krypt_ctx_fn
  | 0, _ => fun _ _ _ _ _ => .error .out_of_fuel
  | fuel + 1, cb => fun self t d layout errors =>
    match cb with
    | .int_parse_assign => int_parse_assign self t d errors
    | .int_parse_cons =>
      int_parse_cons (krypt_asn1_template_ctx_match F G (fuel + 1))
        (krypt_asn1_template_ctx_parse F G fuel) self t d layout errors
    | .int_parse_template => int_parse_template G self t d errors
    | .int_parse_any => int_parse_any self t d errors
    | .int_parse_choice => int_parse_choice self t d errors
/-! ### The decoding functions of the template parser -/

/-- The table `krypt_asn1_codecs` as this file uses it: the decoder of a tag, `none` when
the pointer is NULL, takes the template value and the octets and returns the value, or
`none` for the result 0. What a read outside the table yields is whatever the function
returns there. -/
abbrev krypt_template_decoders := Int → Option (TVALUE → Bytes → Option VALUE)

/-- The label `error` of `int_decode_prim`: the error "Error while decoding value" with
the name of the definition, if it has one, and the result 0. -/
def int_decode_prim_error (tvalue : TVALUE) (t : krypt_asn1_template)
    (d : krypt_asn1_definition) (errors : krypt_errors) : krypt_ctx_result :=
  .ok (0, tvalue, t,
    errors ++ [.error_while_decoding
      (if NIL_P (krypt_definition_get_name d) = true then none
       else some (SYM2ID (krypt_definition_get_name d)))])

/-- The function `int_decode_prim_inf`: it raises. -/
def int_decode_prim_inf (_tvalue : TVALUE) (_t : krypt_asn1_template)
    (_d : krypt_asn1_definition) (_errors : krypt_errors) : krypt_ctx_result :=
  .error .NotImpError

/-- The function `int_decode_prim`. `D` is the table of the decoders. -/
def int_decode_prim (D : krypt_template_decoders) (tvalue : TVALUE) (t : krypt_asn1_template)
    (d : krypt_asn1_definition) (errors : krypt_errors) : krypt_ctx_result :=
  match t.object with
  | none => .error .fault_null_dereference
  | some object =>
    if object.header.is_infinite = true then int_decode_prim_inf tvalue t d errors
    else if NIL_P (krypt_definition_get_type d) = true then
      .error .Error_type_missing_in_definition
    else
      match NUM2INT (krypt_definition_get_type d) with
      | .error e => .error e
      | .ok default_tag =>
        if NIL_P (krypt_definition_get_tagging d) = false ∧
            SYM2ID (krypt_definition_get_tagging d) = sKrypt_TC_EXPLICIT then
          if object.header.is_constructed = false then
            int_decode_prim_error tvalue t d (errors ++ [.constructive_bit_not_set_explicit])
          else
            match int_unpack_explicit object errors with
            | (none, errors2) => .ok (0, tvalue, t, errors2)
            | (some (_, p), errors2) =>
              match D default_tag with
              | none =>
                int_decode_prim_error tvalue t d
                  (errors2 ++ [.no_codec_for_default_tag default_tag])
              | some decoder =>
                match decoder tvalue p with
                | none => int_decode_prim_error tvalue t d errors2
                | some value =>
                  .ok (1, tvalue,
                    krypt_asn1_template_set_decoded
                      (krypt_asn1_template_set_value t (.plain value)) true,
                    errors2)
        else
          if object.header.is_constructed = true then
            int_decode_prim_error tvalue t d (errors ++ [.constructive_bit_set])
          else
            match D default_tag with
            | none =>
              int_decode_prim_error tvalue t d
                (errors ++ [.no_codec_for_default_tag default_tag])
            | some decoder =>
              match decoder tvalue (krypt_instream_new_bytes object.bytes object.bytes_len) with
              | none => int_decode_prim_error tvalue t d errors
              | some value =>
                .ok (1, tvalue,
                  krypt_asn1_template_set_decoded
                    (krypt_asn1_template_set_value t (.plain value)) true,
                  errors)

/-- The superclass given to `rb_define_class_under` in `Init_krypt_asn1`; `none` is
`rb_cObject`. -/
def Klass.superclass : Klass → Option Klass
  | .cKryptASN1Data => none
  | .cKryptASN1Primitive => some .cKryptASN1Data
  | .cKryptASN1Constructive => some .cKryptASN1Data
  | .cKryptASN1Sequence => some .cKryptASN1Constructive
  | .cKryptASN1Set => some .cKryptASN1Constructive
  | _ => some .cKryptASN1Primitive

/-- The function `rb_obj_is_kind_of` of the Ruby API on the classes of `Krypt::ASN1`,
whose chains of superclasses have at most three links. -/
def Klass.is_kind_of (k sup : Klass) : Bool :=
  decide (k = sup) || decide (k.superclass = some sup) ||
    decide ((k.superclass.bind Klass.superclass) = some sup)

/-- Modelled from the spec: `krypt_asn1_decode_stream` is missing from the sources; it
decodes the next value of a stream as `decode` does (section 4.4) and returns 1, 0 at
the end of the stream, or -1. Returns the result, the value and the stream behind it. -/
def krypt_asn1_decode_stream (T : CodecTable) (inp : Bytes) : Int × Option VALUE × Bytes :=
  match krypt_asn1_next_header inp with
  | .error _ => (-1, none, inp)
  | .ok none => (0, none, inp)
  | .ok (some (header, rest)) =>
    match krypt_asn1_data_new T rest (some header) with
    | .error _ => (-1, none, rest)
    | .ok (cur, rest2) => (1, some cur, rest2)

/-- Modelled from the spec: `krypt_asn1_template_new_from_stream` is missing from the
sources; it reads the value octets of the header from the stream and returns a template on
them with the definition and the options given, or NULL. Returns the template and the
stream behind it. -/
def krypt_asn1_template_new_from_stream (inp : Bytes) (header : krypt_asn1_header)
    (definition : krypt_definition_hash) (options : krypt_asn1_options) :
    Option krypt_asn1_template × Bytes :=
  match krypt_asn1_get_value inp header with
  | .error _ => (none, inp)
  | .ok (value, rest) =>
    (some (.mk (some (krypt_asn1_object_new_value header value value.length))
       (some definition) options (.plain .qnil) false false), rest)

/-- The function `int_rb_template_new_initial`: a new instance of the class on the next
value of the stream, or nil. Returns the instance, the stream and the error chain. -/
def int_rb_template_new_initial (G : VALUE → Option krypt_definition_hash) (klass : VALUE)
    (inp : Bytes) (header : krypt_asn1_header) (errors : krypt_errors) :
    Except Fault (Option TVALUE × Bytes × krypt_errors) :=
  match G klass with
  | none => .ok (none, inp, errors ++ [.type_has_no_definition klass])
  | some definition =>
    match krypt_asn1_template_new_from_stream inp header definition
        (krypt_hash_get_options definition) with
    | (none, inp2) => .ok (none, inp2, errors ++ [.error_reading_data])
    | (some template, inp2) =>
      match int_template_instance_new klass template with
      | .error e => .error e
      | .ok obj => .ok (some obj, inp2, errors)

/-- The function `krypt_asn1_template_parse_stream`: the result (1, 0, -1), the instance,
the stream and the error chain. -/
def krypt_asn1_template_parse_stream (G : VALUE → Option krypt_definition_hash) (inp : Bytes)
    (klass : VALUE) (errors : krypt_errors) :
    Except Fault (Int × Option TVALUE × Bytes × krypt_errors) :=
  match krypt_asn1_next_header inp with
  | .error _ => .ok (-1, none, inp, errors)
  | .ok none => .ok (0, none, inp, errors)
  | .ok (some (header, rest)) =>
    match int_rb_template_new_initial G klass rest header errors with
    | .error e => .error e
    | .ok (none, inp2, errors2) => .ok (0, none, inp2, errors2)
    | .ok (some ret, inp2, errors2) => .ok (1, some ret, inp2, errors2)

/-- The function `int_decode_cons_of_templates`: the result, the Array, the stream and the
error chain. The budget bounds the number of values read. -/
def int_decode_cons_of_templates (G : VALUE → Option krypt_definition_hash) (type : VALUE) :
    Nat → Bytes → krypt_errors → Except Fault (Int × List TVALUE × Bytes × krypt_errors)
  | 0, _, _ => .error .out_of_fuel
  | fuel + 1, inp, errors =>
    match krypt_asn1_template_parse_stream G inp type errors with
    | .error e => .error e
    | .ok (result, cur, inp2, errors2) =>
      if result = 1 then
        match cur with
        | none => .error .fault_null_dereference
        | some cur =>
          match int_decode_cons_of_templates G type fuel inp2 errors2 with
          | .error e => .error e
          | .ok (r, ary, inp3, errors3) => .ok (r, cur :: ary, inp3, errors3)
      else if result = -1 then .ok (0, [], inp2, errors2)
      else .ok (1, [], inp2, errors2)

/-- The function `int_decode_cons_of_prim`: the result, the Array, the stream and the
error chain. The budget bounds the number of values read. -/
def int_decode_cons_of_prim (T : CodecTable) (type : VALUE) :
    Nat → Bytes → krypt_errors → Except Fault (Int × List TVALUE × Bytes × krypt_errors)
  | 0, _, _ => .error .out_of_fuel
  | fuel + 1, inp, errors =>
    match krypt_asn1_decode_stream T inp with
    | (result, cur, inp2) =>
      if result = 1 then
        match cur, type with
        | some cur, .asn1_class sup =>
          if ((int_asn1_klass_of cur).map (fun k => k.is_kind_of sup)).getD false = false then
            .ok (0, [], inp2, errors ++ [.expected_kind type (int_asn1_klass_of cur)])
          else
            match int_decode_cons_of_prim T type fuel inp2 errors with
            | .error e => .error e
            | .ok (r, ary, inp3, errors3) => .ok (r, .plain cur :: ary, inp3, errors3)
        | none, _ => .error .fault_null_dereference
        | _, _ => .error .TypeError
      else if result = -1 then .ok (0, [], inp2, errors)
      else .ok (1, [], inp2, errors)

/-- The call `rb_funcall(type, rb_intern("include?"), 1, mKryptASN1Template)`: a class with
a definition includes the module, a class of `Krypt::ASN1` does not, and anything that is
no class does not respond to the message. -/
def int_includes_template (type : VALUE) : Except Fault Bool :=
  match type with
  | .template_class _ => .ok true
  | .asn1_class _ => .ok false
  | _ => .error .TypeError

/-- The function `int_decode_cons_of`. -/
def int_decode_cons_of (T : CodecTable) (G : VALUE → Option krypt_definition_hash)
    (self : TVALUE) (t : krypt_asn1_template) (d : krypt_asn1_definition)
    (errors : krypt_errors) : krypt_ctx_result :=
  match t.object with
  | none => .error .fault_null_dereference
  | some object =>
    if NIL_P (krypt_definition_get_type d) = true then .error .Error_type_missing_in_definition
    else if NIL_P (krypt_definition_get_name d) = true then
      .error .Error_name_missing_in_definition
    else
      match
        (if NIL_P (krypt_definition_get_tagging d) = false ∧
            SYM2ID (krypt_definition_get_tagging d) = sKrypt_TC_EXPLICIT then
          int_unpack_explicit object errors
         else
          (some (object.header, krypt_instream_new_bytes object.bytes object.bytes_len),
           errors) : Option (krypt_asn1_header × Bytes) × krypt_errors) with
      | (none, errors2) => .ok (0, self, t, errors2)
      | (some (header, p), errors2) =>
        match int_includes_template (krypt_definition_get_type d) with
        | .error e => .error e
        | .ok mod_p =>
          match
            (if mod_p = true then
              int_decode_cons_of_templates G (krypt_definition_get_type d) (p.length + 1) p
                errors2
             else
              int_decode_cons_of_prim T (krypt_definition_get_type d) (p.length + 1) p
                errors2) with
          | .error e => .error e
          | .ok (r, val_ary, inp, errors3) =>
            if r = 0 then .ok (0, self, t, errors3)
            else if val_ary.length = 0 ∧ krypt_definition_is_optional d = false then
              .ok (0, self, t,
                errors3 ++ [.mandatory_sequence_empty (SYM2ID (krypt_definition_get_name d))])
            else if header.is_infinite = true ∧ (int_parse_eoc inp).1 = 0 then
              .ok (0, self, t,
                errors3 ++ [.no_closing_eoc_for (SYM2ID (krypt_definition_get_name d))])
            else
              match int_ensure_stream_is_consumed
                  (if header.is_infinite = true then (int_parse_eoc inp).2 else inp)
                  errors3 with
              | (consumed, errors4) =>
                if consumed = 0 then .ok (0, self, t, errors4)
                else
                  .ok (1, self,
                    int_template_free_bytes
                      (krypt_asn1_template_set_decoded
                        (krypt_asn1_template_set_value t (.ary val_ary)) true),
                    errors4)

/-! ### Values to evaluate the parsing and decoding functions with -/

/-- Modelled from the spec: the decoders of the table `krypt_asn1_codecs` as the template
parser calls them; the table is missing from the sources. The entries are those of
`krypt_asn1_codecs` (section 4.3), a rejected value being the result 0. -/
def krypt_template_decoders_sample : krypt_template_decoders := fun tag =>
  (krypt_asn1_codecs tag).decoder.map (fun decoder => fun _ bytes =>
    match decoder .qnil bytes with
    | .ok value => some value
    | .error _ => none)

/-- The id of the symbol `:a`. -/
def sID_a : ID := .other 101

/-- The id of the symbol `:b`. -/
def sID_b : ID := .other 102

/-- The template `int_next_template` returns for the octets A0 03 13 01 41: a
PrintableString "A" under an explicit context specific tag 0. -/
def template_explicit_printable : krypt_asn1_template :=
  .mk (some
      { header :=
          { tag := 0, tag_class := .CONTEXT_SPECIFIC, is_constructed := true,
            is_infinite := false, length := 3, tag_bytes := some [160], tag_len := 1,
            length_bytes := some [3], length_len := 1, header_length := 2 },
        bytes := some [19, 1, 65], bytes_len := 3 })
    none {} (.plain .qnil) false false

/-- The definition of a SEQUENCE without fields, as a class with a definition has it. -/
def definition_empty_sequence : krypt_definition_hash :=
  .mk sKrypt_ID_SEQUENCE { min_size := .fixnum 0 } (some [])

/-- A registry in which the class 1 has the definition of a SEQUENCE without fields and no
other class has a definition. -/
def definition_registry_sample : VALUE → Option krypt_definition_hash
  | .template_class 1 => some definition_empty_sequence
  | _ => none

/-! ### Predicates on hosts the statements refer to -/

/-- The host after the defaults of the entries of a layout are installed, in layout
order: an entry with a default binds its name to a template value holding the
default. -/
def int_install_defaults : TVALUE → List krypt_definition_hash → TVALUE
  | self, [] => self
  | self, cur_def :: more =>
    int_install_defaults
      (match cur_def.d.default_value with
       | some dv =>
         rb_ivar_set self (SYM2ID cur_def.d.name)
           (.template_value (krypt_asn1_template_new_value dv))
       | none => self)
      more

/-- Every instance variable that is bound on `self` is bound on `self2`. -/
def rb_ivars_kept (self self2 : TVALUE) : Prop :=
  ∀ id, rb_ivar_get self id ≠ .plain .qnil → rb_ivar_get self2 id ≠ .plain .qnil

/-- What a match function may do: the template is left as it is; the result is -2 and
the name of the definition is bound to a template value holding its default, or the
result is 1, 0 or -1 and the host is left as it is. -/
def int_match_effect (self : TVALUE) (t : krypt_asn1_template) (d : krypt_asn1_definition)
    (res : Int × TVALUE × krypt_asn1_template × krypt_errors) : Prop :=
  res.2.2.1 = t ∧
  ((res.1 = -2 ∧
      res.2.1 = rb_ivar_set self (SYM2ID d.name)
        (.template_value
          (krypt_asn1_template_new_value (krypt_definition_get_default_value d)))) ∨
   ((res.1 = 1 ∨ res.1 = 0 ∨ res.1 = -1) ∧ res.2.1 = self))

/-- The definitions registered for classes are those of a SEQUENCE, a SET or a CHOICE. -/
def definition_registry_is_structured (G : VALUE → Option krypt_definition_hash) : Prop :=
  ∀ type h, G type = some h →
    krypt_hash_get_codec h = sKrypt_ID_SEQUENCE ∨ krypt_hash_get_codec h = sKrypt_ID_SET ∨
      krypt_hash_get_codec h = sKrypt_ID_CHOICE

/-! ### Layouts to evaluate the parsing functions with -/

/-- The layout entry of a mandatory INTEGER named `a`. -/
def layout_entry_a : krypt_definition_hash :=
  .mk sKrypt_ID_PRIMITIVE { type := .fixnum TAGS_INTEGER, name := .symbol sID_a } none

/-- The layout entry of a mandatory BOOLEAN named `b`. -/
def layout_entry_b : krypt_definition_hash :=
  .mk sKrypt_ID_PRIMITIVE { type := .fixnum TAGS_BOOLEAN, name := .symbol sID_b } none

/-- The layout entry of an optional BOOLEAN named `b`. -/
def layout_entry_b_optional : krypt_definition_hash :=
  .mk sKrypt_ID_PRIMITIVE
    { type := .fixnum TAGS_BOOLEAN, name := .symbol sID_b, optional := true } none

/-- The layout entry of an optional BOOLEAN named `b` with the default false. -/
def layout_entry_b_default : krypt_definition_hash :=
  .mk sKrypt_ID_PRIMITIVE
    { type := .fixnum TAGS_BOOLEAN, name := .symbol sID_b, optional := true,
      default_value := some .qfalse } none

/-- The layout entry of an optional INTEGER named `a`. -/
def layout_entry_a_optional : krypt_definition_hash :=
  .mk sKrypt_ID_PRIMITIVE
    { type := .fixnum TAGS_INTEGER, name := .symbol sID_a, optional := true } none

/-- The variables of the layout loop when the current template is the one of the octets
02 01 01, the stream behind it is at its end and nothing has been parsed. -/
def parse_cons_vars_integer_one : int_parse_cons_vars :=
  { self := template_host, inp := [], cur_template := template_integer_one, num_parsed := 0,
    errors := [], match_results := [] }

/-- The template of the octets 30 06 02 01 01 04 01 00, a SEQUENCE of the INTEGER 1 and
an OCTET STRING of one octet, as `int_next_template` reads it. -/
def template_sequence_integer_octets : krypt_asn1_template :=
  .mk (some
      { header :=
          { tag := 16, tag_class := .UNIVERSAL, is_constructed := true, is_infinite := false,
            length := 6, tag_bytes := some [48], tag_len := 1, length_bytes := some [6],
            length_len := 1, header_length := 2 },
        bytes := some [2, 1, 1, 4, 1, 0], bytes_len := 6 })
    none {} (.plain .qnil) false false

/-! ## krypt_hex.c

A buffer `bytes` of `len` octets is a list whose first `len` elements are read; NULL is
`none`. Plain `char` is signed on some platforms and unsigned on others: the functions that
declare a `char` take the choice as `char_is_signed`. A read outside a table ends the call
with `Fault.fault_out_of_bounds`. -/

/-- The constant `SSIZE_MAX` of `limits.h` for a `ssize_t` of 64 bits. -/
def SSIZE_MAX : Nat := 9223372036854775807

/-- The largest value of a `size_t` of 64 bits; no buffer is longer. -/
def SIZE_MAX : Nat := 18446744073709551615

/-- The table `krypt_hex_table`: the characters of the literal "0123456789abcdef" and the
NUL that ends it. -/
def krypt_hex_table : List Nat :=
  [48, 49, 50, 51, 52, 53, 54, 55, 56, 57, 97, 98, 99, 100, 101, 102, 0]

/-- The initialisers of the table `krypt_hex_table_inv`, line by line as in the source. -/
def krypt_hex_table_inv : List Int :=
  [-1, -1, -1, -1, -1, -1, -1, -1, -1, -1, -1, -1, -1, -1, -1, -1, -1, -1, -1, -1,
   -1, -1, -1, -1, -1, -1, -1, -1, -1, -1, -1, -1, -1, -1, -1, -1, -1, -1, -1, -1,
   -1, -1, -1, -1, -1, -1, -1, -1, 0, 1, 2, 3, 4, 5, 6, 7, 8, 9, -1, -1,
   -1, -1, -1, -1, -1, 10, 11, 12, 13, 14, 15, -1, -1, -1, -1, -1, -1, -1, -1, -1,
   -1, -1, -1, -1, -1, -1, -1, -1, -1, -1, -1, -1, -1, -1, -1, -1, -1, 10, 11, 12,
   13, 14, 15]

/-- The macro `KRYPT_HEX_INV_MAX`. -/
def KRYPT_HEX_INV_MAX : Nat := 102

/-- The value a `char` holds after an `int` is stored in it: reduced to -128..127 when
`char` is signed, to 0..255 when it is unsigned. -/
def char_of_int (char_is_signed : Bool) (n : Int) : Int :=
  if char_is_signed = true then (n + 128) % 256 - 128 else n % 256

/-- The function `int_hex_encode` on the octets to encode: the result 1 and the
characters written to `out`. An octet is read as `unsigned char`. -/
def int_hex_encode : Bytes → Except Fault (Int × Bytes)
  | [] => .ok (1, [])
  | b :: rest =>
    match krypt_hex_table[(b % 256) >>> 4]?, krypt_hex_table[(b % 256) &&& 15]? with
    | some hi, some lo =>
      match int_hex_encode rest with
      | .error e => .error e
      | .ok (r, out) => .ok (r, hi :: lo :: out)
    | _, _ => .error .fault_out_of_bounds

/-- The function `int_hex_decode` on the characters to decode, two for each turn of the
loop (a last single character is not read): the result, the octets written to `out` and
the error chain. `b` is a `char`; `out[i] = b << 4` and `out[i] |= b` store into an
`unsigned char`. -/
def int_hex_decode (char_is_signed : Bool) :
    Bytes → krypt_errors → Except Fault (Int × Bytes × krypt_errors)
  | c :: d :: rest, errors =>
    if c % 256 > KRYPT_HEX_INV_MAX ∨ d % 256 > KRYPT_HEX_INV_MAX then
      .ok (0, [], errors ++ [.illegal_hex_characters (c % 256) (d % 256)])
    else
      match krypt_hex_table_inv[c % 256]? with
      | none => .error .fault_out_of_bounds
      | some b =>
        if char_of_int char_is_signed b < 0 then
          .ok (0, [], errors ++ [.illegal_hex_character (c % 256)])
        else
          match krypt_hex_table_inv[d % 256]? with
          | none => .error .fault_out_of_bounds
          | some b2 =>
            if char_of_int char_is_signed b2 < 0 then
              .ok (0, [(char_of_int char_is_signed b * 16 % 256).toNat],
                errors ++ [.illegal_hex_character (d % 256)])
            else
              match int_hex_decode char_is_signed rest errors with
              | .error e => .error e
              | .ok (r, out, errors2) =>
                .ok (r,
                  (((char_of_int char_is_signed b * 16 % 256).toNat |||
                      (char_of_int char_is_signed b2).toNat) % 256) :: out,
                  errors2)
  | _, errors => .ok (1, [], errors)

/-- The macro `int_hex_encode_tests`: the value of `tmp` behind it and the error chain. -/
def int_hex_encode_tests (bytes : Option Bytes) (len : Nat) (tmp : Int)
    (errors : krypt_errors) : Int × krypt_errors :=
  if len > SSIZE_MAX / 2 then (-1, errors ++ [.buffer_too_large len])
  else (if bytes.isNone = true then -1 else tmp, errors)

/-- The function `krypt_hex_encode`: the result (-1, or the length `2 * len`, which fits
a `ssize_t` behind the test), the buffer assigned to `*out` and the error chain. -/
def krypt_hex_encode (bytes : Option Bytes) (len : Nat) (errors : krypt_errors) :
    Except Fault (Int × Option Bytes × krypt_errors) :=
  match int_hex_encode_tests bytes len 0 errors with
  | (tmp, errors2) =>
    if tmp = -1 then .ok (-1, none, errors2)
    else
      match int_hex_encode ((bytes.getD []).take len) with
      | .error e => .error e
      | .ok (_, retval) => .ok (((2 * len : Nat) : Int), some retval, errors2)

/-- The macro `int_hex_decode_tests`: the value of `tmp` behind it and the error chain. -/
def int_hex_decode_tests (bytes : Option Bytes) (len : Nat) (tmp : Int)
    (errors : krypt_errors) : Int × krypt_errors :=
  if len / 2 > SSIZE_MAX then
    (-1, (if len % 2 ≠ 0 then errors ++ [.buffer_length_not_multiple_of_2] else errors) ++
      [.buffer_too_large len])
  else if len % 2 ≠ 0 then (-1, errors ++ [.buffer_length_not_multiple_of_2])
  else (if bytes.isNone = true then -1 else tmp, errors)

/-- The function `krypt_hex_decode`: the result (-1, or the length `len / 2`), the buffer
assigned to `*out` and the error chain. -/
def krypt_hex_decode (char_is_signed : Bool) (bytes : Option Bytes) (len : Nat)
    (errors : krypt_errors) : Except Fault (Int × Option Bytes × krypt_errors) :=
  match int_hex_decode_tests bytes len 0 errors with
  | (tmp, errors2) =>
    if tmp = -1 then .ok (-1, none, errors2)
    else
      match int_hex_decode char_is_signed ((bytes.getD []).take len) errors2 with
      | .error e => .error e
      | .ok (r, retval, errors3) =>
        if r = 0 then .ok (-1, none, errors3)
        else .ok (((len / 2 : Nat) : Int), some retval, errors3)

/-! ### Values and predicates the statements on krypt_hex.c refer to -/

/-- The value of a hexadecimal digit: 0-9, A-F and a-f stand for 0..15, upper and lower
case alike; any other character has none. -/
def hex_digit_value (c : Nat) : Option Nat :=
  if 48 ≤ c ∧ c ≤ 57 then some (c - 48)
  else if 65 ≤ c ∧ c ≤ 70 then some (c - 55)
  else if 97 ≤ c ∧ c ≤ 102 then some (c - 87)
  else none

/-- The octets a string of hexadecimal digits stands for, two digits for each octet, the
first digit counting 16; `none` when a character of a pair is no digit. A last single
character stands for nothing. -/
def hex_pairs_value : Bytes → Option Bytes
  | c :: d :: rest =>
    match hex_digit_value c, hex_digit_value d, hex_pairs_value rest with
    | some v, some w, some out => some ((16 * v + w) :: out)
    | _, _, _ => none
  | _ => some []

/-! ### The entry point `int_parse_decode` of the template parser -/

/-- The type of the function a codec context holds in its slot `decode`. -/
abbrev krypt_ctx_decode_fn :=
  TVALUE → krypt_asn1_template → krypt_asn1_definition → krypt_errors → krypt_ctx_result

/-- The call `ctx->decode(self, t, &def)` for each function a context can hold. -/
def krypt_asn1_template_ctx_decode (D : krypt_template_decoders) (T : CodecTable)
    (G : VALUE → Option krypt_definition_hash) :
    krypt_asn1_template_decode_cb → krypt_ctx_decode_fn
  | .int_decode_prim => int_decode_prim D
  | .int_decode_cons_of => int_decode_cons_of T G
  | .int_decode_any => int_decode_any
  | .int_decode_choice => int_decode_choice

/-- The function `int_parse_decode`. `M`, `P` and `Dc` are the calls `ctx->match`,
`ctx->parse` and `ctx->decode`; a slot `decode` that is NULL is not called. A definition
that is nil holds no codec to read (the accessor `krypt_hash_get_codec` is missing from the
sources). -/
def int_parse_decode (M : krypt_asn1_template_match_cb → krypt_ctx_fn)
    (P : krypt_asn1_template_parse_cb → krypt_ctx_fn)
    (Dc : krypt_asn1_template_decode_cb → krypt_ctx_decode_fn) (self : TVALUE)
    (template : krypt_asn1_template) (errors : krypt_errors) : krypt_ctx_result :=
  match krypt_asn1_template_get_definition template with
  | none => .error .TypeError
  | some definition =>
    match krypt_asn1_template_get_ctx_for_codec (krypt_hash_get_codec definition) errors with
    | (none, _) => .error .fault_null_dereference
    | (some ctx, errors1) =>
      match M ctx.match_cb self template
          (krypt_definition_init definition (krypt_asn1_template_get_options template))
          definition.layout errors1 with
      | .error e => .error e
      | .ok (m, self2, t2, errors2) =>
        if m = 0 then .ok (0, self2, t2, errors2)
        else
          match
            (if krypt_asn1_template_is_parsed t2 = false then
              P ctx.parse_cb self2 t2
                (krypt_definition_init definition (krypt_asn1_template_get_options template))
                definition.layout errors2
             else .ok (1, self2, t2, errors2) : krypt_ctx_result) with
          | .error e => .error e
          | .ok (p, self3, t3, errors3) =>
            if p = 0 then .ok (0, self3, t3, errors3)
            else
              match
                (if krypt_asn1_template_is_decoded t3 = false then
                  match ctx.decode_cb with
                  | none => .ok (1, self3, t3, errors3)
                  | some cb =>
                    Dc cb self3 t3
                      (krypt_definition_init definition
                        (krypt_asn1_template_get_options template))
                      errors3
                 else .ok (1, self3, t3, errors3) : krypt_ctx_result) with
              | .error e => .error e
              | .ok (r, self4, t4, errors4) =>
                if r = 0 then .ok (0, self4, t4, errors4) else .ok (1, self4, t4, errors4)

/-! ### Values to evaluate `int_parse_decode` and the unpacking of EXPLICIT with -/

/-- A table in which every decoder returns the octets it is handed, as a String. -/
def krypt_template_decoders_echo : krypt_template_decoders :=
  fun _ => some (fun _ bytes => some (.string bytes))

/-- The template `int_next_template` returns for the octets A0 03 02 01 01: the INTEGER 1
under an explicit context specific tag 0. -/
def template_explicit_integer : krypt_asn1_template :=
  .mk (some
      { header :=
          { tag := 0, tag_class := .CONTEXT_SPECIFIC, is_constructed := true,
            is_infinite := false, length := 3, tag_bytes := some [160], tag_len := 1,
            length_bytes := some [3], length_len := 1, header_length := 2 },
        bytes := some [2, 1, 1], bytes_len := 3 })
    none {} (.plain .qnil) false false

/-- The template `int_next_template` returns for the octets A0 06 02 01 01 02 01 02: a
context specific tag 0 around the INTEGER 1 followed by the INTEGER 2. -/
def template_explicit_two_integers : krypt_asn1_template :=
  .mk (some
      { header :=
          { tag := 0, tag_class := .CONTEXT_SPECIFIC, is_constructed := true,
            is_infinite := false, length := 6, tag_bytes := some [160], tag_len := 1,
            length_bytes := some [6], length_len := 1, header_length := 2 },
        bytes := some [2, 1, 1, 2, 1, 2], bytes_len := 6 })
    none {} (.plain .qnil) false false

/-- The definition of an INTEGER named `a` under the explicit tag 0. -/
def definition_explicit_integer : krypt_asn1_definition :=
  { type := .fixnum TAGS_INTEGER, name := .symbol sID_a, tag := .fixnum 0,
    tagging := .symbol sKrypt_TC_EXPLICIT }

/-- The id of a symbol that names no codec. -/
def sID_unknown_codec : ID := .other 999

/-- A layout entry whose codec is the symbol that names no codec. -/
def layout_entry_unknown_codec : krypt_definition_hash :=
  .mk sID_unknown_codec { type := .fixnum TAGS_INTEGER, name := .symbol sID_a } none

/-- A registry in which the class 2 has a definition whose codec is the symbol that names
no codec, and no other class has a definition. -/
def definition_registry_unknown_codec : VALUE → Option krypt_definition_hash
  | .template_class 2 => some (.mk sID_unknown_codec {} none)
  | _ => none

/-- The template of the octets 02 01 01 with the definition `definition` and its
options. -/
def template_integer_one_with (definition : krypt_definition_hash) : krypt_asn1_template :=
  krypt_asn1_template_set_options
    (krypt_asn1_template_set_definition template_integer_one (some definition))
    (krypt_hash_get_options definition)

/-! ### The codec of a value and the frame of the writers of the tag -/

/-- The struct an ASN1Data instance wraps (`DATA_PTR(self)`). -/
def int_asn1_data_of : VALUE → Option krypt_asn1_data
  | .asn1 _ _ _ _ _ _ data => data
  | _ => none

/-- The index at which `int_codec_for` reads the table `krypt_asn1_codecs`: the tag, when
the test `tag < 31 && tag_class == TAG_CLASS_UNIVERSAL` holds; `none` when the table is not
read. -/
def int_codec_for_index (object : krypt_asn1_object) : Option Int :=
  if object.header.tag < 31 ∧ object.header.tag_class = .UNIVERSAL then some object.header.tag
  else none

/-- What the writers of the tag and of the tag class leave alone: the cached value octets,
the length and its cached octets, the constructed flag and the infinite flag. -/
def krypt_asn1_tag_frame (data data2 : krypt_asn1_data) : Prop :=
  data2.object.bytes = data.object.bytes ∧ data2.object.bytes_len = data.object.bytes_len ∧
  data2.object.header.length = data.object.header.length ∧
  data2.object.header.length_bytes = data.object.header.length_bytes ∧
  data2.object.header.length_len = data.object.header.length_len ∧
  data2.object.header.is_constructed = data.object.header.is_constructed ∧
  data2.object.header.is_infinite = data.object.header.is_infinite

/-- The value `decode` returns for the octets `04 01 00` (an OCTET STRING of one octet)
with the table `krypt_asn1_codecs`. -/
def parsed_octet_string_zero : VALUE :=
  .asn1 .cKryptASN1OctetString (.fixnum 4) (.symbol .sTC_UNIVERSAL) .qfalse .qnil .qnil
    (some
      { object :=
          { header :=
              { tag := 4, tag_class := .UNIVERSAL, is_constructed := false,
                is_infinite := false, length := 1, tag_bytes := some [4], tag_len := 1,
                length_bytes := some [1], length_len := 1, header_length := 2 },
            bytes := some [0], bytes_len := 1 },
        decode_cb := some .int_asn1_prim_value_decode,
        encode_cb := some .int_asn1_prim_encode_to,
        codec := some 4 })

/-! ### The accessor entry `krypt_asn1_template_get_parse_decode` -/

/-- The macro `krypt_asn1_template_get(obj, t)` (it is declared in
`krypt_asn1_template-internal.h`, which is missing from the sources): the struct the object
wraps. An instance that wraps NULL hands out NULL, which the caller reads through. -/
def krypt_asn1_template_get : TVALUE → Except Fault krypt_asn1_template
  | .template_instance _ _ (some t) => .ok t
  | .template_value t => .ok t
  | .template_instance _ _ none => .error .fault_null_dereference
  | _ => .error .TypeError

/-- An object wraps a pointer to its struct: what a call writes to the struct is what the
object wraps afterwards. This is the object `obj` once the struct behind it holds `t`. -/
def krypt_asn1_template_written (obj : TVALUE) (t : krypt_asn1_template) : TVALUE :=
  match obj with
  | .template_instance klass ivars (some _) => .template_instance klass ivars (some t)
  | .template_value _ => .template_value t
  | other => other

/-- The function `krypt_asn1_template_get_parse_decode`: the result, the value assigned to
`*out` (`none` when nothing is assigned), `self` and the error chain. `int_parse_decode`
writes to the structs `template` and `value_template` in place; `self` wraps the first and
its instance variable `ivname` an object that wraps the second, so `self` is returned with
both as the calls left them. -/
def krypt_asn1_template_get_parse_decode (M : krypt_asn1_template_match_cb → krypt_ctx_fn)
    (P : krypt_asn1_template_parse_cb → krypt_ctx_fn)
    (Dc : krypt_asn1_template_decode_cb → krypt_ctx_decode_fn) (self : TVALUE) (ivname : ID)
    (errors : krypt_errors) : Except Fault (Int × Option TVALUE × TVALUE × krypt_errors) :=
  match krypt_asn1_template_get self with
  | .error e => .error e
  | .ok template =>
    match
      (if ¬ (krypt_asn1_template_is_parsed template = true ∧
            krypt_asn1_template_is_decoded template = true) then
        int_parse_decode M P Dc self template errors
       else .ok (1, self, template, errors) : krypt_ctx_result) with
    | .error e => .error e
    | .ok (r, self2, t2, errors2) =>
      if r = 0 then .ok (0, none, krypt_asn1_template_written self2 t2, errors2)
      else
        match rb_ivar_get (krypt_asn1_template_written self2 t2) ivname with
        | .plain .qnil =>
          .ok (1, some (.plain .qnil), krypt_asn1_template_written self2 t2, errors2)
        | value =>
          match krypt_asn1_template_get value with
          | .error e => .error e
          | .ok value_template =>
            match
              (if ¬ (krypt_asn1_template_is_parsed value_template = true ∧
                    krypt_asn1_template_is_decoded value_template = true) then
                int_parse_decode M P Dc value value_template errors2
               else .ok (1, value, value_template, errors2) : krypt_ctx_result) with
            | .error e => .error e
            | .ok (r2, value2, vt2, errors3) =>
              if r2 = 0 then
                .ok (0, none,
                  rb_ivar_set (krypt_asn1_template_written self2 t2) ivname
                    (krypt_asn1_template_written value2 vt2),
                  errors3)
              else
                .ok (1, some (krypt_asn1_template_get_value vt2),
                  rb_ivar_set (krypt_asn1_template_written self2 t2) ivname
                    (krypt_asn1_template_written value2 vt2),
                  errors3)

/-- The layout entry of a mandatory OCTET STRING named `a`. -/
def layout_entry_octets : krypt_definition_hash :=
  .mk sKrypt_ID_PRIMITIVE { type := .fixnum TAGS_OCTET_STRING, name := .symbol sID_a } none

/-- The definition of a class: a SEQUENCE of one OCTET STRING named `a`, with the option
`optional` among the options of the definition itself. -/
def definition_sequence_octets_optional : krypt_definition_hash :=
  .mk sKrypt_ID_SEQUENCE { min_size := .fixnum 1, optional := true }
    (some [layout_entry_octets])

/-- The definition of a class: a SEQUENCE of one OCTET STRING named `a`, without
options. -/
def definition_sequence_octets : krypt_definition_hash :=
  .mk sKrypt_ID_SEQUENCE { min_size := .fixnum 1 } (some [layout_entry_octets])

/-- A registry in which the class 3 has the definition of the SEQUENCE with the option
`optional`, the class 4 the one without options, and no other class has a definition. -/
def definition_registry_sequence_octets : VALUE → Option krypt_definition_hash
  | .template_class 3 => some definition_sequence_octets_optional
  | .template_class 4 => some definition_sequence_octets
  | _ => none

/-- The template of the octets 31 03 04 01 01, a SET of one OCTET STRING, with the
definition `definition` and its options, as `int_rb_template_new_initial` sets it up. -/
def template_set_octets (definition : krypt_definition_hash) : krypt_asn1_template :=
  .mk (some
      { header :=
          { tag := 17, tag_class := .UNIVERSAL, is_constructed := true, is_infinite := false,
            length := 3, tag_bytes := some [49], tag_len := 1, length_bytes := some [3],
            length_len := 1, header_length := 2 },
        bytes := some [4, 1, 1], bytes_len := 3 })
    (some definition) (krypt_hash_get_options definition) (.plain .qnil) false false

/-! ## Lemmas on the header codec -/

theorem int_parse_complex_tag_consumed (inp : Bytes) :
    ∀ (acc t : Nat) (used r : Bytes),
      int_parse_complex_tag acc inp = .ok (t, used, r) → used ++ r = inp ∧ used ≠ [] := by
  induction inp with
  | nil => intro acc t used r h; simp [int_parse_complex_tag] at h
  | cons b rest ih =>
    intro acc t used r h
    unfold int_parse_complex_tag at h
    split at h
    · simp at h
    · split at h
      · split at h
        · rename_i t2 used2 r2 heq
          simp only [Except.ok.injEq, Prod.mk.injEq] at h
          obtain ⟨-, h2, h3⟩ := h
          have := (ih _ _ _ _ heq).1
          subst h2 h3
          simp [this]
        · simp at h
      · simp only [Except.ok.injEq, Prod.mk.injEq] at h
        obtain ⟨-, h2, h3⟩ := h
        subst h2 h3
        simp

theorem int_parse_tag_consumed (b : Nat) (rest : Bytes) (t : Nat) (used r : Bytes)
    (h : int_parse_tag b rest = .ok (t, used, r)) : used ++ r = b :: rest ∧ used ≠ [] := by
  unfold int_parse_tag at h
  split at h
  · split at h
    · rename_i t2 used2 r2 heq
      simp only [Except.ok.injEq, Prod.mk.injEq] at h
      obtain ⟨-, h2, h3⟩ := h
      have := (int_parse_complex_tag_consumed _ _ _ _ _ heq).1
      subst h2 h3
      simp [this]
    · simp at h
  · simp only [Except.ok.injEq, Prod.mk.injEq] at h
    obtain ⟨-, h2, h3⟩ := h
    subst h2 h3
    simp

theorem int_parse_length_octets_consumed (n : Nat) :
    ∀ (acc : Nat) (inp : Bytes) (len : Nat) (used r : Bytes),
      int_parse_length_octets n acc inp = some (len, used, r) → used ++ r = inp := by
  induction n with
  | zero =>
    intro acc inp len used r h
    simp only [int_parse_length_octets, Option.some.injEq, Prod.mk.injEq] at h
    obtain ⟨-, h2, h3⟩ := h
    subst h2 h3
    simp
  | succ n ih =>
    intro acc inp len used r h
    cases inp with
    | nil => simp [int_parse_length_octets] at h
    | cons b rest =>
      unfold int_parse_length_octets at h
      split at h
      · rename_i len2 used2 r2 heq
        simp only [Option.some.injEq, Prod.mk.injEq] at h
        obtain ⟨-, h2, h3⟩ := h
        have := ih _ _ _ _ _ heq
        subst h2 h3
        simp [this]
      · simp at h

theorem int_parse_length_consumed (inp : Bytes) (len : Nat) (inf : Bool) (used r : Bytes)
    (h : int_parse_length inp = .ok (len, inf, used, r)) : used ++ r = inp ∧ used ≠ [] := by
  cases inp with
  | nil => simp [int_parse_length] at h
  | cons l rest =>
    simp only [int_parse_length] at h
    split at h
    · simp only [Except.ok.injEq, Prod.mk.injEq] at h
      obtain ⟨-, -, h2, h3⟩ := h
      subst h2 h3
      simp
    · split at h
      · simp only [Except.ok.injEq, Prod.mk.injEq] at h
        obtain ⟨-, -, h2, h3⟩ := h
        subst h2 h3
        simp
      · split at h
        · simp at h
        · split at h
          · simp at h
          · rename_i len2 used2 r2 heq
            split at h
            · simp at h
            · simp only [Except.ok.injEq, Prod.mk.injEq] at h
              obtain ⟨-, -, h2, h3⟩ := h
              have := int_parse_length_octets_consumed _ _ _ _ _ _ heq
              subst h2 h3
              simp [this]

/-- A header that `krypt_asn1_next_header` returns caches exactly the octets it was read
from, and the rest of the stream follows them. -/
theorem krypt_asn1_next_header_consumed (inp : Bytes) (h : krypt_asn1_header) (rest : Bytes)
    (hh : krypt_asn1_next_header inp = .ok (some (h, rest))) :
    ∃ tb lb, h.tag_bytes = some tb ∧ h.length_bytes = some lb ∧ tb ++ lb ++ rest = inp ∧
      h.tag_len = tb.length ∧ h.length_len = lb.length ∧
      h.header_length = tb.length + lb.length ∧ tb ≠ [] ∧ lb ≠ [] := by
  cases inp with
  | nil => simp [krypt_asn1_next_header] at hh
  | cons b rest0 =>
    unfold krypt_asn1_next_header at hh
    simp only at hh
    split at hh
    · simp at hh
    · rename_i tag tb rest1 htag
      split at hh
      · simp at hh
      · rename_i len inf lb rest2 hlen
        split at hh
        · simp at hh
        · simp only [Except.ok.injEq, Option.some.injEq, Prod.mk.injEq] at hh
          obtain ⟨h1, h2⟩ := hh
          subst h1 h2
          have ht := int_parse_tag_consumed _ _ _ _ _ htag
          have hl := int_parse_length_consumed _ _ _ _ _ hlen
          refine ⟨tb, lb, rfl, rfl, ?_, rfl, rfl, rfl, ht.2, hl.2⟩
          rw [List.append_assoc, hl.1, ht.1]

theorem krypt_asn1_header_octets_consumed (inp : Bytes) (h : krypt_asn1_header) (rest : Bytes)
    (hh : krypt_asn1_next_header inp = .ok (some (h, rest))) :
    krypt_asn1_header_octets h ++ rest = inp ∧ rest.length + 2 ≤ inp.length := by
  obtain ⟨tb, lb, h1, h2, h3, -, -, -, h4, h5⟩ := krypt_asn1_next_header_consumed inp h rest hh
  have e1 : 1 ≤ tb.length := List.length_pos.mpr h4
  have e2 : 1 ≤ lb.length := List.length_pos.mpr h5
  refine ⟨by simp [krypt_asn1_header_octets, h1, h2, h3], ?_⟩
  rw [← h3]
  simp only [List.length_append]
  omega

/-- The value `int_consume_indefinite` returns is a prefix of the stream, followed by the
rest it returns. -/
theorem int_consume_indefinite_consumed (fuel : Nat) :
    ∀ (depth : Nat) (inp v r : Bytes),
      int_consume_indefinite fuel depth inp = .ok (v, r) → v ++ r = inp := by
  induction fuel with
  | zero => intro depth inp v r h; simp [int_consume_indefinite] at h
  | succ fuel ih =>
    intro depth inp v r h
    unfold int_consume_indefinite at h
    split at h
    · simp at h
    · simp at h
    · rename_i hd rest hnext
      have hc := (krypt_asn1_header_octets_consumed _ _ _ hnext).1
      split at h
      · split at h
        · simp only [Except.ok.injEq, Prod.mk.injEq] at h
          obtain ⟨h1, h2⟩ := h
          subst h1 h2
          exact hc
        · split at h
          · simp at h
          · rename_i v2 r2 heq
            simp only [Except.ok.injEq, Prod.mk.injEq] at h
            obtain ⟨h1, h2⟩ := h
            subst h1 h2
            rw [List.append_assoc, ih _ _ _ _ heq, hc]
      · split at h
        · split at h
          · simp at h
          · rename_i v2 r2 heq
            simp only [Except.ok.injEq, Prod.mk.injEq] at h
            obtain ⟨h1, h2⟩ := h
            subst h1 h2
            rw [List.append_assoc, ih _ _ _ _ heq, hc]
        · split at h
          · simp at h
          · split at h
            · simp at h
            · rename_i v2 r2 heq
              simp only [Except.ok.injEq, Prod.mk.injEq] at h
              obtain ⟨h1, h2⟩ := h
              subst h1 h2
              rw [List.append_assoc, List.append_assoc, ih _ _ _ _ heq, List.take_append_drop, hc]

/-- The value `krypt_asn1_get_value` returns is a prefix of the stream, followed by the
rest it returns. -/
theorem krypt_asn1_get_value_consumed (inp : Bytes) (h : krypt_asn1_header) (v r : Bytes)
    (hh : krypt_asn1_get_value inp h = .ok (v, r)) : v ++ r = inp := by
  unfold krypt_asn1_get_value at hh
  split at hh
  · exact int_consume_indefinite_consumed _ _ _ _ _ hh
  · split at hh
    · simp at hh
    · simp only [Except.ok.injEq, Prod.mk.injEq] at hh
      obtain ⟨h1, h2⟩ := hh
      subst h1 h2
      exact List.take_append_drop _ _

/-- The shape of every value `krypt_asn1_data_new` returns: the instance variables are
those of the header, and the wrapped object holds the header and the value octets read
from the stream. -/
theorem krypt_asn1_data_new_shape (T : CodecTable) (inp : Bytes) (header : krypt_asn1_header)
    (v : VALUE) (rest : Bytes) (h : krypt_asn1_data_new T inp (some header) = .ok (v, rest)) :
    ∃ klass data value,
      v = .asn1 klass (.fixnum header.tag)
            (.symbol (krypt_asn1_tag_class_for_int header.tag_class))
            (if header.is_infinite = true then .qtrue else .qfalse) .qnil .qnil (some data) ∧
      data.object = krypt_asn1_object_new_value header value value.length ∧
      krypt_asn1_get_value inp header = .ok (value, rest) := by
  unfold krypt_asn1_data_new at h
  simp only at h
  split at h
  · simp at h
  · rename_i value rest1 hval
    split at h
    · simp at h
    · rename_i klass data hsel
      simp only [Except.ok.injEq, Prod.mk.injEq] at h
      obtain ⟨h1, h2⟩ := h
      subst h1 h2
      refine ⟨klass, data, value, rfl, ?_, hval⟩
      split at hsel
      · split at hsel
        · simp at hsel
        · split at hsel
          · simp only [Except.ok.injEq, Prod.mk.injEq] at hsel
            rw [← hsel.2]
            rfl
          · split at hsel
            · simp at hsel
            · simp only [Except.ok.injEq, Prod.mk.injEq] at hsel
              rw [← hsel.2]
              rfl
      · simp only [Except.ok.injEq, Prod.mk.injEq] at hsel
        rw [← hsel.2]
        rfl

/-- Encoding an object whose header caches and value octets are all present writes the
cached tag octets, the cached length octets and the value octets, and changes nothing. -/
theorem int_asn1_encode_to_cached (T : CodecTable) (klass : Klass)
    (iv_tag iv_tag_class iv_inf_len iv_value iv_unused_bits : VALUE) (data : krypt_asn1_data)
    (tb lb value : Bytes) (h1 : data.object.bytes = some value)
    (h2 : data.object.bytes_len = value.length) (h3 : data.object.header.tag_bytes = some tb)
    (h4 : data.object.header.length_bytes = some lb)
    (h5 : data.object.header.tag_len = tb.length)
    (h6 : data.object.header.length_len = lb.length)
    (h7 : data.object.header.header_length = tb.length + lb.length) :
    int_asn1_encode_to T
        (.asn1 klass iv_tag iv_tag_class iv_inf_len iv_value iv_unused_bits (some data)) =
      .ok (tb ++ lb ++ value,
        .asn1 klass iv_tag iv_tag_class iv_inf_len iv_value iv_unused_bits (some data)) := by
  obtain ⟨object, dcb, ecb, codec⟩ := data
  obtain ⟨header, bytes, bytes_len⟩ := object
  obtain ⟨tag, tc, isc, isi, len, tbs, tl, lbs, ll, hl⟩ := header
  simp only at h1 h2 h3 h4 h5 h6 h7
  subst h1 h2 h3 h4 h5 h6 h7
  simp [int_asn1_encode_to, krypt_asn1_object_encode, krypt_asn1_header_encode]

/-! ### The recursion budget is never exhausted -/

theorem int_parse_complex_tag_fuel (inp : Bytes) :
    ∀ acc, int_parse_complex_tag acc inp ≠ .error .out_of_fuel := by
  induction inp with
  | nil => intro acc; simp [int_parse_complex_tag]
  | cons b rest ih =>
    intro acc
    unfold int_parse_complex_tag
    split
    · simp
    · split
      · split
        · simp
        · rename_i e heq
          intro h
          simp only [Except.error.injEq] at h
          subst h
          exact ih _ heq
      · simp

theorem int_parse_length_fuel (inp : Bytes) : int_parse_length inp ≠ .error .out_of_fuel := by
  cases inp with
  | nil => simp [int_parse_length]
  | cons l rest =>
    simp only [int_parse_length]
    split
    · simp
    · split
      · simp
      · split
        · simp
        · split
          · simp
          · split <;> simp

theorem krypt_asn1_next_header_fuel (inp : Bytes) :
    krypt_asn1_next_header inp ≠ .error .out_of_fuel := by
  cases inp with
  | nil => simp [krypt_asn1_next_header]
  | cons b rest =>
    simp only [krypt_asn1_next_header]
    split
    · rename_i e heq
      intro h
      simp only [Except.error.injEq] at h
      subst h
      unfold int_parse_tag at heq
      split at heq
      · split at heq
        · simp at heq
        · rename_i e2 heq2
          simp only [Except.error.injEq] at heq
          subst heq
          exact int_parse_complex_tag_fuel _ _ heq2
      · simp at heq
    · split
      · rename_i e heq
        intro h
        simp only [Except.error.injEq] at h
        subst h
        exact int_parse_length_fuel _ heq
      · split <;> simp

theorem int_consume_indefinite_fuel (fuel : Nat) :
    ∀ (depth : Nat) (inp : Bytes), inp.length < fuel →
      int_consume_indefinite fuel depth inp ≠ .error .out_of_fuel := by
  induction fuel with
  | zero => intro depth inp h; omega
  | succ fuel ih =>
    intro depth inp hlen
    unfold int_consume_indefinite
    split
    · rename_i e heq
      intro h
      simp only [Except.error.injEq] at h
      subst h
      exact krypt_asn1_next_header_fuel _ heq
    · simp
    · rename_i hd rest hnext
      have hc := (krypt_asn1_header_octets_consumed _ _ _ hnext).2
      have hrest : rest.length < fuel := by omega
      split
      · split
        · simp
        · rename_i d
          split
          · rename_i e heq
            intro h
            simp only [Except.error.injEq] at h
            subst h
            exact ih _ _ hrest heq
          · simp
      · split
        · split
          · rename_i e heq
            intro h
            simp only [Except.error.injEq] at h
            subst h
            exact ih _ _ hrest heq
          · simp
        · split
          · simp
          · split
            · rename_i e heq
              intro h
              simp only [Except.error.injEq] at h
              subst h
              refine ih _ _ ?_ heq
              simp only [List.length_drop]
              omega
            · simp

/-- Decoding never fails for lack of recursion budget: the budget `krypt_asn1_get_value`
hands to `int_consume_indefinite` is enough for every stream. -/
theorem krypt_asn1_decode_fuel (T : CodecTable) (b : Bytes) :
    krypt_asn1_decode T b ≠ .error .out_of_fuel := by
  unfold krypt_asn1_decode
  split
  · rename_i e heq
    intro h
    simp only [Except.error.injEq] at h
    subst h
    exact krypt_asn1_next_header_fuel _ heq
  · simp
  · rename_i header rest hnext
    unfold krypt_asn1_data_new
    simp only
    split
    · rename_i e heq
      intro h
      simp only [Except.error.injEq] at h
      subst h
      unfold krypt_asn1_get_value at heq
      split at heq
      · exact int_consume_indefinite_fuel _ _ _ (Nat.lt_succ_self _) heq
      · split at heq <;> simp at heq
    · split
      · rename_i e heq
        intro h
        simp only [Except.error.injEq] at h
        subst h
        split at heq
        · split at heq
          · simp at heq
          · split at heq
            · simp at heq
            · split at heq
              · rename_i e2 heq2
                simp only [Except.error.injEq] at heq
                subst heq
                unfold krypt_asn1_infos_klass at heq2
                split at heq2
                · simp at heq2
                · split at heq2 <;> simp at heq2
              · simp at heq
        · simp at heq
      · simp

/-! ## Round trip of parsed values -/

/-- C1. For every octet string `b` that `decode` reads completely as one TLV (`decode`
returns a value and leaves nothing of the stream), `to_der` and `encode_to` of that value,
with no writer called in between, emit exactly `b`, and leave the value as it was. The
statement covers every TLV the header codec accepts: primitive, constructed, of any tag
class, with or without content octets. -/
theorem krypt_asn1_decode_to_der_roundtrip (T : CodecTable) (b : Bytes) (v : VALUE)
    (h : krypt_asn1_decode T b = .ok (v, [])) :
    krypt_asn1_data_to_der T v = .ok (b, v) ∧
      ∀ io, krypt_asn1_data_encode_to T v io = .ok (io ++ b, v) := by
  unfold krypt_asn1_decode at h
  split at h
  · simp at h
  · simp at h
  · rename_i header rest hnext
    obtain ⟨tb, lb, h1, h2, h3, h4, h5, h6, -, -⟩ :=
      krypt_asn1_next_header_consumed _ _ _ hnext
    obtain ⟨klass, data, value, hv, hobj, hval⟩ := krypt_asn1_data_new_shape _ _ _ _ _ h
    have hrest := krypt_asn1_get_value_consumed _ _ _ _ hval
    rw [List.append_nil] at hrest
    have henc := int_asn1_encode_to_cached T klass (.fixnum header.tag)
      (.symbol (krypt_asn1_tag_class_for_int header.tag_class))
      (if header.is_infinite = true then .qtrue else .qfalse) .qnil .qnil data tb lb value
      (by rw [hobj]; rfl) (by rw [hobj]; rfl) (by rw [hobj]; exact h1) (by rw [hobj]; exact h2)
      (by rw [hobj]; exact h4) (by rw [hobj]; exact h5) (by rw [hobj]; exact h6)
    rw [← hv, hrest, h3] at henc
    refine ⟨henc, fun io => ?_⟩
    simp only [krypt_asn1_data_encode_to, henc]

/-- Witness of C1: the round trip at `02 01 01`, at `80 00` (not UNIVERSAL, no content
octets) and at an indefinite length constructed value. -/
theorem krypt_asn1_decode_to_der_roundtrip_witness :
    (krypt_asn1_decode krypt_asn1_codecs [2, 1, 1] = .ok (parsed_integer_one, []) ∧
      krypt_asn1_data_to_der krypt_asn1_codecs parsed_integer_one =
        .ok ([2, 1, 1], parsed_integer_one)) ∧
    (krypt_asn1_decode krypt_asn1_codecs [128, 0] = .ok (parsed_context_empty, []) ∧
      krypt_asn1_data_to_der krypt_asn1_codecs parsed_context_empty =
        .ok ([128, 0], parsed_context_empty)) ∧
    (krypt_asn1_decode krypt_asn1_codecs [36, 128, 4, 2, 170, 187, 4, 2, 204, 221, 0, 0] =
        .ok (parsed_indefinite_octets, []) ∧
      krypt_asn1_data_to_der krypt_asn1_codecs parsed_indefinite_octets =
        .ok ([36, 128, 4, 2, 170, 187, 4, 2, 204, 221, 0, 0], parsed_indefinite_octets)) :=
  ⟨⟨by rfl, (krypt_asn1_decode_to_der_roundtrip krypt_asn1_codecs [2, 1, 1]
      parsed_integer_one (by rfl)).1⟩,
   ⟨by rfl, (krypt_asn1_decode_to_der_roundtrip krypt_asn1_codecs [128, 0]
      parsed_context_empty (by rfl)).1⟩,
   ⟨by rfl, (krypt_asn1_decode_to_der_roundtrip krypt_asn1_codecs
      [36, 128, 4, 2, 170, 187, 4, 2, 204, 221, 0, 0] parsed_indefinite_octets (by rfl)).1⟩⟩

/-- C2 (code bug). The octets `A0 03 02 01 01` decode to a constructed value that is not
UNIVERSAL; reading `value` materialises the child and deletes the cached value octets;
the next `to_der` then calls `data->encode_cb`, which `krypt_asn1_data_new` never assigned
on this branch, instead of emitting the original octets. -/
theorem krypt_asn1_explicit_value_read_then_to_der :
    krypt_asn1_decode krypt_asn1_codecs [160, 3, 2, 1, 1] = .ok (parsed_explicit_integer, []) ∧
    krypt_asn1_data_get_value krypt_asn1_codecs parsed_explicit_integer =
      .ok (.array [parsed_integer_one], parsed_explicit_integer_read) ∧
    krypt_asn1_data_to_der krypt_asn1_codecs parsed_explicit_integer_read =
      .error .fault_unassigned_callback :=
  ⟨by rfl, by rfl, by rfl⟩

/-! ## Classification of parsed headers -/

/-- C3 (counterexample). The header parsed from `3F 1F 00` is UNIVERSAL and has the
constructed bit set, yet `krypt_asn1_data_new` yields no Constructive for it: it raises
the ParseError of the tag check. -/
theorem krypt_asn1_data_new_universal_constructed_31 :
    krypt_asn1_next_header [63, 31, 0] = .ok (some (header_universal_constructed_31, [])) ∧
    header_universal_constructed_31.tag_class = .UNIVERSAL ∧
    header_universal_constructed_31.is_constructed = true ∧
    krypt_asn1_data_new krypt_asn1_codecs [] (some header_universal_constructed_31) =
      .error (.ParseError_universal_tag_too_large 31) :=
  ⟨by rfl, by rfl, by rfl, by rfl⟩

/-- C3 (amended). `krypt_asn1_data_new` classifies a header whose value can be read as
follows. A tag class other than UNIVERSAL yields an ASN1Data, whatever the constructed
bit. UNIVERSAL with the constructed bit set and a tag of at most 30 yields a Constructive.
UNIVERSAL, not constructed, with a tag of at most 30 for which `krypt_asn1_infos`
registers a class yields that class. In all three cases `@tag`, `@tag_class` and
`@infinite_length` are those of the header, `@value` is unset and the wrapped object
holds the header and the value octets read. -/
theorem krypt_asn1_data_new_classifies (T : CodecTable) (inp : Bytes)
    (header : krypt_asn1_header) (value rest : Bytes)
    (hval : krypt_asn1_get_value inp header = .ok (value, rest)) :
    (header.tag_class ≠ .UNIVERSAL →
      ∃ data, data.object = krypt_asn1_object_new_value header value value.length ∧
        krypt_asn1_data_new T inp (some header) =
          .ok (.asn1 .cKryptASN1Data (.fixnum header.tag)
            (.symbol (krypt_asn1_tag_class_for_int header.tag_class))
            (if header.is_infinite = true then .qtrue else .qfalse) .qnil .qnil (some data),
            rest)) ∧
    (header.tag_class = .UNIVERSAL → header.is_constructed = true → header.tag ≤ 30 →
      ∃ data, data.object = krypt_asn1_object_new_value header value value.length ∧
        krypt_asn1_data_new T inp (some header) =
          .ok (.asn1 .cKryptASN1Constructive (.fixnum header.tag)
            (.symbol (krypt_asn1_tag_class_for_int header.tag_class))
            (if header.is_infinite = true then .qtrue else .qfalse) .qnil .qnil (some data),
            rest)) ∧
    (header.tag_class = .UNIVERSAL → header.is_constructed = false → header.tag ≤ 30 →
      ∀ klass, 0 ≤ header.tag → krypt_asn1_infos[header.tag.toNat]? = some (some klass) →
      ∃ data, data.object = krypt_asn1_object_new_value header value value.length ∧
        krypt_asn1_data_new T inp (some header) =
          .ok (.asn1 klass (.fixnum header.tag)
            (.symbol (krypt_asn1_tag_class_for_int header.tag_class))
            (if header.is_infinite = true then .qtrue else .qfalse) .qnil .qnil (some data),
            rest)) := by
  refine ⟨fun hc => ?_, fun hc hcons htag => ?_, fun hc hcons htag klass h0 hk => ?_⟩
  · refine ⟨{ int_asn1_data_new T (krypt_asn1_object_new_value header value value.length) with
        decode_cb := some .int_asn1_data_value_decode }, rfl, ?_⟩
    simp only [krypt_asn1_data_new, hval, hc, if_false]
  · have h30 : ¬ header.tag > 30 := by omega
    refine ⟨{ int_asn1_data_new T (krypt_asn1_object_new_value header value value.length) with
        decode_cb := some .int_asn1_cons_value_decode,
        encode_cb := some .int_asn1_cons_encode_to }, rfl, ?_⟩
    simp only [krypt_asn1_data_new, hval, hc, if_true, h30, if_false, hcons]
  · have h30 : ¬ header.tag > 30 := by omega
    have hlook : krypt_asn1_infos_klass header.tag = .ok klass := by
      have hneg : ¬ header.tag < 0 := by omega
      simp only [krypt_asn1_infos_klass, hneg, if_false]
      rw [List.get?_eq_getElem?, hk]
    refine ⟨{ int_asn1_data_new T (krypt_asn1_object_new_value header value value.length) with
        decode_cb := some .int_asn1_prim_value_decode,
        encode_cb := some .int_asn1_prim_encode_to }, rfl, ?_⟩
    simp only [krypt_asn1_data_new, hval, hc, if_true, h30, if_false, hcons, hlook]
    simp

/-- Witness of C3 (amended): the header of `02 01 01` is classified as an Integer, the
class `krypt_asn1_infos` registers for tag 2. -/
theorem krypt_asn1_data_new_classifies_witness :
    krypt_asn1_get_value [1] header_integer_one = .ok ([1], []) ∧
    krypt_asn1_infos[(2 : Int).toNat]? = some (some .cKryptASN1Integer) ∧
    ∃ data, data.object = krypt_asn1_object_new_value header_integer_one [1] 1 ∧
      krypt_asn1_data_new krypt_asn1_codecs [1] (some header_integer_one) =
        .ok (.asn1 .cKryptASN1Integer (.fixnum 2) (.symbol .sTC_UNIVERSAL) .qfalse .qnil .qnil
          (some data), []) :=
  ⟨by rfl, by rfl,
   (krypt_asn1_data_new_classifies krypt_asn1_codecs [1] header_integer_one [1] []
      (by rfl)).2.2 (by rfl) (by rfl) (by decide) .cKryptASN1Integer (by decide) (by rfl)⟩

/-- C4. A header with a tag above 30: when its class is UNIVERSAL, `krypt_asn1_data_new`
returns no value, and raises the ParseError "Universal tag too large" as soon as the
value octets can be read at all; when its class is not UNIVERSAL the header is accepted
and a value is returned. -/
theorem krypt_asn1_data_new_tag_above_30 (T : CodecTable) (inp : Bytes)
    (header : krypt_asn1_header) (htag : header.tag > 30) :
    (header.tag_class = .UNIVERSAL →
      (∀ v rest, krypt_asn1_data_new T inp (some header) ≠ .ok (v, rest)) ∧
      (∀ value rest, krypt_asn1_get_value inp header = .ok (value, rest) →
        krypt_asn1_data_new T inp (some header) =
          .error (.ParseError_universal_tag_too_large header.tag))) ∧
    (header.tag_class ≠ .UNIVERSAL →
      ∀ value rest, krypt_asn1_get_value inp header = .ok (value, rest) →
        ∃ v, krypt_asn1_data_new T inp (some header) = .ok (v, rest)) := by
  refine ⟨fun hc => ⟨fun v rest => ?_, fun value rest hval => ?_⟩,
    fun hc value rest hval => ?_⟩
  · unfold krypt_asn1_data_new
    simp only [hc, if_true, htag]
    split <;> simp
  · simp only [krypt_asn1_data_new, hval, hc, if_true, htag]
  · have hnew : krypt_asn1_data_new T inp (some header) =
        .ok (.asn1 .cKryptASN1Data (.fixnum header.tag)
          (.symbol (krypt_asn1_tag_class_for_int header.tag_class))
          (if header.is_infinite = true then .qtrue else .qfalse) .qnil .qnil
          (some { int_asn1_data_new T (krypt_asn1_object_new_value header value value.length) with
            decode_cb := some .int_asn1_data_value_decode }), rest) := by
      simp only [krypt_asn1_data_new, hval, hc, if_false]
    exact ⟨_, hnew⟩

/-- Witness of C4: `1F 1F 00` (UNIVERSAL, tag 31) is rejected by `decode` with the
ParseError of the tag check, and `5F 1F 00` (APPLICATION, tag 31) is accepted. -/
theorem krypt_asn1_data_new_tag_above_30_witness :
    krypt_asn1_next_header [31, 31, 0] =
      .ok (some ({ header_universal_constructed_31 with
        is_constructed := false, tag_bytes := some [31, 31] }, [])) ∧
    krypt_asn1_decode krypt_asn1_codecs [31, 31, 0] =
      .error (.ParseError_universal_tag_too_large 31) ∧
    (∃ v, krypt_asn1_data_new krypt_asn1_codecs []
      (some { header_universal_constructed_31 with
        tag_class := .APPLICATION, is_constructed := false, tag_bytes := some [95, 31] }) =
        .ok (v, [])) ∧
    raised (krypt_asn1_decode krypt_asn1_codecs [95, 31, 0]) = none :=
  ⟨by rfl,
   ((krypt_asn1_data_new_tag_above_30 krypt_asn1_codecs []
      { header_universal_constructed_31 with
        is_constructed := false, tag_bytes := some [31, 31] } (by decide)).1 (by rfl)).2
      [] [] (by rfl),
   (krypt_asn1_data_new_tag_above_30 krypt_asn1_codecs []
      { header_universal_constructed_31 with
        tag_class := .APPLICATION, is_constructed := false, tag_bytes := some [95, 31] }
      (by decide)).2 (by decide) [] [] (by rfl),
   by rfl⟩

/-- The class lookup of `krypt_asn1_data_new` dereferences a NULL pointer for every
UNIVERSAL primitive header whose tag has no class in `krypt_asn1_infos`. -/
theorem krypt_asn1_data_new_unregistered_tag (T : CodecTable) (inp : Bytes)
    (header : krypt_asn1_header) (value rest : Bytes)
    (hval : krypt_asn1_get_value inp header = .ok (value, rest))
    (hc : header.tag_class = .UNIVERSAL) (hp : header.is_constructed = false)
    (htag : header.tag ∈ [7, 8, 9, 11, 13, 14, 15, 29]) :
    krypt_asn1_data_new T inp (some header) = .error .fault_null_dereference := by
  have h30 : ¬ header.tag > 30 := by
    simp only [List.mem_cons, List.mem_singleton, List.not_mem_nil, or_false] at htag
    omega
  have hlook : krypt_asn1_infos_klass header.tag = .error .fault_null_dereference := by
    simp only [List.mem_cons, List.mem_singleton, List.not_mem_nil, or_false] at htag
    rcases htag with h | h | h | h | h | h | h | h <;> rw [h] <;> rfl
  simp only [krypt_asn1_data_new, hval, hc, if_true, h30, if_false, hp, hlook]
  simp

/-- C5 (code bug). Decoding a primitive UNIVERSAL TLV with one of the reserved tags 7, 8,
9, 11, 13, 14, 15, 29 does not succeed: the class lookup `*(krypt_asn1_infos[tag].klass)`
in `krypt_asn1_data_new` dereferences the NULL pointer the table holds for these tags. -/
theorem krypt_asn1_decode_reserved_tag :
    raised (krypt_asn1_decode krypt_asn1_codecs [7, 1, 65]) = some .fault_null_dereference ∧
    raised (krypt_asn1_decode krypt_asn1_codecs [8, 1, 65]) = some .fault_null_dereference ∧
    raised (krypt_asn1_decode krypt_asn1_codecs [9, 1, 65]) = some .fault_null_dereference ∧
    raised (krypt_asn1_decode krypt_asn1_codecs [11, 1, 65]) = some .fault_null_dereference ∧
    raised (krypt_asn1_decode krypt_asn1_codecs [13, 1, 65]) = some .fault_null_dereference ∧
    raised (krypt_asn1_decode krypt_asn1_codecs [14, 1, 65]) = some .fault_null_dereference ∧
    raised (krypt_asn1_decode krypt_asn1_codecs [15, 1, 65]) = some .fault_null_dereference ∧
    raised (krypt_asn1_decode krypt_asn1_codecs [29, 1, 65]) = some .fault_null_dereference :=
  ⟨by rfl, by rfl, by rfl, by rfl, by rfl, by rfl, by rfl, by rfl⟩

/-- The header codec returns 0 (no header) exactly at the end of the stream. -/
theorem krypt_asn1_next_header_none_iff (obj : Bytes) :
    krypt_asn1_next_header obj = .ok none ↔ obj = [] := by
  constructor
  · intro h
    cases obj with
    | nil => rfl
    | cons b rest =>
      simp only [krypt_asn1_next_header] at h
      split at h
      · simp at h
      · split at h
        · simp at h
        · split at h <;> simp at h
  · intro h
    subst h
    rfl

/-- C6. When no header can be read from the input (`krypt_asn1_next_header` returns 0),
`ASN1.decode` raises the ParseError "Premature EOF detected" and returns no value. -/
theorem krypt_asn1_decode_premature_eof (T : CodecTable) (obj : Bytes)
    (h : krypt_asn1_next_header obj = .ok none) :
    krypt_asn1_decode T obj = .error .ParseError_premature_eof ∧
      ∀ v rest, krypt_asn1_decode T obj ≠ .ok (v, rest) := by
  have hd : krypt_asn1_decode T obj = .error .ParseError_premature_eof := by
    simp only [krypt_asn1_decode, h]
  exact ⟨hd, fun v rest => by rw [hd]; simp⟩

/-- Witness of C6: the empty stream. -/
theorem krypt_asn1_decode_premature_eof_witness :
    krypt_asn1_next_header [] = .ok none ∧
    krypt_asn1_decode krypt_asn1_codecs [] = .error .ParseError_premature_eof :=
  ⟨by rfl, (krypt_asn1_decode_premature_eof krypt_asn1_codecs [] (by rfl)).1⟩

/-! ## Initializers -/

theorem krypt_asn1_tag_class_for_id_universal (id : ID) (tc : TagClass)
    (hid : krypt_asn1_tag_class_for_id id = .ok tc) :
    (id = .sTC_UNIVERSAL ↔ tc = .UNIVERSAL) := by
  cases id <;> simp [krypt_asn1_tag_class_for_id] at hid <;> subst hid <;> simp

/-- The default helper, called on a freshly allocated instance with an Integer tag and a
symbol that names a tag class, meets the contract `ctor_tag_contract`. -/
theorem int_asn1_default_initialize_contract (T : CodecTable) (klass : Klass) (value : VALUE)
    (tag : Int) (id : ID) (tc : TagClass) (hid : krypt_asn1_tag_class_for_id id = .ok tc)
    (default_tag : Int) (cons : Bool) (cb : int_asn1_encode_cb) :
    ctor_tag_contract
      ( int_asn1_default_initialize T (krypt_asn1_data_alloc klass) value (.fixnum tag)
        default_tag (.symbol id) cons cb) tag tc := by
  have hu := krypt_asn1_tag_class_for_id_universal id tc hid
  by_cases hc : tc = .UNIVERSAL ∧ tag > 30
  · have hc2 : id = .sTC_UNIVERSAL ∧ tag > 30 := ⟨hu.mpr hc.1, hc.2⟩
    refine ⟨?_, fun h => absurd hc h⟩
    simp [ int_asn1_default_initialize, SYMBOL_P, NUM2INT, SYM2ID, hc2, hc]
  · have hc2 : ¬ (id = .sTC_UNIVERSAL ∧ tag > 30) := fun h => hc ⟨hu.mp h.1, h.2⟩
    constructor
    · simp only [ int_asn1_default_initialize, SYMBOL_P, NUM2INT, SYM2ID, hc2, hid,
        int_asn1_data_initialize, krypt_asn1_data_alloc]
      simp [hc]
    · intro _
      simp only [ int_asn1_default_initialize, SYMBOL_P, NUM2INT, SYM2ID, hc2, hid,
        int_asn1_data_initialize, krypt_asn1_data_alloc]
      by_cases hd : default_tag ≤ 30 <;>
        simp [hd, int_asn1_data_override_codec, int_asn1_data_set_ivars, int_asn1_header_of,
          int_asn1_data_new, krypt_asn1_object_new, krypt_asn1_header_new]

theorem int_asn1_set_unused_bits_header (v unused_bits : VALUE) :
    int_asn1_header_of (int_asn1_set_unused_bits v unused_bits) = int_asn1_header_of v := by
  cases v <;> try rfl
  rename_i klass a b c d e data
  cases data <;> rfl

theorem ctor_tag_contract_map (r : Except Fault VALUE) (f : VALUE → VALUE) (tag : Int)
    (tc : TagClass) (hf : ∀ v, int_asn1_header_of (f v) = int_asn1_header_of v) :
    ctor_tag_contract r tag tc →
    ctor_tag_contract
      (match r with
       | .error e => .error e
       | .ok v => .ok (f v)) tag tc := by
  intro h
  obtain ⟨h1, h2⟩ := h
  cases r with
  | error e =>
    refine ⟨by simpa using h1, fun hc => ?_⟩
    obtain ⟨v, hd, hv, -⟩ := h2 hc
    simp at hv
  | ok v =>
    refine ⟨?_, fun hc => ?_⟩
    · simp only [false_iff, reduceCtorEq] at h1 ⊢
      exact h1
    · obtain ⟨v2, hd, hv, h3⟩ := h2 hc
      simp only [Except.ok.injEq] at hv
      subst hv
      exact ⟨f v, hd, rfl, by rw [hf]; exact h3.1, h3.2⟩

/-- The initializers that declare the parameters `(argc, argv, self)` they are called
with: those `KRYPT_ASN1_DEFINE_CTOR` generates and those of BIT STRING and NULL (NULL with
nil, its only payload), and the default helper they all go through, whatever the default
tag, constructed flag and callback. Called on a freshly allocated instance with a symbol
naming a tag class and an Integer tag that fits an `int` and is not negative when the
class is UNIVERSAL, each raises "Tag too large for UNIVERSAL tag class" if and only if the
class is UNIVERSAL and the tag above 30; otherwise it succeeds and the new header has the
given tag, the given class and `is_infinite` clear. In particular a tag `t` in `0..30`
with class UNIVERSAL gives a header with tag `t`. -/
theorem krypt_asn1_ctor_tag_contract (T : CodecTable) (klass : Klass) (value : VALUE)
    (tag : Int) (id : ID) (tc : TagClass) (hid : krypt_asn1_tag_class_for_id id = .ok tc)
    (_hmin : -(INT_MAX : Int) - 1 ≤ tag) (_hmax : tag ≤ (INT_MAX : Int))
    (_hneg : tc = .UNIVERSAL → 0 ≤ tag)
    (default_tag : Int) (cons : Bool) (cb : int_asn1_encode_cb) :
    ctor_tag_contract
      ( int_asn1_default_initialize T (krypt_asn1_data_alloc klass) value (.fixnum tag)
        default_tag (.symbol id) cons cb) tag tc ∧
    ctor_tag_contract
      (KRYPT_ASN1_DEFINE_CTOR T default_tag cons cb [value, .fixnum tag, .symbol id]
        (krypt_asn1_data_alloc klass)) tag tc ∧
    ctor_tag_contract
      ( krypt_asn1_bit_string_initialize T [value, .fixnum tag, .symbol id]
        (krypt_asn1_data_alloc klass)) tag tc ∧
    ctor_tag_contract
      ( krypt_asn1_null_initialize T [.qnil, .fixnum tag, .symbol id]
        (krypt_asn1_data_alloc klass)) tag tc ∧
    (∀ t : Int, 0 ≤ t → t ≤ 30 →
      (int_asn1_result_header
        ( int_asn1_default_initialize T (krypt_asn1_data_alloc klass) value (.fixnum t)
          default_tag (.symbol .sTC_UNIVERSAL) cons cb)).map (fun h => h.tag) = some t) := by
  refine ⟨int_asn1_default_initialize_contract T klass value tag id tc hid default_tag cons cb,
    ?_, ?_, ?_, ?_⟩
  · have h := int_asn1_default_initialize_contract T klass value tag id tc hid default_tag cons cb
    simpa [KRYPT_ASN1_DEFINE_CTOR, rb_scan_args_12, NIL_P] using h
  · have h := ctor_tag_contract_map _ (fun v => int_asn1_set_unused_bits v (.fixnum 0)) tag tc
      (fun v => int_asn1_set_unused_bits_header v _)
      (int_asn1_default_initialize_contract T klass value tag id tc hid TAGS_BIT_STRING false
        .int_asn1_prim_encode_to)
    simpa [ krypt_asn1_bit_string_initialize, rb_scan_args_12, NIL_P] using h
  · have h := int_asn1_default_initialize_contract T klass .qnil tag id tc hid TAGS_NULL false
      .int_asn1_prim_encode_to
    simpa [ krypt_asn1_null_initialize, rb_scan_args_12, NIL_P] using h
  · intro t _ ht
    have h := (int_asn1_default_initialize_contract T klass value t .sTC_UNIVERSAL .UNIVERSAL
      rfl default_tag cons cb).2 (by omega)
    obtain ⟨v, hd, hv, h1, h2, -, -⟩ := h
    rw [hv]
    simp [int_asn1_result_header, h1, h2]

/-- The contract of the initializers at `Integer.new(1, 5, :CONTEXT_SPECIFIC)`, which
succeeds with the tag 5, and `Integer.new(1, 31, :UNIVERSAL)`, which raises the tag
error. -/
theorem krypt_asn1_ctor_tag_contract_witness :
    krypt_asn1_tag_class_for_id .sTC_CONTEXT_SPECIFIC = .ok .CONTEXT_SPECIFIC ∧
    KRYPT_ASN1_DEFINE_CTOR krypt_asn1_codecs TAGS_INTEGER false .int_asn1_prim_encode_to
        [.fixnum 1, .fixnum 5, .symbol .sTC_CONTEXT_SPECIFIC]
        (krypt_asn1_data_alloc .cKryptASN1Integer) = .ok integer_context_5 ∧
    ctor_tag_contract
      (KRYPT_ASN1_DEFINE_CTOR krypt_asn1_codecs TAGS_INTEGER false .int_asn1_prim_encode_to
        [.fixnum 1, .fixnum 5, .symbol .sTC_CONTEXT_SPECIFIC]
        (krypt_asn1_data_alloc .cKryptASN1Integer)) 5 .CONTEXT_SPECIFIC ∧
    KRYPT_ASN1_DEFINE_CTOR krypt_asn1_codecs TAGS_INTEGER false .int_asn1_prim_encode_to
        [.fixnum 1, .fixnum 31, .symbol .sTC_UNIVERSAL]
        (krypt_asn1_data_alloc .cKryptASN1Integer) =
      .error .ASN1Error_tag_too_large_for_universal :=
  ⟨by rfl, by rfl,
   (krypt_asn1_ctor_tag_contract krypt_asn1_codecs .cKryptASN1Integer (.fixnum 1) 5
      .sTC_CONTEXT_SPECIFIC .CONTEXT_SPECIFIC (by rfl) (by decide) (by decide) (by decide)
      TAGS_INTEGER false .int_asn1_prim_encode_to).2.1,
   by rfl⟩

/-- C7 (the code evaluated at the failing input): `ASN1Data.new(value, tag, tag_class)`,
and likewise `Primitive.new` and `Constructive.new`, enter `krypt_asn1_data_initialize` as
it is registered, with `(argc, argv, self)`. Whatever the count, the pointer and the
parameter without argument hold, the call raises: "tag_class must be a Symbol" when the
parameter without argument holds no Symbol, and the TypeError of `NUM2INT` applied to the
instance when it does. No header is built, whatever tag and tag class were given, and the
contract of the claim fails for the tag 5 with the class CONTEXT_SPECIFIC. `EndOfContents.new`
enters `krypt_asn1_end_of_contents_initialize` with the count 0, the word of `Qfalse`, for
`self`, and `int_asn1_data_initialize` reads `DATA_PTR` through it: a NULL dereference.
`Integer.new(1, 5, :CONTEXT_SPECIFIC)`, whose initializer declares `(argc, argv, self)`,
builds the header with the tag 5. -/
theorem krypt_asn1_data_initialize_registered_raises (T : CodecTable) (klass : Klass)
    (argc_word argv_word unpassed : VALUE) :
    krypt_asn1_data_initialize_registered T argc_word argv_word (krypt_asn1_data_alloc klass)
        unpassed =
      (if SYMBOL_P unpassed = true then .error .TypeError
       else .error .ASN1Error_tag_class_must_be_symbol) ∧
    int_asn1_result_header
      (krypt_asn1_data_initialize_registered T argc_word argv_word (krypt_asn1_data_alloc klass)
        unpassed) = none ∧
    ¬ ctor_tag_contract
      (krypt_asn1_data_initialize_registered T argc_word argv_word (krypt_asn1_data_alloc klass)
        unpassed) 5 .CONTEXT_SPECIFIC ∧
    krypt_asn1_end_of_contents_initialize_registered T .qfalse =
      .error .fault_null_dereference ∧
    ¬ ctor_tag_contract (krypt_asn1_end_of_contents_initialize_registered T .qfalse) 0
      .UNIVERSAL ∧
    KRYPT_ASN1_DEFINE_CTOR krypt_asn1_codecs TAGS_INTEGER false .int_asn1_prim_encode_to
        [.fixnum 1, .fixnum 5, .symbol .sTC_CONTEXT_SPECIFIC]
        (krypt_asn1_data_alloc .cKryptASN1Integer) = .ok integer_context_5 := by
  have h1 : krypt_asn1_data_initialize_registered T argc_word argv_word
      (krypt_asn1_data_alloc klass) unpassed =
      (if SYMBOL_P unpassed = true then .error .TypeError
       else .error .ASN1Error_tag_class_must_be_symbol) := by
    by_cases h : SYMBOL_P unpassed = true
    · simp [krypt_asn1_data_initialize_registered, krypt_asn1_data_initialize, h, NUM2INT,
        krypt_asn1_data_alloc]
    · simp [krypt_asn1_data_initialize_registered, krypt_asn1_data_initialize, h]
  have h2 : krypt_asn1_end_of_contents_initialize_registered T .qfalse =
      .error .fault_null_dereference := rfl
  refine ⟨h1, ?_, ?_, h2, ?_, rfl⟩
  · rw [h1]
    split <;> rfl
  · rw [h1]
    intro hc
    obtain ⟨v, hd, hv, -⟩ := hc.2 (by simp)
    split at hv <;> simp at hv
  · rw [h2]
    intro hc
    obtain ⟨v, hd, hv, -⟩ := hc.2 (by simp)
    simp at hv

/-- What the initializers generated by `KRYPT_ASN1_DEFINE_CTOR` do with a nil tag: when
the tag is not given at all, the header gets the tag `t` of the type and the class
UNIVERSAL; when nil is given for it, `NUM2INT` is applied to nil and raises a TypeError,
with or without a nil tag class; a tag class with a nil tag is an argument error. -/
theorem KRYPT_ASN1_DEFINE_CTOR_nil_tag (T : CodecTable) (t : Int) (cons : Bool)
    (cb : int_asn1_encode_cb) (klass : Klass) (value : VALUE) (ht : t ≤ 30) :
    (∃ v h, KRYPT_ASN1_DEFINE_CTOR T t cons cb [value] (krypt_asn1_data_alloc klass) = .ok v ∧
      int_asn1_header_of v = some h ∧ h.tag = t ∧ h.tag_class = .UNIVERSAL) ∧
    KRYPT_ASN1_DEFINE_CTOR T t cons cb [value, .qnil] (krypt_asn1_data_alloc klass) =
      .error .TypeError ∧
    KRYPT_ASN1_DEFINE_CTOR T t cons cb [value, .qnil, .qnil] (krypt_asn1_data_alloc klass) =
      .error .TypeError ∧
    (∀ id, KRYPT_ASN1_DEFINE_CTOR T t cons cb [value, .qnil, .symbol id]
      (krypt_asn1_data_alloc klass) = .error .ArgError_tag_must_be_specified) := by
  refine ⟨?_, ?_, ?_, fun id => ?_⟩
  · have h := (int_asn1_default_initialize_contract T klass value t .sTC_UNIVERSAL .UNIVERSAL
      rfl t cons cb).2 (by omega)
    obtain ⟨v, hd, hv, h1, h2, h3, -⟩ := h
    exact ⟨v, hd, by simpa [KRYPT_ASN1_DEFINE_CTOR, rb_scan_args_12] using hv, h1, h2, h3⟩
  · simp [KRYPT_ASN1_DEFINE_CTOR, rb_scan_args_12, NIL_P, int_asn1_default_initialize, SYMBOL_P,
      NUM2INT]
  · simp [KRYPT_ASN1_DEFINE_CTOR, rb_scan_args_12, NIL_P, int_asn1_default_initialize, SYMBOL_P,
      NUM2INT]
  · simp [KRYPT_ASN1_DEFINE_CTOR, rb_scan_args_12, NIL_P]

/-- What the initializers of BIT STRING and NULL do with a nil tag: the header gets the
universal tag of the type, a nil tag class gives UNIVERSAL, and a BIT STRING ends with
`@unused_bits` 0. -/
theorem krypt_asn1_bit_string_null_nil_tag (T : CodecTable) (value : VALUE) :
    (∀ argv ∈ [[value], [value, .qnil], [value, .qnil, .qnil]],
      ∃ data, krypt_asn1_bit_string_initialize T argv (krypt_asn1_data_alloc .cKryptASN1BitString) =
          .ok (.asn1 .cKryptASN1BitString (.fixnum 3) (.symbol .sTC_UNIVERSAL) .qfalse value
            (.fixnum 0) (some data)) ∧
        data.object.header.tag = 3 ∧ data.object.header.tag_class = .UNIVERSAL) ∧
    (∀ argv ∈ [[], [.qnil], [.qnil, .qnil], [.qnil, .qnil, .qnil]],
      ∃ data, krypt_asn1_null_initialize T argv (krypt_asn1_data_alloc .cKryptASN1Null) =
          .ok (.asn1 .cKryptASN1Null (.fixnum 5) (.symbol .sTC_UNIVERSAL) .qfalse .qnil
            .qnil (some data)) ∧
        data.object.header.tag = 5 ∧ data.object.header.tag_class = .UNIVERSAL) := by
  constructor
  · intro argv hargv
    simp only [List.mem_cons, List.mem_singleton, List.not_mem_nil, or_false] at hargv
    rcases hargv with h | h | h <;> subst h <;>
      exact ⟨_, rfl, rfl, rfl⟩
  · intro argv hargv
    simp only [List.mem_cons, List.mem_singleton, List.not_mem_nil, or_false] at hargv
    rcases hargv with h | h | h | h <;> subst h <;>
      exact ⟨_, rfl, rfl, rfl⟩

/-- C8 (code bug). `Integer.new(1, nil)` and `Integer.new(1, nil, nil)` do not get the
universal tag 2: the initializer generated by `KRYPT_ASN1_DEFINE_CTOR` passes the nil tag
on and `NUM2INT` raises a TypeError. The initializer of BIT STRING, called the same way,
replaces the nil tag by its universal tag 3. -/
theorem krypt_asn1_integer_ctor_nil_tag :
    raised (KRYPT_ASN1_DEFINE_CTOR krypt_asn1_codecs TAGS_INTEGER false .int_asn1_prim_encode_to
      [.fixnum 1, .qnil] (krypt_asn1_data_alloc .cKryptASN1Integer)) = some .TypeError ∧
    raised (KRYPT_ASN1_DEFINE_CTOR krypt_asn1_codecs TAGS_INTEGER false .int_asn1_prim_encode_to
      [.fixnum 1, .qnil, .qnil] (krypt_asn1_data_alloc .cKryptASN1Integer)) = some .TypeError ∧
    (int_asn1_result_header
      ( krypt_asn1_bit_string_initialize krypt_asn1_codecs [.string [1], .qnil]
        (krypt_asn1_data_alloc .cKryptASN1BitString))).map (fun h => h.tag) = some 3 :=
  ⟨by rfl, by rfl, by rfl⟩

/-! ## Writers -/

/-- C9. Each of the writers `tag=`, `tag_class=` and `infinite_length=`, called with a
value that differs from the current one of the header, leaves a header that holds the new
value, whose `header_length` is 0 and whose cached octets of the changed component are
absent (`tag_bytes` for the tag and the tag class, `length_bytes` for the infinite flag);
the next header encoding therefore computes the octets of that component from the new
fields instead of writing cached ones. -/
theorem krypt_asn1_data_setters_invalidate (T : CodecTable) (klass : Klass)
    (iv_tag iv_tag_class iv_inf_len iv_value iv_unused_bits : VALUE) (data : krypt_asn1_data) :
    (∀ new_tag : Int, data.object.header.tag ≠ new_tag →
      ∃ self2 h2,
        krypt_asn1_data_set_tag T
            (.asn1 klass iv_tag iv_tag_class iv_inf_len iv_value iv_unused_bits (some data))
            (.fixnum new_tag) = .ok (.fixnum new_tag, self2) ∧
        int_asn1_header_of self2 = some h2 ∧ h2.tag = new_tag ∧ h2.header_length = 0 ∧
        h2.tag_bytes = none ∧
        (krypt_asn1_header_encode h2).1 =
          int_compute_tag h2 ++ h2.length_bytes.getD (int_compute_length h2)) ∧
    (∀ id tc, krypt_asn1_tag_class_for_id id = .ok tc → data.object.header.tag_class ≠ tc →
      ∃ self2 h2,
        krypt_asn1_data_set_tag_class
            (.asn1 klass iv_tag iv_tag_class iv_inf_len iv_value iv_unused_bits (some data))
            (.symbol id) = .ok (.symbol id, self2) ∧
        int_asn1_header_of self2 = some h2 ∧ h2.tag_class = tc ∧ h2.header_length = 0 ∧
        h2.tag_bytes = none ∧
        (krypt_asn1_header_encode h2).1 =
          int_compute_tag h2 ++ h2.length_bytes.getD (int_compute_length h2)) ∧
    (∀ inf_length, data.object.header.is_infinite ≠ int_new_inf inf_length →
      ∃ self2 h2,
        krypt_asn1_data_set_inf_length
            (.asn1 klass iv_tag iv_tag_class iv_inf_len iv_value iv_unused_bits (some data))
            inf_length = .ok (inf_length, self2) ∧
        int_asn1_header_of self2 = some h2 ∧ h2.is_infinite = int_new_inf inf_length ∧
        h2.header_length = 0 ∧ h2.length_bytes = none ∧
        (krypt_asn1_header_encode h2).1 =
          h2.tag_bytes.getD (int_compute_tag h2) ++ int_compute_length h2) := by
  refine ⟨fun new_tag hne => ?_, fun id tc hid hne => ?_, fun inf_length hne => ?_⟩
  · refine ⟨.asn1 klass (.fixnum new_tag) iv_tag_class iv_inf_len iv_value iv_unused_bits
        (some { data with
          object := { data.object with
            header := int_invalidate_tag { data.object.header with tag := new_tag } },
          codec := int_codec_for T { data.object with
            header := int_invalidate_tag { data.object.header with tag := new_tag } } }),
      int_invalidate_tag { data.object.header with tag := new_tag }, ?_, rfl, ?_⟩
    · simp only [krypt_asn1_data_set_tag, NUM2INT, hne, if_false]
    · simp [int_invalidate_tag, krypt_asn1_header_encode]
  · refine ⟨.asn1 klass iv_tag (.symbol id) iv_inf_len iv_value iv_unused_bits
        (some { data with
          object := { data.object with
            header := int_invalidate_tag { data.object.header with tag_class := tc } } }),
      int_invalidate_tag { data.object.header with tag_class := tc }, ?_, rfl, ?_⟩
    · simp only [krypt_asn1_data_set_tag_class, SYM2ID, hid, hne, if_false]
    · simp [int_invalidate_tag, krypt_asn1_header_encode]
  · refine ⟨.asn1 klass iv_tag iv_tag_class inf_length iv_value iv_unused_bits
        (some { data with
          object := { data.object with
            header := int_invalidate_length
              { data.object.header with is_infinite := int_new_inf inf_length } } }),
      int_invalidate_length { data.object.header with is_infinite := int_new_inf inf_length },
      ?_, rfl, ?_⟩
    · simp only [krypt_asn1_data_set_inf_length, hne, if_false]
    · simp [int_invalidate_length, krypt_asn1_header_encode]

/-- Witness of C9: `tag = 4` on the value parsed from `02 01 01`; the next encoding
starts with the octet computed from the new tag. -/
theorem krypt_asn1_data_setters_invalidate_witness :
    (∃ self2 h2,
      krypt_asn1_data_set_tag krypt_asn1_codecs parsed_integer_one (.fixnum 4) =
        .ok (.fixnum 4, self2) ∧
      int_asn1_header_of self2 = some h2 ∧ h2.tag = 4 ∧ h2.header_length = 0 ∧
      h2.tag_bytes = none ∧
      (krypt_asn1_header_encode h2).1 =
        int_compute_tag h2 ++ h2.length_bytes.getD (int_compute_length h2)) ∧
    (match krypt_asn1_data_set_tag krypt_asn1_codecs parsed_integer_one (.fixnum 4) with
     | .ok (_, self2) => encoded_octets (krypt_asn1_data_to_der krypt_asn1_codecs self2)
     | .error _ => none) = some [4, 1, 1] :=
  ⟨(krypt_asn1_data_setters_invalidate krypt_asn1_codecs .cKryptASN1Integer (.fixnum 2)
      (.symbol .sTC_UNIVERSAL) .qfalse .qnil .qnil
      { object :=
          { header := header_integer_one, bytes := some [1], bytes_len := 1 },
        decode_cb := some .int_asn1_prim_value_decode,
        encode_cb := some .int_asn1_prim_encode_to,
        codec := some 2 }).1 4 (by decide),
   by rfl⟩

/-- The state `value=` leaves behind, for every initialised instance and every new
payload: the cached value octets and the cached length octets are gone, `length` and
`header_length` are 0, the constructed flag is `rb_respond_to(value, sID_EACH)`, the cached
tag octets are gone when that flag changed and untouched when it did not, and the
callbacks and the codec are as before. The next encoding goes through `data->encode_cb`:
it is a fault when that callback was never assigned. -/
theorem krypt_asn1_data_set_value_invalidates (T : CodecTable) (klass : Klass)
    (iv_tag iv_tag_class iv_inf_len iv_value iv_unused_bits : VALUE) (data : krypt_asn1_data)
    (value : VALUE) :
    ∃ data2,
      krypt_asn1_data_set_value
          (.asn1 klass iv_tag iv_tag_class iv_inf_len iv_value iv_unused_bits (some data)) value =
        .ok (value,
          .asn1 klass iv_tag iv_tag_class iv_inf_len value iv_unused_bits (some data2)) ∧
      data2.object.bytes = none ∧ data2.object.bytes_len = 0 ∧
      data2.object.header.length_bytes = none ∧ data2.object.header.length_len = 0 ∧
      data2.object.header.length = 0 ∧ data2.object.header.header_length = 0 ∧
      data2.object.header.is_constructed = rb_respond_to_each value ∧
      (data.object.header.is_constructed ≠ rb_respond_to_each value →
        data2.object.header.tag_bytes = none) ∧
      (data.object.header.is_constructed = rb_respond_to_each value →
        data2.object.header.tag_bytes = data.object.header.tag_bytes) ∧
      data2.encode_cb = data.encode_cb ∧ data2.decode_cb = data.decode_cb ∧
      data2.codec = data.codec ∧
      (data.encode_cb = none →
        int_asn1_encode_to T
            (.asn1 klass iv_tag iv_tag_class iv_inf_len value iv_unused_bits (some data2)) =
          .error .fault_unassigned_callback) := by
  by_cases hc : data.object.header.is_constructed = rb_respond_to_each value
  · refine ⟨{ data with object := int_invalidate_value data.object }, ?_, rfl, rfl, rfl, rfl,
      rfl, rfl, hc, fun h => absurd hc h, fun _ => rfl, rfl, rfl, rfl, fun he => ?_⟩
    · simp [krypt_asn1_data_set_value, int_invalidate_value, int_invalidate_length, hc]
    · simp [int_asn1_encode_to, int_invalidate_value, he]
  · refine ⟨{ data with
        object := { int_invalidate_value data.object with
          header := int_invalidate_tag
            { (int_invalidate_value data.object).header with
              is_constructed := rb_respond_to_each value } } }, ?_, rfl, rfl, rfl, rfl,
      rfl, rfl, rfl, fun _ => rfl, fun h => absurd h hc, rfl, rfl, rfl, fun he => ?_⟩
    · simp [krypt_asn1_data_set_value, int_invalidate_value, int_invalidate_length, hc]
    · simp [int_asn1_encode_to, int_invalidate_value, he]

/-- C10 (code bug). On the value parsed from `80 01 01` (not UNIVERSAL), `value=` called
with the String of the one octet 02 invalidates the caches as the claim says, but the next `to_der` derives no octets from the
new payload: it calls `data->encode_cb`, which `krypt_asn1_data_new` never assigned for a
value that is not UNIVERSAL. -/
theorem krypt_asn1_parsed_context_set_value_then_to_der :
    krypt_asn1_decode krypt_asn1_codecs [128, 1, 1] = .ok (parsed_context_one, []) ∧
    krypt_asn1_data_set_value parsed_context_one (.string [2]) =
      .ok (.string [2], parsed_context_one_set) ∧
    krypt_asn1_data_to_der krypt_asn1_codecs parsed_context_one_set =
      .error .fault_unassigned_callback :=
  ⟨by rfl, by rfl, by rfl⟩

/-! ## Reading the value of a parsed constructed value -/

/-- Re-encoding the children that the loop of `int_asn1_cons_value_decode` has read from
a stream gives back the stream, and leaves the children as they are. -/
theorem int_asn1_cons_value_decode_loop_encode (T : CodecTable) (fuel : Nat) :
    ∀ (inp : Bytes) (ary : List VALUE),
      int_asn1_cons_value_decode_loop T fuel inp = .ok ary →
      int_cons_encode_sub_elems T ary = .ok (inp, ary) := by
  induction fuel with
  | zero => intro inp ary h; simp [int_asn1_cons_value_decode_loop] at h
  | succ fuel ih =>
    intro inp ary h
    unfold int_asn1_cons_value_decode_loop at h
    split at h
    · simp at h
    · rename_i hnext
      simp only [Except.ok.injEq] at h
      subst h
      rw [(krypt_asn1_next_header_none_iff inp).mp hnext]
      rfl
    · rename_i header rest hnext
      split at h
      · simp at h
      · rename_i cur rest2 hnew
        split at h
        · simp at h
        · rename_i more hmore
          simp only [Except.ok.injEq] at h
          subst h
          obtain ⟨tb, lb, h1, h2, h3, h4, h5, h6, -, -⟩ :=
            krypt_asn1_next_header_consumed _ _ _ hnext
          obtain ⟨klass, data, value, hv, hobj, hval⟩ :=
            krypt_asn1_data_new_shape _ _ _ _ _ hnew
          have hrest := krypt_asn1_get_value_consumed _ _ _ _ hval
          have henc := int_asn1_encode_to_cached T klass (.fixnum header.tag)
            (.symbol (krypt_asn1_tag_class_for_int header.tag_class))
            (if header.is_infinite = true then .qtrue else .qfalse) .qnil .qnil data tb lb value
            (by rw [hobj]; rfl) (by rw [hobj]; rfl) (by rw [hobj]; exact h1)
            (by rw [hobj]; exact h2) (by rw [hobj]; exact h4) (by rw [hobj]; exact h5)
            (by rw [hobj]; exact h6)
          rw [← hv] at henc
          simp only [int_cons_encode_sub_elems, henc, ih _ _ hmore]
          rw [← h3, ← hrest]
          simp

/-- The part of C2 the code does keep: for a parsed UNIVERSAL constructed value, of
definite or indefinite length, reading `value` and then encoding, with no writer called,
emits exactly the octets that were decoded. -/
theorem krypt_asn1_universal_value_read_then_to_der (T : CodecTable) (b : Bytes)
    (v value v2 : VALUE) (h : krypt_asn1_header)
    (hdec : krypt_asn1_decode T b = .ok (v, []))
    (hh : int_asn1_header_of v = some h) (hu : h.tag_class = .UNIVERSAL)
    (hc : h.is_constructed = true)
    (hread : krypt_asn1_data_get_value T v = .ok (value, v2)) :
    krypt_asn1_data_to_der T v2 = .ok (b, v2) := by
  unfold krypt_asn1_decode at hdec
  split at hdec
  · simp at hdec
  · simp at hdec
  · rename_i header rest hnext
    obtain ⟨tb, lb, h1, h2, h3, h4, h5, h6, -, -⟩ :=
      krypt_asn1_next_header_consumed _ _ _ hnext
    obtain ⟨klass, data, val, hv, hobj, hval⟩ := krypt_asn1_data_new_shape _ _ _ _ _ hdec
    have hrest := krypt_asn1_get_value_consumed _ _ _ _ hval
    rw [List.append_nil] at hrest
    subst hv
    simp only [int_asn1_header_of, Option.some.injEq] at hh
    have hhdr : h = header := by rw [← hh, hobj]; rfl
    subst hhdr
    -- the callbacks of a UNIVERSAL constructed value
    have hcb : data.decode_cb = some .int_asn1_cons_value_decode ∧
        data.encode_cb = some .int_asn1_cons_encode_to := by
      unfold krypt_asn1_data_new at hdec
      simp only [hval, hu, if_true, hc] at hdec
      by_cases h30 : h.tag > 30
      · simp [h30] at hdec
      · simp only [h30, if_false, Except.ok.injEq, Prod.mk.injEq, VALUE.asn1.injEq,
          Option.some.injEq, true_and, and_true] at hdec
        rw [← hdec.2]
        exact ⟨rfl, rfl⟩
    obtain ⟨object, dcb, ecb, codec⟩ := data
    simp only at hobj hcb
    obtain ⟨hcb1, hcb2⟩ := hcb
    subst hobj hcb1 hcb2
    cases hloop : int_asn1_cons_value_decode_loop T (val.length + 1) val with
    | error e =>
      simp [krypt_asn1_data_get_value, NIL_P, krypt_asn1_object_new_value,
        int_asn1_decode_cb_call, int_asn1_cons_value_decode, hloop] at hread
    | ok ary =>
      simp only [krypt_asn1_data_get_value, NIL_P, if_true, krypt_asn1_object_new_value,
        int_asn1_decode_cb_call, true_or, int_asn1_cons_value_decode, Option.getD_some,
        List.take_length, hloop, Except.ok.injEq, Prod.mk.injEq] at hread
      obtain ⟨-, hv2⟩ := hread
      subst hv2
      have hsub := int_asn1_cons_value_decode_loop_encode T _ _ _ hloop
      simp only [krypt_asn1_data_to_der, int_asn1_encode_to, true_or, if_true,
        int_asn1_cons_encode_to, h2, Option.isNone_some, Bool.false_eq_true, false_and,
        if_false, hsub, krypt_asn1_header_encode, h1, Option.getD_some]
      rw [← h3, ← hrest]
      simp only [List.append_assoc, true_and]
      obtain ⟨tag, tc, isc, isi, len, tbs, tl, lbs, ll, hl⟩ := h
      simp only at h1 h2 h4 h5 h6
      subst h1 h2 h4 h5 h6
      rfl

/-! ## Infinite length and the constructed flag -/

/-- The writers `tag=` and `tag_class=` keep the invariant, `infinite_length=` keeps it on a
constructed header and when it clears the flag, `value=` keeps it on a header that is not
infinite and when the new value responds to `each`. -/
theorem krypt_asn1_setters_keep_infinite_constructed (T : CodecTable) (self v r s2 : VALUE)
    (hinv : infinite_implies_constructed self) :
    (krypt_asn1_data_set_tag T self v = .ok (r, s2) → infinite_implies_constructed s2) ∧
    (krypt_asn1_data_set_tag_class self v = .ok (r, s2) → infinite_implies_constructed s2) ∧
    (krypt_asn1_data_set_inf_length self v = .ok (r, s2) →
      (v = .qfalse ∨ ∃ h, int_asn1_header_of self = some h ∧ h.is_constructed = true) →
      infinite_implies_constructed s2) ∧
    (krypt_asn1_data_set_value self v = .ok (r, s2) →
      (rb_respond_to_each v = true ∨
        ∃ h, int_asn1_header_of self = some h ∧ h.is_infinite = false) →
      infinite_implies_constructed s2) := by
  cases self with
  | asn1 klass a b c d e data =>
    cases data with
    | none =>
      simp [krypt_asn1_data_set_tag, krypt_asn1_data_set_tag_class,
        krypt_asn1_data_set_inf_length, krypt_asn1_data_set_value]
    | some data =>
      have hinv2 : data.object.header.is_infinite = true →
          data.object.header.is_constructed = true := hinv _ rfl
      refine ⟨?_, ?_, ?_, ?_⟩
      · intro h
        simp only [krypt_asn1_data_set_tag] at h
        split at h
        · exact absurd h (by simp)
        · split at h
          · simp only [Except.ok.injEq, Prod.mk.injEq] at h
            rw [← h.2]; exact hinv
          · simp only [Except.ok.injEq, Prod.mk.injEq] at h
            rw [← h.2]
            intro hh hh1 hh2
            simp only [int_asn1_header_of, Option.some.injEq] at hh1
            rw [← hh1] at hh2 ⊢
            exact hinv2 hh2
      · intro h
        simp only [krypt_asn1_data_set_tag_class] at h
        split at h
        · exact absurd h (by simp)
        · split at h
          · simp only [Except.ok.injEq, Prod.mk.injEq] at h
            rw [← h.2]; exact hinv
          · simp only [Except.ok.injEq, Prod.mk.injEq] at h
            rw [← h.2]
            intro hh hh1 hh2
            simp only [int_asn1_header_of, Option.some.injEq] at hh1
            rw [← hh1] at hh2 ⊢
            exact hinv2 hh2
      · intro h hcase
        simp only [krypt_asn1_data_set_inf_length] at h
        split at h
        · simp only [Except.ok.injEq, Prod.mk.injEq] at h
          rw [← h.2]; exact hinv
        · simp only [Except.ok.injEq, Prod.mk.injEq] at h
          rw [← h.2]
          intro hh hh1 hh2
          simp only [int_asn1_header_of, Option.some.injEq] at hh1
          rw [← hh1] at hh2 ⊢
          rcases hcase with hv | ⟨h0, hh0, hc⟩
          · rw [hv] at hh2
            simp [int_invalidate_length, int_new_inf] at hh2
          · simp only [int_asn1_header_of, Option.some.injEq] at hh0
            rw [← hh0] at hc
            simpa [int_invalidate_length] using hc
      · intro h hcase
        simp only [krypt_asn1_data_set_value] at h
        split at h
        · simp only [Except.ok.injEq, Prod.mk.injEq] at h
          rw [← h.2]
          intro hh hh1 hh2
          simp only [int_asn1_header_of, Option.some.injEq] at hh1
          rw [← hh1] at hh2 ⊢
          rcases hcase with hv | ⟨h0, hh0, hc⟩
          · simpa [int_invalidate_tag] using hv
          · simp only [int_asn1_header_of, Option.some.injEq] at hh0
            rw [← hh0] at hc
            simp [int_invalidate_tag, int_invalidate_value, int_invalidate_length, hc] at hh2
        · rename_i hne
          simp only [Except.ok.injEq, Prod.mk.injEq] at h
          rw [← h.2]
          intro hh hh1 hh2
          simp only [int_asn1_header_of, Option.some.injEq] at hh1
          rw [← hh1] at hh2 ⊢
          simp only [int_invalidate_value, int_invalidate_length] at hh2 ⊢
          exact hinv2 hh2
  | _ =>
    simp [krypt_asn1_data_set_tag, krypt_asn1_data_set_tag_class,
      krypt_asn1_data_set_inf_length, krypt_asn1_data_set_value]

/-- A header that is not infinite satisfies the invariant. -/
theorem infinite_implies_constructed_of_finite (self : VALUE) (h0 : krypt_asn1_header)
    (hh : int_asn1_header_of self = some h0) (hfin : h0.is_infinite = false) :
    infinite_implies_constructed self := by
  intro h hh2 hinf
  rw [hh] at hh2
  simp only [Option.some.injEq] at hh2
  rw [← hh2, hfin] at hinf
  exact absurd hinf (by decide)

/-- C11 (the code evaluated at the failing inputs): `Sequence.new([])` yields an instance on
which the invariant holds and whose class responds to `infinite_length=`; after
`infinite_length = true` and `value =` a String its header is infinite and not constructed.
The instance `decode` returns for the octets 80 01 01 is an `ASN1Data`, which responds to
`infinite_length=` as well; after `infinite_length = true` its header is infinite and not
constructed. -/
theorem krypt_asn1_infinite_primitive_reachable :
    (∃ s1 s2 s3 h,
      KRYPT_ASN1_DEFINE_CTOR krypt_asn1_codecs TAGS_SEQUENCE true .int_asn1_cons_encode_to
        [.array []] (krypt_asn1_data_alloc .cKryptASN1Sequence) = .ok s1 ∧
      infinite_implies_constructed s1 ∧
      rb_respond_to_infinite_length_writer .cKryptASN1Sequence = true ∧
      krypt_asn1_data_set_inf_length s1 .qtrue = .ok (.qtrue, s2) ∧
      krypt_asn1_data_set_value s2 (.string [1]) = .ok (.string [1], s3) ∧
      int_asn1_header_of s3 = some h ∧ h.is_infinite = true ∧ h.is_constructed = false) ∧
    (∃ p p2 h,
      krypt_asn1_decode krypt_asn1_codecs [128, 1, 1] = .ok (p, []) ∧
      int_asn1_klass_of p = some .cKryptASN1Data ∧
      infinite_implies_constructed p ∧
      rb_respond_to_infinite_length_writer .cKryptASN1Data = true ∧
      krypt_asn1_data_set_inf_length p .qtrue = .ok (.qtrue, p2) ∧
      int_asn1_header_of p2 = some h ∧ h.is_infinite = true ∧ h.is_constructed = false) := by
  exact ⟨⟨_, _, _, _, rfl, infinite_implies_constructed_of_finite _ _ rfl rfl,
      rfl, rfl, rfl, rfl, rfl, rfl⟩,
    ⟨_, _, _, rfl, rfl, infinite_implies_constructed_of_finite _ _ rfl rfl,
      rfl, rfl, rfl, rfl, rfl⟩⟩

/-! ## Encoding of values that hold no cached value octets -/

/-- The elements of an array are encoded one after the other: the octets written are the
encodings of the elements in array order, and each element is replaced by its updated
self. -/
theorem int_cons_encode_sub_elems_ordered (T : CodecTable) :
    ∀ (elems : List VALUE) (rs : List (Bytes × VALUE)),
      List.Forall₂ (fun cur r => int_asn1_encode_to T cur = .ok r) elems rs →
      int_cons_encode_sub_elems T elems = .ok ((rs.map Prod.fst).flatten, rs.map Prod.snd) := by
  intro elems rs h
  induction h with
  | nil => simp [int_cons_encode_sub_elems]
  | cons hcur _ ih =>
    rw [int_cons_encode_sub_elems, hcur]
    simp only [ih, List.map_cons, List.flatten_cons]

/-- Whenever the elements of an array are encoded, each of them was: the result lists the
encodings in array order. -/
theorem int_cons_encode_sub_elems_inv (T : CodecTable) :
    ∀ (elems : List VALUE) (C : Bytes) (elems2 : List VALUE),
      int_cons_encode_sub_elems T elems = .ok (C, elems2) →
      ∃ rs : List (Bytes × VALUE),
        List.Forall₂ (fun cur r => int_asn1_encode_to T cur = .ok r) elems rs ∧
        C = (rs.map Prod.fst).flatten ∧ elems2 = rs.map Prod.snd := by
  intro elems
  induction elems with
  | nil =>
    intro C elems2 h
    simp only [int_cons_encode_sub_elems, Except.ok.injEq, Prod.mk.injEq] at h
    exact ⟨[], List.Forall₂.nil, by simp [← h.1], by simp [← h.2]⟩
  | cons cur more ih =>
    intro C elems2 h
    rw [int_cons_encode_sub_elems] at h
    cases hcur : int_asn1_encode_to T cur with
    | error e => rw [hcur] at h; simp at h
    | ok r =>
      obtain ⟨out, cur2⟩ := r
      rw [hcur] at h
      simp only at h
      cases hmore : int_cons_encode_sub_elems T more with
      | error e => rw [hmore] at h; simp at h
      | ok r2 =>
        obtain ⟨outs, more2⟩ := r2
        rw [hmore] at h
        simp only [Except.ok.injEq, Prod.mk.injEq] at h
        obtain ⟨rs, hrs, hC, he⟩ := ih outs more2 hmore
        exact ⟨(out, cur2) :: rs, List.Forall₂.cons hcur hrs,
          by simp [← h.1, hC], by simp [← h.2, he]⟩

/-- C12: for an instance that holds no cached value octets and is encoded by
`int_asn1_prim_encode_to`, let `bytes` be what the encoder of its codec returns for its
value (the default encoder when it has no codec). Then the octets written are the encoding
of the header with its length set to the number of those octets, followed by exactly those
octets; afterwards the header length is that number and the octets are the cached bytes
of the object. The same holds of `int_asn1_encode_to`, which calls it. -/
theorem int_asn1_prim_encode_to_output (T : CodecTable) (klass : Klass)
    (iv_tag iv_tag_class iv_inf_len iv_value iv_unused_bits : VALUE) (data : krypt_asn1_data)
    (bytes : Bytes)
    (henc :
      (∃ i encoder, data.codec = some i ∧ (T i).encoder = some encoder ∧
        encoder (.asn1 klass iv_tag iv_tag_class iv_inf_len iv_value iv_unused_bits (some data))
          iv_value = .ok bytes) ∨
      (data.codec = none ∧
        krypt_asn1_encode_default
          (.asn1 klass iv_tag iv_tag_class iv_inf_len iv_value iv_unused_bits (some data))
          iv_value = .ok bytes)) :
    ∃ data2,
      int_asn1_prim_encode_to T
          (.asn1 klass iv_tag iv_tag_class iv_inf_len iv_value iv_unused_bits (some data))
          iv_value data =
        .ok ((krypt_asn1_header_encode
                { data.object.header with length := bytes.length }).1 ++ bytes, data2) ∧
      data2.object.header.length = bytes.length ∧
      data2.object.bytes = some bytes ∧
      data2.object.bytes_len = bytes.length ∧
      (data.object.bytes = none →
        (data.encode_cb = some .int_asn1_prim_encode_to ∨
          (data.encode_cb = some .int_asn1_data_encode_to ∧
            data.object.header.is_constructed = false)) →
        int_asn1_encode_to T
            (.asn1 klass iv_tag iv_tag_class iv_inf_len iv_value iv_unused_bits (some data)) =
          .ok ((krypt_asn1_header_encode
                  { data.object.header with length := bytes.length }).1 ++ bytes,
               .asn1 klass iv_tag iv_tag_class iv_inf_len iv_value iv_unused_bits
                 (some data2))) := by
  have hprim : int_asn1_prim_encode_to T
      (.asn1 klass iv_tag iv_tag_class iv_inf_len iv_value iv_unused_bits (some data))
      iv_value data =
      .ok ((krypt_asn1_header_encode
              { data.object.header with length := bytes.length }).1 ++ bytes,
           { data with object := (krypt_asn1_object_encode
              { header := { data.object.header with length := bytes.length },
                bytes := some bytes, bytes_len := bytes.length }).2 }) := by
    rcases henc with ⟨i, encoder, hc, he, hb⟩ | ⟨hc, hb⟩
    · simp only [int_asn1_prim_encode_to, hc, he, hb, krypt_asn1_object_encode,
        Option.getD_some, List.take_length]
    · simp only [int_asn1_prim_encode_to, hc, hb, krypt_asn1_object_encode,
        Option.getD_some, List.take_length]
  refine ⟨_, hprim, rfl, rfl, rfl, ?_⟩
  intro hnone hcb
  rw [int_asn1_encode_to]
  simp only [hnone]
  rcases hcb with hcb | ⟨hcb, hcons⟩
  · simp only [hcb, hprim]
    simp
  · simp only [hcb, hcons, hprim]
    simp

theorem int_asn1_prim_encode_to_output_witness :
    KRYPT_ASN1_DEFINE_CTOR krypt_asn1_codecs TAGS_OCTET_STRING false .int_asn1_prim_encode_to
        [.string [1, 2]] (krypt_asn1_data_alloc .cKryptASN1OctetString) =
      .ok octet_string_one_two ∧
    ∃ data2,
      int_asn1_prim_encode_to krypt_asn1_codecs octet_string_one_two (.string [1, 2])
          octet_string_scratch_data = .ok ([4, 2, 1, 2], data2) ∧
      data2.object.header.length = 2 ∧
      data2.object.bytes = some [1, 2] ∧
      data2.object.bytes_len = 2 ∧
      encoded_octets (krypt_asn1_data_to_der krypt_asn1_codecs octet_string_one_two) =
        some [4, 2, 1, 2] := by
  refine ⟨rfl, ?_⟩
  obtain ⟨data2, h1, h2, h3, h4, h5⟩ :=
    int_asn1_prim_encode_to_output krypt_asn1_codecs .cKryptASN1OctetString (.fixnum 4)
      (.symbol .sTC_UNIVERSAL) .qfalse (.string [1, 2]) .qnil octet_string_scratch_data [1, 2]
      (Or.inl ⟨4, _, rfl, rfl, rfl⟩)
  refine ⟨data2, h1, h2, h3, h4, ?_⟩
  have h6 := h5 rfl (Or.inl rfl)
  unfold krypt_asn1_data_to_der
  unfold octet_string_one_two
  rw [h6]
  rfl

/-- C13: for an array that is encoded by the first branch of `int_asn1_cons_encode_to`
(no cached length octets, not infinite), let the elements encode, in array order, to the
results `rs`, and let `C` be the concatenation of those encodings in that order. Then the
octets written are the header, encoded with the length of `C`, followed by `C`; the length
octets are computed from the length of `C`; afterwards the header length is the length of
`C`. Nothing depends on the class of the instance (SEQUENCE, SET or another), and
`int_asn1_encode_to` writes the same when it dispatches to this function. -/
theorem int_asn1_cons_encode_to_definite (T : CodecTable) (klass : Klass)
    (iv_tag iv_tag_class iv_inf_len iv_unused_bits : VALUE) (elems : List VALUE)
    (rs : List (Bytes × VALUE)) (data : krypt_asn1_data)
    (hl : data.object.header.length_bytes = none)
    (hinf : data.object.header.is_infinite = false)
    (hch : List.Forall₂ (fun cur r => int_asn1_encode_to T cur = .ok r) elems rs) :
    ∃ data2,
      int_asn1_cons_encode_to T (.array elems) data =
        .ok ((krypt_asn1_header_encode
                { data.object.header with length := (rs.map Prod.fst).flatten.length }).1 ++
               (rs.map Prod.fst).flatten,
             .array (rs.map Prod.snd), data2) ∧
      (krypt_asn1_header_encode
          { data.object.header with length := (rs.map Prod.fst).flatten.length }).1 =
        data.object.header.tag_bytes.getD (int_compute_tag data.object.header) ++
          int_compute_length
            { data.object.header with length := (rs.map Prod.fst).flatten.length } ∧
      data2.object.header.length = (rs.map Prod.fst).flatten.length ∧
      (data.object.bytes = none →
        (data.encode_cb = some .int_asn1_cons_encode_to ∨
          (data.encode_cb = some .int_asn1_data_encode_to ∧
            data.object.header.is_constructed = true)) →
        int_asn1_encode_to T
            (.asn1 klass iv_tag iv_tag_class iv_inf_len (.array elems) iv_unused_bits
              (some data)) =
          .ok ((krypt_asn1_header_encode
                  { data.object.header with
                    length := (rs.map Prod.fst).flatten.length }).1 ++
                 (rs.map Prod.fst).flatten,
               .asn1 klass iv_tag iv_tag_class iv_inf_len (.array (rs.map Prod.snd))
                 iv_unused_bits (some data2))) := by
  have hsub := int_cons_encode_sub_elems_ordered T elems rs hch
  have hcons : int_asn1_cons_encode_to T (.array elems) data =
      .ok ((krypt_asn1_header_encode
              { data.object.header with length := (rs.map Prod.fst).flatten.length }).1 ++
             (rs.map Prod.fst).flatten,
           .array (rs.map Prod.snd),
           { data with object := { data.object with header :=
               (krypt_asn1_header_encode
                 { data.object.header with
                   length := (rs.map Prod.fst).flatten.length }).2 } }) := by
    rw [int_asn1_cons_encode_to]
    simp only [hl, hinf, hsub, Option.isNone_none, and_self, if_true, List.take_length]
  refine ⟨_, hcons, ?_, rfl, ?_⟩
  · simp only [krypt_asn1_header_encode, hl, Option.getD_none]
    rfl
  · intro hnone hcb
    rw [int_asn1_encode_to]
    simp only [hnone]
    rcases hcb with hcb | ⟨hcb, hc⟩
    · simp only [hcb, hcons]
      simp [hnone]
    · simp only [hcb, hc, hcons]
      simp [hnone]

theorem int_asn1_cons_encode_to_definite_witness :
    KRYPT_ASN1_DEFINE_CTOR krypt_asn1_codecs TAGS_SEQUENCE true .int_asn1_cons_encode_to
        [.array [octet_string_one_two, null_scratch]]
        (krypt_asn1_data_alloc .cKryptASN1Sequence) =
      .ok (sequence_scratch [octet_string_one_two, null_scratch]) ∧
    krypt_asn1_null_initialize krypt_asn1_codecs [] (krypt_asn1_data_alloc .cKryptASN1Null) =
      .ok null_scratch ∧
    ∃ ary2 data2,
      int_asn1_cons_encode_to krypt_asn1_codecs (.array [octet_string_one_two, null_scratch])
          sequence_scratch_data = .ok ([48, 6, 4, 2, 1, 2, 5, 0], ary2, data2) ∧
      data2.object.header.length = 6 ∧
      encoded_octets (krypt_asn1_data_to_der krypt_asn1_codecs
          (sequence_scratch [octet_string_one_two, null_scratch])) =
        some [48, 6, 4, 2, 1, 2, 5, 0] := by
  refine ⟨rfl, rfl, ?_⟩
  obtain ⟨data2, h1, _, h3, h4⟩ :=
    int_asn1_cons_encode_to_definite krypt_asn1_codecs .cKryptASN1Sequence (.fixnum 16)
      (.symbol .sTC_UNIVERSAL) .qfalse .qnil [octet_string_one_two, null_scratch]
      [(_, _), (_, _)] sequence_scratch_data rfl rfl
      (List.Forall₂.cons rfl (List.Forall₂.cons rfl List.Forall₂.nil))
  refine ⟨_, data2, h1, h3, ?_⟩
  have h5 := h4 rfl (Or.inl rfl)
  unfold krypt_asn1_data_to_der sequence_scratch
  rw [h5]
  rfl

/-! ## Constructed values of infinite length, and cached length octets -/

/-- C14 (counterexample): `Sequence.new` of one OCTET STRING, then `infinite_length = true`,
then `to_der`: the octets written are 30 80 04 02 01 02, which do not end with 00 00. -/
theorem int_asn1_cons_encode_to_infinite_no_eoc :
    KRYPT_ASN1_DEFINE_CTOR krypt_asn1_codecs TAGS_SEQUENCE true .int_asn1_cons_encode_to
        [.array [octet_string_one_two]] (krypt_asn1_data_alloc .cKryptASN1Sequence) =
      .ok (sequence_scratch [octet_string_one_two]) ∧
    krypt_asn1_data_set_inf_length (sequence_scratch [octet_string_one_two]) .qtrue =
      .ok (.qtrue, sequence_scratch_infinite [octet_string_one_two]) ∧
    encoded_octets (krypt_asn1_data_to_der krypt_asn1_codecs
        (sequence_scratch_infinite [octet_string_one_two])) = some [48, 128, 4, 2, 1, 2] ∧
    ¬ [0, 0] <:+ [48, 128, 4, 2, 1, 2] := by
  refine ⟨rfl, rfl, rfl, ?_⟩
  decide

/-- C14 (amended): for an array that is encoded by `int_asn1_cons_encode_to` with a header
of infinite length, let the elements encode, in array order, to the results `rs`. Then the
octets written are the header followed by the concatenation of those encodings in that
order, and nothing after them; a header without cached length octets is written with the
length octet 80; and the output ends with 00 00 whenever the last element encodes to
00 00. -/
theorem int_asn1_cons_encode_to_infinite (T : CodecTable) (elems : List VALUE)
    (rs : List (Bytes × VALUE)) (data : krypt_asn1_data)
    (hinf : data.object.header.is_infinite = true)
    (hch : List.Forall₂ (fun cur r => int_asn1_encode_to T cur = .ok r) elems rs) :
    ∃ out data2,
      int_asn1_cons_encode_to T (.array elems) data =
        .ok (out, .array (rs.map Prod.snd), data2) ∧
      out = (krypt_asn1_header_encode data.object.header).1 ++ (rs.map Prod.fst).flatten ∧
      (data.object.header.length_bytes = none →
        (krypt_asn1_header_encode data.object.header).1 =
          data.object.header.tag_bytes.getD (int_compute_tag data.object.header) ++ [128]) ∧
      (∀ rs0 r, rs = rs0 ++ [r] → r.1 = [0, 0] → [0, 0] <:+ out) := by
  have hsub := int_cons_encode_sub_elems_ordered T elems rs hch
  refine ⟨_, { data with object := { data.object with header :=
      (krypt_asn1_header_encode data.object.header).2 } }, ?_, rfl, ?_, ?_⟩
  · rw [int_asn1_cons_encode_to]
    simp only [hinf, hsub]
    simp
  · intro hl
    simp only [krypt_asn1_header_encode, hl, Option.getD_none, int_compute_length, hinf,
      if_true]
  · intro rs0 r hrs hr
    subst hrs
    refine ⟨(krypt_asn1_header_encode data.object.header).1 ++
      (rs0.map Prod.fst).flatten, ?_⟩
    simp [hr]

theorem int_asn1_cons_encode_to_infinite_witness :
    krypt_asn1_end_of_contents_initialize krypt_asn1_codecs
        (krypt_asn1_data_alloc .cKryptASN1EndOfContents) = .ok end_of_contents_scratch ∧
    ∃ out ary2 data2,
      int_asn1_cons_encode_to krypt_asn1_codecs
          (.array [octet_string_one_two, end_of_contents_scratch])
          { sequence_scratch_data with
            object := { sequence_scratch_data.object with
              header := { sequence_scratch_data.object.header with is_infinite := true } } } =
        .ok (out, ary2, data2) ∧
      out = [48, 128, 4, 2, 1, 2, 0, 0] ∧ [0, 0] <:+ out := by
  obtain ⟨out, data2, h1, h2, _, h4⟩ :=
    int_asn1_cons_encode_to_infinite krypt_asn1_codecs
      [octet_string_one_two, end_of_contents_scratch] [([4, 2, 1, 2], _), ([0, 0], _)]
      { sequence_scratch_data with
        object := { sequence_scratch_data.object with
          header := { sequence_scratch_data.object.header with is_infinite := true } } }
      rfl (List.Forall₂.cons rfl (List.Forall₂.cons rfl List.Forall₂.nil))
  exact ⟨rfl, out, _, data2, h1, h2, h4 [_] _ rfl rfl⟩

/-- C15 (the code evaluated at the failing input): the octets 30 04 04 02 01 02 are
decoded, the value of the result is read, the value of its only element is set to the
String of the octets 01 02 03, and the result is encoded: the octets written are
30 04 04 03 01 02 03, a header with the length 4 in front of 5 content octets. The same
happens to an instance created with `Sequence.new` that was encoded once before the value
of its element was set. -/
theorem int_asn1_cons_encode_to_stale_length :
    (∃ p child p2 p3 p4,
      krypt_asn1_decode krypt_asn1_codecs [48, 4, 4, 2, 1, 2] = .ok (p, []) ∧
      krypt_asn1_data_get_value krypt_asn1_codecs p = .ok (.array [child], p2) ∧
      krypt_asn1_child_set_value p2 0 (.string [1, 2, 3]) = .ok p3 ∧
      krypt_asn1_data_to_der krypt_asn1_codecs p3 = .ok ([48, 4] ++ [4, 3, 1, 2, 3], p4)) ∧
    (∃ s1 s2 s3,
      krypt_asn1_data_to_der krypt_asn1_codecs (sequence_scratch [octet_string_one_two]) =
        .ok ([48, 4] ++ [4, 2, 1, 2], s1) ∧
      krypt_asn1_child_set_value s1 0 (.string [1, 2, 3]) = .ok s2 ∧
      krypt_asn1_data_to_der krypt_asn1_codecs s2 = .ok ([48, 4] ++ [4, 3, 1, 2, 3], s3)) :=
  ⟨⟨_, _, _, _, _, rfl, rfl, rfl, rfl⟩, ⟨_, _, _, rfl, rfl, rfl⟩⟩

/-! ## The class of a parsed SEQUENCE or SET -/

/-- C17 (the code evaluated at the failing input): the instance `decode` returns for the
octets 30 03 02 01 01, a SEQUENCE of definite length, is of the class `Constructive`, not
`Sequence`; the one it returns for 31 00, a SET of definite length, is of the class
`Constructive`, not `Set`. -/
theorem krypt_asn1_decode_sequence_class :
    (∃ p h,
      krypt_asn1_decode krypt_asn1_codecs [48, 3, 2, 1, 1] = .ok (p, []) ∧
      int_asn1_header_of p = some h ∧ h.tag = TAGS_SEQUENCE ∧ h.tag_class = .UNIVERSAL ∧
      h.is_constructed = true ∧ h.is_infinite = false ∧
      int_asn1_klass_of p = some .cKryptASN1Constructive) ∧
    (∃ p h,
      krypt_asn1_decode krypt_asn1_codecs [49, 0] = .ok (p, []) ∧
      int_asn1_header_of p = some h ∧ h.tag = TAGS_SET ∧ h.tag_class = .UNIVERSAL ∧
      h.is_constructed = true ∧ h.is_infinite = false ∧
      int_asn1_klass_of p = some .cKryptASN1Constructive) :=
  ⟨⟨_, _, rfl, rfl, rfl, rfl, rfl, rfl, rfl⟩, ⟨_, _, rfl, rfl, rfl, rfl, rfl, rfl, rfl⟩⟩

/-! ## Reading the value of a constructed value that was parsed -/

/-- The initializer of parsed values never runs out of the recursion budget. -/
theorem krypt_asn1_data_new_fuel (T : CodecTable) (inp : Bytes) (header : krypt_asn1_header) :
    krypt_asn1_data_new T inp (some header) ≠ .error .out_of_fuel := by
  unfold krypt_asn1_data_new
  simp only
  split
  · rename_i e heq
    intro h
    simp only [Except.error.injEq] at h
    subst h
    unfold krypt_asn1_get_value at heq
    split at heq
    · exact int_consume_indefinite_fuel _ _ _ (Nat.lt_succ_self _) heq
    · split at heq <;> simp at heq
  · split
    · rename_i e heq
      intro h
      simp only [Except.error.injEq] at h
      subst h
      split at heq
      · split at heq
        · simp at heq
        · split at heq
          · simp at heq
          · split at heq
            · rename_i e2 heq2
              simp only [Except.error.injEq] at heq
              subst heq
              unfold krypt_asn1_infos_klass at heq2
              split at heq2
              · simp at heq2
              · split at heq2 <;> simp at heq2
            · simp at heq
      · simp at heq
    · simp

/-- The loop over the children never runs out of the recursion budget when the budget
exceeds the number of octets. -/
theorem int_asn1_cons_value_decode_loop_fuel (T : CodecTable) (fuel : Nat) :
    ∀ (inp : Bytes), inp.length < fuel →
      int_asn1_cons_value_decode_loop T fuel inp ≠ .error .out_of_fuel := by
  induction fuel with
  | zero => intro inp h; omega
  | succ fuel ih =>
    intro inp hlen
    unfold int_asn1_cons_value_decode_loop
    split
    · rename_i e heq
      intro h
      simp only [Except.error.injEq] at h
      subst h
      exact krypt_asn1_next_header_fuel _ heq
    · simp
    · rename_i header rest hnext
      split
      · rename_i e heq
        intro h
        simp only [Except.error.injEq] at h
        subst h
        exact krypt_asn1_data_new_fuel _ _ _ heq
      · rename_i cur rest2 hnew
        obtain ⟨_, _, value, _, _, hval⟩ := krypt_asn1_data_new_shape T rest header cur rest2 hnew
        have h1 := (krypt_asn1_header_octets_consumed inp header rest hnext).2
        have h2 := congrArg List.length (krypt_asn1_get_value_consumed rest header value rest2 hval)
        simp only [List.length_append] at h2
        have h3 := ih rest2 (by omega)
        split
        · rename_i e heq
          intro h
          simp only [Except.error.injEq] at h
          subst h
          exact h3 heq
        · simp

/-- A parsed value whose header is constructed holds one of the two decode callbacks
that lead to `int_asn1_cons_value_decode`. -/
theorem krypt_asn1_data_new_constructed (T : CodecTable) (inp : Bytes)
    (header : krypt_asn1_header) (v : VALUE) (rest : Bytes)
    (h : krypt_asn1_data_new T inp (some header) = .ok (v, rest))
    (hc : header.is_constructed = true) :
    ∃ klass data value,
      v = .asn1 klass (.fixnum header.tag)
            (.symbol (krypt_asn1_tag_class_for_int header.tag_class))
            (if header.is_infinite = true then .qtrue else .qfalse) .qnil .qnil (some data) ∧
      data.object = krypt_asn1_object_new_value header value value.length ∧
      krypt_asn1_get_value inp header = .ok (value, rest) ∧
      (data.decode_cb = some .int_asn1_cons_value_decode ∨
        data.decode_cb = some .int_asn1_data_value_decode) := by
  unfold krypt_asn1_data_new at h
  simp only at h
  split at h
  · simp at h
  · rename_i value rest1 hval
    split at h
    · simp at h
    · rename_i klass data hsel
      simp only [Except.ok.injEq, Prod.mk.injEq] at h
      obtain ⟨h1, h2⟩ := h
      subst h1 h2
      refine ⟨klass, data, value, rfl, ?_, hval, ?_⟩
      · split at hsel
        · split at hsel
          · simp at hsel
          · simp only [Except.ok.injEq, Prod.mk.injEq] at hsel
            rw [← hsel.2]
            rfl
        · simp only [Except.ok.injEq, Prod.mk.injEq] at hsel
          rw [← hsel.2]
          rfl
      · split at hsel
        · split at hsel
          · simp at hsel
          · simp only [Except.ok.injEq, Prod.mk.injEq] at hsel
            rw [← hsel.2]
            exact Or.inl rfl
        · simp only [Except.ok.injEq, Prod.mk.injEq] at hsel
          rw [← hsel.2]
          exact Or.inr rfl

/-- C16 (counterexample): `decode` returns a constructed value for the octets 30 02 05 05,
whose two content octets are the start of a NULL that claims five content octets; reading
its value raises a ParseError and returns no Array. The same holds of the octets
30 03 1F 1F 00, whose content is a UNIVERSAL value with the tag 31. -/
theorem krypt_asn1_data_get_value_malformed_children :
    (∃ p h,
      krypt_asn1_decode krypt_asn1_codecs [48, 2, 5, 5] = .ok (p, []) ∧
      int_asn1_header_of p = some h ∧ h.is_constructed = true ∧
      krypt_asn1_data_get_value krypt_asn1_codecs p = .error .ParseError_truncated) ∧
    (∃ p h,
      krypt_asn1_decode krypt_asn1_codecs [48, 3, 31, 31, 0] = .ok (p, []) ∧
      int_asn1_header_of p = some h ∧ h.is_constructed = true ∧
      krypt_asn1_data_get_value krypt_asn1_codecs p =
        .error (.ParseError_universal_tag_too_large 31)) :=
  ⟨⟨_, _, rfl, rfl, rfl, rfl⟩, ⟨_, _, rfl, rfl, rfl, rfl⟩⟩

/-- Reading the value of a parsed constructed value runs the loop over its content octets:
the result is the Array of the loop, or the error of the loop. -/
theorem krypt_asn1_data_get_value_loop (T : CodecTable) (klass : Klass)
    (a b c : VALUE) (data : krypt_asn1_data) (header : krypt_asn1_header) (value : Bytes)
    (hobj : data.object = krypt_asn1_object_new_value header value value.length)
    (hc : header.is_constructed = true)
    (hcb : data.decode_cb = some .int_asn1_cons_value_decode ∨
      data.decode_cb = some .int_asn1_data_value_decode) :
    krypt_asn1_data_get_value T (.asn1 klass a b c .qnil .qnil (some data)) =
      match int_asn1_cons_value_decode_loop T (value.length + 1) value with
      | .error e => .error e
      | .ok ary =>
        .ok (.array ary,
          .asn1 klass a b c (.array ary) .qnil
            (some { data with object := { data.object with bytes := none, bytes_len := 0 } })) := by
  have hbytes : data.object.bytes = some value := by rw [hobj]; rfl
  have hlen : data.object.bytes_len = value.length := by rw [hobj]; rfl
  have hcons : data.object.header.is_constructed = true := by rw [hobj]; exact hc
  have hcall : int_asn1_decode_cb_call T (.asn1 klass a b c .qnil .qnil (some data)) data =
      int_asn1_cons_value_decode T data := by
    unfold int_asn1_decode_cb_call
    rcases hcb with hcb | hcb
    · simp [hcb]
    · simp [hcb, hcons]
  unfold krypt_asn1_data_get_value
  simp only [NIL_P, if_true, hbytes, hcall, int_asn1_cons_value_decode, hlen,
    Option.getD_some, List.take_length]
  cases int_asn1_cons_value_decode_loop T (value.length + 1) value <;> rfl

/-- C16 (amended): let `decode` return a value whose header is constructed, and let
`content` be its content octets (possibly none). Reading `value` runs the loop of
`int_asn1_cons_value_decode` over `content`, which always ends. If every child decodes,
the result is an Array, never nil: it holds the decoded children in input order (their
encodings, concatenated in array order, are `content`), and it is the empty Array when
there are no content octets. If a child fails to decode, reading `value` raises that
error. -/
theorem krypt_asn1_data_get_value_constructed (T : CodecTable) (b : Bytes) (v : VALUE)
    (rest : Bytes) (h : krypt_asn1_header)
    (hdec : krypt_asn1_decode T b = .ok (v, rest))
    (hh : int_asn1_header_of v = some h) (hc : h.is_constructed = true) :
    ∃ content,
      krypt_asn1_header_octets h ++ content ++ rest = b ∧
      int_asn1_cons_value_decode_loop T (content.length + 1) content ≠ .error .out_of_fuel ∧
      (∀ ary, int_asn1_cons_value_decode_loop T (content.length + 1) content = .ok ary →
        (∃ v2, krypt_asn1_data_get_value T v = .ok (.array ary, v2)) ∧
        int_cons_encode_sub_elems T ary = .ok (content, ary)) ∧
      (∀ e, int_asn1_cons_value_decode_loop T (content.length + 1) content = .error e →
        krypt_asn1_data_get_value T v = .error e) ∧
      (content = [] → ∃ v2, krypt_asn1_data_get_value T v = .ok (.array [], v2)) := by
  unfold krypt_asn1_decode at hdec
  split at hdec
  · simp at hdec
  · simp at hdec
  · rename_i header rest0 hnext
    obtain ⟨klass, data, value, hv, hobj, hval⟩ :=
      krypt_asn1_data_new_shape T rest0 header v rest hdec
    have hhead : h = header := by
      rw [hv] at hh
      simp only [int_asn1_header_of, Option.some.injEq, hobj] at hh
      rw [← hh]
      rfl
    subst hhead
    obtain ⟨klass2, data2, value2, hv2, hobj2, hval2, hcb⟩ :=
      krypt_asn1_data_new_constructed T rest0 h v rest hdec hc
    have hvalue : value2 = value := by
      rw [hval] at hval2
      simp only [Except.ok.injEq, Prod.mk.injEq] at hval2
      exact hval2.1.symm
    subst hvalue
    have hget := krypt_asn1_data_get_value_loop T klass2 (.fixnum h.tag)
      (.symbol (krypt_asn1_tag_class_for_int h.tag_class))
      (if h.is_infinite = true then .qtrue else .qfalse) data2 h value2 hobj2 hc hcb
    rw [← hv2] at hget
    have h1 := (krypt_asn1_header_octets_consumed b h rest0 hnext).1
    have h2 := krypt_asn1_get_value_consumed rest0 h value2 rest hval
    refine ⟨value2, ?_, ?_, ?_, ?_, ?_⟩
    · rw [List.append_assoc, h2, h1]
    · exact int_asn1_cons_value_decode_loop_fuel T _ _ (Nat.lt_succ_self _)
    · intro ary hloop
      rw [hloop] at hget
      exact ⟨⟨_, hget⟩, int_asn1_cons_value_decode_loop_encode T _ _ _ hloop⟩
    · intro e hloop
      rw [hloop] at hget
      exact hget
    · intro hempty
      subst hempty
      have hloop : int_asn1_cons_value_decode_loop T ([] : Bytes).length.succ [] = .ok [] := rfl
      rw [hloop] at hget
      exact ⟨_, hget⟩

theorem krypt_asn1_data_get_value_constructed_witness :
    (∃ content,
      krypt_asn1_header_octets
          { tag := 16, tag_class := .UNIVERSAL, is_constructed := true, is_infinite := false,
            length := 0, tag_bytes := some [48], tag_len := 1, length_bytes := some [0],
            length_len := 1, header_length := 2 } ++ content ++ [] = [48, 0] ∧
      (content = [] → ∃ v2,
        krypt_asn1_data_get_value krypt_asn1_codecs
          (.asn1 .cKryptASN1Constructive (.fixnum 16) (.symbol .sTC_UNIVERSAL) .qfalse .qnil
            .qnil
            (some
              { object :=
                  { header :=
                      { tag := 16, tag_class := .UNIVERSAL, is_constructed := true,
                        is_infinite := false, length := 0, tag_bytes := some [48],
                        tag_len := 1, length_bytes := some [0], length_len := 1,
                        header_length := 2 },
                    bytes := some [], bytes_len := 0 },
                decode_cb := some .int_asn1_cons_value_decode,
                encode_cb := some .int_asn1_cons_encode_to,
                codec := some 16 })) = .ok (.array [], v2))) ∧
    (∃ child v2,
      krypt_asn1_data_get_value krypt_asn1_codecs parsed_explicit_integer =
        .ok (.array [child], v2) ∧
      int_asn1_klass_of child = some .cKryptASN1Integer) := by
  refine ⟨?_, _, _, rfl, rfl⟩
  obtain ⟨content, h1, _, _, _, h5⟩ :=
    krypt_asn1_data_get_value_constructed krypt_asn1_codecs [48, 0] _ []
      { tag := 16, tag_class := .UNIVERSAL, is_constructed := true, is_infinite := false,
        length := 0, tag_bytes := some [48], tag_len := 1, length_bytes := some [0],
        length_len := 1, header_length := 2 } rfl rfl rfl
  exact ⟨content, h1, h5⟩

/-! ## The matching functions of the template parser -/

/-- The expected tag and class, and the comparison of both with a header, when the tag of
the definition is nil or an Integer and its tagging is nil or a Symbol. -/
theorem int_match_tag_and_class_eq (F : ID → Option TagClass) (header : krypt_asn1_header)
    (tag tagging : VALUE) (default_tag exp_tag : Int) (exp_class : Option TagClass)
    (htag : (tag = .qnil ∧ exp_tag = default_tag) ∨ tag = .fixnum exp_tag)
    (hclass : (tagging = .qnil ∧ exp_class = some .UNIVERSAL) ∨
      (∃ id, tagging = .symbol id ∧ exp_class = F id)) :
    int_expected_tag tag default_tag = .ok exp_tag ∧
    int_expected_tag_class F tagging = exp_class ∧
    int_match_tag_and_class F header tag tagging default_tag =
      .ok (decide (header.tag = exp_tag ∧ some header.tag_class = exp_class)) := by
  have h1 : int_expected_tag tag default_tag = .ok exp_tag := by
    rcases htag with ⟨h, h2⟩ | h
    · simp [int_expected_tag, h, h2, NIL_P]
    · simp [int_expected_tag, h, NIL_P, NUM2INT]
  have h2 : int_expected_tag_class F tagging = exp_class := by
    rcases hclass with ⟨h, h2⟩ | ⟨id, h, h2⟩
    · simp [int_expected_tag_class, h, h2, NIL_P]
    · simp [int_expected_tag_class, h, h2, NIL_P, SYM2ID]
  refine ⟨h1, h2, ?_⟩
  unfold int_match_tag_and_class int_match_tag int_match_class
  rw [h1, h2]
  by_cases ht : header.tag = exp_tag
  · cases exp_class with
    | none => simp [ht]
    | some c => simp [ht]
  · simp [ht]

/-- C18: let the type of a definition be the number `type_no`, its name the symbol `name`,
its tag override nil or an Integer and its tagging nil or a Symbol; let `exp_tag` be the
override (the type number when there is none) and `exp_class` the class derived from the
tagging (UNIVERSAL when there is none). Then `int_match_prim` returns 1 exactly when the
tag of the header is `exp_tag` and its class is `exp_class`, and then host and error chain
are as before. Otherwise it returns 0 and the error chain is longer (mandatory value
missing, could not parse, and the mismatches) when the definition is not optional; it
returns -2 with the default bound to the name on the host when the definition is optional
with a default; it returns -1 with the host as before when it is optional without one. -/
theorem int_match_prim_contract (F : ID → Option TagClass) (self : TVALUE)
    (object : krypt_asn1_object) (definition : Option krypt_definition_hash)
    (options : krypt_asn1_options) (value : TVALUE) (is_parsed is_decoded : Bool)
    (d : krypt_asn1_definition) (errors : krypt_errors) (type_no : Int) (name : ID)
    (exp_tag : Int) (exp_class : Option TagClass)
    (htype : d.type = .fixnum type_no) (hname : d.name = .symbol name)
    (htag : (d.tag = .qnil ∧ exp_tag = type_no) ∨ d.tag = .fixnum exp_tag)
    (hclass : (d.tagging = .qnil ∧ exp_class = some .UNIVERSAL) ∨
      (∃ id, d.tagging = .symbol id ∧ exp_class = F id)) :
    ((∃ self2 t2 errors2,
        int_match_prim F self
            (.mk (some object) definition options value is_parsed is_decoded) d errors =
          .ok (1, self2, t2, errors2)) ↔
      (object.header.tag = exp_tag ∧ some object.header.tag_class = exp_class)) ∧
    ((object.header.tag = exp_tag ∧ some object.header.tag_class = exp_class) →
      int_match_prim F self
          (.mk (some object) definition options value is_parsed is_decoded) d errors =
        .ok (1, self, .mk (some object) definition options value is_parsed is_decoded, errors)) ∧
    (¬ (object.header.tag = exp_tag ∧ some object.header.tag_class = exp_class) →
      (d.optional = false →
        int_match_prim F self
            (.mk (some object) definition options value is_parsed is_decoded) d errors =
          .ok (0, self, .mk (some object) definition options value is_parsed is_decoded,
            errors ++ [.mandatory_value_missing name] ++ [.could_not_parse (.of_id name)] ++
              (if object.header.tag ≠ exp_tag then
                 [.tag_mismatch exp_tag object.header.tag] else []) ++
              (if some object.header.tag_class ≠ exp_class then
                 [.tag_class_mismatch exp_class object.header.tag_class] else []))) ∧
      (d.optional = true → ∀ dv, d.default_value = some dv →
        int_match_prim F self
            (.mk (some object) definition options value is_parsed is_decoded) d errors =
          .ok (-2,
            rb_ivar_set self name (.template_value (krypt_asn1_template_new_value dv)),
            .mk (some object) definition options value is_parsed is_decoded, errors)) ∧
      (d.optional = true → d.default_value = none →
        int_match_prim F self
            (.mk (some object) definition options value is_parsed is_decoded) d errors =
          .ok (-1, self,
              .mk (some object) definition options value is_parsed is_decoded, errors))) := by
  obtain ⟨h1, h2, h3⟩ := int_match_tag_and_class_eq F object.header d.tag d.tagging type_no
    exp_tag exp_class htag hclass
  have hyes : (object.header.tag = exp_tag ∧ some object.header.tag_class = exp_class) →
      int_match_prim F self
          (.mk (some object) definition options value is_parsed is_decoded) d errors =
        .ok (1, self, .mk (some object) definition options value is_parsed is_decoded, errors) := by
    intro hm
    simp only [int_match_prim, krypt_asn1_template.object, krypt_definition_get_type, htype,
      NIL_P, NUM2INT, krypt_definition_get_tag, krypt_definition_get_tagging, h3]
    simp [hm]
  have hno : ¬ (object.header.tag = exp_tag ∧ some object.header.tag_class = exp_class) →
      int_match_prim F self
          (.mk (some object) definition options value is_parsed is_decoded) d errors =
        int_check_optional_or_default F self
            (.mk (some object) definition options value is_parsed is_decoded) d
          type_no errors := by
    intro hm
    simp only [int_match_prim, krypt_asn1_template.object, krypt_definition_get_type, htype,
      NIL_P, NUM2INT, krypt_definition_get_tag, krypt_definition_get_tagging, h3]
    simp [hm]
  have hopt0 : d.optional = false →
      int_check_optional_or_default F self
          (.mk (some object) definition options value is_parsed is_decoded) d
          type_no errors =
        .ok (0, self, .mk (some object) definition options value is_parsed is_decoded,
          errors ++ [.mandatory_value_missing name] ++ [.could_not_parse (.of_id name)] ++
            (if object.header.tag ≠ exp_tag then
               [.tag_mismatch exp_tag object.header.tag] else []) ++
            (if some object.header.tag_class ≠ exp_class then
               [.tag_class_mismatch exp_class object.header.tag_class] else [])) := by
    intro ho
    simp only [int_check_optional_or_default, krypt_asn1_template.object,
      krypt_definition_is_optional, ho, krypt_definition_get_name, hname, NIL_P, SYM2ID,
      int_tag_and_class_mismatch, krypt_definition_get_tag, krypt_definition_get_tagging,
      h1, h2]
    simp
  have hopt2 : d.optional = true → ∀ dv, d.default_value = some dv →
      int_check_optional_or_default F self
          (.mk (some object) definition options value is_parsed is_decoded) d
          type_no errors =
        .ok (-2, rb_ivar_set self name (.template_value (krypt_asn1_template_new_value dv)),
          .mk (some object) definition options value is_parsed is_decoded, errors) := by
    intro ho dv hdv
    simp [int_check_optional_or_default, krypt_asn1_template.object,
      krypt_definition_is_optional, ho, krypt_definition_has_default, hdv,
      int_set_default_value, krypt_definition_get_name, hname, NIL_P, SYM2ID,
      krypt_definition_get_default_value]
  have hopt1 : d.optional = true → d.default_value = none →
      int_check_optional_or_default F self
          (.mk (some object) definition options value is_parsed is_decoded) d
          type_no errors =
        .ok (-1, self,
            .mk (some object) definition options value is_parsed is_decoded, errors) := by
    intro ho hdv
    simp [int_check_optional_or_default, krypt_asn1_template.object,
      krypt_definition_is_optional, ho, krypt_definition_has_default, hdv]
  refine ⟨⟨?_, fun hm => ⟨_, _, _, hyes hm⟩⟩, hyes, fun hm => ⟨?_, ?_, ?_⟩⟩
  · rintro ⟨self2, t2, errors2, hr⟩
    by_contra hm
    rw [hno hm] at hr
    cases ho : d.optional with
    | false =>
      rw [hopt0 ho] at hr
      simp at hr
    | true =>
      cases hdv : d.default_value with
      | none =>
        rw [hopt1 ho hdv] at hr
        simp at hr
      | some dv =>
        rw [hopt2 ho dv hdv] at hr
        simp at hr
  · intro ho
    rw [hno hm, hopt0 ho]
  · intro ho dv hdv
    rw [hno hm, hopt2 ho dv hdv]
  · intro ho hdv
    rw [hno hm, hopt1 ho hdv]

theorem int_match_prim_contract_witness :
    int_match_prim krypt_asn1_tag_class_for_id_or_none template_host template_integer_one
        { type := .fixnum 2, name := .symbol sID_version } [] =
      .ok (1, template_host, template_integer_one, []) ∧
    int_match_prim krypt_asn1_tag_class_for_id_or_none template_host template_integer_one
        { type := .fixnum 4, name := .symbol sID_version } [] =
      .ok (0, template_host, template_integer_one,
        [.mandatory_value_missing sID_version, .could_not_parse (.of_id sID_version),
         .tag_mismatch 4 2]) ∧
    int_match_prim krypt_asn1_tag_class_for_id_or_none template_host template_integer_one
        { type := .fixnum 4, name := .symbol sID_version, optional := true,
          default_value := some (.string [7]) } [] =
      .ok (-2,
        .template_instance 0
          [(sID_version, .template_value (krypt_asn1_template_new_value (.string [7])))] none,
        template_integer_one, []) ∧
    int_match_prim krypt_asn1_tag_class_for_id_or_none template_host template_integer_one
        { type := .fixnum 2, name := .symbol sID_version, tag := .fixnum 0,
          tagging := .symbol sKrypt_TC_IMPLICIT, optional := true } [] =
      .ok (-1, template_host, template_integer_one, []) :=
  ⟨(int_match_prim_contract krypt_asn1_tag_class_for_id_or_none template_host
      { header := header_integer_one, bytes := some [1], bytes_len := 1 } none {}
      (.plain .qnil)
      false false { type := .fixnum 2, name := .symbol sID_version } [] 2 sID_version 2
      (some .UNIVERSAL) rfl rfl (Or.inl ⟨rfl, rfl⟩) (Or.inl ⟨rfl, rfl⟩)).2.1 ⟨rfl, rfl⟩,
   ((int_match_prim_contract krypt_asn1_tag_class_for_id_or_none template_host
      { header := header_integer_one, bytes := some [1], bytes_len := 1 } none {}
      (.plain .qnil)
      false false { type := .fixnum 4, name := .symbol sID_version } [] 4 sID_version 4
      (some .UNIVERSAL) rfl rfl (Or.inl ⟨rfl, rfl⟩) (Or.inl ⟨rfl, rfl⟩)).2.2
        (by decide)).1 rfl,
   ((int_match_prim_contract krypt_asn1_tag_class_for_id_or_none template_host
      { header := header_integer_one, bytes := some [1], bytes_len := 1 } none {}
      (.plain .qnil)
      false false
      { type := .fixnum 4, name := .symbol sID_version, optional := true,
        default_value := some (.string [7]) } [] 4 sID_version 4
      (some .UNIVERSAL) rfl rfl (Or.inl ⟨rfl, rfl⟩) (Or.inl ⟨rfl, rfl⟩)).2.2
        (by decide)).2.1 rfl (.string [7]) rfl,
   ((int_match_prim_contract krypt_asn1_tag_class_for_id_or_none template_host
      { header := header_integer_one, bytes := some [1], bytes_len := 1 } none {}
      (.plain .qnil)
      false false
      { type := .fixnum 2, name := .symbol sID_version, tag := .fixnum 0,
        tagging := .symbol sKrypt_TC_IMPLICIT, optional := true } [] 2 sID_version 0
      (some .CONTEXT_SPECIFIC) rfl rfl (Or.inr rfl) (Or.inr ⟨_, rfl, rfl⟩)).2.2
        (by decide)).2.2 rfl rfl⟩

/-- The SEQUENCE and SET match for any default tag: the contract of C19 with the exact
error chain. -/
theorem int_match_cons_contract (F : ID → Option TagClass) (self : TVALUE)
    (object : krypt_asn1_object) (definition : Option krypt_definition_hash)
    (options : krypt_asn1_options) (value : TVALUE) (is_parsed is_decoded : Bool)
    (d : krypt_asn1_definition) (errors : krypt_errors) (default_tag exp_tag : Int)
    (exp_class : Option TagClass)
    (htag : (d.tag = .qnil ∧ exp_tag = default_tag) ∨ d.tag = .fixnum exp_tag)
    (hclass : (d.tagging = .qnil ∧ exp_class = some .UNIVERSAL) ∨
      (∃ id, d.tagging = .symbol id ∧ exp_class = F id)) :
    match_cons_contract
      (int_match_cons F self
          (.mk (some object) definition options value is_parsed is_decoded) d default_tag
        errors)
      self (.mk (some object) definition options value is_parsed is_decoded) errors
      (object.header.is_constructed = true ∧ object.header.tag = exp_tag ∧
        some object.header.tag_class = exp_class)
      d.optional := by
  obtain ⟨h1, h2, h3⟩ := int_match_tag_and_class_eq F object.header d.tag d.tagging
    default_tag exp_tag exp_class htag hclass
  have hyes : (object.header.is_constructed = true ∧ object.header.tag = exp_tag ∧
      some object.header.tag_class = exp_class) →
      int_match_cons F self
          (.mk (some object) definition options value is_parsed is_decoded) d default_tag
        errors = .ok (1, self,
            .mk (some object) definition options value is_parsed is_decoded, errors) := by
    intro hm
    simp only [int_match_cons, int_try_match_cons, krypt_asn1_template.object,
      krypt_definition_get_tag, krypt_definition_get_tagging, h3, hm.1, if_true]
    simp [hm.2]
  have hno0 : ¬ (object.header.is_constructed = true ∧ object.header.tag = exp_tag ∧
      some object.header.tag_class = exp_class) → d.optional = false →
      ∃ added, added ≠ [] ∧
        int_match_cons F self
            (.mk (some object) definition options value is_parsed is_decoded) d default_tag
          errors =
        .ok (0, self,
            .mk (some object) definition options value is_parsed is_decoded, errors ++ added) := by
    intro hm ho
    cases hc : object.header.is_constructed with
    | false =>
      refine ⟨[.constructive_bit_not_set], by simp, ?_⟩
      simp [int_match_cons, int_try_match_cons, krypt_asn1_template.object, hc,
        krypt_definition_is_optional, ho]
    | true =>
      have hm2 : ¬ (object.header.tag = exp_tag ∧ some object.header.tag_class = exp_class) :=
        fun h => hm ⟨hc, h⟩
      refine ⟨[.mandatory_sequence_value_not_found] ++ [.could_not_parse .Constructive] ++
        (if object.header.tag ≠ exp_tag then
           [.tag_mismatch exp_tag object.header.tag] else []) ++
        (if some object.header.tag_class ≠ exp_class then
           [.tag_class_mismatch exp_class object.header.tag_class] else []), by simp, ?_⟩
      simp only [int_match_cons, int_try_match_cons, krypt_asn1_template.object,
        krypt_definition_get_tag, krypt_definition_get_tagging, h3, hc, if_true,
        krypt_definition_is_optional, ho, int_tag_and_class_mismatch, h1, h2]
      simp [hm2]
  have hno1 : ¬ (object.header.is_constructed = true ∧ object.header.tag = exp_tag ∧
      some object.header.tag_class = exp_class) → d.optional = true →
      int_match_cons F self
          (.mk (some object) definition options value is_parsed is_decoded) d default_tag
        errors = .ok (-1, self,
            .mk (some object) definition options value is_parsed is_decoded, errors) := by
    intro hm ho
    cases hc : object.header.is_constructed with
    | false =>
      simp [int_match_cons, int_try_match_cons, krypt_asn1_template.object, hc,
        krypt_definition_is_optional, ho]
    | true =>
      have hm2 : ¬ (object.header.tag = exp_tag ∧ some object.header.tag_class = exp_class) :=
        fun h => hm ⟨hc, h⟩
      simp only [int_match_cons, int_try_match_cons, krypt_asn1_template.object,
        krypt_definition_get_tag, krypt_definition_get_tagging, h3, hc, if_true,
        krypt_definition_is_optional, ho]
      simp [hm2]
  refine ⟨⟨?_, fun hm => ⟨_, _, _, hyes hm⟩⟩, hyes, hno0, hno1⟩
  rintro ⟨self2, t2, errors2, hr⟩
  by_contra hm
  cases ho : d.optional with
  | false =>
    obtain ⟨added, _, hr2⟩ := hno0 hm ho
    rw [hr2] at hr
    simp at hr
  | true =>
    rw [hno1 hm ho] at hr
    simp at hr

/-- C19: let the tag override of a definition be nil or an Integer and its tagging nil or a
Symbol; let `exp_class` be the class derived from the tagging (UNIVERSAL when there is
none). `int_match_sequence` returns 1 exactly when the header is constructed, its tag is
the override (16 when there is none) and its class is `exp_class`; `int_match_set` does
the same with 17 for 16. When the result is not 1 it is 0 if the definition is not optional
and -1 if it is optional. -/
theorem int_match_sequence_set_contract (F : ID → Option TagClass) (self : TVALUE)
    (object : krypt_asn1_object) (definition : Option krypt_definition_hash)
    (options : krypt_asn1_options) (value : TVALUE) (is_parsed is_decoded : Bool)
    (d : krypt_asn1_definition) (errors : krypt_errors) (exp_seq exp_set : Int)
    (exp_class : Option TagClass)
    (htag : (d.tag = .qnil ∧ exp_seq = 16 ∧ exp_set = 17) ∨
      (d.tag = .fixnum exp_seq ∧ exp_set = exp_seq))
    (hclass : (d.tagging = .qnil ∧ exp_class = some .UNIVERSAL) ∨
      (∃ id, d.tagging = .symbol id ∧ exp_class = F id)) :
    match_cons_contract
      (int_match_sequence F self
          (.mk (some object) definition options value is_parsed is_decoded) d errors)
      self (.mk (some object) definition options value is_parsed is_decoded) errors
      (object.header.is_constructed = true ∧ object.header.tag = exp_seq ∧
        some object.header.tag_class = exp_class)
      d.optional ∧
    match_cons_contract
      (int_match_set F self
          (.mk (some object) definition options value is_parsed is_decoded) d errors)
      self (.mk (some object) definition options value is_parsed is_decoded) errors
      (object.header.is_constructed = true ∧ object.header.tag = exp_set ∧
        some object.header.tag_class = exp_class)
      d.optional := by
  constructor
  · exact int_match_cons_contract F self object definition options value is_parsed
      is_decoded d errors
      TAGS_SEQUENCE exp_seq exp_class
      (by
        rcases htag with ⟨h, h2, _⟩ | ⟨h, _⟩
        · exact Or.inl ⟨h, h2⟩
        · exact Or.inr h) hclass
  · exact int_match_cons_contract F self object definition options value is_parsed
      is_decoded d errors
      TAGS_SET exp_set exp_class
      (by
        rcases htag with ⟨h, _, h3⟩ | ⟨h, h3⟩
        · exact Or.inl ⟨h, h3⟩
        · exact Or.inr (h3 ▸ h)) hclass

theorem int_match_sequence_set_contract_witness :
    int_match_sequence krypt_asn1_tag_class_for_id_or_none template_host
        template_sequence_of_integer { name := .symbol sID_version } [] =
      .ok (1, template_host, template_sequence_of_integer, []) ∧
    int_match_set krypt_asn1_tag_class_for_id_or_none template_host
        template_sequence_of_integer { name := .symbol sID_version, optional := true } [] =
      .ok (-1, template_host, template_sequence_of_integer, []) ∧
    (∃ added, added ≠ [] ∧
      int_match_set krypt_asn1_tag_class_for_id_or_none template_host
          template_sequence_of_integer { name := .symbol sID_version } [] =
        .ok (0, template_host, template_sequence_of_integer, [] ++ added)) :=
  ⟨(int_match_sequence_set_contract krypt_asn1_tag_class_for_id_or_none template_host _
      none {} (.plain .qnil) false false { name := .symbol sID_version } [] 16 17 (some .UNIVERSAL)
      (Or.inl ⟨rfl, rfl, rfl⟩) (Or.inl ⟨rfl, rfl⟩)).1.2.1 ⟨rfl, rfl, rfl⟩,
   (int_match_sequence_set_contract krypt_asn1_tag_class_for_id_or_none template_host _
      none {} (.plain .qnil) false false { name := .symbol sID_version, optional := true } [] 16 17
      (some .UNIVERSAL) (Or.inl ⟨rfl, rfl, rfl⟩) (Or.inl ⟨rfl, rfl⟩)).2.2.2.2
        (by decide) rfl,
   (int_match_sequence_set_contract krypt_asn1_tag_class_for_id_or_none template_host _
      none {} (.plain .qnil) false false { name := .symbol sID_version } [] 16 17
      (some .UNIVERSAL) (Or.inl ⟨rfl, rfl, rfl⟩) (Or.inl ⟨rfl, rfl⟩)).2.2.2.1
        (by decide) rfl⟩

/-- C20 (counterexample): the context of the codec ANY holds `int_match_any`, and for the
template of the octets 02 01 01 that function returns 0, not 1. -/
theorem int_match_any_returns_zero :
    (krypt_asn1_template_get_ctx_for_codec sKrypt_ID_ANY []).1 =
      some { match_cb := .int_match_any, parse_cb := .int_parse_any,
             decode_cb := some .int_decode_any } ∧
    int_match_any template_host template_integer_one { name := .symbol sID_version } [] =
      .ok (0, template_host, template_integer_one, []) :=
  ⟨rfl, rfl⟩

/-- C20 (amended): the context of the codec ANY holds `int_match_any`, `int_parse_any` and
`int_decode_any`; each of them returns 0, the error result, for every host, template and
definition, binds nothing to the host, leaves the template as it is and adds nothing to
the error chain. -/
theorem int_any_codec_stubs (self : TVALUE) (t : krypt_asn1_template)
    (d : krypt_asn1_definition) (errors : krypt_errors) :
    krypt_asn1_template_get_ctx_for_codec sKrypt_ID_ANY errors =
      (some krypt_template_any_ctx, errors) ∧
    krypt_template_any_ctx.match_cb = .int_match_any ∧
    krypt_template_any_ctx.parse_cb = .int_parse_any ∧
    krypt_template_any_ctx.decode_cb = some .int_decode_any ∧
    int_match_any self t d errors = .ok (0, self, t, errors) ∧
    int_parse_any self t d errors = .ok (0, self, t, errors) ∧
    int_decode_any self t d errors = .ok (0, self, t, errors) :=
  ⟨rfl, rfl, rfl, rfl, rfl, rfl, rfl⟩

/-! ## The codecs CHOICE and PRIMITIVE of the template parser -/

/-- C21 (counterexample): the context of the codec CHOICE holds `int_match_choice`; for the
template of the octets 02 01 01 the match of a PRIMITIVE definition of the type INTEGER
returns 1, and `int_match_choice` returns 0 for a definition that lists it as an
alternative, through the context as well. -/
theorem int_match_choice_returns_zero :
    (krypt_asn1_template_get_ctx_for_codec sKrypt_ID_CHOICE []).1 =
      some { match_cb := .int_match_choice, parse_cb := .int_parse_choice,
             decode_cb := some .int_decode_choice } ∧
    int_match_prim krypt_asn1_tag_class_for_id_or_none template_host template_integer_one
        { type := .fixnum 2, name := .symbol sID_version } [] =
      .ok (1, template_host, template_integer_one, []) ∧
    int_match_choice template_host template_integer_one { name := .symbol sID_version } [] =
      .ok (0, template_host, template_integer_one, []) ∧
    krypt_asn1_template_ctx_match krypt_asn1_tag_class_for_id_or_none
        definition_registry_sample 1 .int_match_choice template_host template_integer_one
        { name := .symbol sID_version }
        (some [.mk sKrypt_ID_PRIMITIVE { type := .fixnum 2, name := .symbol sID_version }
          none]) [] =
      .ok (0, template_host, template_integer_one, []) :=
  ⟨rfl, rfl, rfl, rfl⟩

/-- C21 (amended): the context of the codec CHOICE holds `int_match_choice`,
`int_parse_choice` and `int_decode_choice`; each of them returns 0, the error result, for
every host, template and definition, whatever the alternatives: no alternative is tried,
nothing is bound to the host, the template stays as it is and nothing is added to the
error chain. -/
theorem int_choice_codec_stubs (F : ID → Option TagClass)
    (G : VALUE → Option krypt_definition_hash) (fuel : Nat) (self : TVALUE)
    (t : krypt_asn1_template) (d : krypt_asn1_definition)
    (layout : Option (List krypt_definition_hash)) (errors : krypt_errors) :
    krypt_asn1_template_get_ctx_for_codec sKrypt_ID_CHOICE errors =
      (some krypt_template_choice_ctx, errors) ∧
    krypt_template_choice_ctx.match_cb = .int_match_choice ∧
    krypt_template_choice_ctx.parse_cb = .int_parse_choice ∧
    krypt_template_choice_ctx.decode_cb = some .int_decode_choice ∧
    int_match_choice self t d errors = .ok (0, self, t, errors) ∧
    int_parse_choice self t d errors = .ok (0, self, t, errors) ∧
    int_decode_choice self t d errors = .ok (0, self, t, errors) ∧
    krypt_asn1_template_ctx_match F G (fuel + 1) .int_match_choice self t d layout errors =
      .ok (0, self, t, errors) ∧
    krypt_asn1_template_ctx_parse F G (fuel + 1) .int_parse_choice self t d layout errors =
      .ok (0, self, t, errors) :=
  ⟨rfl, rfl, rfl, rfl, rfl, rfl, rfl, rfl, rfl⟩

/-- C28: let the header of a template be of definite length and the type of the definition
a number. If the tagging is EXPLICIT and the header is not constructed, `int_decode_prim`
returns 0 and adds the errors "Constructive bit not set for explicitly tagged value" and
"Error while decoding value"; if the tagging is nil or a symbol other than EXPLICIT (such
as IMPLICIT) and the header is constructed, it returns 0 and adds the errors "Constructive
bit set" and "Error while decoding value". In both cases the template is returned as it
was, so its value and its decoded flag are unchanged. -/
theorem int_decode_prim_constructed_mismatch (D : krypt_template_decoders) (tvalue : TVALUE)
    (object : krypt_asn1_object) (definition : Option krypt_definition_hash)
    (options : krypt_asn1_options) (value : TVALUE) (is_parsed is_decoded : Bool)
    (d : krypt_asn1_definition) (errors : krypt_errors) (type_no : Int)
    (hfin : object.header.is_infinite = false) (htype : d.type = .fixnum type_no) :
    (d.tagging = .symbol sKrypt_TC_EXPLICIT → object.header.is_constructed = false →
      int_decode_prim D tvalue (.mk (some object) definition options value is_parsed is_decoded)
          d errors =
        .ok (0, tvalue, .mk (some object) definition options value is_parsed is_decoded,
          errors ++ [.constructive_bit_not_set_explicit] ++
            [.error_while_decoding
              (if NIL_P d.name = true then none else some (SYM2ID d.name))])) ∧
    ((d.tagging = .qnil ∨ ∃ id, d.tagging = .symbol id ∧ id ≠ sKrypt_TC_EXPLICIT) →
      object.header.is_constructed = true →
      int_decode_prim D tvalue (.mk (some object) definition options value is_parsed is_decoded)
          d errors =
        .ok (0, tvalue, .mk (some object) definition options value is_parsed is_decoded,
          errors ++ [.constructive_bit_set] ++
            [.error_while_decoding
              (if NIL_P d.name = true then none else some (SYM2ID d.name))])) := by
  constructor
  · intro htag hc
    simp [int_decode_prim, krypt_asn1_template.object, hfin, krypt_definition_get_type, htype,
      NIL_P, NUM2INT, krypt_definition_get_tagging, htag, SYM2ID, hc, int_decode_prim_error,
      krypt_definition_get_name]
  · intro htag hc
    rcases htag with htag | ⟨id, htag, hid⟩
    · simp [int_decode_prim, krypt_asn1_template.object, hfin, krypt_definition_get_type,
        htype, NIL_P, NUM2INT, krypt_definition_get_tagging, htag, hc, int_decode_prim_error,
        krypt_definition_get_name]
    · simp [int_decode_prim, krypt_asn1_template.object, hfin, krypt_definition_get_type,
        htype, NIL_P, NUM2INT, krypt_definition_get_tagging, htag, SYM2ID, hid, hc,
        int_decode_prim_error, krypt_definition_get_name]

theorem int_decode_prim_constructed_mismatch_witness :
    int_decode_prim krypt_template_decoders_sample template_host template_integer_one
        { type := .fixnum 2, name := .symbol sID_version, tag := .fixnum 0,
          tagging := .symbol sKrypt_TC_EXPLICIT } [] =
      .ok (0, template_host, template_integer_one,
        [.constructive_bit_not_set_explicit, .error_while_decoding (some sID_version)]) ∧
    int_decode_prim krypt_template_decoders_sample template_host template_explicit_printable
        { type := .fixnum 19, name := .symbol sID_version, tag := .fixnum 0,
          tagging := .symbol sKrypt_TC_IMPLICIT } [] =
      .ok (0, template_host, template_explicit_printable,
        [.constructive_bit_set, .error_while_decoding (some sID_version)]) :=
  ⟨(int_decode_prim_constructed_mismatch krypt_template_decoders_sample template_host
      { header := header_integer_one, bytes := some [1], bytes_len := 1 } none {}
      (.plain .qnil) false false
      { type := .fixnum 2, name := .symbol sID_version, tag := .fixnum 0,
        tagging := .symbol sKrypt_TC_EXPLICIT } [] 2 rfl rfl).1 rfl rfl,
   (int_decode_prim_constructed_mismatch krypt_template_decoders_sample template_host
      _ none {} (.plain .qnil) false false
      { type := .fixnum 19, name := .symbol sID_version, tag := .fixnum 0,
        tagging := .symbol sKrypt_TC_IMPLICIT } [] 19 rfl rfl).2
      (Or.inr ⟨sKrypt_TC_IMPLICIT, rfl, by decide⟩) rfl⟩

/-- In the branch for the tagging EXPLICIT `int_decode_prim` reads the inner header only to
skip it: whatever its tag and class, the decoder of the type of the definition is applied
to the octets behind it. -/
theorem int_decode_prim_explicit_inner_header (D : krypt_template_decoders) (tvalue : TVALUE)
    (object : krypt_asn1_object) (definition : Option krypt_definition_hash)
    (options : krypt_asn1_options) (tv : TVALUE) (is_parsed is_decoded : Bool)
    (d : krypt_asn1_definition) (errors errors2 : krypt_errors) (type_no : Int)
    (header : krypt_asn1_header) (p : Bytes) (decoder : TVALUE → Bytes → Option VALUE)
    (value : VALUE)
    (hfin : object.header.is_infinite = false) (hc : object.header.is_constructed = true)
    (htype : d.type = .fixnum type_no) (htag : d.tagging = .symbol sKrypt_TC_EXPLICIT)
    (hunpack : int_unpack_explicit object errors = (some (header, p), errors2))
    (hdec : D type_no = some decoder) (hval : decoder tvalue p = some value) :
    int_decode_prim D tvalue (.mk (some object) definition options tv is_parsed is_decoded)
        d errors =
      .ok (1, tvalue, .mk (some object) definition options (.plain value) is_parsed true,
        errors2) := by
  simp [int_decode_prim, krypt_asn1_template.object, hfin, krypt_definition_get_type, htype,
    NIL_P, NUM2INT, krypt_definition_get_tagging, htag, SYM2ID, hc, hunpack, hdec, hval,
    krypt_asn1_template_set_decoded, krypt_asn1_template_set_value]

/-- C29 (counterexample): the definition is an OCTET STRING (type 4) under the EXPLICIT
tag 0; the template is the one of the octets A0 03 13 01 41, whose inner value is a
PrintableString (tag 19). The match returns 1, the inner header that is unpacked has the
tag 19, and `int_decode_prim` returns 1 with the value "A". -/
theorem int_decode_prim_explicit_other_type :
    int_next_template [160, 3, 19, 1, 65] [] = (1, some template_explicit_printable, [], []) ∧
    int_match_prim krypt_asn1_tag_class_for_id_or_none template_host
        template_explicit_printable
        { type := .fixnum TAGS_OCTET_STRING, name := .symbol sID_version, tag := .fixnum 0,
          tagging := .symbol sKrypt_TC_EXPLICIT } [] =
      .ok (1, template_host, template_explicit_printable, []) ∧
    (∃ header p,
      int_unpack_explicit
          { header :=
              { tag := 0, tag_class := .CONTEXT_SPECIFIC, is_constructed := true,
                is_infinite := false, length := 3, tag_bytes := some [160], tag_len := 1,
                length_bytes := some [3], length_len := 1, header_length := 2 },
            bytes := some [19, 1, 65], bytes_len := 3 } [] = (some (header, p), []) ∧
      header.tag = TAGS_PRINTABLE_STRING ∧ header.tag_class = .UNIVERSAL ∧ p = [65]) ∧
    int_decode_prim krypt_template_decoders_sample template_host template_explicit_printable
        { type := .fixnum TAGS_OCTET_STRING, name := .symbol sID_version, tag := .fixnum 0,
          tagging := .symbol sKrypt_TC_EXPLICIT } [] =
      .ok (1, template_host,
        krypt_asn1_template_set_decoded
          (krypt_asn1_template_set_value template_explicit_printable (.plain (.string [65])))
          true, []) :=
  ⟨rfl, rfl, ⟨_, _, rfl, rfl, rfl, rfl⟩, rfl⟩

/-! ## The flags of a template -/

/-- C30 (counterexample): `int_parse_template` on the template of the octets 30 00, fresh
from `int_next_template`, for a definition whose type is a class with a definition:
the result is 1 and the template has its decoded flag set and its parsed flag clear. -/
theorem int_parse_template_decoded_not_parsed :
    ∃ t self2 t2,
      int_next_template [48, 0] [] = (1, some t, [], []) ∧
      krypt_asn1_template_is_parsed t = false ∧ krypt_asn1_template_is_decoded t = false ∧
      int_parse_template definition_registry_sample template_host t
          { type := .template_class 1, name := .symbol sID_version } [] =
        .ok (1, self2, t2, []) ∧
      krypt_asn1_template_is_decoded t2 = true ∧ krypt_asn1_template_is_parsed t2 = false :=
  ⟨_, _, _, rfl, rfl, rfl, rfl, rfl, rfl⟩
/-- The flags of the template `int_parse_cons_finish` returns. -/
theorem int_parse_cons_finish_flags (t : krypt_asn1_template) (header : krypt_asn1_header)
    (min_size layout_size : Int) (v : int_parse_cons_vars) (r : Int) (self2 : TVALUE)
    (t2 : krypt_asn1_template) (errors2 : krypt_errors)
    (h : int_parse_cons_finish t header min_size layout_size v = .ok (r, self2, t2, errors2)) :
    self2 = v.self ∧
    ((r = 1 ∧ krypt_asn1_template_is_parsed t2 = true ∧
        krypt_asn1_template_is_decoded t2 = true ∧ min_size ≤ v.num_parsed) ∨
     (r = 0 ∧ t2 = t)) := by
  unfold int_parse_cons_finish at h
  split at h
  · simp only [Except.ok.injEq, Prod.mk.injEq] at h
    exact ⟨h.2.1.symm, Or.inr ⟨h.1.symm, h.2.2.1.symm⟩⟩
  · rename_i hmin
    split at h
    · simp only [Except.ok.injEq, Prod.mk.injEq] at h
      exact ⟨h.2.1.symm, Or.inr ⟨h.1.symm, h.2.2.1.symm⟩⟩
    · split at h
      rename_i consumed errors3 _
      split at h
      · simp only [Except.ok.injEq, Prod.mk.injEq] at h
        exact ⟨h.2.1.symm, Or.inr ⟨h.1.symm, h.2.2.1.symm⟩⟩
      · simp only [Except.ok.injEq, Prod.mk.injEq] at h
        refine ⟨h.2.1.symm, Or.inl ⟨h.1.symm, ?_, ?_, by omega⟩⟩
        · rw [← h.2.2.1]
          cases t with
          | mk object definition options value is_parsed is_decoded =>
            cases object <;> rfl
        · rw [← h.2.2.1]
          cases t with
          | mk object definition options value is_parsed is_decoded =>
            cases object <;> rfl

/-- The result of `int_parse_cons`: 1 with the parsed and the decoded flag of the template
set, or 0 with the template as it was. In the first case the layout loop was left
regularly with a count of at least `min_size`. -/
theorem int_parse_cons_result (M : krypt_asn1_template_match_cb → krypt_ctx_fn)
    (P : krypt_asn1_template_parse_cb → krypt_ctx_fn) (self : TVALUE)
    (t : krypt_asn1_template) (d : krypt_asn1_definition)
    (layout : Option (List krypt_definition_hash)) (errors : krypt_errors) (r : Int)
    (self2 : TVALUE) (t2 : krypt_asn1_template) (errors2 : krypt_errors)
    (h : int_parse_cons M P self t d layout errors = .ok (r, self2, t2, errors2)) :
    (r = 1 ∧ krypt_asn1_template_is_parsed t2 = true ∧
      krypt_asn1_template_is_decoded t2 = true) ∨
    (r = 0 ∧ t2 = t) := by
  unfold int_parse_cons at h
  simp only at h
  repeat' split at h
  all_goals first
    | (simp at h; done)
    | (simp only [Except.ok.injEq, Prod.mk.injEq] at h
       exact Or.inr ⟨h.1.symm, h.2.2.1.symm⟩)
    | (rcases (int_parse_cons_finish_flags _ _ _ _ _ _ _ _ _ h).2 with h1 | h1
       · exact Or.inl ⟨h1.1, h1.2.1, h1.2.2.1⟩
       · exact Or.inr h1)

/-- The result of `int_decode_prim`: 1 with the decoded flag set, or 0 with the template
as it was; the parsed flag is never written. -/
theorem int_decode_prim_result (D : krypt_template_decoders) (tvalue : TVALUE)
    (t : krypt_asn1_template) (d : krypt_asn1_definition) (errors : krypt_errors) (r : Int)
    (self2 : TVALUE) (t2 : krypt_asn1_template) (errors2 : krypt_errors)
    (h : int_decode_prim D tvalue t d errors = .ok (r, self2, t2, errors2)) :
    krypt_asn1_template_is_parsed t2 = krypt_asn1_template_is_parsed t ∧
    ((r = 1 ∧ krypt_asn1_template_is_decoded t2 = true) ∨ (r = 0 ∧ t2 = t)) := by
  cases t with
  | mk object definition options value is_parsed is_decoded =>
    unfold int_decode_prim int_decode_prim_error int_decode_prim_inf at h
    simp only [krypt_asn1_template.object] at h
    repeat' split at h
    all_goals first
      | (simp at h; done)
      | (simp only [Except.ok.injEq, Prod.mk.injEq] at h
         obtain ⟨h1, _, h3, _⟩ := h
         subst h1 h3
         first
           | exact ⟨rfl, Or.inr ⟨rfl, rfl⟩⟩
           | exact ⟨rfl, Or.inl ⟨rfl, rfl⟩⟩)

/-- The result of `int_decode_cons_of`: 1 with the decoded flag set, or 0 with the
template as it was; the parsed flag is never written. -/
theorem int_decode_cons_of_result (T : CodecTable) (G : VALUE → Option krypt_definition_hash)
    (self : TVALUE) (t : krypt_asn1_template) (d : krypt_asn1_definition)
    (errors : krypt_errors) (r : Int) (self2 : TVALUE) (t2 : krypt_asn1_template)
    (errors2 : krypt_errors)
    (h : int_decode_cons_of T G self t d errors = .ok (r, self2, t2, errors2)) :
    krypt_asn1_template_is_parsed t2 = krypt_asn1_template_is_parsed t ∧
    ((r = 1 ∧ krypt_asn1_template_is_decoded t2 = true) ∨ (r = 0 ∧ t2 = t)) := by
  cases t with
  | mk object definition options value is_parsed is_decoded =>
    cases object with
    | none => simp [int_decode_cons_of, krypt_asn1_template.object] at h
    | some object =>
      unfold int_decode_cons_of at h
      simp only [krypt_asn1_template.object] at h
      repeat' split at h
      all_goals first
        | (simp at h; done)
        | (simp only [Except.ok.injEq, Prod.mk.injEq] at h
           obtain ⟨h1, _, h3, _⟩ := h
           subst h1 h3
           first
             | exact ⟨rfl, Or.inr ⟨rfl, rfl⟩⟩
             | exact ⟨rfl, Or.inl ⟨rfl, rfl⟩⟩)

/-- The result of `int_parse_template`: 1 with the parsed flag clear and the decoded flag
set, or 0 with the template as it was. -/
theorem int_parse_template_result (G : VALUE → Option krypt_definition_hash) (self : TVALUE)
    (t : krypt_asn1_template) (d : krypt_asn1_definition) (errors : krypt_errors) (r : Int)
    (self2 : TVALUE) (t2 : krypt_asn1_template) (errors2 : krypt_errors)
    (h : int_parse_template G self t d errors = .ok (r, self2, t2, errors2)) :
    (r = 1 ∧ krypt_asn1_template_is_parsed t2 = false ∧
      krypt_asn1_template_is_decoded t2 = true) ∨
    (r = 0 ∧ t2 = t) := by
  cases t with
  | mk object definition options value is_parsed is_decoded =>
    unfold int_parse_template at h
    repeat' split at h
    all_goals first
      | (simp at h; done)
      | (simp only [Except.ok.injEq, Prod.mk.injEq] at h
         obtain ⟨h1, _, h3, _⟩ := h
         subst h1 h3
         first
           | exact Or.inr ⟨rfl, rfl⟩
           | exact Or.inl ⟨rfl, rfl, rfl⟩)

/-- C30 (amended): the five functions write the flags of their template as follows.
`int_parse_assign` sets the parsed flag and leaves the decoded flag. `int_parse_cons`
returns 1 with both flags set or 0 with the template as it was. `int_decode_prim` and
`int_decode_cons_of` never write the parsed flag; they return 1 with the decoded flag set
or 0 with the template as it was. `int_parse_template` returns 1 with the parsed flag
clear and the decoded flag set, or 0 with the template as it was. So a template whose
decoded flag is set has its parsed flag set after the first two, after the decoding
functions if it had it set before, and never after a successful `int_parse_template`. -/
theorem krypt_asn1_template_flags (M : krypt_asn1_template_match_cb → krypt_ctx_fn)
    (P : krypt_asn1_template_parse_cb → krypt_ctx_fn) (D : krypt_template_decoders)
    (T : CodecTable) (G : VALUE → Option krypt_definition_hash) (self : TVALUE)
    (t : krypt_asn1_template) (d : krypt_asn1_definition)
    (layout : Option (List krypt_definition_hash)) (errors : krypt_errors) (r : Int)
    (self2 : TVALUE) (t2 : krypt_asn1_template) (errors2 : krypt_errors) :
    (int_parse_assign self t d errors = .ok (r, self2, t2, errors2) →
      r = 1 ∧ krypt_asn1_template_is_parsed t2 = true ∧
      krypt_asn1_template_is_decoded t2 = krypt_asn1_template_is_decoded t) ∧
    (int_parse_cons M P self t d layout errors = .ok (r, self2, t2, errors2) →
      (r = 1 ∧ krypt_asn1_template_is_parsed t2 = true ∧
        krypt_asn1_template_is_decoded t2 = true) ∨
      (r = 0 ∧ t2 = t)) ∧
    (int_decode_prim D self t d errors = .ok (r, self2, t2, errors2) →
      krypt_asn1_template_is_parsed t2 = krypt_asn1_template_is_parsed t ∧
      ((r = 1 ∧ krypt_asn1_template_is_decoded t2 = true) ∨ (r = 0 ∧ t2 = t))) ∧
    (int_decode_cons_of T G self t d errors = .ok (r, self2, t2, errors2) →
      krypt_asn1_template_is_parsed t2 = krypt_asn1_template_is_parsed t ∧
      ((r = 1 ∧ krypt_asn1_template_is_decoded t2 = true) ∨ (r = 0 ∧ t2 = t))) ∧
    (int_parse_template G self t d errors = .ok (r, self2, t2, errors2) →
      (r = 1 ∧ krypt_asn1_template_is_parsed t2 = false ∧
        krypt_asn1_template_is_decoded t2 = true) ∨
      (r = 0 ∧ t2 = t)) := by
  refine ⟨?_, int_parse_cons_result M P self t d layout errors r self2 t2 errors2,
    int_decode_prim_result D self t d errors r self2 t2 errors2,
    int_decode_cons_of_result T G self t d errors r self2 t2 errors2,
    int_parse_template_result G self t d errors r self2 t2 errors2⟩
  intro h
  cases t with
  | mk object definition options value is_parsed is_decoded =>
    unfold int_parse_assign at h
    split at h
    · simp at h
    · simp only [Except.ok.injEq, Prod.mk.injEq] at h
      obtain ⟨h1, _, h3, _⟩ := h
      subst h1 h3
      exact ⟨rfl, rfl, rfl⟩

theorem krypt_asn1_template_flags_witness :
    int_parse_assign template_host template_integer_one { name := .symbol sID_version } [] =
      .ok (1,
        rb_ivar_set template_host sID_version
          (.template_value (krypt_asn1_template_set_parsed template_integer_one true)),
        krypt_asn1_template_set_parsed template_integer_one true, []) ∧
    krypt_asn1_template_is_parsed (krypt_asn1_template_set_parsed template_integer_one true) =
      true ∧
    krypt_asn1_template_is_decoded (krypt_asn1_template_set_parsed template_integer_one true) =
      krypt_asn1_template_is_decoded template_integer_one :=
  ⟨rfl,
   ((krypt_asn1_template_flags
      (krypt_asn1_template_ctx_match krypt_asn1_tag_class_for_id_or_none
        definition_registry_sample 1)
      (krypt_asn1_template_ctx_parse krypt_asn1_tag_class_for_id_or_none
        definition_registry_sample 1)
      krypt_template_decoders_sample krypt_asn1_codecs definition_registry_sample
      template_host template_integer_one { name := .symbol sID_version } none [] 1
      (rb_ivar_set template_host sID_version
        (.template_value (krypt_asn1_template_set_parsed template_integer_one true)))
      (krypt_asn1_template_set_parsed template_integer_one true) []).1 rfl).2⟩

/-! ## The effect of the matching functions on host and template -/

/-- The function `int_tag_and_class_mismatch` returns 0. -/
theorem int_tag_and_class_mismatch_zero (F : ID → Option TagClass)
    (header : krypt_asn1_header) (tag tagging : VALUE) (default_tag : Int)
    (name : Option krypt_error_name) (errors : krypt_errors) (r : Int)
    (errors2 : krypt_errors)
    (h : int_tag_and_class_mismatch F header tag tagging default_tag name errors =
      .ok (r, errors2)) : r = 0 := by
  unfold int_tag_and_class_mismatch at h
  split at h
  · simp at h
  · simp only [Except.ok.injEq, Prod.mk.injEq] at h
    exact h.1.symm

/-- The function `int_set_default_value` returns 1 and binds the default. -/
theorem int_set_default_value_ok (self : TVALUE) (d : krypt_asn1_definition) (r : Int)
    (self2 : TVALUE) (h : int_set_default_value self d = .ok (r, self2)) :
    r = 1 ∧
    self2 = rb_ivar_set self (SYM2ID d.name)
      (.template_value
        (krypt_asn1_template_new_value (krypt_definition_get_default_value d))) := by
  unfold int_set_default_value at h
  split at h
  · simp at h
  · simp only [Except.ok.injEq, Prod.mk.injEq] at h
    exact ⟨h.1.symm, h.2.symm⟩

/-- The effect of `int_check_optional_or_default`. -/
theorem int_check_optional_or_default_effect (F : ID → Option TagClass) (self : TVALUE)
    (t : krypt_asn1_template) (d : krypt_asn1_definition) (default_tag : Int)
    (errors : krypt_errors) (res : Int × TVALUE × krypt_asn1_template × krypt_errors)
    (h : int_check_optional_or_default F self t d default_tag errors = .ok res) :
    int_match_effect self t d res := by
  unfold int_check_optional_or_default at h
  split at h
  · simp at h
  · split at h
    · split at h
      · simp at h
      · split at h
        · simp at h
        · rename_i r errors2 hm
          simp only [Except.ok.injEq] at h
          subst h
          have hr := int_tag_and_class_mismatch_zero _ _ _ _ _ _ _ _ _ hm
          subst hr
          exact ⟨rfl, Or.inr ⟨Or.inr (Or.inl rfl), rfl⟩⟩
    · split at h
      · split at h
        · simp at h
        · rename_i r self2 hs
          obtain ⟨hr, hself⟩ := int_set_default_value_ok _ _ _ _ hs
          subst hr
          simp only [one_ne_zero, if_false, Except.ok.injEq] at h
          subst h
          exact ⟨rfl, Or.inl ⟨rfl, hself⟩⟩
      · simp only [Except.ok.injEq] at h
        subst h
        exact ⟨rfl, Or.inr ⟨Or.inr (Or.inr rfl), rfl⟩⟩

/-- The effect of `int_match_prim`. -/
theorem int_match_prim_effect (F : ID → Option TagClass) (self : TVALUE)
    (t : krypt_asn1_template) (d : krypt_asn1_definition) (errors : krypt_errors)
    (res : Int × TVALUE × krypt_asn1_template × krypt_errors)
    (h : int_match_prim F self t d errors = .ok res) : int_match_effect self t d res := by
  unfold int_match_prim at h
  split at h
  · simp at h
  · split at h
    · simp at h
    · split at h
      · simp at h
      · split at h
        · simp at h
        · simp only [Except.ok.injEq] at h
          subst h
          exact ⟨rfl, Or.inr ⟨Or.inl rfl, rfl⟩⟩
        · exact int_check_optional_or_default_effect F self t d _ errors res h

/-- The function `int_try_match_cons` returns 1, 0 or -1. -/
theorem int_try_match_cons_result (F : ID → Option TagClass) (t : krypt_asn1_template)
    (d : krypt_asn1_definition) (default_tag : Int) (errors : krypt_errors) (m : Int)
    (errors2 : krypt_errors)
    (h : int_try_match_cons F t d default_tag errors = .ok (m, errors2)) :
    m = 1 ∨ m = 0 ∨ m = -1 := by
  unfold int_try_match_cons at h
  split at h
  · simp at h
  · split at h
    · simp at h
    · simp only [Except.ok.injEq, Prod.mk.injEq] at h
      exact Or.inl h.1.symm
    · split at h
      · simp only [Except.ok.injEq, Prod.mk.injEq] at h
        exact Or.inr (Or.inl h.1.symm)
      · simp only [Except.ok.injEq, Prod.mk.injEq] at h
        exact Or.inr (Or.inr h.1.symm)

/-- The effect of `int_match_cons`: the host is left as it is and the result is never
-2. -/
theorem int_match_cons_effect (F : ID → Option TagClass) (self : TVALUE)
    (t : krypt_asn1_template) (d : krypt_asn1_definition) (default_tag : Int)
    (errors : krypt_errors) (res : Int × TVALUE × krypt_asn1_template × krypt_errors)
    (h : int_match_cons F self t d default_tag errors = .ok res) :
    res.2.2.1 = t ∧ res.2.1 = self ∧ (res.1 = 1 ∨ res.1 = 0 ∨ res.1 = -1) := by
  unfold int_match_cons at h
  split at h
  · simp at h
  · rename_i m errors2 hm
    have hm2 := int_try_match_cons_result F t d default_tag errors m errors2 hm
    split at h
    · simp only [Except.ok.injEq] at h
      subst h
      exact ⟨rfl, rfl, hm2⟩
    · split at h
      · split at h
        · simp at h
        · split at h
          · simp at h
          · rename_i r errors3 hmm
            simp only [Except.ok.injEq] at h
            subst h
            have hr := int_tag_and_class_mismatch_zero _ _ _ _ _ _ _ _ _ hmm
            exact ⟨rfl, rfl, Or.inr (Or.inl hr)⟩
      · simp only [Except.ok.injEq] at h
        subst h
        exact ⟨rfl, rfl, Or.inr (Or.inr rfl)⟩

/-- The effect of `int_match_cons_of`. -/
theorem int_match_cons_of_effect (F : ID → Option TagClass) (self : TVALUE)
    (t : krypt_asn1_template) (d : krypt_asn1_definition) (default_tag : Int)
    (errors : krypt_errors) (res : Int × TVALUE × krypt_asn1_template × krypt_errors)
    (h : int_match_cons_of F self t d default_tag errors = .ok res) :
    int_match_effect self t d res := by
  unfold int_match_cons_of at h
  split at h
  · simp at h
  · rename_i m errors2 hm
    have hm2 := int_try_match_cons_result F t d default_tag errors m errors2 hm
    split at h
    · rename_i h10
      simp only [Except.ok.injEq] at h
      subst h
      rcases h10 with h1 | h0
      · exact ⟨rfl, Or.inr ⟨Or.inl h1, rfl⟩⟩
      · exact ⟨rfl, Or.inr ⟨Or.inr (Or.inl h0), rfl⟩⟩
    · exact int_check_optional_or_default_effect F self t d default_tag errors2 res h

/-- The effect of `int_match_template` when the definitions registered for classes are
those of a SEQUENCE, a SET or a CHOICE. -/
theorem int_match_template_effect (F : ID → Option TagClass)
    (G : VALUE → Option krypt_definition_hash) (hG : definition_registry_is_structured G)
    (fuel : Nat) (self : TVALUE) (t : krypt_asn1_template) (d : krypt_asn1_definition)
    (errors : krypt_errors) (res : Int × TVALUE × krypt_asn1_template × krypt_errors)
    (h : int_match_template (krypt_asn1_template_ctx_match F G fuel) G self t d errors =
      .ok res) :
    int_match_effect self t d res := by
  unfold int_match_template at h
  split at h
  · simp at h
  · split at h
    · simp only [Except.ok.injEq] at h
      subst h
      exact ⟨rfl, Or.inr ⟨Or.inr (Or.inl rfl), rfl⟩⟩
    · rename_i type_def hGt
      have inner : ∀ ctx errors2,
          krypt_asn1_template_get_ctx_for_codec (krypt_hash_get_codec type_def) errors =
            (some ctx, errors2) →
          ∀ m self2 t2 errors3,
            krypt_asn1_template_ctx_match F G fuel ctx.match_cb self t
              (krypt_definition_init type_def (krypt_definition_get_options d))
              type_def.layout errors2 = .ok (m, self2, t2, errors3) →
            t2 = t ∧ self2 = self ∧ (m = 1 ∨ m = 0 ∨ m = -1) := by
        intro ctx errors2 hctx m self2 t2 errors3 hm
        cases fuel with
        | zero => simp [krypt_asn1_template_ctx_match] at hm
        | succ fuel =>
          rcases hG _ _ hGt with hc | hc | hc
          · rw [hc] at hctx
            have hctx2 : ctx = krypt_template_sequence_ctx := by
              have : (some krypt_template_sequence_ctx, errors) = (some ctx, errors2) := hctx
              simp only [Prod.mk.injEq, Option.some.injEq] at this
              exact this.1.symm
            subst hctx2
            exact int_match_cons_effect F self t _ _ _ _ hm
          · rw [hc] at hctx
            have hctx2 : ctx = krypt_template_set_ctx := by
              have : (some krypt_template_set_ctx, errors) = (some ctx, errors2) := hctx
              simp only [Prod.mk.injEq, Option.some.injEq] at this
              exact this.1.symm
            subst hctx2
            exact int_match_cons_effect F self t _ _ _ _ hm
          · rw [hc] at hctx
            have hctx2 : ctx = krypt_template_choice_ctx := by
              have : (some krypt_template_choice_ctx, errors) = (some ctx, errors2) := hctx
              simp only [Prod.mk.injEq, Option.some.injEq] at this
              exact this.1.symm
            subst hctx2
            have hm2 : (Except.ok (0, self, t, errors2) : krypt_ctx_result) =
                .ok (m, self2, t2, errors3) := hm
            simp only [Except.ok.injEq, Prod.mk.injEq] at hm2
            exact ⟨hm2.2.2.1.symm, hm2.2.1.symm, Or.inr (Or.inl hm2.1.symm)⟩
      split at h
      · simp at h
      · rename_i ctx errors2 hctx
        split at h
        · simp at h
        · rename_i m self2 t2 errors3 hm
          obtain ⟨ht, hs, hmr⟩ := inner ctx errors2 hctx m self2 t2 errors3 hm
          subst ht hs
          split at h
          · split at h
            · simp at h
            · rename_i r self3 hset
              obtain ⟨hr, hself⟩ := int_set_default_value_ok _ _ _ _ hset
              subst hr
              simp only [one_ne_zero, if_false, Except.ok.injEq] at h
              subst h
              exact ⟨rfl, Or.inl ⟨rfl, hself⟩⟩
          · simp only [Except.ok.injEq] at h
            subst h
            exact ⟨rfl, Or.inr ⟨hmr, rfl⟩⟩

/-- The effect of the call `ctx->match` when the definitions registered for classes are
those of a SEQUENCE, a SET or a CHOICE. -/
theorem krypt_asn1_template_ctx_match_effect (F : ID → Option TagClass)
    (G : VALUE → Option krypt_definition_hash) (hG : definition_registry_is_structured G)
    (fuel : Nat) (cb : krypt_asn1_template_match_cb) (self : TVALUE)
    (t : krypt_asn1_template) (d : krypt_asn1_definition)
    (layout : Option (List krypt_definition_hash)) (errors : krypt_errors)
    (res : Int × TVALUE × krypt_asn1_template × krypt_errors)
    (h : krypt_asn1_template_ctx_match F G fuel cb self t d layout errors = .ok res) :
    int_match_effect self t d res := by
  cases fuel with
  | zero => simp [krypt_asn1_template_ctx_match] at h
  | succ fuel =>
    cases cb with
    | int_match_prim => exact int_match_prim_effect F self t d errors res h
    | int_match_sequence =>
      obtain ⟨h1, h2, h3⟩ := int_match_cons_effect F self t d _ errors res h
      exact ⟨h1, Or.inr ⟨h3, h2⟩⟩
    | int_match_set =>
      obtain ⟨h1, h2, h3⟩ := int_match_cons_effect F self t d _ errors res h
      exact ⟨h1, Or.inr ⟨h3, h2⟩⟩
    | int_match_template => exact int_match_template_effect F G hG fuel self t d errors res h
    | int_match_seq_of => exact int_match_cons_of_effect F self t d _ errors res h
    | int_match_set_of => exact int_match_cons_of_effect F self t d _ errors res h
    | int_match_any =>
      have h2 : (Except.ok (0, self, t, errors) : krypt_ctx_result) = .ok res := h
      simp only [Except.ok.injEq] at h2
      subst h2
      exact ⟨rfl, Or.inr ⟨Or.inr (Or.inl rfl), rfl⟩⟩
    | int_match_choice =>
      have h2 : (Except.ok (0, self, t, errors) : krypt_ctx_result) = .ok res := h
      simp only [Except.ok.injEq] at h2
      subst h2
      exact ⟨rfl, Or.inr ⟨Or.inr (Or.inl rfl), rfl⟩⟩

/-! ## The layout loop of `int_parse_cons` -/

/-- Setting definition and options leaves the object of a template as it is. -/
theorem krypt_asn1_template_set_definition_object (t : krypt_asn1_template)
    (definition : Option krypt_definition_hash) (options : krypt_asn1_options) :
    (krypt_asn1_template_set_options (krypt_asn1_template_set_definition t definition)
      options).object = t.object := by
  cases t
  rfl

/-- C27: in the layout loop of `int_parse_cons`, let `ctx->match` return -1 or -2 for the
entry `cur_def`. Then the loop goes on with the entries behind it in a state `v2` that has
the same stream (no inner value was read), the same count of parsed entries and a current
template with the same object, so the same inner value is offered to the next entry. For
-1 the host is as before, so the field the entry names is as it was; for -2 the field the
entry names holds a template value with the default. The definitions registered for
classes are taken to be those of a SEQUENCE, a SET or a CHOICE. -/
theorem int_parse_cons_loop_not_present (F : ID → Option TagClass)
    (G : VALUE → Option krypt_definition_hash) (hG : definition_registry_is_structured G)
    (fuel : Nat) (P : krypt_asn1_template_parse_cb → krypt_ctx_fn)
    (cur_def : krypt_definition_hash) (more : List krypt_definition_hash)
    (v : int_parse_cons_vars) (ctx : krypt_asn1_template_ctx) (result : Int)
    (self2 : TVALUE) (t2 : krypt_asn1_template) (errors2 : krypt_errors)
    (hctx : krypt_asn1_template_get_ctx_for_codec (krypt_hash_get_codec cur_def) [] =
      (some ctx, []))
    (hmatch : krypt_asn1_template_ctx_match F G fuel ctx.match_cb v.self
        (krypt_asn1_template_set_options
          (krypt_asn1_template_set_definition v.cur_template (some cur_def))
          (krypt_hash_get_options cur_def))
        (krypt_definition_init cur_def (krypt_hash_get_options cur_def)) cur_def.layout [] =
      .ok (result, self2, t2, errors2))
    (hres : result = -1 ∨ result = -2) :
    ∃ v2,
      int_parse_cons_loop (krypt_asn1_template_ctx_match F G fuel) P (cur_def :: more) v =
        int_parse_cons_loop (krypt_asn1_template_ctx_match F G fuel) P more v2 ∧
      v2.inp = v.inp ∧ v2.num_parsed = v.num_parsed ∧
      v2.cur_template.object = v.cur_template.object ∧
      v2.match_results = v.match_results ++ [result] ∧
      v2.self = self2 ∧
      (result = -1 → self2 = v.self) ∧
      (result = -2 →
        self2 = rb_ivar_set v.self (SYM2ID cur_def.d.name)
          (.template_value
            (krypt_asn1_template_new_value (cur_def.d.default_value.getD .qnil)))) := by
  have heff := krypt_asn1_template_ctx_match_effect F G hG fuel _ _ _ _ _ _ _ hmatch
  obtain ⟨ht, hhost⟩ := heff
  simp only at ht hhost
  have h0 : result ≠ 0 := by rcases hres with h | h <;> omega
  have h1 : result ≠ 1 := by rcases hres with h | h <;> omega
  refine ⟨{ v with self := self2, cur_template := t2, errors := errors2,
                   match_results := v.match_results ++ [result] }, ?_, rfl, rfl, ?_, rfl, rfl,
    ?_, ?_⟩
  · rw [int_parse_cons_loop]
    simp only [hctx, hmatch, h0, h1, if_false]
  · simp only [ht]
    exact krypt_asn1_template_set_definition_object _ _ _
  · intro hm
    rcases hhost with ⟨h2, _⟩ | ⟨_, hs⟩
    · omega
    · exact hs
  · intro hm
    rcases hhost with ⟨_, hs⟩ | ⟨h2, _⟩
    · exact hs
    · omega

/-- The registry of the evaluations holds the definition of a SEQUENCE only. -/
theorem definition_registry_sample_structured :
    definition_registry_is_structured definition_registry_sample := by
  intro type h hG
  unfold definition_registry_sample at hG
  split at hG
  · simp only [Option.some.injEq] at hG
    subst hG
    exact Or.inl rfl
  · simp at hG

theorem int_parse_cons_loop_not_present_witness :
    ∃ v2,
      int_parse_cons_loop
          (krypt_asn1_template_ctx_match krypt_asn1_tag_class_for_id_or_none
            definition_registry_sample 1)
          (krypt_asn1_template_ctx_parse krypt_asn1_tag_class_for_id_or_none
            definition_registry_sample 1)
          [layout_entry_b_default, layout_entry_a] parse_cons_vars_integer_one =
        int_parse_cons_loop
          (krypt_asn1_template_ctx_match krypt_asn1_tag_class_for_id_or_none
            definition_registry_sample 1)
          (krypt_asn1_template_ctx_parse krypt_asn1_tag_class_for_id_or_none
            definition_registry_sample 1)
          [layout_entry_a] v2 ∧
      v2.inp = [] ∧ v2.num_parsed = 0 ∧
      v2.cur_template.object = template_integer_one.object ∧
      v2.match_results = [-2] ∧
      v2.self = rb_ivar_set template_host sID_b
        (.template_value (krypt_asn1_template_new_value .qfalse)) := by
  obtain ⟨v2, h1, h2, h3, h4, h5, h6, _, h8⟩ :=
    int_parse_cons_loop_not_present krypt_asn1_tag_class_for_id_or_none
      definition_registry_sample definition_registry_sample_structured 1
      (krypt_asn1_template_ctx_parse krypt_asn1_tag_class_for_id_or_none
        definition_registry_sample 1)
      layout_entry_b_default [layout_entry_a] parse_cons_vars_integer_one
      krypt_template_primitive_ctx (-2) _ _ _ rfl rfl (Or.inr rfl)
  exact ⟨v2, h1, h2, h3, h4, h5, h6.trans (h8 rfl)⟩
/-- The count of the layout loop: the results of `ctx->match` are recorded in layout
order, at most one for each entry, and when the loop is left regularly the count of parsed
entries has grown by the number of results that are 1. -/
theorem int_parse_cons_loop_count (M : krypt_asn1_template_match_cb → krypt_ctx_fn)
    (P : krypt_asn1_template_parse_cb → krypt_ctx_fn) :
    ∀ (layout : List krypt_definition_hash) (v : int_parse_cons_vars) (k : Int)
      (v2 : int_parse_cons_vars),
      int_parse_cons_loop M P layout v = .ok (k, v2) →
      ∃ rs : List Int, v2.match_results = v.match_results ++ rs ∧
        rs.length ≤ layout.length ∧
        (k ≠ 0 → v2.num_parsed = v.num_parsed + (rs.count 1 : Nat)) := by
  intro layout
  induction layout with
  | nil =>
    intro v k v2 h
    simp only [int_parse_cons_loop, Except.ok.injEq, Prod.mk.injEq] at h
    obtain ⟨_, hv⟩ := h
    subst hv
    exact ⟨[], by simp, by simp, by intro _; simp⟩
  | cons cur_def more ih =>
    intro v k v2 h
    rw [int_parse_cons_loop] at h
    split at h
    · simp at h
    · split at h
      · simp at h
      · rename_i result self2 t2 errors2 hmatch
        split at h
        · -- match returned 0
          simp only [Except.ok.injEq, Prod.mk.injEq] at h
          obtain ⟨hk, hv⟩ := h
          subst hv
          exact ⟨[result], rfl, by simp, fun hne => absurd hk.symm hne⟩
        · split at h
          · -- match returned 1
            rename_i hres1
            split at h
            · simp at h
            · rename_i r self3 t3 errors3 hparse
              split at h
              · simp only [Except.ok.injEq, Prod.mk.injEq] at h
                obtain ⟨hk, hv⟩ := h
                subst hv
                exact ⟨[result], rfl, by simp, fun hne => absurd hk.symm hne⟩
              · repeat' split at h
                all_goals first
                  | (simp at h; done)
                  | (simp only [Except.ok.injEq, Prod.mk.injEq] at h
                     obtain ⟨hk, hv⟩ := h
                     subst hv
                     exact ⟨[result], rfl, by simp, fun hne => absurd hk.symm hne⟩)
                  | (simp only [Except.ok.injEq, Prod.mk.injEq] at h
                     obtain ⟨_, hv⟩ := h
                     subst hv
                     refine ⟨[result], rfl, by simp, fun _ => ?_⟩
                     simp [hres1])
                  | (obtain ⟨rs, hrs, hlen, hcount⟩ := ih _ k v2 h
                     refine ⟨result :: rs, ?_, ?_, fun hne => ?_⟩
                     · rw [hrs]
                       simp
                     · simp only [List.length_cons] at hlen ⊢
                       omega
                     · rw [hcount hne]
                       simp [hres1]
                       omega)
          · -- match returned -1 or -2
            rename_i hres0 hres1
            obtain ⟨rs, hrs, hlen, hcount⟩ := ih _ k v2 h
            refine ⟨result :: rs, ?_, by simp; omega, fun hne => ?_⟩
            · rw [hrs]
              simp
            · rw [hcount hne]
              have : List.count 1 (result :: rs) = List.count 1 rs := by
                rw [List.count_cons]
                simp [hres1]
              rw [this]

/-- A successful `int_parse_cons` has run the layout loop from a state with the host, no
parsed entry and no result of `ctx->match`; the loop was left regularly and the part
behind it returned the result. -/
theorem int_parse_cons_success_loop (M : krypt_asn1_template_match_cb → krypt_ctx_fn)
    (P : krypt_asn1_template_parse_cb → krypt_ctx_fn) (self : TVALUE)
    (t : krypt_asn1_template) (d : krypt_asn1_definition)
    (layout : Option (List krypt_definition_hash)) (errors : krypt_errors)
    (self2 : TVALUE) (t2 : krypt_asn1_template) (errors2 : krypt_errors)
    (h : int_parse_cons M P self t d layout errors = .ok (1, self2, t2, errors2)) :
    ∃ (entries : List krypt_definition_hash) (min_size : Int) (header : krypt_asn1_header)
      (v0 v : int_parse_cons_vars) (k : Int),
      layout = some entries ∧ NUM2LONG (krypt_definition_get_min_size d) = .ok min_size ∧
      v0.self = self ∧ v0.num_parsed = 0 ∧ v0.match_results = [] ∧
      int_parse_cons_loop M P entries v0 = .ok (k, v) ∧ k ≠ 0 ∧
      int_parse_cons_finish t header min_size entries.length v =
        .ok (1, self2, t2, errors2) := by
  unfold int_parse_cons at h
  simp only at h
  repeat' split at h
  all_goals first
    | (simp at h)
    | (rename_i x loop_ok v hloop hk
       exact ⟨_, _, _, ⟨self, _, _, 0, _, []⟩, v, loop_ok, rfl, by assumption, rfl, rfl, rfl,
         hloop, hk, h⟩)

/-- C22: when `int_parse_cons` returns 1, the layout loop has run over the entries of the
layout from a count of 0 and has recorded at most one result of `ctx->match` for each
entry; the count of parsed entries it ends with is the number of results that are 1 (the
results -1, not present, and -2, default installed, are not counted; an entry whose match
returned 1 and whose parse returned 0 ends the loop with failure), and this number is at
least `min_size`. -/
theorem int_parse_cons_min_size (M : krypt_asn1_template_match_cb → krypt_ctx_fn)
    (P : krypt_asn1_template_parse_cb → krypt_ctx_fn) (self : TVALUE)
    (t : krypt_asn1_template) (d : krypt_asn1_definition)
    (layout : Option (List krypt_definition_hash)) (errors : krypt_errors)
    (self2 : TVALUE) (t2 : krypt_asn1_template) (errors2 : krypt_errors)
    (h : int_parse_cons M P self t d layout errors = .ok (1, self2, t2, errors2)) :
    ∃ (entries : List krypt_definition_hash) (min_size : Int) (v0 v : int_parse_cons_vars)
      (k : Int),
      layout = some entries ∧ NUM2LONG (krypt_definition_get_min_size d) = .ok min_size ∧
      v0.self = self ∧ v0.num_parsed = 0 ∧ v0.match_results = [] ∧
      int_parse_cons_loop M P entries v0 = .ok (k, v) ∧ k ≠ 0 ∧
      v.match_results.length ≤ entries.length ∧
      v.num_parsed = (v.match_results.count 1 : Nat) ∧
      min_size ≤ (v.match_results.count 1 : Nat) := by
  obtain ⟨entries, min_size, header, v0, v, k, hl, hm, hs, hn, hr, hloop, hk, hfin⟩ :=
    int_parse_cons_success_loop M P self t d layout errors self2 t2 errors2 h
  obtain ⟨rs, hrs, hlen, hcount⟩ := int_parse_cons_loop_count M P entries v0 k v hloop
  have hfl := int_parse_cons_finish_flags _ _ _ _ _ _ _ _ _ hfin
  rw [hr, List.nil_append] at hrs
  have hnum : v.num_parsed = (v.match_results.count 1 : Nat) := by
    rw [hcount hk, hn, hrs]
    simp
  refine ⟨entries, min_size, v0, v, k, hl, hm, hs, hn, hr, hloop, hk, ?_, hnum, ?_⟩
  · rw [hrs]
    exact hlen
  · rcases hfl.2 with h1 | h1
    · rw [← hnum]
      exact h1.2.2.2
    · omega

theorem int_parse_cons_min_size_witness :
    ∃ (self2 : TVALUE) (t2 : krypt_asn1_template) (v : int_parse_cons_vars),
      int_parse_cons
          (krypt_asn1_template_ctx_match krypt_asn1_tag_class_for_id_or_none
            definition_registry_sample 1)
          (krypt_asn1_template_ctx_parse krypt_asn1_tag_class_for_id_or_none
            definition_registry_sample 1)
          template_host template_sequence_of_integer { min_size := .fixnum 1 }
          (some [layout_entry_a_optional, layout_entry_b_optional]) [] =
        .ok (1, self2, t2, []) ∧
      v.match_results.length ≤ 2 ∧
      v.num_parsed = (v.match_results.count 1 : Nat) ∧
      (1 : Int) ≤ (v.match_results.count 1 : Nat) := by
  obtain ⟨entries, min_size, v0, v, k, hl, hm, _, _, _, _, _, h1, h2, h3⟩ :=
    int_parse_cons_min_size
      (krypt_asn1_template_ctx_match krypt_asn1_tag_class_for_id_or_none
        definition_registry_sample 1)
      (krypt_asn1_template_ctx_parse krypt_asn1_tag_class_for_id_or_none
        definition_registry_sample 1)
      template_host template_sequence_of_integer { min_size := .fixnum 1 }
      (some [layout_entry_a_optional, layout_entry_b_optional]) [] _ _ [] rfl
  simp only [Option.some.injEq] at hl
  subst hl
  have hm2 : min_size = 1 := by
    simp only [NUM2LONG, krypt_definition_get_min_size, Except.ok.injEq] at hm
    exact hm.symm
  subst hm2
  exact ⟨_, _, v, rfl, h1, h2, h3⟩

/-- The struct `krypt_definition_init` sets up from a hash and its own options holds the
entries of the hash. -/
theorem krypt_definition_init_self (h : krypt_definition_hash) :
    krypt_definition_init h (krypt_hash_get_options h) = h.d := by
  cases h
  rfl

/-- When every entry is optional, and every entry with a default has a name,
`int_rest_is_optional` returns 1 with the defaults installed. -/
theorem int_rest_is_optional_all_optional :
    ∀ (more : List krypt_definition_hash) (self : TVALUE) (errors : krypt_errors),
      (∀ e ∈ more, e.d.optional = true) →
      (∀ e ∈ more, e.d.default_value.isSome = true → NIL_P e.d.name = false) →
      int_rest_is_optional self more errors =
        .ok (1, int_install_defaults self more, errors) := by
  intro more
  induction more with
  | nil =>
    intro self errors _ _
    rfl
  | cons cur_def more ih =>
    intro self errors hopt hnames
    have ho := hopt cur_def (List.mem_cons_self _ _)
    have hn := hnames cur_def (List.mem_cons_self _ _)
    have hopt2 : ∀ e ∈ more, e.d.optional = true :=
      fun e he => hopt e (List.mem_cons_of_mem _ he)
    have hnames2 : ∀ e ∈ more, e.d.default_value.isSome = true → NIL_P e.d.name = false :=
      fun e he => hnames e (List.mem_cons_of_mem _ he)
    rw [int_rest_is_optional, int_install_defaults]
    simp only [krypt_definition_init_self, krypt_definition_is_optional, ho,
      krypt_definition_has_default]
    cases hd : cur_def.d.default_value with
    | none =>
      simp only [Option.isSome_none]
      exact ih self errors hopt2 hnames2
    | some dv =>
      rw [hd] at hn
      have hn2 := hn rfl
      simp only [Option.isSome_some, int_set_default_value, krypt_definition_get_name, hn2,
        krypt_definition_get_default_value, hd, Option.getD_some]
      exact ih _ errors hopt2 hnames2

/-- When some entry is mandatory, and every entry with a default has a name,
`int_rest_is_optional` returns 0. -/
theorem int_rest_is_optional_mandatory :
    ∀ (more : List krypt_definition_hash) (self : TVALUE) (errors : krypt_errors),
      (∃ e ∈ more, e.d.optional = false) →
      (∀ e ∈ more, e.d.default_value.isSome = true → NIL_P e.d.name = false) →
      ∃ self2 errors2, int_rest_is_optional self more errors = .ok (0, self2, errors2) := by
  intro more
  induction more with
  | nil =>
    intro self errors hex _
    obtain ⟨e, he, _⟩ := hex
    simp at he
  | cons cur_def more ih =>
    intro self errors hex hnames
    have hn := hnames cur_def (List.mem_cons_self _ _)
    have hnames2 : ∀ e ∈ more, e.d.default_value.isSome = true → NIL_P e.d.name = false :=
      fun e he => hnames e (List.mem_cons_of_mem _ he)
    rw [int_rest_is_optional]
    simp only [krypt_definition_init_self, krypt_definition_is_optional,
      krypt_definition_has_default]
    cases ho : cur_def.d.optional with
    | false => exact ⟨_, _, rfl⟩
    | true =>
      have hex2 : ∃ e ∈ more, e.d.optional = false := by
        obtain ⟨e, he, heo⟩ := hex
        rcases List.mem_cons.mp he with h1 | h1
        · subst h1
          rw [ho] at heo
          exact absurd heo (by decide)
        · exact ⟨e, h1, heo⟩
      cases hd : cur_def.d.default_value with
      | none =>
        simp only [Option.isSome_none]
        exact ih self errors hex2 hnames2
      | some dv =>
        rw [hd] at hn
        have hn2 := hn rfl
        simp only [Option.isSome_some, int_set_default_value, krypt_definition_get_name, hn2]
        exact ih _ errors hex2 hnames2

/-- C23: in the layout loop of `int_parse_cons`, let the entry `cur_def` be matched and
parsed while entries `more` are left behind it and the stream holds no further octet
(`int_next_template` returns 0), every entry of `more` that has a default having a name.
If every entry of `more` is optional, the loop is left regularly with the count raised by
one and the defaults of the entries of `more` installed on the host. If some entry of
`more` is mandatory, the loop is left with `goto error`, so `int_parse_cons` returns 0.
The loop is a tail recursion: what it returns from an entry on is what it returns. -/
theorem int_parse_cons_loop_stream_exhausted (M : krypt_asn1_template_match_cb → krypt_ctx_fn)
    (P : krypt_asn1_template_parse_cb → krypt_ctx_fn)
    (cur_def : krypt_definition_hash) (more : List krypt_definition_hash)
    (v : int_parse_cons_vars) (ctx : krypt_asn1_template_ctx) (errors0 : krypt_errors)
    (self2 : TVALUE) (t2 : krypt_asn1_template) (errors2 : krypt_errors) (r : Int)
    (self3 : TVALUE) (t3 : krypt_asn1_template) (errors3 : krypt_errors)
    (hctx : krypt_asn1_template_get_ctx_for_codec (krypt_hash_get_codec cur_def) [] =
      (some ctx, errors0))
    (hmatch : M ctx.match_cb v.self
        (krypt_asn1_template_set_options
          (krypt_asn1_template_set_definition v.cur_template (some cur_def))
          (krypt_hash_get_options cur_def))
        (krypt_definition_init cur_def (krypt_hash_get_options cur_def)) cur_def.layout
        errors0 =
      .ok (1, self2, t2, errors2))
    (hparse : P ctx.parse_cb self2 t2
        (krypt_definition_init cur_def (krypt_hash_get_options cur_def)) cur_def.layout
        errors2 =
      .ok (r, self3, t3, errors3))
    (hr : r ≠ 0) (hmore : more ≠ []) (hinp : v.inp = [])
    (hnames : ∀ e ∈ more, e.d.default_value.isSome = true → NIL_P e.d.name = false) :
    ((∀ e ∈ more, e.d.optional = true) →
      int_parse_cons_loop M P (cur_def :: more) v =
        .ok (1, { v with self := int_install_defaults self3 more, cur_template := t3,
                         errors := errors3, num_parsed := v.num_parsed + 1,
                         match_results := v.match_results ++ [1] })) ∧
    ((∃ e ∈ more, e.d.optional = false) →
      ∃ v2, int_parse_cons_loop M P (cur_def :: more) v = .ok (0, v2)) := by
  have hnext : int_next_template v.inp errors3 = (0, none, [], errors3) := by
    rw [hinp]
    rfl
  cases more with
  | nil => exact absurd rfl hmore
  | cons next_def rest =>
    constructor
    · intro hopt
      rw [int_parse_cons_loop]
      simp only [hctx, hmatch, hparse, hr, hnext,
        int_rest_is_optional_all_optional _ self3 errors3 hopt hnames]
      simp [hinp]
    · intro hex
      obtain ⟨self4, errors4, h4⟩ :=
        int_rest_is_optional_mandatory _ self3 errors3 hex hnames
      rw [int_parse_cons_loop]
      simp only [hctx, hmatch, hparse, hr, hnext, h4]
      simp

theorem int_parse_cons_loop_stream_exhausted_witness :
    ∃ (self3 : TVALUE) (t3 : krypt_asn1_template),
      int_parse_cons_loop
          (krypt_asn1_template_ctx_match krypt_asn1_tag_class_for_id_or_none
            definition_registry_sample 1)
          (krypt_asn1_template_ctx_parse krypt_asn1_tag_class_for_id_or_none
            definition_registry_sample 1)
          [layout_entry_a, layout_entry_b_default] parse_cons_vars_integer_one =
        .ok (1, { parse_cons_vars_integer_one with
                    self := int_install_defaults self3 [layout_entry_b_default],
                    cur_template := t3, errors := [],
                    num_parsed := parse_cons_vars_integer_one.num_parsed + 1,
                    match_results := parse_cons_vars_integer_one.match_results ++ [1] }) ∧
      rb_ivar_get (int_install_defaults self3 [layout_entry_b_default]) sID_b =
        .template_value (krypt_asn1_template_new_value .qfalse) :=
  ⟨_, _,
   (int_parse_cons_loop_stream_exhausted
      (krypt_asn1_template_ctx_match krypt_asn1_tag_class_for_id_or_none
        definition_registry_sample 1)
      (krypt_asn1_template_ctx_parse krypt_asn1_tag_class_for_id_or_none
        definition_registry_sample 1)
      layout_entry_a [layout_entry_b_default] parse_cons_vars_integer_one
      krypt_template_primitive_ctx [] _ _ _ 1 _ _ _ rfl rfl rfl (by decide) (by simp) rfl
      (by decide)).1 (by decide),
   rfl⟩

/-- C24 (evaluation): the octets 30 00 are a SEQUENCE without content. With the layout of
an optional INTEGER `a` and an optional BOOLEAN `b` with the default false, and `min_size`
0, `int_parse_cons` returns 0: the first call of `int_next_template` finds the stream at
its end and the function leaves with `goto error`. The host is as it was, `b` is not bound
to its default, and no error is added. -/
theorem int_parse_cons_empty_value :
    ∃ t : krypt_asn1_template,
      int_next_template [48, 0] [] = (1, some t, [], []) ∧
      int_parse_cons
          (krypt_asn1_template_ctx_match krypt_asn1_tag_class_for_id_or_none
            definition_registry_sample 1)
          (krypt_asn1_template_ctx_parse krypt_asn1_tag_class_for_id_or_none
            definition_registry_sample 1)
          template_host t { min_size := .fixnum 0 }
          (some [layout_entry_a_optional, layout_entry_b_default]) [] =
        .ok (0, template_host, t, []) ∧
      rb_ivar_get template_host sID_b = .plain .qnil :=
  ⟨_, rfl, rfl, rfl⟩

/-- C25 (evaluation): the octets 30 06 02 01 01 04 01 00 are a SEQUENCE of an INTEGER and
an OCTET STRING. With the layout of a mandatory INTEGER `a` and an optional BOOLEAN `b`,
and `min_size` 1, `int_parse_cons` returns 1: the OCTET STRING is read as the current
template, `b` does not match it and is skipped, the layout ends, and the stream is at its
end. The host binds `a` to the INTEGER only; the OCTET STRING is bound to nothing. -/
theorem int_parse_cons_drops_unmatched_value :
    ∃ (t2 x : krypt_asn1_template) (self2 : TVALUE),
      int_next_template [48, 6, 2, 1, 1, 4, 1, 0] [] =
        (1, some template_sequence_integer_octets, [], []) ∧
      int_parse_cons
          (krypt_asn1_template_ctx_match krypt_asn1_tag_class_for_id_or_none
            definition_registry_sample 1)
          (krypt_asn1_template_ctx_parse krypt_asn1_tag_class_for_id_or_none
            definition_registry_sample 1)
          template_host template_sequence_integer_octets { min_size := .fixnum 1 }
          (some [layout_entry_a, layout_entry_b_optional]) [] =
        .ok (1, self2, t2, []) ∧
      self2 = .template_instance 0 [(sID_a, .template_value x)] none ∧
      x.object.map (fun o => (o.header.tag, o.bytes)) = some (TAGS_INTEGER, some [1]) :=
  ⟨_, _, _, rfl, rfl, rfl, rfl⟩

/-- C26 (counterexample): the octets 30 06 02 01 01 04 01 00 with the layout of a mandatory
INTEGER `a` and a mandatory BOOLEAN `b`: `a` is matched and bound, `b` does not match the
OCTET STRING, and `int_parse_cons` returns 0 with `a` still bound on the host, which had
no field bound before. -/
theorem int_parse_cons_failure_keeps_binding :
    ∃ (x : krypt_asn1_template) (self2 : TVALUE) (errors2 : krypt_errors),
      int_next_template [48, 6, 2, 1, 1, 4, 1, 0] [] =
        (1, some template_sequence_integer_octets, [], []) ∧
      int_parse_cons
          (krypt_asn1_template_ctx_match krypt_asn1_tag_class_for_id_or_none
            definition_registry_sample 1)
          (krypt_asn1_template_ctx_parse krypt_asn1_tag_class_for_id_or_none
            definition_registry_sample 1)
          template_host template_sequence_integer_octets { min_size := .fixnum 2 }
          (some [layout_entry_a, layout_entry_b]) [] =
        .ok (0, self2, template_sequence_integer_octets, errors2) ∧
      rb_ivar_get template_host sID_a = .plain .qnil ∧
      rb_ivar_get self2 sID_a = .template_value x :=
  ⟨_, _, _, rfl, rfl, rfl, rfl⟩

/-! ## The host after a failed `int_parse_cons` -/

/-- The relation `rb_ivars_kept` is reflexive. -/
theorem rb_ivars_kept_refl (self : TVALUE) : rb_ivars_kept self self :=
  fun _ h => h

/-- The relation `rb_ivars_kept` is transitive. -/
theorem rb_ivars_kept_trans (a b c : TVALUE) (h1 : rb_ivars_kept a b)
    (h2 : rb_ivars_kept b c) : rb_ivars_kept a c :=
  fun id h => h2 id (h1 id h)

/-- Reading a name behind `rb_ivar_set` of another name. -/
theorem rb_ivar_get_set_other (self : TVALUE) (id id2 : ID) (obj : TVALUE) (h : id2 ≠ id) :
    rb_ivar_get (rb_ivar_set self id obj) id2 = rb_ivar_get self id2 := by
  cases self with
  | template_instance klass ivars t =>
    have hne : ¬ id = id2 := fun e => h e.symm
    have hfind : (ivars.filter (fun p => p.1 ≠ id)).find? (fun p => p.1 = id2) =
        ivars.find? (fun p => p.1 = id2) := by
      rw [List.find?_filter]
      congr 1
      funext a
      by_cases hq : a.1 = id2
      · subst hq
        simp [h]
      · simp [hq]
    simp only [rb_ivar_set, rb_ivar_get, List.find?_cons, hne, decide_False, hfind]
  | plain v => rfl
  | ary elems => rfl
  | template_value t => rfl

/-- Binding a name to a template value keeps every bound name bound. -/
theorem rb_ivars_kept_set (self : TVALUE) (id : ID) (x : krypt_asn1_template) :
    rb_ivars_kept self (rb_ivar_set self id (.template_value x)) := by
  intro id2 h
  by_cases hid : id2 = id
  · subst hid
    cases self with
    | template_instance klass ivars t =>
      simp [rb_ivar_set, rb_ivar_get, List.find?_cons]
    | plain v => exact h
    | ary elems => exact h
    | template_value t => exact h
  · rw [rb_ivar_get_set_other self id id2 _ hid]
    exact h

/-- A match function keeps every bound name of the host bound. -/
theorem int_match_effect_kept (self : TVALUE) (t : krypt_asn1_template)
    (d : krypt_asn1_definition) (res : Int × TVALUE × krypt_asn1_template × krypt_errors)
    (h : int_match_effect self t d res) : rb_ivars_kept self res.2.1 := by
  rcases h.2 with ⟨_, hs⟩ | ⟨_, hs⟩
  · rw [hs]
    exact rb_ivars_kept_set _ _ _
  · rw [hs]
    exact rb_ivars_kept_refl _

/-- The function `int_rest_is_optional` keeps every bound name of the host bound. -/
theorem int_rest_is_optional_kept :
    ∀ (more : List krypt_definition_hash) (self : TVALUE) (errors : krypt_errors) (r : Int)
      (self2 : TVALUE) (errors2 : krypt_errors),
      int_rest_is_optional self more errors = .ok (r, self2, errors2) →
      rb_ivars_kept self self2 := by
  intro more
  induction more with
  | nil =>
    intro self errors r self2 errors2 h
    simp only [int_rest_is_optional, Except.ok.injEq, Prod.mk.injEq] at h
    rw [← h.2.1]
    exact rb_ivars_kept_refl _
  | cons cur_def more ih =>
    intro self errors r self2 errors2 h
    rw [int_rest_is_optional] at h
    split at h
    · simp only [Except.ok.injEq, Prod.mk.injEq] at h
      rw [← h.2.1]
      exact rb_ivars_kept_refl _
    · split at h
      · split at h
        · simp at h
        · rename_i r1 self3 hset
          have hkept : rb_ivars_kept self self3 := by
            rw [(int_set_default_value_ok _ _ _ _ hset).2]
            exact rb_ivars_kept_set _ _ _
          split at h
          · simp only [Except.ok.injEq, Prod.mk.injEq] at h
            rw [← h.2.1]
            exact hkept
          · exact rb_ivars_kept_trans _ _ _ hkept (ih _ _ _ _ _ h)
      · exact ih _ _ _ _ _ h

/-- The layout loop keeps every bound name of the host bound when `ctx->match` and
`ctx->parse` do. -/
theorem int_parse_cons_loop_kept (M : krypt_asn1_template_match_cb → krypt_ctx_fn)
    (P : krypt_asn1_template_parse_cb → krypt_ctx_fn)
    (hM : ∀ cb self t d layout errors r self2 t2 errors2,
      M cb self t d layout errors = .ok (r, self2, t2, errors2) → rb_ivars_kept self self2)
    (hP : ∀ cb self t d layout errors r self2 t2 errors2,
      P cb self t d layout errors = .ok (r, self2, t2, errors2) → rb_ivars_kept self self2) :
    ∀ (layout : List krypt_definition_hash) (v : int_parse_cons_vars) (k : Int)
      (v2 : int_parse_cons_vars),
      int_parse_cons_loop M P layout v = .ok (k, v2) → rb_ivars_kept v.self v2.self := by
  intro layout
  induction layout with
  | nil =>
    intro v k v2 h
    simp only [int_parse_cons_loop, Except.ok.injEq, Prod.mk.injEq] at h
    rw [← h.2]
    exact rb_ivars_kept_refl _
  | cons cur_def more ih =>
    intro v k v2 h
    rw [int_parse_cons_loop] at h
    split at h
    · simp at h
    · split at h
      · simp at h
      · rename_i result self2 t2 errors2 hmatch
        have hk2 : rb_ivars_kept v.self self2 := hM _ _ _ _ _ _ _ _ _ _ hmatch
        split at h
        · simp only [Except.ok.injEq, Prod.mk.injEq] at h
          rw [← h.2]
          exact hk2
        · split at h
          · split at h
            · simp at h
            · rename_i r self3 t3 errors3 hparse
              have hk3 : rb_ivars_kept v.self self3 :=
                rb_ivars_kept_trans _ _ _ hk2 (hP _ _ _ _ _ _ _ _ _ _ hparse)
              repeat' split at h
              all_goals first
                | (simp at h; done)
                | (simp only [Except.ok.injEq, Prod.mk.injEq] at h
                   rw [← h.2]
                   exact hk3)
                | (simp only [Except.ok.injEq, Prod.mk.injEq] at h
                   rw [← h.2]
                   exact rb_ivars_kept_trans _ _ _ hk3
                     (int_rest_is_optional_kept _ _ _ _ _ _ (by assumption)))
                | exact rb_ivars_kept_trans _ _ _ hk3 (ih _ _ _ h)
          · exact rb_ivars_kept_trans _ _ _ hk2 (ih _ _ _ h)

/-- The function `int_parse_cons` keeps every bound name of the host bound when
`ctx->match` and `ctx->parse` do, whatever it returns. -/
theorem int_parse_cons_kept (M : krypt_asn1_template_match_cb → krypt_ctx_fn)
    (P : krypt_asn1_template_parse_cb → krypt_ctx_fn)
    (hM : ∀ cb self t d layout errors r self2 t2 errors2,
      M cb self t d layout errors = .ok (r, self2, t2, errors2) → rb_ivars_kept self self2)
    (hP : ∀ cb self t d layout errors r self2 t2 errors2,
      P cb self t d layout errors = .ok (r, self2, t2, errors2) → rb_ivars_kept self self2)
    (self : TVALUE) (t : krypt_asn1_template) (d : krypt_asn1_definition)
    (layout : Option (List krypt_definition_hash)) (errors : krypt_errors) (r : Int)
    (self2 : TVALUE) (t2 : krypt_asn1_template) (errors2 : krypt_errors)
    (h : int_parse_cons M P self t d layout errors = .ok (r, self2, t2, errors2)) :
    rb_ivars_kept self self2 := by
  unfold int_parse_cons at h
  simp only at h
  repeat' split at h
  all_goals first
    | (simp at h; done)
    | (simp only [Except.ok.injEq, Prod.mk.injEq] at h
       rw [← h.2.1]
       exact rb_ivars_kept_refl _)
    | (rename_i x loop_ok v hloop hk
       have hl := int_parse_cons_loop_kept M P hM hP _ _ _ _ hloop
       simp only [Except.ok.injEq, Prod.mk.injEq] at h
       rw [← h.2.1]
       exact hl)
    | (rename_i x loop_ok v hloop hk
       have hl := int_parse_cons_loop_kept M P hM hP _ _ _ _ hloop
       rw [(int_parse_cons_finish_flags _ _ _ _ _ _ _ _ _ h).1]
       exact hl)

/-- The call `ctx->parse` keeps every bound name of the host bound, the definitions
registered for classes being those of a SEQUENCE, a SET or a CHOICE. -/
theorem krypt_asn1_template_ctx_parse_kept (F : ID → Option TagClass)
    (G : VALUE → Option krypt_definition_hash) (hG : definition_registry_is_structured G) :
    ∀ (fuel : Nat) (cb : krypt_asn1_template_parse_cb) (self : TVALUE)
      (t : krypt_asn1_template) (d : krypt_asn1_definition)
      (layout : Option (List krypt_definition_hash)) (errors : krypt_errors) (r : Int)
      (self2 : TVALUE) (t2 : krypt_asn1_template) (errors2 : krypt_errors),
      krypt_asn1_template_ctx_parse F G fuel cb self t d layout errors =
        .ok (r, self2, t2, errors2) →
      rb_ivars_kept self self2 := by
  intro fuel
  induction fuel with
  | zero =>
    intro cb self t d layout errors r self2 t2 errors2 h
    simp [krypt_asn1_template_ctx_parse] at h
  | succ fuel ih =>
    intro cb self t d layout errors r self2 t2 errors2 h
    cases cb with
    | int_parse_assign =>
      simp only [krypt_asn1_template_ctx_parse, int_parse_assign] at h
      split at h
      · simp at h
      · simp only [Except.ok.injEq, Prod.mk.injEq] at h
        rw [← h.2.1]
        exact rb_ivars_kept_set _ _ _
    | int_parse_cons =>
      simp only [krypt_asn1_template_ctx_parse] at h
      refine int_parse_cons_kept _ _ ?_ ih self t d layout errors r self2 t2 errors2 h
      intro cb self t d layout errors r self2 t2 errors2 hm
      exact int_match_effect_kept _ _ _ _
        (krypt_asn1_template_ctx_match_effect F G hG _ _ _ _ _ _ _ _ hm)
    | int_parse_template =>
      simp only [krypt_asn1_template_ctx_parse, int_parse_template] at h
      repeat' split at h
      all_goals first
        | (simp at h; done)
        | (simp only [Except.ok.injEq, Prod.mk.injEq] at h
           rw [← h.2.1]
           exact rb_ivars_kept_refl _)
        | (simp only [Except.ok.injEq, Prod.mk.injEq] at h
           rw [← h.2.1]
           exact rb_ivars_kept_set _ _ _)
    | int_parse_any =>
      simp only [krypt_asn1_template_ctx_parse, int_parse_any, Except.ok.injEq,
        Prod.mk.injEq] at h
      rw [← h.2.1]
      exact rb_ivars_kept_refl _
    | int_parse_choice =>
      simp only [krypt_asn1_template_ctx_parse, int_parse_choice, Except.ok.injEq,
        Prod.mk.injEq] at h
      rw [← h.2.1]
      exact rb_ivars_kept_refl _

/-- The host `int_parse_cons` returns: the host it was called with, when it returns before
the layout loop, or the host as the layout loop left it. -/
theorem int_parse_cons_host (M : krypt_asn1_template_match_cb → krypt_ctx_fn)
    (P : krypt_asn1_template_parse_cb → krypt_ctx_fn) (self : TVALUE)
    (t : krypt_asn1_template) (d : krypt_asn1_definition)
    (layout : Option (List krypt_definition_hash)) (errors : krypt_errors) (r : Int)
    (self2 : TVALUE) (t2 : krypt_asn1_template) (errors2 : krypt_errors)
    (h : int_parse_cons M P self t d layout errors = .ok (r, self2, t2, errors2)) :
    self2 = self ∨
    ∃ (entries : List krypt_definition_hash) (v0 v : int_parse_cons_vars) (k : Int),
      layout = some entries ∧ v0.self = self ∧ v0.num_parsed = 0 ∧
      int_parse_cons_loop M P entries v0 = .ok (k, v) ∧ self2 = v.self := by
  unfold int_parse_cons at h
  simp only at h
  repeat' split at h
  all_goals first
    | (simp at h; done)
    | (simp only [Except.ok.injEq, Prod.mk.injEq] at h
       exact Or.inl h.2.1.symm)
    | (rename_i x loop_ok v hloop hk
       simp only [Except.ok.injEq, Prod.mk.injEq] at h
       exact Or.inr ⟨_, ⟨self, _, _, 0, _, []⟩, v, loop_ok, rfl, rfl, rfl, hloop, h.2.1.symm⟩)
    | (rename_i x loop_ok v hloop hk
       exact Or.inr ⟨_, ⟨self, _, _, 0, _, []⟩, v, loop_ok, rfl, rfl, rfl, hloop,
         (int_parse_cons_finish_flags _ _ _ _ _ _ _ _ _ h).1⟩)

/-- C26 (amended): when `int_parse_cons` returns 0, the template is as it was before the
call and every field of the host that was bound before the call is still bound. The host
is the one the function was called with when it returns before the layout loop; otherwise
it is the host as the layout loop left it, with the fields bound and the defaults
installed up to the failure: nothing is rolled back. The definitions registered for
classes are taken to be those of a SEQUENCE, a SET or a CHOICE. -/
theorem int_parse_cons_failure_host (F : ID → Option TagClass)
    (G : VALUE → Option krypt_definition_hash) (hG : definition_registry_is_structured G)
    (fuel : Nat) (self : TVALUE) (t : krypt_asn1_template) (d : krypt_asn1_definition)
    (layout : Option (List krypt_definition_hash)) (errors : krypt_errors)
    (self2 : TVALUE) (t2 : krypt_asn1_template) (errors2 : krypt_errors)
    (h : int_parse_cons (krypt_asn1_template_ctx_match F G (fuel + 1))
        (krypt_asn1_template_ctx_parse F G fuel) self t d layout errors =
      .ok (0, self2, t2, errors2)) :
    t2 = t ∧ rb_ivars_kept self self2 ∧
    (self2 = self ∨
      ∃ (entries : List krypt_definition_hash) (v0 v : int_parse_cons_vars) (k : Int),
        layout = some entries ∧ v0.self = self ∧ v0.num_parsed = 0 ∧
        int_parse_cons_loop (krypt_asn1_template_ctx_match F G (fuel + 1))
          (krypt_asn1_template_ctx_parse F G fuel) entries v0 = .ok (k, v) ∧
        self2 = v.self) := by
  refine ⟨?_, ?_, int_parse_cons_host _ _ self t d layout errors 0 self2 t2 errors2 h⟩
  · rcases int_parse_cons_result _ _ self t d layout errors 0 self2 t2 errors2 h with h1 | h1
    · omega
    · exact h1.2
  · refine int_parse_cons_kept _ _ ?_ (krypt_asn1_template_ctx_parse_kept F G hG fuel)
      self t d layout errors 0 self2 t2 errors2 h
    intro cb self t d layout errors r self2 t2 errors2 hm
    exact int_match_effect_kept _ _ _ _
      (krypt_asn1_template_ctx_match_effect F G hG _ _ _ _ _ _ _ _ hm)

theorem int_parse_cons_failure_host_witness :
    ∃ (x : krypt_asn1_template) (self2 : TVALUE) (errors2 : krypt_errors),
      int_parse_cons
          (krypt_asn1_template_ctx_match krypt_asn1_tag_class_for_id_or_none
            definition_registry_sample 2)
          (krypt_asn1_template_ctx_parse krypt_asn1_tag_class_for_id_or_none
            definition_registry_sample 1)
          template_host template_sequence_integer_octets { min_size := .fixnum 2 }
          (some [layout_entry_a, layout_entry_b]) [] =
        .ok (0, self2, template_sequence_integer_octets, errors2) ∧
      rb_ivars_kept template_host self2 ∧
      rb_ivar_get self2 sID_a = .template_value x :=
  ⟨_, _, _, rfl,
   (int_parse_cons_failure_host krypt_asn1_tag_class_for_id_or_none
      definition_registry_sample definition_registry_sample_structured 1 template_host
      template_sequence_integer_octets { min_size := .fixnum 2 }
      (some [layout_entry_a, layout_entry_b]) [] _ _ _ rfl).2.1,
   rfl⟩

/-! ## The tagging EXPLICIT in `int_decode_prim` -/

/-- C29 (amended): for a template of definite length and a definition of a type number
under the tagging EXPLICIT, `int_decode_prim` returns 1 exactly when the outer header is
constructed, an inner header can be read from the value octets, the table holds a decoder
for the type and that decoder accepts the octets behind the inner header. The tag and the
class of the inner header are compared with nothing: they do not occur in the
condition. -/
theorem int_decode_prim_explicit_success (D : krypt_template_decoders) (tvalue : TVALUE)
    (object : krypt_asn1_object) (definition : Option krypt_definition_hash)
    (options : krypt_asn1_options) (tv : TVALUE) (is_parsed is_decoded : Bool)
    (d : krypt_asn1_definition) (errors errors2 : krypt_errors) (type_no : Int)
    (self2 : TVALUE) (t2 : krypt_asn1_template)
    (hfin : object.header.is_infinite = false)
    (htype : d.type = .fixnum type_no) (htag : d.tagging = .symbol sKrypt_TC_EXPLICIT) :
    int_decode_prim D tvalue (.mk (some object) definition options tv is_parsed is_decoded)
        d errors =
      .ok (1, self2, t2, errors2) ↔
    (object.header.is_constructed = true ∧
      ∃ (header : krypt_asn1_header) (p : Bytes) (decoder : TVALUE → Bytes → Option VALUE)
        (value : VALUE),
        int_unpack_explicit object errors = (some (header, p), errors2) ∧
        D type_no = some decoder ∧ decoder tvalue p = some value ∧ self2 = tvalue ∧
        t2 = .mk (some object) definition options (.plain value) is_parsed true) := by
  constructor
  · intro h
    simp only [int_decode_prim, krypt_asn1_template.object, hfin, krypt_definition_get_type,
      htype, NIL_P, NUM2INT, krypt_definition_get_tagging, htag, SYM2ID,
      int_decode_prim_error] at h
    repeat' split at h
    all_goals first
      | (simp at h; done)
      | (rename_i _ _ hcons _ header p errors3 hunpack _ decoder hdec _ value hval
         simp only [Except.ok.injEq, Prod.mk.injEq] at h
         obtain ⟨_, h2, h3, h4⟩ := h
         subst h2 h3 h4
         exact ⟨by simpa using hcons, header, p, decoder, value, hunpack, hdec, hval, rfl,
           rfl⟩)
      | simp_all
  · rintro ⟨hc, header, p, decoder, value, hunpack, hdec, hval, hs, ht⟩
    rw [hs, ht]
    exact int_decode_prim_explicit_inner_header D tvalue object definition options tv
      is_parsed is_decoded d errors errors2 type_no header p decoder value hfin hc htype htag
      hunpack hdec hval

theorem int_decode_prim_explicit_success_witness :
    int_decode_prim krypt_template_decoders_sample template_host template_explicit_printable
        { type := .fixnum TAGS_OCTET_STRING, name := .symbol sID_version, tag := .fixnum 0,
          tagging := .symbol sKrypt_TC_EXPLICIT } [] =
      .ok (1, template_host,
        .mk (some
            { header :=
                { tag := 0, tag_class := .CONTEXT_SPECIFIC, is_constructed := true,
                  is_infinite := false, length := 3, tag_bytes := some [160], tag_len := 1,
                  length_bytes := some [3], length_len := 1, header_length := 2 },
              bytes := some [19, 1, 65], bytes_len := 3 })
          none {} (.plain (.string [65])) false true, []) :=
  (int_decode_prim_explicit_success krypt_template_decoders_sample template_host
      { header :=
          { tag := 0, tag_class := .CONTEXT_SPECIFIC, is_constructed := true,
            is_infinite := false, length := 3, tag_bytes := some [160], tag_len := 1,
            length_bytes := some [3], length_len := 1, header_length := 2 },
        bytes := some [19, 1, 65], bytes_len := 3 }
      none {} (.plain .qnil) false false
      { type := .fixnum TAGS_OCTET_STRING, name := .symbol sID_version, tag := .fixnum 0,
        tagging := .symbol sKrypt_TC_EXPLICIT } [] [] TAGS_OCTET_STRING template_host _
      rfl rfl rfl).mpr
    ⟨rfl, _, _, _, _, rfl, rfl, rfl, rfl, rfl⟩

/-! ## krypt_hex.c: the tables and the round trip -/

/-- The inverse table has 103 entries. -/
theorem krypt_hex_table_inv_length : krypt_hex_table_inv.length = 103 := rfl

set_option maxRecDepth 100000 in
/-- The inverse table holds the value of each hexadecimal digit and -1 elsewhere. -/
theorem krypt_hex_table_inv_values :
    ∀ c, c < 103 →
      krypt_hex_table_inv[c]? =
        some (match hex_digit_value c with
              | some v => (v : Int)
              | none => -1) := by
  decide

set_option maxRecDepth 100000 in
/-- The two characters `int_hex_encode` writes for an octet, read back through the inverse
table, give the two halves of the octet. -/
theorem krypt_hex_table_octet :
    ∀ b, b < 256 →
      b >>> 4 < 16 ∧ b &&& 15 < 16 ∧
      krypt_hex_table.getD (b >>> 4) 0 ≤ 102 ∧ krypt_hex_table.getD (b &&& 15) 0 ≤ 102 ∧
      krypt_hex_table_inv[krypt_hex_table.getD (b >>> 4) 0]? = some ((b >>> 4 : Nat) : Int) ∧
      krypt_hex_table_inv[krypt_hex_table.getD (b &&& 15) 0]? =
        some ((b &&& 15 : Nat) : Int) ∧
      ((b >>> 4) * 16 % 256 ||| (b &&& 15)) % 256 = b := by
  decide

/-- A read of the inverse table at an index up to `KRYPT_HEX_INV_MAX` is inside the
table. -/
theorem krypt_hex_table_inv_read (c : Nat) (h : ¬ c > KRYPT_HEX_INV_MAX) :
    ∃ b, krypt_hex_table_inv[c]? = some b := by
  have hc : c < 103 := by
    unfold KRYPT_HEX_INV_MAX at h
    omega
  exact ⟨_, krypt_hex_table_inv_values c hc⟩

/-- The function `int_hex_decode` never reads outside the inverse table: it returns,
whatever the input and whichever signedness `char` has. -/
theorem int_hex_decode_returns (char_is_signed : Bool) :
    ∀ (n : Nat) (bytes : Bytes) (errors : krypt_errors), bytes.length ≤ n →
      ∃ res, int_hex_decode char_is_signed bytes errors = .ok res := by
  intro n
  induction n using Nat.strong_induction_on with
  | _ n ih =>
    intro bytes errors hlen
    match bytes, hlen with
    | [], _ => exact ⟨_, rfl⟩
    | [_], _ => exact ⟨_, rfl⟩
    | c :: d :: rest, hlen =>
      rw [int_hex_decode]
      split
      · exact ⟨_, rfl⟩
      · rename_i hguard
        have hc : ¬ c % 256 > KRYPT_HEX_INV_MAX := fun h => hguard (Or.inl h)
        have hd : ¬ d % 256 > KRYPT_HEX_INV_MAX := fun h => hguard (Or.inr h)
        obtain ⟨b, hb⟩ := krypt_hex_table_inv_read _ hc
        obtain ⟨b2, hb2⟩ := krypt_hex_table_inv_read _ hd
        simp only [hb, hb2]
        split
        · exact ⟨_, rfl⟩
        · split
          · exact ⟨_, rfl⟩
          · have hrest : rest.length ≤ rest.length := le_refl _
            have hlt : rest.length < n := by
              simp only [List.length_cons] at hlen
              omega
            obtain ⟨res, hres⟩ := ih rest.length hlt rest errors hrest
            rw [hres]
            exact ⟨_, rfl⟩

/-- C40: in `int_hex_decode` every read of `krypt_hex_table_inv` is inside the table, for
every input and whichever signedness `char` has: a read outside the table would end the
call with `Fault.fault_out_of_bounds`, and the call always returns a result; the guard
lets through the indices up to `KRYPT_HEX_INV_MAX` = 102 only. The table has 103 entries
(indices 0..102); it holds the digit value 0..15 at the character codes of 0-9, A-F and
a-f and -1 at every other index. -/
theorem int_hex_decode_table_reads :
    (∀ (char_is_signed : Bool) (bytes : Bytes) (errors : krypt_errors),
      ∃ res, int_hex_decode char_is_signed bytes errors = .ok res) ∧
    krypt_hex_table_inv.length = KRYPT_HEX_INV_MAX + 1 ∧
    (∀ c, c ≤ KRYPT_HEX_INV_MAX →
      krypt_hex_table_inv[c]? =
        some (match hex_digit_value c with
              | some v => (v : Int)
              | none => -1)) ∧
    (∀ c v, hex_digit_value c = some v → c ≤ KRYPT_HEX_INV_MAX ∧ v ≤ 15) := by
  refine ⟨fun s bytes errors => int_hex_decode_returns s bytes.length bytes errors (le_refl _),
    rfl, fun c hc => krypt_hex_table_inv_values c ?_, fun c v h => ?_⟩
  · unfold KRYPT_HEX_INV_MAX at hc
    omega
  · unfold hex_digit_value at h
    unfold KRYPT_HEX_INV_MAX
    repeat' split at h
    all_goals first
      | (simp at h; done)
      | (simp only [Option.some.injEq] at h
         omega)

/-- The value `char_of_int` gives for a value a `char` of either signedness holds. -/
theorem char_of_int_small (char_is_signed : Bool) (n : Nat) (h : n < 16) :
    char_of_int char_is_signed (n : Int) = (n : Int) := by
  unfold char_of_int
  split <;> omega

/-- The function `int_hex_encode` returns 1 and writes two characters for each octet, and
`int_hex_decode` reads the octets back from them. -/
theorem int_hex_encode_decode (char_is_signed : Bool) (errors : krypt_errors) :
    ∀ b : Bytes, (∀ x ∈ b, x < 256) →
      ∃ enc, int_hex_encode b = .ok (1, enc) ∧ enc.length = 2 * b.length ∧
        int_hex_decode char_is_signed enc errors = .ok (1, b, errors) := by
  intro b
  induction b with
  | nil =>
    intro _
    exact ⟨[], rfl, rfl, rfl⟩
  | cons x rest ih =>
    intro hoct
    have hx : x < 256 := hoct x (List.mem_cons_self _ _)
    obtain ⟨enc, henc, hlen, hdec⟩ := ih (fun y hy => hoct y (List.mem_cons_of_mem _ hy))
    obtain ⟨h1, h2, h3, h4, h5, h6, h7⟩ := krypt_hex_table_octet x hx
    have hmod : x % 256 = x := Nat.mod_eq_of_lt hx
    have hl1 : (x >>> 4) < krypt_hex_table.length := by
      have : krypt_hex_table.length = 17 := rfl
      omega
    have hl2 : (x &&& 15) < krypt_hex_table.length := by
      have : krypt_hex_table.length = 17 := rfl
      omega
    have hg1 : krypt_hex_table[x >>> 4]? = some (krypt_hex_table.getD (x >>> 4) 0) := by
      rw [List.getD_eq_getElem?_getD, List.getElem?_eq_getElem hl1]
      rfl
    have hg2 : krypt_hex_table[x &&& 15]? = some (krypt_hex_table.getD (x &&& 15) 0) := by
      rw [List.getD_eq_getElem?_getD, List.getElem?_eq_getElem hl2]
      rfl
    refine ⟨krypt_hex_table.getD (x >>> 4) 0 :: krypt_hex_table.getD (x &&& 15) 0 :: enc,
      ?_, ?_, ?_⟩
    · rw [int_hex_encode]
      simp only [hmod, hg1, hg2, henc]
    · simp only [List.length_cons, hlen]
      omega
    · rw [int_hex_decode]
      have hm1 : krypt_hex_table.getD (x >>> 4) 0 % 256 = krypt_hex_table.getD (x >>> 4) 0 :=
        Nat.mod_eq_of_lt (by omega)
      have hm2 : krypt_hex_table.getD (x &&& 15) 0 % 256 =
          krypt_hex_table.getD (x &&& 15) 0 :=
        Nat.mod_eq_of_lt (by omega)
      have hguard : ¬ (krypt_hex_table.getD (x >>> 4) 0 > KRYPT_HEX_INV_MAX ∨
          krypt_hex_table.getD (x &&& 15) 0 > KRYPT_HEX_INV_MAX) := by
        unfold KRYPT_HEX_INV_MAX
        omega
      have hb1 : ¬ char_of_int char_is_signed ((x >>> 4 : Nat) : Int) < 0 := by
        rw [char_of_int_small _ _ h1]
        omega
      have hb2 : ¬ char_of_int char_is_signed ((x &&& 15 : Nat) : Int) < 0 := by
        rw [char_of_int_small _ _ h2]
        omega
      simp only [hm1, hm2, hguard, if_false, h5, h6, hb1, hb2, hdec]
      rw [char_of_int_small _ _ h1, char_of_int_small _ _ h2]
      have hbyte : ((((x >>> 4 : Nat) : Int) * 16 % 256).toNat |||
          (((x &&& 15 : Nat) : Int)).toNat) % 256 = x := by
        have e1 : (((x >>> 4 : Nat) : Int) * 16 % 256).toNat = (x >>> 4) * 16 % 256 := by
          omega
        have e2 : (((x &&& 15 : Nat) : Int)).toNat = x &&& 15 := by
          omega
        rw [e1, e2]
        exact h7
      rw [hbyte]

/-- C31: for every buffer `b` of octets that is not NULL and holds at most `SSIZE_MAX / 2`
octets, `krypt_hex_encode` returns `2 * |b|` and assigns a buffer of exactly `2 * |b|`
characters, adding no error; `krypt_hex_decode` on that buffer returns `|b|` and assigns
`b`, adding no error. This holds whichever signedness `char` has. -/
theorem krypt_hex_encode_decode_roundtrip (char_is_signed : Bool) (b : Bytes)
    (errors errors2 : krypt_errors) (hoct : ∀ x ∈ b, x < 256)
    (hlen : b.length ≤ SSIZE_MAX / 2) :
    ∃ enc : Bytes,
      krypt_hex_encode (some b) b.length errors =
        .ok (((2 * b.length : Nat) : Int), some enc, errors) ∧
      enc.length = 2 * b.length ∧
      krypt_hex_decode char_is_signed (some enc) enc.length errors2 =
        .ok (((b.length : Nat) : Int), some b, errors2) := by
  obtain ⟨enc, henc, hl, hdec⟩ := int_hex_encode_decode char_is_signed errors2 b hoct
  refine ⟨enc, ?_, hl, ?_⟩
  · have h1 : ¬ b.length > SSIZE_MAX / 2 := by omega
    simp only [krypt_hex_encode, int_hex_encode_tests, h1, if_false, Option.isNone_some,
      Option.getD_some, List.take_length, henc]
    simp
  · have hs : SSIZE_MAX = 9223372036854775807 := rfl
    have h1 : ¬ enc.length / 2 > SSIZE_MAX := by
      rw [hl]
      omega
    have h2 : ¬ enc.length % 2 ≠ 0 := by
      rw [hl]
      omega
    have h3 : enc.length / 2 = b.length := by
      rw [hl]
      omega
    simp only [krypt_hex_decode, int_hex_decode_tests, h1, h2, if_false, Option.isNone_some,
      Option.getD_some, List.take_length, hdec]
    simp [h3]

theorem krypt_hex_encode_decode_roundtrip_witness :
    krypt_hex_encode (some [0, 171, 255]) 3 [] = .ok (6, some [48, 48, 97, 98, 102, 102], []) ∧
    krypt_hex_decode true (some [48, 48, 97, 98, 102, 102]) 6 [] =
      .ok (3, some [0, 171, 255], []) := by
  obtain ⟨enc, h1, _, h3⟩ :=
    krypt_hex_encode_decode_roundtrip true [0, 171, 255] [] [] (by decide) (by decide)
  have he : enc = [48, 48, 97, 98, 102, 102] := by
    have h4 : krypt_hex_encode (some [0, 171, 255]) 3 [] =
        .ok (6, some [48, 48, 97, 98, 102, 102], []) := rfl
    have h5 := h1.symm.trans h4
    simp only [Except.ok.injEq, Prod.mk.injEq, Option.some.injEq] at h5
    exact h5.2.1
  subst he
  exact ⟨h1, h3⟩

/-! ## krypt_hex.c: decoding -/

/-- The octet `int_hex_decode` stores for two digit values. -/
theorem int_hex_decode_octet :
    ∀ v, v < 16 → ∀ w, w < 16 → (v * 16 % 256 ||| w) % 256 = 16 * v + w := by
  decide

/-- The value of a hexadecimal digit is below 16 and the digit is a character up to
`KRYPT_HEX_INV_MAX`. -/
theorem hex_digit_value_bound (c v : Nat) (h : hex_digit_value c = some v) :
    c ≤ 102 ∧ v < 16 := by
  unfold hex_digit_value at h
  repeat' split at h
  all_goals first
    | (simp at h; done)
    | (simp only [Option.some.injEq] at h
       omega)

/-- With a signed `char`, what `int_hex_decode` reads from the inverse table for a
character up to `KRYPT_HEX_INV_MAX`: the digit value, or a negative value when the
character is no digit. -/
theorem krypt_hex_table_inv_signed (c : Nat) (hc : ¬ c > KRYPT_HEX_INV_MAX) :
    ∃ b, krypt_hex_table_inv[c]? = some b ∧
      (match hex_digit_value c with
       | some v => char_of_int true b = (v : Int)
       | none => char_of_int true b < 0) := by
  have hc2 : c < 103 := by
    unfold KRYPT_HEX_INV_MAX at hc
    omega
  refine ⟨_, krypt_hex_table_inv_values c hc2, ?_⟩
  cases hv : hex_digit_value c with
  | none =>
    simp only [char_of_int]
    decide
  | some v =>
    have hb := (hex_digit_value_bound c v hv).2
    simp only [char_of_int, if_true]
    omega

/-- With a signed `char`, `int_hex_decode` returns 1 with the octets the pairs of digits
stand for and adds no error, or returns 0 when a character of a pair is no digit. -/
theorem int_hex_decode_pairs :
    ∀ (n : Nat) (bytes : Bytes) (errors : krypt_errors), bytes.length ≤ n →
      (∀ x ∈ bytes, x < 256) →
      (∀ o, hex_pairs_value bytes = some o →
        int_hex_decode true bytes errors = .ok (1, o, errors)) ∧
      (hex_pairs_value bytes = none →
        ∃ out errors2, int_hex_decode true bytes errors = .ok (0, out, errors2)) := by
  intro n
  induction n using Nat.strong_induction_on with
  | _ n ih =>
    intro bytes errors hlen hoct
    match bytes, hlen, hoct with
    | [], _, _ =>
      refine ⟨fun o h => ?_, fun h => ?_⟩
      · simp only [hex_pairs_value, Option.some.injEq] at h
        subst h
        rfl
      · simp [hex_pairs_value] at h
    | [_], _, _ =>
      refine ⟨fun o h => ?_, fun h => ?_⟩
      · simp only [hex_pairs_value, Option.some.injEq] at h
        subst h
        rfl
      · simp [hex_pairs_value] at h
    | c :: d :: rest, hlen, hoct =>
      have hc : c < 256 := hoct c (List.mem_cons_self _ _)
      have hd : d < 256 := hoct d (List.mem_cons_of_mem _ (List.mem_cons_self _ _))
      have hcm : c % 256 = c := Nat.mod_eq_of_lt hc
      have hdm : d % 256 = d := Nat.mod_eq_of_lt hd
      have hlt : rest.length < n := by
        simp only [List.length_cons] at hlen
        omega
      have hrest := ih rest.length hlt rest errors (le_refl _)
        (fun x hx => hoct x (List.mem_cons_of_mem _ (List.mem_cons_of_mem _ hx)))
      rw [int_hex_decode, hex_pairs_value]
      simp only [hcm, hdm]
      by_cases hguard : c > KRYPT_HEX_INV_MAX ∨ d > KRYPT_HEX_INV_MAX
      · simp only [hguard, if_true]
        have hnone : hex_digit_value c = none ∨ hex_digit_value d = none := by
          unfold KRYPT_HEX_INV_MAX at hguard
          rcases hguard with h | h
          · left
            cases hv : hex_digit_value c with
            | none => rfl
            | some v =>
              have := (hex_digit_value_bound c v hv).1
              omega
          · right
            cases hv : hex_digit_value d with
            | none => rfl
            | some v =>
              have := (hex_digit_value_bound d v hv).1
              omega
        refine ⟨fun o h => ?_, fun _ => ⟨_, _, rfl⟩⟩
        rcases hnone with h1 | h1
        · simp [h1] at h
        · cases hv : hex_digit_value c <;> simp [hv, h1] at h
      · simp only [hguard, if_false]
        have hc2 : ¬ c > KRYPT_HEX_INV_MAX := fun h => hguard (Or.inl h)
        have hd2 : ¬ d > KRYPT_HEX_INV_MAX := fun h => hguard (Or.inr h)
        obtain ⟨b, hb, hbv⟩ := krypt_hex_table_inv_signed c hc2
        obtain ⟨b2, hb2, hbv2⟩ := krypt_hex_table_inv_signed d hd2
        simp only [hb, hb2]
        cases hv : hex_digit_value c with
        | none =>
          rw [hv] at hbv
          simp only at hbv
          simp only [hbv, if_true]
          exact ⟨fun o h => by simp at h, fun _ => ⟨_, _, rfl⟩⟩
        | some v =>
          rw [hv] at hbv
          simp only at hbv
          have hv16 := (hex_digit_value_bound c v hv).2
          have hnb : ¬ char_of_int true b < 0 := by
            rw [hbv]
            omega
          simp only [hnb, if_false]
          cases hw : hex_digit_value d with
          | none =>
            rw [hw] at hbv2
            simp only at hbv2
            simp only [hbv2, if_true]
            exact ⟨fun o h => by simp at h, fun _ => ⟨_, _, rfl⟩⟩
          | some w =>
            rw [hw] at hbv2
            simp only at hbv2
            have hw16 := (hex_digit_value_bound d w hw).2
            have hnb2 : ¬ char_of_int true b2 < 0 := by
              rw [hbv2]
              omega
            simp only [hnb2, if_false, hbv, hbv2]
            have hbyte : (((v : Int) * 16 % 256).toNat ||| ((w : Int)).toNat) % 256 =
                16 * v + w := by
              have e1 : ((v : Int) * 16 % 256).toNat = v * 16 % 256 := by omega
              have e2 : ((w : Int)).toNat = w := by omega
              rw [e1, e2]
              exact int_hex_decode_octet v hv16 w hw16
            rw [hbyte]
            cases hp : hex_pairs_value rest with
            | none =>
              obtain ⟨out, errors2, hout⟩ := hrest.2 hp
              rw [hout]
              exact ⟨fun o h => by simp at h, fun _ => ⟨_, _, rfl⟩⟩
            | some o2 =>
              rw [hrest.1 o2 hp]
              refine ⟨fun o h => ?_, fun h => by simp at h⟩
              simp only [Option.some.injEq] at h
              subst h
              rfl

/-- For a string of even length, the pairs stand for nothing exactly when some character
is no hexadecimal digit. -/
theorem hex_pairs_value_none :
    ∀ (n : Nat) (s : Bytes), s.length ≤ n → s.length % 2 = 0 →
      (hex_pairs_value s = none ↔ ∃ c ∈ s, hex_digit_value c = none) := by
  intro n
  induction n using Nat.strong_induction_on with
  | _ n ih =>
    intro s hlen heven
    match s, hlen, heven with
    | [], _, _ => simp [hex_pairs_value]
    | [_], _, heven => simp at heven
    | c :: d :: rest, hlen, heven =>
      have hlt : rest.length < n := by
        simp only [List.length_cons] at hlen
        omega
      have hev : rest.length % 2 = 0 := by
        simp only [List.length_cons] at heven
        omega
      have hrest := ih rest.length hlt rest (le_refl _) hev
      rw [hex_pairs_value]
      cases hv : hex_digit_value c with
      | none =>
        simp only
        exact ⟨fun _ => ⟨c, List.mem_cons_self _ _, hv⟩, fun _ => trivial⟩
      | some v =>
        cases hw : hex_digit_value d with
        | none =>
          simp only
          exact ⟨fun _ => ⟨d, List.mem_cons_of_mem _ (List.mem_cons_self _ _), hw⟩,
            fun _ => trivial⟩
        | some w =>
          cases hp : hex_pairs_value rest with
          | none =>
            simp only
            obtain ⟨x, hx, hxv⟩ := hrest.1 hp
            exact ⟨fun _ => ⟨x, List.mem_cons_of_mem _ (List.mem_cons_of_mem _ hx), hxv⟩,
              fun _ => trivial⟩
          | some o =>
            simp only
            refine ⟨fun h => by simp at h, fun h => ?_⟩
            obtain ⟨x, hx, hxv⟩ := h
            rcases List.mem_cons.mp hx with h1 | h1
            · subst h1
              rw [hv] at hxv
              simp at hxv
            · rcases List.mem_cons.mp h1 with h2 | h2
              · subst h2
                rw [hw] at hxv
                simp at hxv
              · have := hrest.2 ⟨x, h2, hxv⟩
                rw [hp] at this
                simp at this

/-- The octets the pairs stand for: one for each pair, octet `i` being 16 times the value
of the character `2 * i` plus the value of the character `2 * i + 1`. -/
theorem hex_pairs_value_octets :
    ∀ (n : Nat) (s o : Bytes), s.length ≤ n → hex_pairs_value s = some o →
      o.length = s.length / 2 ∧
      ∀ i, i < s.length / 2 →
        ∃ v w, hex_digit_value (s.getD (2 * i) 0) = some v ∧
          hex_digit_value (s.getD (2 * i + 1) 0) = some w ∧ o.getD i 0 = 16 * v + w := by
  intro n
  induction n using Nat.strong_induction_on with
  | _ n ih =>
    intro s o hlen h
    match s, hlen, h with
    | [], _, h =>
      simp only [hex_pairs_value, Option.some.injEq] at h
      subst h
      exact ⟨rfl, fun i hi => by simp at hi⟩
    | [_], _, h =>
      simp only [hex_pairs_value, Option.some.injEq] at h
      subst h
      refine ⟨by simp, fun i hi => ?_⟩
      simp only [List.length_cons, List.length_nil] at hi
      omega
    | c :: d :: rest, hlen, h =>
      have hlt : rest.length < n := by
        simp only [List.length_cons] at hlen
        omega
      rw [hex_pairs_value] at h
      cases hv : hex_digit_value c with
      | none => simp [hv] at h
      | some v =>
        cases hw : hex_digit_value d with
        | none => simp [hv, hw] at h
        | some w =>
          cases hp : hex_pairs_value rest with
          | none => simp [hv, hw, hp] at h
          | some o2 =>
            simp only [hv, hw, hp, Option.some.injEq] at h
            subst h
            obtain ⟨hl, hi⟩ := ih rest.length hlt rest o2 (le_refl _) hp
            have hlen2 : (c :: d :: rest).length / 2 = rest.length / 2 + 1 := by
              simp only [List.length_cons]
              omega
            refine ⟨?_, fun i hilt => ?_⟩
            · simp only [List.length_cons, hl]
              omega
            · cases i with
              | zero => exact ⟨v, w, by simpa using hv, by simpa using hw, by simp⟩
              | succ j =>
                have hj : j < rest.length / 2 := by omega
                obtain ⟨v2, w2, h1, h2, h3⟩ := hi j hj
                refine ⟨v2, w2, ?_, ?_, ?_⟩
                · have e : 2 * (j + 1) = (2 * j) + 1 + 1 := by omega
                  rw [e]
                  simpa using h1
                · have e : 2 * (j + 1) + 1 = (2 * j + 1) + 1 + 1 := by omega
                  rw [e]
                  simpa using h2
                · simpa using h3

/-- Where plain `char` is signed, `krypt_hex_decode` on a buffer `s` of octets that is not
NULL returns a result, and the result is -1 exactly when `|s|` is odd or some character of
`s` is none of 0-9, a-f, A-F. Otherwise it returns `|s| / 2`, adds no error and assigns a
buffer of `|s| / 2` octets, octet `i` being 16 times the digit value of character `2 * i`
plus the digit value of character `2 * i + 1`, upper and lower case letters alike. -/
theorem krypt_hex_decode_contract (s : Bytes) (errors : krypt_errors)
    (hoct : ∀ x ∈ s, x < 256) (hlen : s.length ≤ SIZE_MAX) :
    ∃ (r : Int) (out : Option Bytes) (errors2 : krypt_errors),
      krypt_hex_decode true (some s) s.length errors = .ok (r, out, errors2) ∧
      (r = -1 ↔ (s.length % 2 = 1 ∨ ∃ c ∈ s, hex_digit_value c = none)) ∧
      (r ≠ -1 →
        r = ((s.length / 2 : Nat) : Int) ∧ errors2 = errors ∧
        ∃ o, out = some o ∧ o.length = s.length / 2 ∧
          ∀ i, i < s.length / 2 →
            ∃ v w, hex_digit_value (s.getD (2 * i) 0) = some v ∧
              hex_digit_value (s.getD (2 * i + 1) 0) = some w ∧
              o.getD i 0 = 16 * v + w) := by
  have hs : SSIZE_MAX = 9223372036854775807 := rfl
  have hz : SIZE_MAX = 18446744073709551615 := rfl
  have h1 : ¬ s.length / 2 > SSIZE_MAX := by omega
  by_cases hodd : s.length % 2 = 1
  · have h2 : s.length % 2 ≠ 0 := by omega
    refine ⟨-1, none, errors ++ [.buffer_length_not_multiple_of_2], ?_, ?_, ?_⟩
    · simp [krypt_hex_decode, int_hex_decode_tests, h1, hodd]
    · exact ⟨fun _ => Or.inl hodd, fun _ => rfl⟩
    · intro h
      exact absurd rfl h
  · have h2 : ¬ s.length % 2 ≠ 0 := by omega
    have heven : s.length % 2 = 0 := by omega
    have hpairs := int_hex_decode_pairs s.length s errors (le_refl _) hoct
    have hnone := hex_pairs_value_none s.length s (le_refl _) heven
    cases hp : hex_pairs_value s with
    | none =>
      obtain ⟨out, errors2, hdec⟩ := hpairs.2 hp
      refine ⟨-1, none, errors2, ?_, ?_, ?_⟩
      · simp only [krypt_hex_decode, int_hex_decode_tests, h1, h2, if_false,
          Option.isNone_some, Option.getD_some, List.take_length, hdec]
        simp
      · exact ⟨fun _ => Or.inr (hnone.1 hp), fun _ => rfl⟩
      · intro h
        exact absurd rfl h
    | some o =>
      have hdec := hpairs.1 o hp
      obtain ⟨hl, hidx⟩ := hex_pairs_value_octets s.length s o (le_refl _) hp
      refine ⟨((s.length / 2 : Nat) : Int), some o, errors, ?_, ?_, ?_⟩
      · simp only [krypt_hex_decode, int_hex_decode_tests, h1, h2, if_false,
          Option.isNone_some, Option.getD_some, List.take_length, hdec]
        simp
      · constructor
        · intro h
          omega
        · intro h
          rcases h with h | h
          · exact absurd h hodd
          · have := hnone.2 h
            rw [hp] at this
            simp at this
      · intro _
        exact ⟨rfl, rfl, o, rfl, hl, hidx⟩

/-- The contract of `krypt_hex_decode` under a signed `char`, at the digits "00Ab". -/
theorem krypt_hex_decode_contract_witness :
    (∀ x ∈ [48, 48, 65, 98], x < 256) ∧ [48, 48, 65, 98].length ≤ SIZE_MAX ∧
    krypt_hex_decode true (some [48, 48, 65, 98]) 4 [] = .ok (2, some [0, 171], []) ∧
    (∃ errors2, krypt_hex_decode true (some [48, 71]) 2 [] = .ok (-1, none, errors2)) ∧
    ∃ (r : Int) (out : Option Bytes) (errors2 : krypt_errors),
      krypt_hex_decode true (some [48, 48, 65, 98]) [48, 48, 65, 98].length [] =
        .ok (r, out, errors2) ∧
      (r = -1 ↔
        ([48, 48, 65, 98].length % 2 = 1 ∨ ∃ c ∈ [48, 48, 65, 98], hex_digit_value c = none)) ∧
      (r ≠ -1 →
        r = (([48, 48, 65, 98].length / 2 : Nat) : Int) ∧ errors2 = [] ∧
        ∃ o, out = some o ∧ o.length = [48, 48, 65, 98].length / 2 ∧
          ∀ i, i < [48, 48, 65, 98].length / 2 →
            ∃ v w, hex_digit_value ([48, 48, 65, 98].getD (2 * i) 0) = some v ∧
              hex_digit_value ([48, 48, 65, 98].getD (2 * i + 1) 0) = some w ∧
              o.getD i 0 = 16 * v + w) :=
  ⟨by decide, by decide, rfl, ⟨_, rfl⟩,
   krypt_hex_decode_contract [48, 48, 65, 98] [] (by decide) (by decide)⟩

/-! ## The octets handed to the decoder of an EXPLICIT value -/

/-- What `int_unpack_explicit` returns for an object that holds its value octets `b`: the
header read at the start of `b` and all the octets of `b` behind it. -/
theorem int_unpack_explicit_rest (object : krypt_asn1_object) (errors : krypt_errors)
    (b : Bytes) (header : krypt_asn1_header) (rest : Bytes)
    (hbytes : object.bytes = some b) (hlen : object.bytes_len = b.length)
    (hnext : krypt_asn1_next_header b = .ok (some (header, rest))) :
    int_unpack_explicit object errors = (some (header, rest), errors) ∧
    krypt_asn1_header_octets header ++ rest = b ∧
    rest.length = object.bytes_len - (header.tag_len + header.length_len) := by
  obtain ⟨tb, lb, h1, h2, h3, h4, h5, -, -, -⟩ :=
    krypt_asn1_next_header_consumed b header rest hnext
  have hoct := (krypt_asn1_header_octets_consumed b header rest hnext).1
  have hdrop : (b.drop (header.tag_len + header.length_len)).take
      (b.length - (header.tag_len + header.length_len)) = rest := by
    rw [h4, h5, ← h3]
    have e1 : (tb ++ lb ++ rest).drop (tb.length + lb.length) = rest := by
      have e2 : tb.length + lb.length = (tb ++ lb).length := by simp
      rw [e2, List.drop_left]
    rw [e1]
    apply List.take_of_length_le
    simp only [List.length_append]
    omega
  refine ⟨?_, hoct, ?_⟩
  · simp only [int_unpack_explicit, int_parse_explicit_header, krypt_instream_new_bytes,
      hbytes, hlen, Option.getD_some, List.take_length, hnext, hdrop]
  · rw [hlen, h4, h5, ← h3]
    simp only [List.length_append]
    omega

/-- C33 (counterexample): the octets A0 06 02 01 01 02 01 02 with the definition of an
INTEGER under the explicit tag 0. The inner header that is unpacked has the length 1, and
the octets handed to the decoder are the four octets 01 02 01 02 behind it: the decoder
that returns what it is handed returns them. -/
theorem int_decode_prim_explicit_trailing_octets :
    int_next_template [160, 6, 2, 1, 1, 2, 1, 2] [] =
      (1, some template_explicit_two_integers, [], []) ∧
    (∃ header p,
      int_unpack_explicit
          { header :=
              { tag := 0, tag_class := .CONTEXT_SPECIFIC, is_constructed := true,
                is_infinite := false, length := 6, tag_bytes := some [160], tag_len := 1,
                length_bytes := some [6], length_len := 1, header_length := 2 },
            bytes := some [2, 1, 1, 2, 1, 2], bytes_len := 6 } [] = (some (header, p), []) ∧
      header.tag = TAGS_INTEGER ∧ header.length = 1 ∧ p = [1, 2, 1, 2]) ∧
    int_decode_prim krypt_template_decoders_echo template_host
        template_explicit_two_integers definition_explicit_integer [] =
      .ok (1, template_host,
        krypt_asn1_template_set_decoded
          (krypt_asn1_template_set_value template_explicit_two_integers
            (.plain (.string [1, 2, 1, 2])))
          true, []) :=
  ⟨rfl, ⟨_, _, rfl, rfl, rfl, rfl⟩, rfl⟩

/-- C33 (amended): for a template of definite length whose object holds its value octets
`b`, under the tagging EXPLICIT, let the header read at the start of `b` be `header` and
the octets behind it `rest`. The octets `int_decode_prim` hands to the decoder of the type
are `rest`: they start right behind the inner header and run to the end of the outer
value. Their count is the length of the outer value less the octets of the inner header;
it is the length field of the inner header exactly when the outer value holds the inner
header and as many octets as that field says, and nothing else. -/
theorem int_decode_prim_explicit_octets (D : krypt_template_decoders) (tvalue : TVALUE)
    (object : krypt_asn1_object) (definition : Option krypt_definition_hash)
    (options : krypt_asn1_options) (tv : TVALUE) (is_parsed is_decoded : Bool)
    (d : krypt_asn1_definition) (errors : krypt_errors) (type_no : Int) (b : Bytes)
    (header : krypt_asn1_header) (rest : Bytes) (decoder : TVALUE → Bytes → Option VALUE)
    (hfin : object.header.is_infinite = false) (hc : object.header.is_constructed = true)
    (htype : d.type = .fixnum type_no) (htag : d.tagging = .symbol sKrypt_TC_EXPLICIT)
    (hbytes : object.bytes = some b) (hlen : object.bytes_len = b.length)
    (hnext : krypt_asn1_next_header b = .ok (some (header, rest)))
    (hdec : D type_no = some decoder) :
    krypt_asn1_header_octets header ++ rest = b ∧
    rest.length = object.bytes_len - (header.tag_len + header.length_len) ∧
    (rest.length = header.length ↔
      object.bytes_len = header.tag_len + header.length_len + header.length) ∧
    (∀ value, decoder tvalue rest = some value →
      int_decode_prim D tvalue (.mk (some object) definition options tv is_parsed is_decoded)
          d errors =
        .ok (1, tvalue, .mk (some object) definition options (.plain value) is_parsed true,
          errors)) ∧
    (decoder tvalue rest = none →
      int_decode_prim D tvalue (.mk (some object) definition options tv is_parsed is_decoded)
          d errors =
        int_decode_prim_error tvalue
          (.mk (some object) definition options tv is_parsed is_decoded) d errors) := by
  obtain ⟨hun, hoct, hrl⟩ := int_unpack_explicit_rest object errors b header rest hbytes hlen
    hnext
  obtain ⟨tb, lb, h1, h2, h3, h4, h5, -, -, -⟩ :=
    krypt_asn1_next_header_consumed b header rest hnext
  refine ⟨hoct, hrl, ?_, ?_, ?_⟩
  · rw [hlen, ← h3, h4, h5]
    simp only [List.length_append]
    omega
  · intro value hval
    exact int_decode_prim_explicit_inner_header D tvalue object definition options tv
      is_parsed is_decoded d errors errors type_no header rest decoder value hfin hc htype
      htag hun hdec hval
  · intro hval
    simp [int_decode_prim, krypt_asn1_template.object, hfin, krypt_definition_get_type, htype,
      NIL_P, NUM2INT, krypt_definition_get_tagging, htag, SYM2ID, hc, hun, hdec, hval]

theorem int_decode_prim_explicit_octets_witness :
    int_next_template [160, 3, 2, 1, 1] [] = (1, some template_explicit_integer, [], []) ∧
    krypt_asn1_next_header [2, 1, 1] = .ok (some (header_integer_one, [1])) ∧
    int_decode_prim krypt_template_decoders_echo template_host template_explicit_integer
        definition_explicit_integer [] =
      .ok (1, template_host,
        .mk (some
            { header :=
                { tag := 0, tag_class := .CONTEXT_SPECIFIC, is_constructed := true,
                  is_infinite := false, length := 3, tag_bytes := some [160], tag_len := 1,
                  length_bytes := some [3], length_len := 1, header_length := 2 },
              bytes := some [2, 1, 1], bytes_len := 3 })
          none {} (.plain (.string [1])) false true, []) :=
  ⟨rfl, rfl,
   (int_decode_prim_explicit_octets krypt_template_decoders_echo template_host
      { header :=
          { tag := 0, tag_class := .CONTEXT_SPECIFIC, is_constructed := true,
            is_infinite := false, length := 3, tag_bytes := some [160], tag_len := 1,
            length_bytes := some [3], length_len := 1, header_length := 2 },
        bytes := some [2, 1, 1], bytes_len := 3 }
      none {} (.plain .qnil) false false definition_explicit_integer [] TAGS_INTEGER
      [2, 1, 1] header_integer_one [1] (fun _ bytes => some (.string bytes))
      rfl rfl rfl rfl rfl rfl rfl rfl).2.2.2.1 (.string [1]) rfl⟩

/-! ## The closing END OF CONTENTS -/

/-- C34 (counterexample): the octets 00 05 01 02 03 04 05 start with a header of the tag
0, the class UNIVERSAL and the length 5; `int_parse_eoc` returns 1 on them. -/
theorem int_parse_eoc_nonzero_length :
    (∃ next rest,
      krypt_asn1_next_header [0, 5, 1, 2, 3, 4, 5] = .ok (some (next, rest)) ∧
      next.tag = TAGS_END_OF_CONTENTS ∧ next.tag_class = .UNIVERSAL ∧ next.length = 5) ∧
    int_parse_eoc [0, 5, 1, 2, 3, 4, 5] = (1, [1, 2, 3, 4, 5]) :=
  ⟨⟨_, _, rfl, rfl, rfl, rfl⟩, rfl⟩

/-- C34 (amended): `int_parse_eoc` returns 1 or 0. It returns 1 exactly when the next
header of the stream can be read and has the tag 0 and the class UNIVERSAL, whatever its
length; it returns 0 at the end of the stream, on an error of the read and on a header
with another tag or class. -/
theorem int_parse_eoc_result (inp : Bytes) :
    ((int_parse_eoc inp).1 = 1 ∨ (int_parse_eoc inp).1 = 0) ∧
    ((int_parse_eoc inp).1 = 1 ↔
      ∃ next rest, krypt_asn1_next_header inp = .ok (some (next, rest)) ∧
        next.tag = TAGS_END_OF_CONTENTS ∧ next.tag_class = .UNIVERSAL) ∧
    (krypt_asn1_next_header inp = .ok none → int_parse_eoc inp = (0, inp)) ∧
    (∀ e, krypt_asn1_next_header inp = .error e → int_parse_eoc inp = (0, inp)) := by
  unfold int_parse_eoc
  cases hn : krypt_asn1_next_header inp with
  | error e => simp
  | ok r =>
    cases r with
    | none => simp
    | some p =>
      obtain ⟨next, rest⟩ := p
      by_cases h : next.tag = TAGS_END_OF_CONTENTS ∧ next.tag_class = .UNIVERSAL
      · simp [h]
      · refine ⟨by simp [h], ⟨fun h1 => by simp [h] at h1, fun h1 => ?_⟩, by simp, by simp⟩
        obtain ⟨n2, r2, h2, h3, h4⟩ := h1
        simp only [Except.ok.injEq, Option.some.injEq, Prod.mk.injEq] at h2
        obtain ⟨h5, _⟩ := h2
        subst h5
        exact absurd ⟨h3, h4⟩ h

/-! ## A codec without context, and `int_parse_decode` behind a match that is not 1 -/

/-- C35 (the code evaluated at the failing input): for a symbol that names no codec
`krypt_asn1_template_get_ctx_for_codec` adds "Unknown codec" and returns NULL. Each of its
three callers then calls `ctx->match` through the NULL pointer: `int_parse_cons` for a
layout entry with that codec, `int_match_template` for a class whose definition has that
codec, and `int_parse_decode` for a template whose definition has that codec. -/
theorem krypt_asn1_template_unknown_codec_dereferenced :
    krypt_asn1_template_get_ctx_for_codec sID_unknown_codec [] =
      (none, [.unknown_codec sID_unknown_codec]) ∧
    int_parse_cons
        (krypt_asn1_template_ctx_match krypt_asn1_tag_class_for_id_or_none
          definition_registry_sample 1)
        (krypt_asn1_template_ctx_parse krypt_asn1_tag_class_for_id_or_none
          definition_registry_sample 1)
        template_host template_sequence_of_integer { min_size := .fixnum 1 }
        (some [layout_entry_unknown_codec]) [] =
      .error .fault_null_dereference ∧
    int_match_template
        (krypt_asn1_template_ctx_match krypt_asn1_tag_class_for_id_or_none
          definition_registry_unknown_codec 1)
        definition_registry_unknown_codec template_host template_integer_one
        { type := .template_class 2, name := .symbol sID_a } [] =
      .error .fault_null_dereference ∧
    int_parse_decode
        (krypt_asn1_template_ctx_match krypt_asn1_tag_class_for_id_or_none
          definition_registry_sample 1)
        (krypt_asn1_template_ctx_parse krypt_asn1_tag_class_for_id_or_none
          definition_registry_sample 1)
        (krypt_asn1_template_ctx_decode krypt_template_decoders_sample krypt_asn1_codecs
          definition_registry_sample)
        template_host (template_integer_one_with layout_entry_unknown_codec) [] =
      .error .fault_null_dereference :=
  ⟨rfl, rfl, rfl, rfl⟩

/-- When `ctx->match` returns 0, `int_parse_decode` returns 0 with host, template and error
chain as the match left them: neither `ctx->parse` nor `ctx->decode` is called. -/
theorem int_parse_decode_match_zero (M : krypt_asn1_template_match_cb → krypt_ctx_fn)
    (P : krypt_asn1_template_parse_cb → krypt_ctx_fn)
    (Dc : krypt_asn1_template_decode_cb → krypt_ctx_decode_fn) (self : TVALUE)
    (template : krypt_asn1_template) (errors errors1 : krypt_errors)
    (definition : krypt_definition_hash) (ctx : krypt_asn1_template_ctx) (self2 : TVALUE)
    (t2 : krypt_asn1_template) (errors2 : krypt_errors)
    (hdef : krypt_asn1_template_get_definition template = some definition)
    (hctx : krypt_asn1_template_get_ctx_for_codec (krypt_hash_get_codec definition) errors =
      (some ctx, errors1))
    (hmatch : M ctx.match_cb self template
        (krypt_definition_init definition (krypt_asn1_template_get_options template))
        definition.layout errors1 =
      .ok (0, self2, t2, errors2)) :
    int_parse_decode M P Dc self template errors = .ok (0, self2, t2, errors2) := by
  simp [int_parse_decode, hdef, hctx, hmatch]

/-- When `ctx->match` returns a result other than 0 for a template whose parsed flag is
clear, `int_parse_decode` calls `ctx->parse`: when that returns 0, so does
`int_parse_decode`, with host, template and error chain as the parse left them. The
result of the match is tested against 0 only. -/
theorem int_parse_decode_match_nonzero (M : krypt_asn1_template_match_cb → krypt_ctx_fn)
    (P : krypt_asn1_template_parse_cb → krypt_ctx_fn)
    (Dc : krypt_asn1_template_decode_cb → krypt_ctx_decode_fn) (self : TVALUE)
    (template : krypt_asn1_template) (errors errors1 : krypt_errors)
    (definition : krypt_definition_hash) (ctx : krypt_asn1_template_ctx) (m : Int)
    (self2 : TVALUE) (t2 : krypt_asn1_template) (errors2 : krypt_errors) (self3 : TVALUE)
    (t3 : krypt_asn1_template) (errors3 : krypt_errors)
    (hdef : krypt_asn1_template_get_definition template = some definition)
    (hctx : krypt_asn1_template_get_ctx_for_codec (krypt_hash_get_codec definition) errors =
      (some ctx, errors1))
    (hmatch : M ctx.match_cb self template
        (krypt_definition_init definition (krypt_asn1_template_get_options template))
        definition.layout errors1 =
      .ok (m, self2, t2, errors2))
    (hm : m ≠ 0) (hparsed : krypt_asn1_template_is_parsed t2 = false)
    (hparse : P ctx.parse_cb self2 t2
        (krypt_definition_init definition (krypt_asn1_template_get_options template))
        definition.layout errors2 =
      .ok (0, self3, t3, errors3)) :
    int_parse_decode M P Dc self template errors = .ok (0, self3, t3, errors3) := by
  simp [int_parse_decode, hdef, hctx, hmatch, hm, hparsed, hparse]

/-! ## The writers of the tag: frame, codec and table index -/

/-- C37: the writers `tag=` and `tag_class=` leave the cached value octets, the length, the
cached length octets, the constructed flag and the infinite flag as they were, whatever
they are called with; and each of `tag=`, `tag_class=` and `infinite_length=`, called with
the value the header holds already, returns with `self` unchanged, so the whole header with
its cached tag and length octets and `header_length` is unchanged. -/
theorem krypt_asn1_data_tag_setters_frame (T : CodecTable) (klass : Klass)
    (iv_tag iv_tag_class iv_inf_len iv_value iv_unused_bits : VALUE) (data : krypt_asn1_data) :
    (∀ tag r self2,
      krypt_asn1_data_set_tag T
          (.asn1 klass iv_tag iv_tag_class iv_inf_len iv_value iv_unused_bits (some data))
          tag = .ok (r, self2) →
      ∃ data2, int_asn1_data_of self2 = some data2 ∧ krypt_asn1_tag_frame data data2) ∧
    (∀ tag_class r self2,
      krypt_asn1_data_set_tag_class
          (.asn1 klass iv_tag iv_tag_class iv_inf_len iv_value iv_unused_bits (some data))
          tag_class = .ok (r, self2) →
      ∃ data2, int_asn1_data_of self2 = some data2 ∧ krypt_asn1_tag_frame data data2) ∧
    (∀ tag, NUM2INT tag = .ok data.object.header.tag →
      krypt_asn1_data_set_tag T
          (.asn1 klass iv_tag iv_tag_class iv_inf_len iv_value iv_unused_bits (some data))
          tag =
        .ok (tag,
          .asn1 klass iv_tag iv_tag_class iv_inf_len iv_value iv_unused_bits (some data))) ∧
    (∀ tag_class,
      krypt_asn1_tag_class_for_id (SYM2ID tag_class) = .ok data.object.header.tag_class →
      krypt_asn1_data_set_tag_class
          (.asn1 klass iv_tag iv_tag_class iv_inf_len iv_value iv_unused_bits (some data))
          tag_class =
        .ok (tag_class,
          .asn1 klass iv_tag iv_tag_class iv_inf_len iv_value iv_unused_bits (some data))) ∧
    (∀ inf_length, int_new_inf inf_length = data.object.header.is_infinite →
      krypt_asn1_data_set_inf_length
          (.asn1 klass iv_tag iv_tag_class iv_inf_len iv_value iv_unused_bits (some data))
          inf_length =
        .ok (inf_length,
          .asn1 klass iv_tag iv_tag_class iv_inf_len iv_value iv_unused_bits (some data))) := by
  refine ⟨fun tag r self2 h => ?_, fun tag_class r self2 h => ?_, fun tag h => ?_,
    fun tag_class h => ?_, fun inf_length h => ?_⟩
  · simp only [krypt_asn1_data_set_tag] at h
    repeat' split at h
    all_goals first
      | (simp at h; done)
      | (simp only [Except.ok.injEq, Prod.mk.injEq] at h
         rw [← h.2]
         exact ⟨_, rfl, rfl, rfl, rfl, rfl, rfl, rfl, rfl⟩)
  · simp only [krypt_asn1_data_set_tag_class] at h
    repeat' split at h
    all_goals first
      | (simp at h; done)
      | (simp only [Except.ok.injEq, Prod.mk.injEq] at h
         rw [← h.2]
         exact ⟨_, rfl, rfl, rfl, rfl, rfl, rfl, rfl, rfl⟩)
  · simp [krypt_asn1_data_set_tag, h]
  · simp [krypt_asn1_data_set_tag_class, h]
  · simp [krypt_asn1_data_set_inf_length, h]

theorem krypt_asn1_data_tag_setters_frame_witness :
    (∃ self2 data2,
      krypt_asn1_data_set_tag krypt_asn1_codecs parsed_octet_string_zero (.fixnum 5) =
        .ok (.fixnum 5, self2) ∧
      int_asn1_data_of self2 = some data2 ∧ data2.object.header.tag = 5 ∧
      data2.object.bytes = some [0] ∧ data2.object.header.length_bytes = some [1]) ∧
    krypt_asn1_data_set_tag krypt_asn1_codecs parsed_octet_string_zero (.fixnum 4) =
      .ok (.fixnum 4, parsed_octet_string_zero) := by
  have h := krypt_asn1_data_tag_setters_frame krypt_asn1_codecs .cKryptASN1OctetString
    (.fixnum 4) (.symbol .sTC_UNIVERSAL) .qfalse .qnil .qnil
    { object :=
        { header :=
            { tag := 4, tag_class := .UNIVERSAL, is_constructed := false,
              is_infinite := false, length := 1, tag_bytes := some [4], tag_len := 1,
              length_bytes := some [1], length_len := 1, header_length := 2 },
          bytes := some [0], bytes_len := 1 },
      decode_cb := some .int_asn1_prim_value_decode,
      encode_cb := some .int_asn1_prim_encode_to,
      codec := some 4 }
  refine ⟨?_, h.2.2.1 (.fixnum 4) rfl⟩
  obtain ⟨data2, h1, h2⟩ := h.1 (.fixnum 5) (.fixnum 5) _ rfl
  exact ⟨_, data2, rfl, h1, by
    simp only [int_asn1_data_of, Option.some.injEq] at h1
    rw [← h1]
    rfl, h2.1, h2.2.2.2.1⟩

/-- The function `int_codec_for` reads the table at the index `int_codec_for_index` gives,
and nowhere when that gives none. -/
theorem int_codec_for_reads (T : CodecTable) (object : krypt_asn1_object) :
    int_codec_for T object =
      (int_codec_for_index object).bind
        (fun i => if (T i).encoder.isNone = true then none else some i) := by
  unfold int_codec_for int_codec_for_index
  split <;> simp

/-- The writer `tag_class=` never writes the codec of the value. -/
theorem krypt_asn1_data_set_tag_class_codec (self tag_class r self2 : VALUE)
    (h : krypt_asn1_data_set_tag_class self tag_class = .ok (r, self2)) :
    (int_asn1_data_of self2).map (fun d => d.codec) =
      (int_asn1_data_of self).map (fun d => d.codec) := by
  unfold krypt_asn1_data_set_tag_class at h
  repeat' split at h
  all_goals first
    | (simp at h; done)
    | (simp only [Except.ok.injEq, Prod.mk.injEq] at h
       obtain ⟨_, h2⟩ := h
       subst h2
       rfl)

/-- The writer `tag=`, called with a tag that differs from the current one, sets the codec
to what `int_codec_for` returns for the new header. -/
theorem krypt_asn1_data_set_tag_codec (T : CodecTable) (klass : Klass)
    (iv_tag iv_tag_class iv_inf_len iv_value iv_unused_bits : VALUE) (data : krypt_asn1_data)
    (new_tag : Int) (hne : data.object.header.tag ≠ new_tag) :
    ∃ self2 data2,
      krypt_asn1_data_set_tag T
          (.asn1 klass iv_tag iv_tag_class iv_inf_len iv_value iv_unused_bits (some data))
          (.fixnum new_tag) = .ok (.fixnum new_tag, self2) ∧
      int_asn1_data_of self2 = some data2 ∧ data2.object.header.tag = new_tag ∧
      data2.codec = int_codec_for T data2.object := by
  refine ⟨.asn1 klass (.fixnum new_tag) iv_tag_class iv_inf_len iv_value iv_unused_bits
      (some { data with
        object := { data.object with
          header := int_invalidate_tag { data.object.header with tag := new_tag } },
        codec := int_codec_for T { data.object with
          header := int_invalidate_tag { data.object.header with tag := new_tag } } }),
    _, ?_, rfl, rfl, rfl⟩
  simp only [krypt_asn1_data_set_tag, NUM2INT, hne, if_false]

/-- C38 (the code evaluated at the failing input): the value `decode` returns for the
octets 04 01 00 has the codec of the tag 4, which is what `int_codec_for` gives for its
header. After `tag_class = :CONTEXT_SPECIFIC` the header has the class CONTEXT_SPECIFIC and
the codec is still that of the tag 4, while `int_codec_for` gives no codec for the header.
The other way round, the value returned for the octets 80 00 has no codec, and after
`tag_class = :UNIVERSAL` it still has none, while `int_codec_for` gives the codec of the
tag 0 for its header. -/
theorem krypt_asn1_data_set_tag_class_stale_codec :
    krypt_asn1_decode krypt_asn1_codecs [4, 1, 0] = .ok (parsed_octet_string_zero, []) ∧
    (int_asn1_data_of parsed_octet_string_zero).map
        (fun d => (d.codec, int_codec_for krypt_asn1_codecs d.object)) =
      some (some 4, some 4) ∧
    (∃ self2,
      krypt_asn1_data_set_tag_class parsed_octet_string_zero
          (.symbol .sTC_CONTEXT_SPECIFIC) =
        .ok (.symbol .sTC_CONTEXT_SPECIFIC, self2) ∧
      (int_asn1_data_of self2).map
          (fun d => (d.object.header.tag_class, d.codec,
            int_codec_for krypt_asn1_codecs d.object)) =
        some (.CONTEXT_SPECIFIC, some 4, none)) ∧
    krypt_asn1_decode krypt_asn1_codecs [128, 0] = .ok (parsed_context_empty, []) ∧
    (∃ self2,
      krypt_asn1_data_set_tag_class parsed_context_empty (.symbol .sTC_UNIVERSAL) =
        .ok (.symbol .sTC_UNIVERSAL, self2) ∧
      (int_asn1_data_of self2).map
          (fun d => (d.object.header.tag_class, d.codec,
            int_codec_for krypt_asn1_codecs d.object)) =
        some (.UNIVERSAL, none, some 0)) :=
  ⟨rfl, rfl, ⟨_, rfl, rfl⟩, rfl, ⟨_, rfl, rfl⟩⟩

/-- The index at which `int_codec_for` reads the table is at most 30, and it is the tag:
it is not negative when the tag is not. -/
theorem int_codec_for_index_bound (object : krypt_asn1_object) (i : Int)
    (h : int_codec_for_index object = some i) : i = object.header.tag ∧ i ≤ 30 := by
  unfold int_codec_for_index at h
  split at h
  · rename_i hc
    simp only [Option.some.injEq] at h
    subst h
    exact ⟨rfl, by omega⟩
  · simp at h

/-- C39 (the code evaluated at the failing input): on the value `decode` returns for the
octets 02 01 01, `tag = -1` stores the tag -1 in the header, whose class is UNIVERSAL,
and calls `int_codec_for`, which reads `krypt_asn1_codecs` at the index -1. The
initializer of ASN1Data called with the tag -1 and the class UNIVERSAL does the same: its
test rejects the tags above 30 only. So does `Integer.new(1, -1, :UNIVERSAL)`, through the
default helper, which has the same test. -/
theorem int_codec_for_negative_index :
    krypt_asn1_decode krypt_asn1_codecs [2, 1, 1] = .ok (parsed_integer_one, []) ∧
    (∃ self2,
      krypt_asn1_data_set_tag krypt_asn1_codecs parsed_integer_one (.fixnum (-1)) =
        .ok (.fixnum (-1), self2) ∧
      (int_asn1_data_of self2).map
          (fun d => (d.object.header.tag, d.object.header.tag_class,
            int_codec_for_index d.object)) =
        some (-1, .UNIVERSAL, some (-1))) ∧
    (∃ self2,
      krypt_asn1_data_initialize krypt_asn1_codecs (krypt_asn1_data_alloc .cKryptASN1Data)
          (.string [1]) (.fixnum (-1)) (.symbol .sTC_UNIVERSAL) = .ok self2 ∧
      (int_asn1_data_of self2).map
          (fun d => (d.object.header.tag, d.object.header.tag_class,
            int_codec_for_index d.object)) =
        some (-1, .UNIVERSAL, some (-1))) ∧
    (∃ self2,
      KRYPT_ASN1_DEFINE_CTOR krypt_asn1_codecs TAGS_INTEGER false .int_asn1_prim_encode_to
          [.fixnum 1, .fixnum (-1), .symbol .sTC_UNIVERSAL]
          (krypt_asn1_data_alloc .cKryptASN1Integer) = .ok self2 ∧
      (int_asn1_data_of self2).map
          (fun d => (d.object.header.tag, d.object.header.tag_class,
            int_codec_for_index d.object)) =
        some (-1, .UNIVERSAL, some (-1))) :=
  ⟨rfl, ⟨_, rfl, rfl⟩, ⟨_, rfl, rfl⟩, ⟨_, rfl, rfl⟩⟩

/-- C36 (the code evaluated at the failing input): the class 3 has the definition of a
SEQUENCE of one OCTET STRING named `a`, with the option `optional`; an instance is made of
the octets 31 03 04 01 01, a SET. The match of `int_parse_decode` on the template the
instance wraps returns -1, not present. `int_parse_decode` goes on: it runs the parse,
returns 1, both flags of the template are set and `a` is bound on the instance. Read
through `krypt_asn1_template_get_parse_decode`, the instance hands out the String of the
octet 01 as `a`, and `a` is bound to a template that is parsed and decoded and holds that
String. For the class 4, whose definition lacks the option, the match returns 0 and the
same octets are refused: the result is 0, nothing is handed out, the template keeps both
flags clear and `a` stays unbound. -/
theorem int_parse_decode_not_present :
    definition_registry_is_structured definition_registry_sequence_octets ∧
    krypt_asn1_template_parse_stream definition_registry_sequence_octets [49, 3, 4, 1, 1]
        (.template_class 3) [] =
      .ok (1,
        some (.template_instance 3 []
          (some (template_set_octets definition_sequence_octets_optional))), [], []) ∧
    krypt_asn1_template_is_parsed (template_set_octets definition_sequence_octets_optional) =
      false ∧
    krypt_asn1_template_is_decoded (template_set_octets definition_sequence_octets_optional) =
      false ∧
    krypt_asn1_template_ctx_match krypt_asn1_tag_class_for_id_or_none
        definition_registry_sequence_octets 2 .int_match_sequence
        (.template_instance 3 []
          (some (template_set_octets definition_sequence_octets_optional)))
        (template_set_octets definition_sequence_octets_optional)
        (krypt_definition_init definition_sequence_octets_optional
          (krypt_hash_get_options definition_sequence_octets_optional))
        definition_sequence_octets_optional.layout [] =
      .ok (-1,
        .template_instance 3 []
          (some (template_set_octets definition_sequence_octets_optional)),
        template_set_octets definition_sequence_octets_optional, []) ∧
    (∃ self2 t2 ta,
      int_parse_decode
          (krypt_asn1_template_ctx_match krypt_asn1_tag_class_for_id_or_none
            definition_registry_sequence_octets 2)
          (krypt_asn1_template_ctx_parse krypt_asn1_tag_class_for_id_or_none
            definition_registry_sequence_octets 2)
          (krypt_asn1_template_ctx_decode krypt_template_decoders_sample krypt_asn1_codecs
            definition_registry_sequence_octets)
          (.template_instance 3 []
            (some (template_set_octets definition_sequence_octets_optional)))
          (template_set_octets definition_sequence_octets_optional) [] =
        .ok (1, self2, t2, []) ∧
      krypt_asn1_template_is_parsed t2 = true ∧ krypt_asn1_template_is_decoded t2 = true ∧
      rb_ivar_get self2 sID_a = .template_value ta ∧
      krypt_asn1_template_is_parsed ta = true) ∧
    (∃ self3 t3 ta,
      krypt_asn1_template_get_parse_decode
          (krypt_asn1_template_ctx_match krypt_asn1_tag_class_for_id_or_none
            definition_registry_sequence_octets 2)
          (krypt_asn1_template_ctx_parse krypt_asn1_tag_class_for_id_or_none
            definition_registry_sequence_octets 2)
          (krypt_asn1_template_ctx_decode krypt_template_decoders_sample krypt_asn1_codecs
            definition_registry_sequence_octets)
          (.template_instance 3 []
            (some (template_set_octets definition_sequence_octets_optional)))
          sID_a [] =
        .ok (1, some (.plain (.string [1])), self3, []) ∧
      krypt_asn1_template_get self3 = .ok t3 ∧
      krypt_asn1_template_is_parsed t3 = true ∧ krypt_asn1_template_is_decoded t3 = true ∧
      rb_ivar_get self3 sID_a = .template_value ta ∧
      krypt_asn1_template_is_parsed ta = true ∧ krypt_asn1_template_is_decoded ta = true ∧
      krypt_asn1_template_get_value ta = .plain (.string [1])) ∧
    (∃ errors2,
      krypt_asn1_template_ctx_match krypt_asn1_tag_class_for_id_or_none
          definition_registry_sequence_octets 2 .int_match_sequence
          (.template_instance 4 [] (some (template_set_octets definition_sequence_octets)))
          (template_set_octets definition_sequence_octets)
          (krypt_definition_init definition_sequence_octets
            (krypt_hash_get_options definition_sequence_octets))
          definition_sequence_octets.layout [] =
        .ok (0, .template_instance 4 [] (some (template_set_octets definition_sequence_octets)),
          template_set_octets definition_sequence_octets, errors2) ∧
      krypt_asn1_template_get_parse_decode
          (krypt_asn1_template_ctx_match krypt_asn1_tag_class_for_id_or_none
            definition_registry_sequence_octets 2)
          (krypt_asn1_template_ctx_parse krypt_asn1_tag_class_for_id_or_none
            definition_registry_sequence_octets 2)
          (krypt_asn1_template_ctx_decode krypt_template_decoders_sample krypt_asn1_codecs
            definition_registry_sequence_octets)
          (.template_instance 4 [] (some (template_set_octets definition_sequence_octets)))
          sID_a [] =
        .ok (0, none,
          .template_instance 4 [] (some (template_set_octets definition_sequence_octets)),
          errors2)) := by
  refine ⟨?_, rfl, rfl, rfl, rfl, ⟨_, _, _, rfl, rfl, rfl, rfl, rfl⟩,
    ⟨_, _, _, rfl, rfl, rfl, rfl, rfl, rfl, rfl, rfl⟩, ⟨_, rfl, rfl⟩⟩
  · intro type h hG
    unfold definition_registry_sequence_octets at hG
    split at hG
    · simp only [Option.some.injEq] at hG
      subst hG
      exact Or.inl rfl
    · simp only [Option.some.injEq] at hG
      subst hG
      exact Or.inl rfl
    · simp at hG

/-- C32 (the code evaluated at the failing input): the characters "0G". G is no
hexadecimal digit, and the table `krypt_hex_table_inv` holds -1 for it. `int_hex_decode`
reads the entry into a `char` and tests `b < 0`. Where plain `char` is unsigned the entry
reads as 255, the test holds for no entry at all, and `krypt_hex_decode` returns 1 with the octet FF
and no error; where it is signed the entry reads as -1 and the call returns -1 with the
error "Illegal hex character detected". -/
theorem krypt_hex_decode_unsigned_char :
    hex_digit_value 71 = none ∧
    krypt_hex_table_inv.getD 71 0 = -1 ∧
    char_of_int false (-1) = 255 ∧
    char_of_int true (-1) = -1 ∧
    (∀ b : Int, ¬ char_of_int false b < 0) ∧
    krypt_hex_decode false (some [48, 71]) 2 [] = .ok (1, some [255], []) ∧
    krypt_hex_decode true (some [48, 71]) 2 [] =
      .ok (-1, none, [.illegal_hex_character 71]) :=
  ⟨rfl, rfl, rfl, rfl,
   fun b => by
     simp only [char_of_int, Bool.false_eq_true, if_false]
     omega,
   rfl, rfl⟩

end Krypt
